import Mathlib

/-!
# reinette-II-plus: the disk codec (`dsk2nib.h`, `nib2dsk.h`) and the 65c02 core (`puce65c02.c`)

Shallow embedding of the C sources.  Conventions:

* `uint8_t` / `uint16_t` / `int` values are natural numbers; every store into an
  8-bit (16-bit) object is followed by `% 256` (`% 65536`).
* byte buffers are `List Nat`; `buf.getD i 0` is the read `buf[i]`.
* C early returns are modelled by `Option` / sum types, loops by folds over
  `List.range` or by recursion on the number of iterations left.
-/

namespace Reinette

/-! ## Symbolic constants (`DISK_DEF_`) -/

abbrev MAX_TRACKS_PER_DISK : Nat := 40
abbrev SECTORS_PER_TRACK : Nat := 16
abbrev BYTES_PER_SECTOR : Nat := 256
abbrev BYTES_PER_TRACK : Nat := 4096
abbrev PRIMARY_BUF_LEN : Nat := 256
abbrev SECONDARY_BUF_LEN : Nat := 86
abbrev DATA_LEN : Nat := PRIMARY_BUF_LEN + SECONDARY_BUF_LEN
abbrev BYTES_PER_NIB_SECTOR : Nat := 416
abbrev BYTES_PER_NIB_TRACK : Nat := 6656
abbrev PROLOG_LEN : Nat := 3
abbrev EPILOG_LEN : Nat := 3
abbrev GAP1_LEN : Nat := 48
abbrev GAP2_LEN : Nat := 5
abbrev DEFAULT_VOLUME : Nat := 254
abbrev GAP_BYTE : Nat := 0xff

def addr_prolog : List Nat := [0xd5, 0xaa, 0x96]
def addr_epilog : List Nat := [0xde, 0xaa, 0xeb]
def data_prolog : List Nat := [0xd5, 0xaa, 0xad]
def data_epilog : List Nat := [0xde, 0xaa, 0xeb]

def soft_interleave : List Nat :=
  [0, 7, 0xE, 6, 0xD, 5, 0xC, 4, 0xB, 3, 0xA, 2, 9, 1, 8, 0xF]

def phys_interleave : List Nat :=
  [0, 0xD, 0xB, 9, 7, 5, 3, 1, 0xE, 0xC, 0xA, 8, 6, 4, 2, 0xF]

abbrev TABLE62_SIZE : Nat := 0x40

def table62 : List Nat := [
    0x96, 0x97, 0x9a, 0x9b, 0x9d, 0x9e, 0x9f, 0xa6,
    0xa7, 0xab, 0xac, 0xad, 0xae, 0xaf, 0xb2, 0xb3,
    0xb4, 0xb5, 0xb6, 0xb7, 0xb9, 0xba, 0xbb, 0xbc,
    0xbd, 0xbe, 0xbf, 0xcb, 0xcd, 0xce, 0xcf, 0xd3,
    0xd6, 0xd7, 0xd9, 0xda, 0xdb, 0xdc, 0xdd, 0xde,
    0xdf, 0xe5, 0xe6, 0xe7, 0xe9, 0xea, 0xeb, 0xec,
    0xed, 0xee, 0xef, 0xf2, 0xf3, 0xf4, 0xf5, 0xf6,
    0xf7, 0xf9, 0xfa, 0xfb, 0xfc, 0xfd, 0xfe, 0xff]

/-! ## `dsk2nib.h` -/

/-- The `addr_t` struct: every member is an array of `uint8_t`. -/
structure addr_t where
  prolog : List Nat
  volume : List Nat
  track : List Nat
  sector : List Nat
  checksum : List Nat
  epilog : List Nat

/-- The `data_t` struct. -/
structure data_t where
  prolog : List Nat
  data : List Nat
  data_checksum : Nat
  epilog : List Nat

/-- The `nib_sector_t` struct. -/
structure nib_sector_t where
  gap1 : List Nat
  addr : addr_t
  gap2 : List Nat
  data : data_t

/-- Object representation of an `addr_t` (members in declaration order; all
members have alignment 1, so there is no padding). -/
def addr_t.bytes (a : addr_t) : List Nat :=
  a.prolog ++ a.volume ++ a.track ++ a.sector ++ a.checksum ++ a.epilog

/-- Object representation of a `data_t`. -/
def data_t.bytes (d : data_t) : List Nat :=
  d.prolog ++ d.data ++ [d.data_checksum] ++ d.epilog

/-- Object representation of a `nib_sector_t`: what `memcpy(buf, &nib_sector,
sizeof(nib_sector))` copies. -/
def nib_sector_t.bytes (s : nib_sector_t) : List Nat :=
  s.gap1 ++ s.addr.bytes ++ s.gap2 ++ s.data.bytes

/-- `translate`: the "6 and 2" translation `table62[byte & 0x3f]`. -/
def translate (byte : Nat) : Nat := table62.getD (byte &&& 0x3f) 0

/-- `odd_even_encode(a, i)`: the two "4 and 4" bytes `a[0]`, `a[1]`. -/
def odd_even_encode (i : Nat) : List Nat :=
  let a0 := ((i >>> 1) &&& 0x55) % 256
  let a0 := (a0 ||| 0xaa) % 256
  let a1 := (i &&& 0x55) % 256
  let a1 := (a1 ||| 0xaa) % 256
  [a0, a1]

/-- `nib_get`: offset of a sector record in the NIB image buffer. -/
def nib_get (track sector : Nat) : Nat :=
  track * BYTES_PER_NIB_TRACK + sector * BYTES_PER_NIB_SECTOR

/-- `dsk_get`: offset of a sector in the DSK image buffer. -/
def dsk_get (track sector : Nat) : Nat :=
  track * BYTES_PER_TRACK + sector * BYTES_PER_SECTOR

/-- `memcpy(dst + off, src, src.length)`. -/
def memcpy (dst : List Nat) (off : Nat) (src : List Nat) : List Nat :=
  dst.take off ++ src ++ dst.drop (off + src.length)

/-- Body of the first loop of `nibbilize` (iteration `i`), acting on
`(primary_buf, secondary_buf)`; `src` is the offset returned by `dsk_get`. -/
def nibbilize_body (dsk_buf : List Nat) (src : Nat) (bufs : List Nat × List Nat) (i : Nat) :
    List Nat × List Nat :=
  let b := dsk_buf.getD (src + i) 0
  let primary_buf := bufs.1.set i ((b >>> 2) % 256)
  let index := i % SECONDARY_BUF_LEN
  let sectn := i / SECONDARY_BUF_LEN
  let pair := (((b &&& 2) >>> 1) ||| ((b &&& 1) <<< 1)) % 256
  let secondary_buf :=
    bufs.2.set index ((bufs.2.getD index 0 ||| (pair <<< (sectn * 2))) % 256)
  (primary_buf, secondary_buf)

/-- The buffers `(primary_buf, secondary_buf)` of `nibbilize` after its first loop. -/
def nibbilize_bufs (dsk_buf : List Nat) (track sector : Nat) : List Nat × List Nat :=
  (List.range PRIMARY_BUF_LEN).foldl (nibbilize_body dsk_buf (dsk_get track sector))
    (List.replicate PRIMARY_BUF_LEN 0, List.replicate SECONDARY_BUF_LEN 0)

/-- `nibbilize`: convert 256 data bytes into 342 6+2 encoded bytes and a checksum,
stored in `nib_sector->data.data` and `nib_sector->data.data_checksum`.  The 342
stores `dest[index++] = ...` fill `dest` front to back. -/
def nibbilize (dsk_buf : List Nat) (track sector : Nat) (nib_sector : nib_sector_t) :
    nib_sector_t :=
  let primary_buf := (nibbilize_bufs dsk_buf track sector).1
  let secondary_buf := (nibbilize_bufs dsk_buf track sector).2
  let dest :=
    [translate (secondary_buf.getD 0 0)]
    ++ (List.range (SECONDARY_BUF_LEN - 1)).map (fun k =>
          translate (secondary_buf.getD (k + 1) 0 ^^^ secondary_buf.getD k 0))
    ++ [translate (primary_buf.getD 0 0 ^^^ secondary_buf.getD (SECONDARY_BUF_LEN - 1) 0)]
    ++ (List.range (PRIMARY_BUF_LEN - 1)).map (fun k =>
          translate (primary_buf.getD (k + 1) 0 ^^^ primary_buf.getD k 0))
  { nib_sector with
    data := { nib_sector.data with
      data := dest
      data_checksum := translate (primary_buf.getD (PRIMARY_BUF_LEN - 1) 0) } }

/-- Body of the inner loop of `dsk2nib` (sector index `sec` of track `trk`),
acting on `(nib_sector, nib_buf)`. -/
def dsk2nib_sector (volume : Nat) (dsk_buf : List Nat) (trk : Nat)
    (st : nib_sector_t × List Nat) (sec : Nat) : nib_sector_t × List Nat :=
  let softsec := soft_interleave.getD sec 0
  let physsec := phys_interleave.getD sec 0
  let csum := volume ^^^ trk ^^^ sec
  let nib_sector := st.1
  let nib_sector := { nib_sector with addr := { nib_sector.addr with track := odd_even_encode trk } }
  let nib_sector := { nib_sector with addr := { nib_sector.addr with sector := odd_even_encode sec } }
  let nib_sector := { nib_sector with addr := { nib_sector.addr with checksum := odd_even_encode csum } }
  let nib_sector := nibbilize dsk_buf trk softsec nib_sector
  (nib_sector, memcpy st.2 (nib_get trk physsec) nib_sector.bytes)

/-- Body of the outer loop of `dsk2nib` (track `trk`). -/
def dsk2nib_track (volume : Nat) (dsk_buf : List Nat)
    (st : nib_sector_t × List Nat) (trk : Nat) : nib_sector_t × List Nat :=
  (List.range SECTORS_PER_TRACK).foldl (dsk2nib_sector volume dsk_buf trk) st

/-- The local `nib_sector` of `dsk2nib` after the initialisation of the field
marks, the volume number and the gaps.  The members not yet assigned (track,
sector, checksum, data, data_checksum) are written in every loop iteration before
the record is copied; they start as zero bytes here. -/
def dsk2nib_init (volume : Nat) : nib_sector_t :=
  { gap1 := List.replicate GAP1_LEN GAP_BYTE
    addr :=
      { prolog := addr_prolog.take 3
        volume := odd_even_encode volume
        track := [0, 0]
        sector := [0, 0]
        checksum := [0, 0]
        epilog := addr_epilog.take 3 }
    gap2 := List.replicate GAP2_LEN GAP_BYTE
    data :=
      { prolog := data_prolog.take 3
        data := List.replicate DATA_LEN 0
        data_checksum := 0
        epilog := data_epilog.take 3 } }

/-- `dsk2nib(tracks, volume, dsk_buf, nib_buf)`: the NIB image buffer on return. -/
def dsk2nib (tracks volume : Nat) (dsk_buf nib_buf : List Nat) : List Nat :=
  ((List.range tracks).foldl (dsk2nib_track volume dsk_buf) (dsk2nib_init volume, nib_buf)).2

/-! ## `nib2dsk.h` -/

abbrev STATE_INIT : Nat := 0
abbrev STATE_DONE : Nat := 666

/-- `odd_even_decode`: decode 2 "4 and 4" bytes into 1 byte. -/
def odd_even_decode (byte1 byte2 : Nat) : Nat :=
  let byte := ((byte1 <<< 1) &&& 0xaa) % 256
  let byte := (byte ||| (byte2 &&& 0x55)) % 256
  byte

/-- The search loop of `untranslate`: `i` is the loop counter, the list is
`table62[i ..]`; `0xFF` is the initial value of `idx`. -/
def untranslate_loop (x : Nat) : List Nat → Nat → Nat
  | [], _ => 0xFF
  | t :: ts, i => if t = x then i % 256 else untranslate_loop x ts (i + 1)

/-- `untranslate`: the "6 and 2" un-translation. -/
def untranslate (x : Nat) : Nat := untranslate_loop x table62 0

/-- `get_nib_byte(&byte, buf, max_tracks, index)`: `none` when the function
returns 1 (index past the end; `*byte` untouched), `some b` when it returns 0
after `*byte = buf[index]`. -/
def get_nib_byte (buf : List Nat) (max_tracks index : Nat) : Option Nat :=
  let buflen := max_tracks * BYTES_PER_NIB_TRACK
  if index ≥ buflen then none else some (buf.getD index 0)

/-- The two read loops of `process_data` (secondary buffer, then primary buffer)
have the same body; `n` is the number of iterations left, `buf` the entries
stored so far (the loop stores at consecutive positions).  `none` is the
`return 0` inside the loop; otherwise `(index, checksum, buf)` after the loop. -/
def process_data_fill (nib_buf : List Nat) (max_tracks : Nat) :
    Nat → Nat → Nat → List Nat → Option (Nat × Nat × List Nat)
  | 0, index, checksum, buf => some (index, checksum, buf)
  | n + 1, index, checksum, buf =>
    match get_nib_byte nib_buf max_tracks index with
    | none => none
    | some byte =>
      let ch := untranslate byte
      if ch = 0xFF then none
      else
        let checksum := (checksum ^^^ ch) % 256
        process_data_fill nib_buf max_tracks n (index + 1) checksum (buf ++ [checksum])

/-- Result of `process_data`. -/
inductive PDResult where
  /-- `return v` with the DSK buffer as left by the function. -/
  | ret (v : Nat) (dsk_buf : List Nat)
  /-- An array access outside its object (undefined behaviour in C). -/
  | fault
  deriving Repr, DecidableEq

/-- The `switch( i / SECONDARY_BUF_LEN )` of the denibbilize loop: `some (bit0, bit1)`,
or `none` for the `default` branch (`return 0`). -/
def process_data_bits (secondary_buf : List Nat) (i : Nat) : Option (Nat × Nat) :=
  let idx := i % SECONDARY_BUF_LEN
  match i / SECONDARY_BUF_LEN with
  | 0 => some (if secondary_buf.getD idx 0 &&& 2 > 0 then 1 else 0,
               if secondary_buf.getD idx 0 &&& 1 > 0 then 1 else 0)
  | 1 => some (if secondary_buf.getD idx 0 &&& 8 > 0 then 1 else 0,
               if secondary_buf.getD idx 0 &&& 4 > 0 then 1 else 0)
  | 2 => some (if secondary_buf.getD idx 0 &&& 0x20 > 0 then 1 else 0,
               if secondary_buf.getD idx 0 &&& 0x10 > 0 then 1 else 0)
  | _ => none

/-- The denibbilize loop of `process_data`: iteration `i`, `n` iterations left.
Reading `soft_interleave[sector]` with `sector >= 16`, or storing outside the DSK
buffer, is a fault. -/
def process_data_denib (primary_buf secondary_buf : List Nat) (track sector index : Nat) :
    Nat → Nat → List Nat → PDResult
  | 0, _, dsk_buf => PDResult.ret index dsk_buf
  | n + 1, i, dsk_buf =>
    match process_data_bits secondary_buf i with
    | none => PDResult.ret 0 dsk_buf
    | some (bit0, bit1) =>
      if sector < SECTORS_PER_TRACK then
        let sec := soft_interleave.getD sector 0
        let pos := track * BYTES_PER_TRACK + (sec * BYTES_PER_SECTOR) + i
        if pos < dsk_buf.length then
          let v := ((primary_buf.getD i 0 <<< 2) ||| (bit1 <<< 1) ||| bit0) % 256
          process_data_denib primary_buf secondary_buf track sector index n (i + 1)
            (dsk_buf.set pos v)
        else PDResult.fault
      else PDResult.fault

/-- `process_data`: convert 343 6+2 encoded bytes into 256 data bytes and 1
checksum.  `byte` is the first data byte (already read by the caller), `index`
the position of the next one. -/
def process_data (byte : Nat) (dsk_buf nib_buf : List Nat) (max_tracks track sector index : Nat) :
    PDResult :=
  let ch := untranslate byte
  if ch = 0xFF then PDResult.ret 0 dsk_buf
  else
    let checksum := ch
    match process_data_fill nib_buf max_tracks (SECONDARY_BUF_LEN - 1) index checksum [checksum] with
    | none => PDResult.ret 0 dsk_buf
    | some (index, checksum, secondary_buf) =>
      match process_data_fill nib_buf max_tracks PRIMARY_BUF_LEN index checksum [] with
      | none => PDResult.ret 0 dsk_buf
      | some (index, checksum, primary_buf) =>
        match get_nib_byte nib_buf max_tracks index with
        | none => PDResult.ret 0 dsk_buf
        | some byte =>
          let index := index + 1
          let ch := untranslate byte
          if ch = 0xFF then PDResult.ret 0 dsk_buf
          else
            let checksum := (checksum ^^^ ch) % 256
            if checksum ≠ 0 then PDResult.ret 0 dsk_buf
            else
              process_data_denib primary_buf secondary_buf track sector index
                PRIMARY_BUF_LEN 0 dsk_buf

/-- The local variables of `nib2dsk`, the function-static counter `extra` of
state 13, and the DSK buffer it writes. -/
structure Nib2dskVars where
  state : Nat
  addr_prolog_index : Nat
  addr_epilog_index : Nat
  data_prolog_index : Nat
  data_epilog_index : Nat
  byte : Nat
  track : Nat
  sector : Nat
  volume : Nat
  index : Nat
  extra : Nat
  dsk_buf : List Nat
  deriving Repr, DecidableEq

/-- How a call of `nib2dsk` ends. -/
inductive Outcome where
  /-- `return v`, with the DSK buffer as left by the call. -/
  | ret (v : Nat) (dsk_buf : List Nat)
  /-- An array access outside its object (undefined behaviour in C). -/
  | fault
  /-- The iteration budget of the model ran out. -/
  | nofuel
  deriving Repr, DecidableEq

/-- One pass through the `switch`: either a `return` or the variables at `break`. -/
inductive Flow where
  | exit (o : Outcome)
  | next (s : Nib2dskVars)
  deriving Repr, DecidableEq

/-- The statement `if ( get_nib_byte( &byte, nib_buf, max_tracks, index++ ) ) return 0;`. -/
def read_or_return (nib_buf : List Nat) (max_tracks : Nat) (s : Nib2dskVars) : Flow :=
  match get_nib_byte nib_buf max_tracks s.index with
  | none => Flow.exit (Outcome.ret 0 s.dsk_buf)
  | some b => Flow.next { s with byte := b, index := s.index + 1 }

/-- States 3 to 6: read the second byte, decode the pair, advance the state and
read the next byte; `store` assigns the decoded value. -/
def decode_pair (nib_buf : List Nat) (max_tracks : Nat) (s : Nib2dskVars)
    (store : Nib2dskVars → Nat → Nib2dskVars) : Flow :=
  match get_nib_byte nib_buf max_tracks s.index with
  | none => Flow.exit (Outcome.ret 0 s.dsk_buf)
  | some byte2 =>
    let s := { s with index := s.index + 1 }
    let s := store s (odd_even_decode s.byte byte2)
    let s := { s with state := s.state + 1 }
    read_or_return nib_buf max_tracks s

/-- The body of the `for` loop of `nib2dsk`: the `switch( state )`. -/
def nib2dsk_body (nib_buf : List Nat) (max_tracks : Nat) (s : Nib2dskVars) : Flow :=
  match s.state with
  | 0 =>
    let s := { s with addr_prolog_index := 0 }
    let s := if s.byte = addr_prolog.getD s.addr_prolog_index 0
      then { s with addr_prolog_index := s.addr_prolog_index + 1, state := s.state + 1 }
      else s
    match get_nib_byte nib_buf max_tracks s.index with
    | none => Flow.next { s with index := s.index + 1, state := STATE_DONE }
    | some b => Flow.next { s with byte := b, index := s.index + 1 }
  | 1 | 2 =>
    if s.byte = addr_prolog.getD s.addr_prolog_index 0 then
      read_or_return nib_buf max_tracks
        { s with addr_prolog_index := s.addr_prolog_index + 1, state := s.state + 1 }
    else Flow.next { s with state := 0 }
  | 3 => decode_pair nib_buf max_tracks s (fun s v => { s with volume := v })
  | 4 => decode_pair nib_buf max_tracks s (fun s v => { s with track := v })
  | 5 => decode_pair nib_buf max_tracks s (fun s v => { s with sector := v })
  | 6 => decode_pair nib_buf max_tracks s (fun s _ => s)
  | 7 =>
    let s := { s with addr_epilog_index := 0 }
    if s.byte = addr_epilog.getD s.addr_epilog_index 0 then
      read_or_return nib_buf max_tracks
        { s with addr_epilog_index := s.addr_epilog_index + 1, state := s.state + 1 }
    else Flow.next { s with state := 0 }
  | 8 =>
    if s.byte = addr_epilog.getD s.addr_epilog_index 0 then
      read_or_return nib_buf max_tracks { s with state := s.state + 1 }
    else Flow.next { s with state := 0 }
  | 9 =>
    let s := { s with data_prolog_index := 0 }
    let s := if s.byte = data_prolog.getD s.data_prolog_index 0
      then { s with data_prolog_index := s.data_prolog_index + 1, state := s.state + 1 }
      else s
    read_or_return nib_buf max_tracks s
  | 10 | 11 =>
    if s.byte = data_prolog.getD s.data_prolog_index 0 then
      read_or_return nib_buf max_tracks
        { s with data_prolog_index := s.data_prolog_index + 1, state := s.state + 1 }
    else Flow.next { s with state := 9 }
  | 12 =>
    match process_data s.byte s.dsk_buf nib_buf max_tracks s.track s.sector s.index with
    | PDResult.fault => Flow.exit Outcome.fault
    | PDResult.ret index dsk_buf =>
      if index = 0 then Flow.exit (Outcome.ret 0 dsk_buf)
      else
        read_or_return nib_buf max_tracks
          { s with index := index, dsk_buf := dsk_buf, state := s.state + 1 }
  | 13 =>
    let s := { s with data_epilog_index := 0 }
    let s := if s.byte = data_epilog.getD s.data_epilog_index 0
      then
        let s := if s.extra ≠ 0 then { s with extra := 0 } else s
        { s with data_epilog_index := s.data_epilog_index + 1, state := s.state + 1 }
      else { s with extra := s.extra + 1 }
    read_or_return nib_buf max_tracks s
  | 14 =>
    if s.byte = data_epilog.getD s.data_epilog_index 0 then
      read_or_return nib_buf max_tracks
        { s with data_epilog_index := s.data_epilog_index + 1, state := s.state + 1 }
    else Flow.exit (Outcome.ret 0 s.dsk_buf)
  | 15 =>
    if s.byte = data_epilog.getD s.data_epilog_index 0 then
      match get_nib_byte nib_buf max_tracks s.index with
      | none => Flow.next { s with index := s.index + 1, state := STATE_DONE }
      | some b => Flow.next { s with byte := b, index := s.index + 1, state := 0 }
    else Flow.exit (Outcome.ret 0 s.dsk_buf)
  | _ => Flow.exit (Outcome.ret 0 s.dsk_buf)

/-- The loop `for ( state = STATE_INIT; state != STATE_DONE; ) switch ...` followed
by `return 1`, with an iteration budget. -/
def nib2dsk_loop (nib_buf : List Nat) (max_tracks : Nat) : Nat → Nib2dskVars → Outcome
  | 0, _ => Outcome.nofuel
  | n + 1, s =>
    if s.state ≠ STATE_DONE then
      match nib2dsk_body nib_buf max_tracks s with
      | Flow.exit o => o
      | Flow.next s => nib2dsk_loop nib_buf max_tracks n s
    else Outcome.ret 1 s.dsk_buf

/-- Iteration budget given to the loop of `nib2dsk`: an iteration that does not
advance `index` is followed by one that does, so twice the buffer length (plus
the iterations around the end of the buffer) is enough. -/
def nib2dsk_fuel (max_tracks : Nat) : Nat := 2 * (max_tracks * BYTES_PER_NIB_TRACK) + 4

/-- `nib2dsk( dsk_buf, nib_buf, max_tracks )`: convert NIB image into DSK image.
The locals that C leaves uninitialised are only read after they have been
assigned (each `*_index` in the scan state before the accept states, `track` and
`sector` in states 4 and 5 before state 12); they start at 0 here. -/
def nib2dsk (dsk_buf nib_buf : List Nat) (max_tracks : Nat) : Outcome :=
  match get_nib_byte nib_buf max_tracks 0 with
  | none => Outcome.ret 0 dsk_buf
  | some byte =>
    nib2dsk_loop nib_buf max_tracks (nib2dsk_fuel max_tracks)
      { state := STATE_INIT, addr_prolog_index := 0, addr_epilog_index := 0,
        data_prolog_index := 0, data_epilog_index := 0, byte := byte,
        track := 0, sector := 0, volume := 0, index := 1, extra := 0, dsk_buf := dsk_buf }

/-! ## `puce65c02.c`

The memory functions `readMem` / `writeMem` are the ones of the functional-test
configuration (`uint8_t RAM[65536]`); every call is also recorded, in order, in
the list `bus`, so that statements about the accesses a function issues can be
made.  Where C leaves the evaluation order of two `readMem` calls in one
expression open, they are recorded left to right.

C `int` arithmetic is 32-bit two's complement: `a - b` and `~a` are taken
modulo `2^32` (`sub32`, `not32`); all other intermediate values are
non-negative and far below `2^31`.

The bit-fields of `P` are allocated from the least significant bit (`C`
is bit 0 of `P.byte`, ..., `S` is bit 7), as the mask constants `CARRY` ..
`SIGN` assume. -/

abbrev CARRY : Nat := 0x01
abbrev ZERO : Nat := 0x02
abbrev INTR : Nat := 0x04
abbrev DECIM : Nat := 0x08
abbrev BREAK : Nat := 0x10
abbrev UNDEF : Nat := 0x20
abbrev OFLOW : Nat := 0x40
abbrev SIGN : Nat := 0x80

/-- `typedef enum {run, step, stop, wait} status;` -/
inductive status where
  | run
  | step
  | stop
  | wait
  deriving DecidableEq, Repr

/-- One call of `readMem` or `writeMem`, with the address (and value) the callee
receives. -/
inductive BusOp where
  | read (address : Nat)
  | write (address value : Nat)
  deriving DecidableEq, Repr

/-- The bit-fields of the processor status `P`. -/
structure Flags where
  C : Bool
  Z : Bool
  I : Bool
  D : Bool
  B : Bool
  U : Bool
  V : Bool
  S : Bool
  deriving DecidableEq, Repr

/-- `P.byte`: the byte that shares its storage with the bit-fields. -/
def Flags.byte (p : Flags) : Nat :=
  p.C.toNat + 2 * p.Z.toNat + 4 * p.I.toNat + 8 * p.D.toNat + 16 * p.B.toNat
    + 32 * p.U.toNat + 64 * p.V.toNat + 128 * p.S.toNat

/-- The bit-fields after the assignment `P.byte = b`. -/
def Flags.ofByte (b : Nat) : Flags :=
  { C := decide (b % 2 = 1)
    Z := decide (b / 2 % 2 = 1)
    I := decide (b / 4 % 2 = 1)
    D := decide (b / 8 % 2 = 1)
    B := decide (b / 16 % 2 = 1)
    U := decide (b / 32 % 2 = 1)
    V := decide (b / 64 % 2 = 1)
    S := decide (b / 128 % 2 = 1) }

/-- The global variables of `puce65c02.c`: `PC`, `A`, `X`, `Y`, `SP`, `P`, `state`,
`ticks`, the memory `RAM`, and the record `bus` of the memory calls made so far. -/
structure Cpu where
  PC : Nat
  A : Nat
  X : Nat
  Y : Nat
  SP : Nat
  P : Flags
  state : status
  ticks : Nat
  RAM : Nat → Nat
  bus : List BusOp

/-- The ranges of the C types: `uint16_t PC`, `uint8_t A, X, Y, SP`,
`unsigned long long ticks`. -/
def Cpu.wf (s : Cpu) : Prop :=
  s.PC < 65536 ∧ s.A < 256 ∧ s.X < 256 ∧ s.Y < 256 ∧ s.SP < 256 ∧
  s.ticks < 18446744073709551616

/-- `uint8_t readMem(uint16_t address) { return RAM[address]; }`: the value
returned (the argument is converted to `uint16_t`, the result is a `uint8_t`). -/
def readMem (RAM : Nat → Nat) (address : Nat) : Nat := RAM (address % 65536) % 256

/-- `void writeMem(uint16_t address, uint8_t value) { RAM[address] = value; }`:
the memory after the call. -/
def writeMem (RAM : Nat → Nat) (address value : Nat) : Nat → Nat :=
  fun a => if a = address % 65536 then value % 256 else RAM a

/-- `a - b` on `int`. -/
def sub32 (a b : Nat) : Nat := (a + 4294967296 - b % 4294967296) % 4294967296

/-- `~a` on `int`. -/
def not32 (a : Nat) : Nat := 4294967295 - a % 4294967296

/-- Record the `readMem` calls of a statement. -/
def Cpu.fetch (s : Cpu) (addresses : List Nat) : Cpu :=
  { s with bus := s.bus ++ addresses.map (fun a => BusOp.read (a % 65536)) }

/-- The call `writeMem(address, value)`. -/
def Cpu.store (s : Cpu) (address value : Nat) : Cpu :=
  { s with RAM := writeMem s.RAM address value
           bus := s.bus ++ [BusOp.write (address % 65536) (value % 256)] }

/-- `puce6502RST`: reset. -/
def puce6502RST (s : Cpu) : Cpu :=
  let s := s.fetch [0xFFFC, 0xFFFD]
  let s := { s with PC := ((readMem s.RAM 0xFFFC) ||| ((readMem s.RAM 0xFFFD) <<< 8)) % 65536 }
  let s := { s with SP := 0xFD % 256 }
  let s := { s with P := { s.P with I := true } }
  let s := { s with P := { s.P with U := true } }
  let s := { s with state := status.run }
  let s := { s with ticks := (s.ticks + 7) % 18446744073709551616 }
  s

/-- `puce6502IRQ`: interrupt request. -/
def puce6502IRQ (s : Cpu) : Cpu :=
  let s := { s with state := status.run }
  if !s.P.I then s
  else
    let s := { s with P := { s.P with I := true } }
    let s := { s with PC := (s.PC + 1) % 65536 }
    let s := s.store (0x100 + s.SP) ((s.PC >>> 8) &&& 0xFF)
    let s := { s with SP := (sub32 s.SP 1) % 256 }
    let s := s.store (0x100 + s.SP) (s.PC &&& 0xFF)
    let s := { s with SP := (sub32 s.SP 1) % 256 }
    let s := s.store (0x100 + s.SP) (s.P.byte &&& (not32 BREAK))
    let s := { s with SP := (sub32 s.SP 1) % 256 }
    let s := s.fetch [0xFFFE, 0xFFFF]
    let s := { s with PC := ((readMem s.RAM 0xFFFE) ||| ((readMem s.RAM 0xFFFF) <<< 8)) % 65536 }
    let s := { s with ticks := (s.ticks + 7) % 18446744073709551616 }
    s

/-- `puce6502NMI`: non maskable interrupt. -/
def puce6502NMI (s : Cpu) : Cpu :=
  let s := { s with state := status.run }
  let s := { s with P := { s.P with I := true } }
  let s := { s with PC := (s.PC + 1) % 65536 }
  let s := s.store (0x100 + s.SP) ((s.PC >>> 8) &&& 0xFF)
  let s := { s with SP := (sub32 s.SP 1) % 256 }
  let s := s.store (0x100 + s.SP) (s.PC &&& 0xFF)
  let s := { s with SP := (sub32 s.SP 1) % 256 }
  let s := s.store (0x100 + s.SP) (s.P.byte &&& (not32 BREAK))
  let s := { s with SP := (sub32 s.SP 1) % 256 }
  let s := s.fetch [0xFFFA, 0xFFFB]
  let s := { s with PC := ((readMem s.RAM 0xFFFA) ||| ((readMem s.RAM 0xFFFB) <<< 8)) % 65536 }
  let s := { s with ticks := (s.ticks + 7) % 18446744073709551616 }
  s

/-- The globals together with the locals of `puce6502Step`: `address`, `value8`,
`value16` and `cycles`. -/
structure Frame extends Cpu where
  address : Nat
  value8 : Nat
  value16 : Nat
  cycles : Nat

/-- Record the `readMem` calls of a statement. -/
def Frame.fetch (f : Frame) (addresses : List Nat) : Frame :=
  { f with bus := f.bus ++ addresses.map (fun a => BusOp.read (a % 65536)) }

/-- The call `writeMem(address, value)`. -/
def Frame.store (f : Frame) (address value : Nat) : Frame :=
  { f with RAM := writeMem f.RAM address value
           bus := f.bus ++ [BusOp.write (address % 65536) (value % 256)] }

/-! ### The cases of the `switch` in `puce6502Step`

One definition per `case`, one pipeline stage per C statement (a statement that calls
`readMem` is preceded by the `fetch` recording its reads). -/


/-- `case 0x00 : // IMP BRK` (line 178). -/
def op_00 (f : Frame) : Frame :=
  f |> (fun f => { f with PC := (f.PC + 1) % 65536 })
    |> (fun f => f.store (0x100 + f.SP) ((f.PC >>> 8) &&& 0xFF))
    |> (fun f => { f with SP := (sub32 f.SP 1) % 256 })
    |> (fun f => f.store (0x100 + f.SP) (f.PC &&& 0xFF))
    |> (fun f => { f with SP := (sub32 f.SP 1) % 256 })
    |> (fun f => f.store (0x100 + f.SP) (f.P.byte ||| BREAK))
    |> (fun f => { f with SP := (sub32 f.SP 1) % 256 })
    |> (fun f => { f with P := { f.P with I := true } })
    |> (fun f => { f with P := { f.P with D := false } })
    |> (fun f => f.fetch [0xFFFE, 0xFFFF])
    |> (fun f => { f with PC := ((readMem f.RAM 0xFFFE) ||| ((readMem f.RAM 0xFFFF) <<< 8)) % 65536 })
    |> (fun f => { f with cycles := f.cycles + 7 })

/-- `case 0x01 : // IZX ORA` (line 192). -/
def op_01 (f : Frame) : Frame :=
  f |> (fun f => f.fetch [f.PC])
    |> (fun f => { f with value8 := ((readMem f.RAM f.PC) + f.X) % 256 })
    |> (fun f => { f with PC := (f.PC + 1) % 65536 })
    |> (fun f => f.fetch [f.value8])
    |> (fun f => { f with address := (readMem f.RAM f.value8) % 65536 })
    |> (fun f => { f with value8 := (f.value8 + 1) % 256 })
    |> (fun f => f.fetch [f.value8])
    |> (fun f => { f with address := (f.address ||| ((readMem f.RAM f.value8) <<< 8)) % 65536 })
    |> (fun f => f.fetch [f.address])
    |> (fun f => { f with A := (f.A ||| (readMem f.RAM f.address)) % 256 })
    |> (fun f => { f with P := { f.P with Z := decide (f.A = 0) } })
    |> (fun f => { f with P := { f.P with S := decide (f.A > 0x7F) } })
    |> (fun f => { f with cycles := f.cycles + 6 })

/-- `case 0x02 : // IMM NOP` (line 204). -/
def op_02 (f : Frame) : Frame :=
  f |> (fun f => { f with PC := (f.PC + 1) % 65536 })
    |> (fun f => { f with cycles := f.cycles + 2 })

/-- `case 0x03 : // IMP NOP` (line 209). -/
def op_03 (f : Frame) : Frame :=
  f |> (fun f => { f with cycles := f.cycles + 1 })

/-- `case 0x04 : // ZPG TSB` (line 213). -/
def op_04 (f : Frame) : Frame :=
  f |> (fun f => f.fetch [f.PC])
    |> (fun f => { f with address := (readMem f.RAM f.PC) % 65536 })
    |> (fun f => { f with PC := (f.PC + 1) % 65536 })
    |> (fun f => f.fetch [f.address])
    |> (fun f => { f with value8 := (readMem f.RAM f.address) % 256 })
    |> (fun f => { f with P := { f.P with Z := decide ((f.value8 &&& f.A) = 0) } })
    |> (fun f => f.store f.address (f.value8 ||| f.A))
    |> (fun f => { f with cycles := f.cycles + 5 })

/-- `case 0x05 : // ZPG ORA` (line 222). -/
def op_05 (f : Frame) : Frame :=
  f |> (fun f => f.fetch [f.PC, readMem f.RAM f.PC])
    |> (fun f => { f with A := (f.A ||| (readMem f.RAM (readMem f.RAM f.PC))) % 256 })
    |> (fun f => { f with PC := (f.PC + 1) % 65536 })
    |> (fun f => { f with P := { f.P with Z := decide (f.A = 0) } })
    |> (fun f => { f with P := { f.P with S := decide (f.A > 0x7F) } })
    |> (fun f => { f with cycles := f.cycles + 3 })

/-- `case 0x06 : // ZPG ASL` (line 230). -/
def op_06 (f : Frame) : Frame :=
  f |> (fun f => f.fetch [f.PC])
    |> (fun f => { f with address := (readMem f.RAM f.PC) % 65536 })
    |> (fun f => { f with PC := (f.PC + 1) % 65536 })
    |> (fun f => f.fetch [f.address])
    |> (fun f => { f with value16 := ((readMem f.RAM f.address) <<< 1) % 65536 })
    |> (fun f => { f with P := { f.P with C := decide (f.value16 > 0xFF) } })
    |> (fun f => { f with value16 := (f.value16 &&& 0xFF) % 65536 })
    |> (fun f => f.store f.address f.value16)
    |> (fun f => { f with P := { f.P with Z := decide (f.value16 = 0) } })
    |> (fun f => { f with P := { f.P with S := decide (f.value16 > 0x7F) } })
    |> (fun f => { f with cycles := f.cycles + 5 })

/-- `case 0x07 : // ZPG RMB` (line 242). -/
def op_07 (f : Frame) : Frame :=
  f |> (fun f => f.fetch [f.PC])
    |> (fun f => { f with address := (readMem f.RAM f.PC) % 65536 })
    |> (fun f => { f with PC := (f.PC + 1) % 65536 })
    |> (fun f => f.fetch [f.address])
    |> (fun f => f.store f.address ((readMem f.RAM f.address) &&& (not32 1)))
    |> (fun f => { f with cycles := f.cycles + 5 })

/-- `case 0x08 : // IMP PHP` (line 249). -/
def op_08 (f : Frame) : Frame :=
  f |> (fun f => f.store (0x100 + f.SP) (f.P.byte ||| BREAK))
    |> (fun f => { f with SP := (sub32 f.SP 1) % 256 })
    |> (fun f => { f with cycles := f.cycles + 3 })

/-- `case 0x09 : // IMM ORA` (line 255). -/
def op_09 (f : Frame) : Frame :=
  f |> (fun f => f.fetch [f.PC])
    |> (fun f => { f with A := (f.A ||| (readMem f.RAM f.PC)) % 256 })
    |> (fun f => { f with PC := (f.PC + 1) % 65536 })
    |> (fun f => { f with P := { f.P with Z := decide (f.A = 0) } })
    |> (fun f => { f with P := { f.P with S := decide (f.A > 0x7F) } })
    |> (fun f => { f with cycles := f.cycles + 2 })

/-- `case 0x0A : // ACC ASL` (line 263). -/
def op_0A (f : Frame) : Frame :=
  f |> (fun f => { f with value16 := (f.A <<< 1) % 65536 })
    |> (fun f => { f with A := (f.value16 &&& 0xFF) % 256 })
    |> (fun f => { f with P := { f.P with C := decide (f.value16 > 0xFF) } })
    |> (fun f => { f with P := { f.P with Z := decide (f.A = 0) } })
    |> (fun f => { f with P := { f.P with S := decide (f.A > 0x7F) } })
    |> (fun f => { f with cycles := f.cycles + 2 })

/-- `case 0x0B : // IMP NOP` (line 272). -/
def op_0B (f : Frame) : Frame :=
  f |> (fun f => { f with cycles := f.cycles + 1 })

/-- `case 0x0C : // ABS TSB` (line 276). -/
def op_0C (f : Frame) : Frame :=
  f |> (fun f => f.fetch [f.PC])
    |> (fun f => { f with address := (readMem f.RAM f.PC) % 65536 })
    |> (fun f => { f with PC := (f.PC + 1) % 65536 })
    |> (fun f => f.fetch [f.PC])
    |> (fun f => { f with address := (f.address ||| ((readMem f.RAM f.PC) <<< 8)) % 65536 })
    |> (fun f => { f with PC := (f.PC + 1) % 65536 })
    |> (fun f => f.fetch [f.address])
    |> (fun f => { f with value8 := (readMem f.RAM f.address) % 256 })
    |> (fun f => { f with P := { f.P with Z := decide ((f.value8 &&& f.A) = 0) } })
    |> (fun f => f.store f.address (f.value8 ||| f.A))
    |> (fun f => { f with cycles := f.cycles + 6 })

/-- `case 0x0D : // ABS ORA` (line 287). -/
def op_0D (f : Frame) : Frame :=
  f |> (fun f => f.fetch [f.PC])
    |> (fun f => { f with address := (readMem f.RAM f.PC) % 65536 })
    |> (fun f => { f with PC := (f.PC + 1) % 65536 })
    |> (fun f => f.fetch [f.PC])
    |> (fun f => { f with address := (f.address ||| ((readMem f.RAM f.PC) <<< 8)) % 65536 })
    |> (fun f => { f with PC := (f.PC + 1) % 65536 })
    |> (fun f => f.fetch [f.address])
    |> (fun f => { f with A := (f.A ||| (readMem f.RAM f.address)) % 256 })
    |> (fun f => { f with P := { f.P with Z := decide (f.A = 0) } })
    |> (fun f => { f with P := { f.P with S := decide (f.A > 0x7F) } })
    |> (fun f => { f with cycles := f.cycles + 4 })

/-- `case 0x0E : // ABS ASL` (line 298). -/
def op_0E (f : Frame) : Frame :=
  f |> (fun f => f.fetch [f.PC])
    |> (fun f => { f with address := (readMem f.RAM f.PC) % 65536 })
    |> (fun f => { f with PC := (f.PC + 1) % 65536 })
    |> (fun f => f.fetch [f.PC])
    |> (fun f => { f with address := (f.address ||| ((readMem f.RAM f.PC) <<< 8)) % 65536 })
    |> (fun f => { f with PC := (f.PC + 1) % 65536 })
    |> (fun f => f.fetch [f.address])
    |> (fun f => { f with value16 := ((readMem f.RAM f.address) <<< 1) % 65536 })
    |> (fun f => { f with P := { f.P with C := decide (f.value16 > 0xFF) } })
    |> (fun f => { f with value16 := (f.value16 &&& 0xFF) % 65536 })
    |> (fun f => f.store f.address f.value16)
    |> (fun f => { f with P := { f.P with Z := decide (f.value16 = 0) } })
    |> (fun f => { f with P := { f.P with S := decide (f.value16 > 0x7F) } })
    |> (fun f => { f with cycles := f.cycles + 6 })

/-- `case 0x0F : // ZPR BBR` (line 312). -/
def op_0F (f : Frame) : Frame :=
  f |> (fun f => f.fetch [f.PC, readMem f.RAM f.PC])
    |> (fun f => { f with value8 := (readMem f.RAM (readMem f.RAM f.PC)) % 256 })
    |> (fun f => { f with PC := (f.PC + 1) % 65536 })
    |> (fun f => f.fetch [f.PC])
    |> (fun f => { f with address := (readMem f.RAM f.PC) % 65536 })
    |> (fun f => { f with PC := (f.PC + 1) % 65536 })
    |> (fun f => if (f.address &&& SIGN) ≠ 0 then
        f |> (fun f => { f with address := (f.address ||| 0xFF00) % 65536 })
      else f)
    |> (fun f => if (f.value8 &&& 1) = 0 then
        f |> (fun f => { f with PC := (f.PC + f.address) % 65536 })
      else f)
    |> (fun f => { f with cycles := f.cycles + 5 })

/-- `case 0x10 : // REL BPL` (line 324). -/
def op_10 (f : Frame) : Frame :=
  f |> (fun f => f.fetch [f.PC])
    |> (fun f => { f with address := (readMem f.RAM f.PC) % 65536 })
    |> (fun f => { f with PC := (f.PC + 1) % 65536 })
    |> (fun f => if !f.P.S then
        f |> (fun f => { f with cycles := f.cycles + 1 })
          |> (fun f => if (f.address &&& SIGN) ≠ 0 then
              f |> (fun f => { f with address := (f.address ||| 0xFF00) % 65536 })
            else f)
          |> (fun f => if (((f.PC &&& 0xFF) + f.address) &&& 0xFF00) ≠ 0 then
              f |> (fun f => { f with cycles := f.cycles + 1 })
            else f)
          |> (fun f => { f with PC := (f.PC + f.address) % 65536 })
      else f)
    |> (fun f => { f with cycles := f.cycles + 2 })

/-- `case 0x11 : // IZY ORA` (line 338). -/
def op_11 (f : Frame) : Frame :=
  f |> (fun f => f.fetch [f.PC])
    |> (fun f => { f with value8 := (readMem f.RAM f.PC) % 256 })
    |> (fun f => { f with PC := (f.PC + 1) % 65536 })
    |> (fun f => f.fetch [f.value8])
    |> (fun f => { f with address := (readMem f.RAM f.value8) % 65536 })
    |> (fun f => { f with value8 := (f.value8 + 1) % 256 })
    |> (fun f => f.fetch [f.value8])
    |> (fun f => { f with address := (f.address ||| ((readMem f.RAM f.value8) <<< 8)) % 65536 })
    |> (fun f => { f with cycles := f.cycles + (if (((f.address &&& 0xFF) + f.Y) &&& 0xFF00) ≠ 0 then 6 else 5) })
    |> (fun f => { f with address := (f.address + f.Y) % 65536 })
    |> (fun f => f.fetch [f.address])
    |> (fun f => { f with A := (f.A ||| (readMem f.RAM f.address)) % 256 })
    |> (fun f => { f with P := { f.P with Z := decide (f.A = 0) } })
    |> (fun f => { f with P := { f.P with S := decide (f.A > 0x7F) } })

/-- `case 0x12 : // IZP ORA` (line 351). -/
def op_12 (f : Frame) : Frame :=
  f |> (fun f => f.fetch [f.PC])
    |> (fun f => { f with value8 := (readMem f.RAM f.PC) % 256 })
    |> (fun f => { f with PC := (f.PC + 1) % 65536 })
    |> (fun f => f.fetch [f.value8])
    |> (fun f => { f with address := (readMem f.RAM f.value8) % 65536 })
    |> (fun f => { f with value8 := (f.value8 + 1) % 256 })
    |> (fun f => f.fetch [f.value8])
    |> (fun f => { f with address := (f.address ||| ((readMem f.RAM f.value8) <<< 8)) % 65536 })
    |> (fun f => f.fetch [f.address])
    |> (fun f => { f with A := (f.A ||| (readMem f.RAM f.address)) % 256 })
    |> (fun f => { f with P := { f.P with Z := decide (f.A = 0) } })
    |> (fun f => { f with P := { f.P with S := decide (f.A > 0x7F) } })
    |> (fun f => { f with cycles := f.cycles + 5 })

/-- `case 0x13 : // IMP NOP` (line 363). -/
def op_13 (f : Frame) : Frame :=
  f |> (fun f => { f with cycles := f.cycles + 1 })

/-- `case 0x14 : // ZPG TRB` (line 367). -/
def op_14 (f : Frame) : Frame :=
  f |> (fun f => f.fetch [f.PC])
    |> (fun f => { f with address := (readMem f.RAM f.PC) % 65536 })
    |> (fun f => { f with PC := (f.PC + 1) % 65536 })
    |> (fun f => f.fetch [f.address])
    |> (fun f => { f with value8 := (readMem f.RAM f.address) % 256 })
    |> (fun f => f.store f.address (f.value8 &&& (not32 f.A)))
    |> (fun f => { f with P := { f.P with Z := decide ((f.value8 &&& f.A) = 0) } })
    |> (fun f => { f with cycles := f.cycles + 5 })

/-- `case 0x15 : // ZPX ORA` (line 376). -/
def op_15 (f : Frame) : Frame :=
  f |> (fun f => f.fetch [f.PC, (readMem f.RAM f.PC) + f.X])
    |> (fun f => { f with A := (f.A ||| (readMem f.RAM ((readMem f.RAM f.PC) + f.X))) % 256 })
    |> (fun f => { f with PC := (f.PC + 1) % 65536 })
    |> (fun f => { f with P := { f.P with Z := decide (f.A = 0) } })
    |> (fun f => { f with P := { f.P with S := decide (f.A > 0x7F) } })
    |> (fun f => { f with cycles := f.cycles + 4 })

/-- `case 0x16 : // ZPX ASL` (line 384). -/
def op_16 (f : Frame) : Frame :=
  f |> (fun f => f.fetch [f.PC])
    |> (fun f => { f with address := ((readMem f.RAM f.PC) + f.X) % 65536 })
    |> (fun f => { f with PC := (f.PC + 1) % 65536 })
    |> (fun f => f.fetch [f.address])
    |> (fun f => { f with value16 := ((readMem f.RAM f.address) <<< 1) % 65536 })
    |> (fun f => f.store f.address (f.value16 &&& 0xFF))
    |> (fun f => { f with P := { f.P with C := decide (f.value16 > 0xFF) } })
    |> (fun f => { f with P := { f.P with Z := decide (f.value16 = 0) } })
    |> (fun f => { f with P := { f.P with S := decide ((f.value16 &&& 0xFF) > 0x7F) } })
    |> (fun f => { f with cycles := f.cycles + 6 })

/-- `case 0x17 : // ZPG RMB` (line 395). -/
def op_17 (f : Frame) : Frame :=
  f |> (fun f => f.fetch [f.PC])
    |> (fun f => { f with address := (readMem f.RAM f.PC) % 65536 })
    |> (fun f => { f with PC := (f.PC + 1) % 65536 })
    |> (fun f => f.fetch [f.address])
    |> (fun f => f.store f.address ((readMem f.RAM f.address) &&& (not32 2)))
    |> (fun f => { f with cycles := f.cycles + 5 })

/-- `case 0x18 : // IMP CLC` (line 402). -/
def op_18 (f : Frame) : Frame :=
  f |> (fun f => { f with P := { f.P with C := false } })
    |> (fun f => { f with cycles := f.cycles + 2 })

/-- `case 0x19 : // ABY ORA` (line 407). -/
def op_19 (f : Frame) : Frame :=
  f |> (fun f => f.fetch [f.PC])
    |> (fun f => { f with address := (readMem f.RAM f.PC) % 65536 })
    |> (fun f => { f with PC := (f.PC + 1) % 65536 })
    |> (fun f => { f with cycles := f.cycles + (if ((f.address + f.Y) &&& 0xFF00) ≠ 0 then 5 else 4) })
    |> (fun f => f.fetch [f.PC])
    |> (fun f => { f with address := (f.address ||| ((readMem f.RAM f.PC) <<< 8)) % 65536 })
    |> (fun f => { f with PC := (f.PC + 1) % 65536 })
    |> (fun f => { f with address := (f.address + f.Y) % 65536 })
    |> (fun f => f.fetch [f.address])
    |> (fun f => { f with A := (f.A ||| (readMem f.RAM f.address)) % 256 })
    |> (fun f => { f with P := { f.P with Z := decide (f.A = 0) } })
    |> (fun f => { f with P := { f.P with S := decide (f.A > 0x7F) } })

/-- `case 0x1A : // ACC INC` (line 419). -/
def op_1A (f : Frame) : Frame :=
  f |> (fun f => { f with A := (f.A + 1) % 256 })
    |> (fun f => { f with P := { f.P with Z := decide (f.A = 0) } })
    |> (fun f => { f with P := { f.P with S := decide (f.A > 0x7F) } })
    |> (fun f => { f with cycles := f.cycles + 2 })

/-- `case 0x1B : // IMP NOP` (line 426). -/
def op_1B (f : Frame) : Frame :=
  f |> (fun f => { f with cycles := f.cycles + 1 })

/-- `case 0x1C : // ABS TRB` (line 430). -/
def op_1C (f : Frame) : Frame :=
  f |> (fun f => f.fetch [f.PC])
    |> (fun f => { f with address := (readMem f.RAM f.PC) % 65536 })
    |> (fun f => { f with PC := (f.PC + 1) % 65536 })
    |> (fun f => f.fetch [f.PC])
    |> (fun f => { f with address := (f.address ||| ((readMem f.RAM f.PC) <<< 8)) % 65536 })
    |> (fun f => { f with PC := (f.PC + 1) % 65536 })
    |> (fun f => f.fetch [f.address])
    |> (fun f => { f with value8 := (readMem f.RAM f.address) % 256 })
    |> (fun f => { f with P := { f.P with Z := decide ((f.value8 &&& f.A) = 0) } })
    |> (fun f => f.store f.address (f.value8 &&& (not32 f.A)))
    |> (fun f => { f with cycles := f.cycles + 6 })

/-- `case 0x1D : // ABX ORA` (line 441). -/
def op_1D (f : Frame) : Frame :=
  f |> (fun f => f.fetch [f.PC])
    |> (fun f => { f with address := (readMem f.RAM f.PC) % 65536 })
    |> (fun f => { f with PC := (f.PC + 1) % 65536 })
    |> (fun f => { f with cycles := f.cycles + (if ((f.address + f.X) &&& 0xFF00) ≠ 0 then 5 else 4) })
    |> (fun f => f.fetch [f.PC])
    |> (fun f => { f with address := (f.address ||| ((readMem f.RAM f.PC) <<< 8)) % 65536 })
    |> (fun f => { f with PC := (f.PC + 1) % 65536 })
    |> (fun f => { f with address := (f.address + f.X) % 65536 })
    |> (fun f => f.fetch [f.address])
    |> (fun f => { f with A := (f.A ||| (readMem f.RAM f.address)) % 256 })
    |> (fun f => { f with P := { f.P with Z := decide (f.A = 0) } })
    |> (fun f => { f with P := { f.P with S := decide (f.A > 0x7F) } })

/-- `case 0x1E : // ABX ASL` (line 453). -/
def op_1E (f : Frame) : Frame :=
  f |> (fun f => f.fetch [f.PC])
    |> (fun f => { f with address := (readMem f.RAM f.PC) % 65536 })
    |> (fun f => { f with PC := (f.PC + 1) % 65536 })
    |> (fun f => { f with cycles := f.cycles + (if (f.address + f.X) > 0xFF then 7 else 6) })
    |> (fun f => f.fetch [f.PC])
    |> (fun f => { f with address := (f.address ||| ((readMem f.RAM f.PC) <<< 8)) % 65536 })
    |> (fun f => { f with PC := (f.PC + 1) % 65536 })
    |> (fun f => { f with address := (f.address + f.X) % 65536 })
    |> (fun f => f.fetch [f.address])
    |> (fun f => { f with value16 := ((readMem f.RAM f.address) <<< 1) % 65536 })
    |> (fun f => { f with P := { f.P with C := decide (f.value16 > 0xFF) } })
    |> (fun f => { f with value16 := (f.value16 &&& 0xFF) % 65536 })
    |> (fun f => f.store f.address f.value16)
    |> (fun f => { f with P := { f.P with Z := decide (f.value16 = 0) } })
    |> (fun f => { f with P := { f.P with S := decide (f.value16 > 0x7F) } })

/-- `case 0x1F : // ZPR BBR` (line 468). -/
def op_1F (f : Frame) : Frame :=
  f |> (fun f => f.fetch [f.PC, readMem f.RAM f.PC])
    |> (fun f => { f with value8 := (readMem f.RAM (readMem f.RAM f.PC)) % 256 })
    |> (fun f => { f with PC := (f.PC + 1) % 65536 })
    |> (fun f => f.fetch [f.PC])
    |> (fun f => { f with address := (readMem f.RAM f.PC) % 65536 })
    |> (fun f => { f with PC := (f.PC + 1) % 65536 })
    |> (fun f => if (f.address &&& SIGN) ≠ 0 then
        f |> (fun f => { f with address := (f.address ||| 0xFF00) % 65536 })
      else f)
    |> (fun f => if (f.value8 &&& 2) = 0 then
        f |> (fun f => { f with PC := (f.PC + f.address) % 65536 })
      else f)
    |> (fun f => { f with cycles := f.cycles + 5 })

/-- `case 0x20 : // ABS JSR` (line 480). -/
def op_20 (f : Frame) : Frame :=
  f |> (fun f => f.fetch [f.PC])
    |> (fun f => { f with address := (readMem f.RAM f.PC) % 65536 })
    |> (fun f => { f with PC := (f.PC + 1) % 65536 })
    |> (fun f => f.fetch [f.PC])
    |> (fun f => { f with address := (f.address ||| ((readMem f.RAM f.PC) <<< 8)) % 65536 })
    |> (fun f => f.store (0x100 + f.SP) ((f.PC >>> 8) &&& 0xFF))
    |> (fun f => { f with SP := (sub32 f.SP 1) % 256 })
    |> (fun f => f.store (0x100 + f.SP) (f.PC &&& 0xFF))
    |> (fun f => { f with SP := (sub32 f.SP 1) % 256 })
    |> (fun f => { f with PC := f.address % 65536 })
    |> (fun f => { f with cycles := f.cycles + 6 })

/-- `case 0x21 : // IZX AND` (line 492). -/
def op_21 (f : Frame) : Frame :=
  f |> (fun f => f.fetch [f.PC])
    |> (fun f => { f with value8 := ((readMem f.RAM f.PC) + f.X) % 256 })
    |> (fun f => { f with PC := (f.PC + 1) % 65536 })
    |> (fun f => f.fetch [f.value8])
    |> (fun f => { f with address := (readMem f.RAM f.value8) % 65536 })
    |> (fun f => { f with value8 := (f.value8 + 1) % 256 })
    |> (fun f => f.fetch [f.value8])
    |> (fun f => { f with address := (f.address ||| ((readMem f.RAM f.value8) <<< 8)) % 65536 })
    |> (fun f => f.fetch [f.address])
    |> (fun f => { f with A := (f.A &&& (readMem f.RAM f.address)) % 256 })
    |> (fun f => { f with P := { f.P with Z := decide (f.A = 0) } })
    |> (fun f => { f with P := { f.P with S := decide (f.A > 0x7F) } })
    |> (fun f => { f with cycles := f.cycles + 6 })

/-- `case 0x22 : // IMM NOP` (line 504). -/
def op_22 (f : Frame) : Frame :=
  f |> (fun f => { f with PC := (f.PC + 1) % 65536 })
    |> (fun f => { f with cycles := f.cycles + 2 })

/-- `case 0x23 : // IMP NOP` (line 509). -/
def op_23 (f : Frame) : Frame :=
  f |> (fun f => { f with cycles := f.cycles + 1 })

/-- `case 0x24 : // ZPG BIT` (line 513). -/
def op_24 (f : Frame) : Frame :=
  f |> (fun f => f.fetch [f.PC])
    |> (fun f => { f with address := (readMem f.RAM f.PC) % 65536 })
    |> (fun f => { f with PC := (f.PC + 1) % 65536 })
    |> (fun f => f.fetch [f.address])
    |> (fun f => { f with value8 := (readMem f.RAM f.address) % 256 })
    |> (fun f => { f with P := { f.P with Z := decide ((f.A &&& f.value8) = 0) } })
    |> (fun f => { f with P := Flags.ofByte (((f.P.byte &&& 0x3F) ||| (f.value8 &&& 0xC0)) % 256) })
    |> (fun f => { f with cycles := f.cycles + 3 })

/-- `case 0x25 : // ZPG AND` (line 522). -/
def op_25 (f : Frame) : Frame :=
  f |> (fun f => f.fetch [f.PC, readMem f.RAM f.PC])
    |> (fun f => { f with A := (f.A &&& (readMem f.RAM (readMem f.RAM f.PC))) % 256 })
    |> (fun f => { f with PC := (f.PC + 1) % 65536 })
    |> (fun f => { f with P := { f.P with Z := decide (f.A = 0) } })
    |> (fun f => { f with P := { f.P with S := decide (f.A > 0x7F) } })
    |> (fun f => { f with cycles := f.cycles + 3 })

/-- `case 0x26 : // ZPG ROL` (line 530). -/
def op_26 (f : Frame) : Frame :=
  f |> (fun f => f.fetch [f.PC])
    |> (fun f => { f with address := (readMem f.RAM f.PC) % 65536 })
    |> (fun f => { f with PC := (f.PC + 1) % 65536 })
    |> (fun f => f.fetch [f.address])
    |> (fun f => { f with value16 := (((readMem f.RAM f.address) <<< 1) ||| f.P.C.toNat) % 65536 })
    |> (fun f => { f with P := { f.P with C := decide ((f.value16 &&& 0x100) ≠ 0) } })
    |> (fun f => { f with value16 := (f.value16 &&& 0xFF) % 65536 })
    |> (fun f => f.store f.address f.value16)
    |> (fun f => { f with P := { f.P with Z := decide (f.value16 = 0) } })
    |> (fun f => { f with P := { f.P with S := decide (f.value16 > 0x7F) } })
    |> (fun f => { f with cycles := f.cycles + 5 })

/-- `case 0x27 : // ZPG RMB` (line 542). -/
def op_27 (f : Frame) : Frame :=
  f |> (fun f => f.fetch [f.PC])
    |> (fun f => { f with address := (readMem f.RAM f.PC) % 65536 })
    |> (fun f => { f with PC := (f.PC + 1) % 65536 })
    |> (fun f => f.fetch [f.address])
    |> (fun f => f.store f.address ((readMem f.RAM f.address) &&& (not32 4)))
    |> (fun f => { f with cycles := f.cycles + 5 })

/-- `case 0x28 : // IMP PLP` (line 549). -/
def op_28 (f : Frame) : Frame :=
  f |> (fun f => { f with SP := (f.SP + 1) % 256 })
    |> (fun f => f.fetch [0x100 + f.SP])
    |> (fun f => { f with P := Flags.ofByte (((readMem f.RAM (0x100 + f.SP)) ||| UNDEF) % 256) })
    |> (fun f => { f with cycles := f.cycles + 4 })

/-- `case 0x29 : // IMM AND` (line 555). -/
def op_29 (f : Frame) : Frame :=
  f |> (fun f => f.fetch [f.PC])
    |> (fun f => { f with A := (f.A &&& (readMem f.RAM f.PC)) % 256 })
    |> (fun f => { f with PC := (f.PC + 1) % 65536 })
    |> (fun f => { f with P := { f.P with Z := decide (f.A = 0) } })
    |> (fun f => { f with P := { f.P with S := decide (f.A > 0x7F) } })
    |> (fun f => { f with cycles := f.cycles + 2 })

/-- `case 0x2A : // ACC ROL` (line 563). -/
def op_2A (f : Frame) : Frame :=
  f |> (fun f => { f with value16 := ((f.A <<< 1) ||| f.P.C.toNat) % 65536 })
    |> (fun f => { f with P := { f.P with C := decide ((f.value16 &&& 0x100) ≠ 0) } })
    |> (fun f => { f with A := (f.value16 &&& 0xFF) % 256 })
    |> (fun f => { f with P := { f.P with Z := decide (f.A = 0) } })
    |> (fun f => { f with P := { f.P with S := decide (f.A > 0x7F) } })
    |> (fun f => { f with cycles := f.cycles + 2 })

/-- `case 0x2B : // IMP NOP` (line 572). -/
def op_2B (f : Frame) : Frame :=
  f |> (fun f => { f with cycles := f.cycles + 1 })

/-- `case 0x2C : // ABS BIT` (line 576). -/
def op_2C (f : Frame) : Frame :=
  f |> (fun f => f.fetch [f.PC])
    |> (fun f => { f with address := (readMem f.RAM f.PC) % 65536 })
    |> (fun f => { f with PC := (f.PC + 1) % 65536 })
    |> (fun f => f.fetch [f.PC])
    |> (fun f => { f with address := (f.address ||| ((readMem f.RAM f.PC) <<< 8)) % 65536 })
    |> (fun f => { f with PC := (f.PC + 1) % 65536 })
    |> (fun f => f.fetch [f.address])
    |> (fun f => { f with value8 := (readMem f.RAM f.address) % 256 })
    |> (fun f => { f with P := { f.P with Z := decide ((f.A &&& f.value8) = 0) } })
    |> (fun f => { f with P := Flags.ofByte (((f.P.byte &&& 0x3F) ||| (f.value8 &&& 0xC0)) % 256) })
    |> (fun f => { f with cycles := f.cycles + 4 })

/-- `case 0x2D : // ABS AND` (line 587). -/
def op_2D (f : Frame) : Frame :=
  f |> (fun f => f.fetch [f.PC])
    |> (fun f => { f with address := (readMem f.RAM f.PC) % 65536 })
    |> (fun f => { f with PC := (f.PC + 1) % 65536 })
    |> (fun f => f.fetch [f.PC])
    |> (fun f => { f with address := (f.address ||| ((readMem f.RAM f.PC) <<< 8)) % 65536 })
    |> (fun f => { f with PC := (f.PC + 1) % 65536 })
    |> (fun f => f.fetch [f.address])
    |> (fun f => { f with A := (f.A &&& (readMem f.RAM f.address)) % 256 })
    |> (fun f => { f with P := { f.P with Z := decide (f.A = 0) } })
    |> (fun f => { f with P := { f.P with S := decide (f.A > 0x7F) } })
    |> (fun f => { f with cycles := f.cycles + 4 })

/-- `case 0x2E : // ABS ROL` (line 598). -/
def op_2E (f : Frame) : Frame :=
  f |> (fun f => f.fetch [f.PC])
    |> (fun f => { f with address := (readMem f.RAM f.PC) % 65536 })
    |> (fun f => { f with PC := (f.PC + 1) % 65536 })
    |> (fun f => f.fetch [f.PC])
    |> (fun f => { f with address := (f.address ||| ((readMem f.RAM f.PC) <<< 8)) % 65536 })
    |> (fun f => { f with PC := (f.PC + 1) % 65536 })
    |> (fun f => f.fetch [f.address])
    |> (fun f => { f with value16 := (((readMem f.RAM f.address) <<< 1) ||| f.P.C.toNat) % 65536 })
    |> (fun f => { f with P := { f.P with C := decide ((f.value16 &&& 0x100) ≠ 0) } })
    |> (fun f => { f with value16 := (f.value16 &&& 0xFF) % 65536 })
    |> (fun f => f.store f.address f.value16)
    |> (fun f => { f with P := { f.P with Z := decide (f.value16 = 0) } })
    |> (fun f => { f with P := { f.P with S := decide (f.value16 > 0x7F) } })
    |> (fun f => { f with cycles := f.cycles + 6 })

/-- `case 0x2F : // ZPR BBR` (line 612). -/
def op_2F (f : Frame) : Frame :=
  f |> (fun f => f.fetch [f.PC, readMem f.RAM f.PC])
    |> (fun f => { f with value8 := (readMem f.RAM (readMem f.RAM f.PC)) % 256 })
    |> (fun f => { f with PC := (f.PC + 1) % 65536 })
    |> (fun f => f.fetch [f.PC])
    |> (fun f => { f with address := (readMem f.RAM f.PC) % 65536 })
    |> (fun f => { f with PC := (f.PC + 1) % 65536 })
    |> (fun f => if (f.address &&& SIGN) ≠ 0 then
        f |> (fun f => { f with address := (f.address ||| 0xFF00) % 65536 })
      else f)
    |> (fun f => if (f.value8 &&& 4) = 0 then
        f |> (fun f => { f with PC := (f.PC + f.address) % 65536 })
      else f)
    |> (fun f => { f with cycles := f.cycles + 5 })

/-- `case 0x30 : // REL BMI` (line 624). -/
def op_30 (f : Frame) : Frame :=
  f |> (fun f => f.fetch [f.PC])
    |> (fun f => { f with address := (readMem f.RAM f.PC) % 65536 })
    |> (fun f => { f with PC := (f.PC + 1) % 65536 })
    |> (fun f => if f.P.S then
        f |> (fun f => { f with cycles := f.cycles + 1 })
          |> (fun f => if (f.address &&& SIGN) ≠ 0 then
              f |> (fun f => { f with address := (f.address ||| 0xFF00) % 65536 })
            else f)
          |> (fun f => if (((f.PC &&& 0xFF) + f.address) &&& 0xFF00) ≠ 0 then
              f |> (fun f => { f with cycles := f.cycles + 1 })
            else f)
          |> (fun f => { f with PC := (f.PC + f.address) % 65536 })
      else f)
    |> (fun f => { f with cycles := f.cycles + 2 })

/-- `case 0x31 : // IZY AND` (line 638). -/
def op_31 (f : Frame) : Frame :=
  f |> (fun f => f.fetch [f.PC])
    |> (fun f => { f with value8 := (readMem f.RAM f.PC) % 256 })
    |> (fun f => { f with PC := (f.PC + 1) % 65536 })
    |> (fun f => f.fetch [f.value8])
    |> (fun f => { f with address := (readMem f.RAM f.value8) % 65536 })
    |> (fun f => { f with value8 := (f.value8 + 1) % 256 })
    |> (fun f => f.fetch [f.value8])
    |> (fun f => { f with address := (f.address ||| ((readMem f.RAM f.value8) <<< 8)) % 65536 })
    |> (fun f => { f with cycles := f.cycles + (if (((f.address &&& 0xFF) + f.Y) &&& 0xFF00) ≠ 0 then 6 else 5) })
    |> (fun f => { f with address := (f.address + f.Y) % 65536 })
    |> (fun f => f.fetch [f.address])
    |> (fun f => { f with A := (f.A &&& (readMem f.RAM f.address)) % 256 })
    |> (fun f => { f with P := { f.P with Z := decide (f.A = 0) } })
    |> (fun f => { f with P := { f.P with S := decide (f.A > 0x7F) } })

/-- `case 0x32 : // IZP AND` (line 651). -/
def op_32 (f : Frame) : Frame :=
  f |> (fun f => f.fetch [f.PC])
    |> (fun f => { f with value8 := (readMem f.RAM f.PC) % 256 })
    |> (fun f => { f with PC := (f.PC + 1) % 65536 })
    |> (fun f => f.fetch [f.value8])
    |> (fun f => { f with address := (readMem f.RAM f.value8) % 65536 })
    |> (fun f => { f with value8 := (f.value8 + 1) % 256 })
    |> (fun f => f.fetch [f.value8])
    |> (fun f => { f with address := (f.address ||| ((readMem f.RAM f.value8) <<< 8)) % 65536 })
    |> (fun f => f.fetch [f.address])
    |> (fun f => { f with A := (f.A &&& (readMem f.RAM f.address)) % 256 })
    |> (fun f => { f with P := { f.P with Z := decide (f.A = 0) } })
    |> (fun f => { f with P := { f.P with S := decide (f.A > 0x7F) } })
    |> (fun f => { f with cycles := f.cycles + 5 })

/-- `case 0x33 : // IMP NOP` (line 663). -/
def op_33 (f : Frame) : Frame :=
  f |> (fun f => { f with cycles := f.cycles + 1 })

/-- `case 0x34 : // ZPX BIT` (line 667). -/
def op_34 (f : Frame) : Frame :=
  f |> (fun f => f.fetch [f.PC])
    |> (fun f => { f with address := (((readMem f.RAM f.PC) + f.X) &&& 0xFF) % 65536 })
    |> (fun f => { f with PC := (f.PC + 1) % 65536 })
    |> (fun f => f.fetch [f.address])
    |> (fun f => { f with value8 := (readMem f.RAM f.address) % 256 })
    |> (fun f => { f with P := { f.P with Z := decide ((f.A &&& f.value8) = 0) } })
    |> (fun f => { f with P := Flags.ofByte (((f.P.byte &&& 0x3F) ||| (f.value8 &&& 0xC0)) % 256) })
    |> (fun f => { f with cycles := f.cycles + 4 })

/-- `case 0x35 : // ZPX AND` (line 676). -/
def op_35 (f : Frame) : Frame :=
  f |> (fun f => f.fetch [f.PC])
    |> (fun f => { f with address := (((readMem f.RAM f.PC) + f.X) &&& 0xFF) % 65536 })
    |> (fun f => { f with PC := (f.PC + 1) % 65536 })
    |> (fun f => f.fetch [f.address])
    |> (fun f => { f with A := (f.A &&& (readMem f.RAM f.address)) % 256 })
    |> (fun f => { f with P := { f.P with Z := decide (f.A = 0) } })
    |> (fun f => { f with P := { f.P with S := decide (f.A > 0x7F) } })
    |> (fun f => { f with cycles := f.cycles + 4 })

/-- `case 0x36 : // ZPX ROL` (line 685). -/
def op_36 (f : Frame) : Frame :=
  f |> (fun f => f.fetch [f.PC])
    |> (fun f => { f with address := (((readMem f.RAM f.PC) + f.X) &&& 0xFF) % 65536 })
    |> (fun f => { f with PC := (f.PC + 1) % 65536 })
    |> (fun f => f.fetch [f.address])
    |> (fun f => { f with value16 := (((readMem f.RAM f.address) <<< 1) ||| f.P.C.toNat) % 65536 })
    |> (fun f => { f with P := { f.P with C := decide (f.value16 > 0xFF) } })
    |> (fun f => { f with value16 := (f.value16 &&& 0xFF) % 65536 })
    |> (fun f => f.store f.address f.value16)
    |> (fun f => { f with P := { f.P with Z := decide (f.value16 = 0) } })
    |> (fun f => { f with P := { f.P with S := decide (f.value16 > 0x7F) } })
    |> (fun f => { f with cycles := f.cycles + 6 })

/-- `case 0x37 : // ZPG RMB` (line 697). -/
def op_37 (f : Frame) : Frame :=
  f |> (fun f => f.fetch [f.PC])
    |> (fun f => { f with address := (readMem f.RAM f.PC) % 65536 })
    |> (fun f => { f with PC := (f.PC + 1) % 65536 })
    |> (fun f => f.fetch [f.address])
    |> (fun f => f.store f.address ((readMem f.RAM f.address) &&& (not32 8)))
    |> (fun f => { f with cycles := f.cycles + 5 })

/-- `case 0x38 : // IMP SEC` (line 704). -/
def op_38 (f : Frame) : Frame :=
  f |> (fun f => { f with P := { f.P with C := true } })
    |> (fun f => { f with cycles := f.cycles + 2 })

/-- `case 0x39 : // ABY AND` (line 709). -/
def op_39 (f : Frame) : Frame :=
  f |> (fun f => f.fetch [f.PC])
    |> (fun f => { f with address := (readMem f.RAM f.PC) % 65536 })
    |> (fun f => { f with PC := (f.PC + 1) % 65536 })
    |> (fun f => { f with cycles := f.cycles + (if ((f.address + f.Y) &&& 0xFF00) ≠ 0 then 5 else 4) })
    |> (fun f => f.fetch [f.PC])
    |> (fun f => { f with address := (f.address ||| ((readMem f.RAM f.PC) <<< 8)) % 65536 })
    |> (fun f => { f with PC := (f.PC + 1) % 65536 })
    |> (fun f => { f with address := (f.address + f.Y) % 65536 })
    |> (fun f => f.fetch [f.address])
    |> (fun f => { f with A := (f.A &&& (readMem f.RAM f.address)) % 256 })
    |> (fun f => { f with P := { f.P with Z := decide (f.A = 0) } })
    |> (fun f => { f with P := { f.P with S := decide (f.A > 0x7F) } })

/-- `case 0x3A : // ACC DEC` (line 721). -/
def op_3A (f : Frame) : Frame :=
  f |> (fun f => { f with A := (sub32 f.A 1) % 256 })
    |> (fun f => { f with P := { f.P with Z := decide (f.A = 0) } })
    |> (fun f => { f with P := { f.P with S := decide (f.A > 0x7F) } })
    |> (fun f => { f with cycles := f.cycles + 2 })

/-- `case 0x3B : // IMP NOP` (line 728). -/
def op_3B (f : Frame) : Frame :=
  f |> (fun f => { f with cycles := f.cycles + 1 })

/-- `case 0x3C : // ABX BIT` (line 732). -/
def op_3C (f : Frame) : Frame :=
  f |> (fun f => f.fetch [f.PC])
    |> (fun f => { f with cycles := f.cycles + (if ((readMem f.RAM f.PC) + f.X) > 0xFF then 5 else 4) })
    |> (fun f => f.fetch [f.PC])
    |> (fun f => { f with address := (readMem f.RAM f.PC) % 65536 })
    |> (fun f => { f with PC := (f.PC + 1) % 65536 })
    |> (fun f => f.fetch [f.PC])
    |> (fun f => { f with address := (f.address ||| (((readMem f.RAM f.PC) <<< 8) + f.X)) % 65536 })
    |> (fun f => { f with PC := (f.PC + 1) % 65536 })
    |> (fun f => f.fetch [f.address])
    |> (fun f => { f with value8 := (readMem f.RAM f.address) % 256 })
    |> (fun f => { f with P := { f.P with Z := decide ((f.A &&& f.value8) = 0) } })
    |> (fun f => { f with P := Flags.ofByte (((f.P.byte &&& 0x3F) ||| (f.value8 &&& 0xC0)) % 256) })

/-- `case 0x3D : // ABX AND` (line 743). -/
def op_3D (f : Frame) : Frame :=
  f |> (fun f => f.fetch [f.PC])
    |> (fun f => { f with address := (readMem f.RAM f.PC) % 65536 })
    |> (fun f => { f with PC := (f.PC + 1) % 65536 })
    |> (fun f => { f with cycles := f.cycles + (if ((f.address + f.X) &&& 0xFF00) ≠ 0 then 5 else 4) })
    |> (fun f => f.fetch [f.PC])
    |> (fun f => { f with address := (f.address ||| ((readMem f.RAM f.PC) <<< 8)) % 65536 })
    |> (fun f => { f with PC := (f.PC + 1) % 65536 })
    |> (fun f => { f with address := (f.address + f.X) % 65536 })
    |> (fun f => f.fetch [f.address])
    |> (fun f => { f with A := (f.A &&& (readMem f.RAM f.address)) % 256 })
    |> (fun f => { f with P := { f.P with Z := decide (f.A = 0) } })
    |> (fun f => { f with P := { f.P with S := decide (f.A > 0x7F) } })

/-- `case 0x3E : // ABX ROL` (line 755). -/
def op_3E (f : Frame) : Frame :=
  f |> (fun f => f.fetch [f.PC])
    |> (fun f => { f with address := (readMem f.RAM f.PC) % 65536 })
    |> (fun f => { f with PC := (f.PC + 1) % 65536 })
    |> (fun f => { f with cycles := f.cycles + (if (f.address + f.X) > 0xFF then 7 else 6) })
    |> (fun f => f.fetch [f.PC])
    |> (fun f => { f with address := (f.address ||| ((readMem f.RAM f.PC) <<< 8)) % 65536 })
    |> (fun f => { f with PC := (f.PC + 1) % 65536 })
    |> (fun f => { f with address := (f.address + f.X) % 65536 })
    |> (fun f => f.fetch [f.address])
    |> (fun f => { f with value16 := (((readMem f.RAM f.address) <<< 1) ||| f.P.C.toNat) % 65536 })
    |> (fun f => { f with P := { f.P with C := decide (f.value16 > 0xFF) } })
    |> (fun f => { f with value16 := (f.value16 &&& 0xFF) % 65536 })
    |> (fun f => f.store f.address f.value16)
    |> (fun f => { f with P := { f.P with Z := decide (f.value16 = 0) } })
    |> (fun f => { f with P := { f.P with S := decide (f.value16 > 0x7F) } })

/-- `case 0x3F : // ZPR BBR` (line 770). -/
def op_3F (f : Frame) : Frame :=
  f |> (fun f => f.fetch [f.PC, readMem f.RAM f.PC])
    |> (fun f => { f with value8 := (readMem f.RAM (readMem f.RAM f.PC)) % 256 })
    |> (fun f => { f with PC := (f.PC + 1) % 65536 })
    |> (fun f => f.fetch [f.PC])
    |> (fun f => { f with address := (readMem f.RAM f.PC) % 65536 })
    |> (fun f => { f with PC := (f.PC + 1) % 65536 })
    |> (fun f => if (f.address &&& SIGN) ≠ 0 then
        f |> (fun f => { f with address := (f.address ||| 0xFF00) % 65536 })
      else f)
    |> (fun f => if (f.value8 &&& 8) = 0 then
        f |> (fun f => { f with PC := (f.PC + f.address) % 65536 })
      else f)
    |> (fun f => { f with cycles := f.cycles + 5 })

/-- `case 0x40 : // IMP RTI` (line 782). -/
def op_40 (f : Frame) : Frame :=
  f |> (fun f => { f with SP := (f.SP + 1) % 256 })
    |> (fun f => f.fetch [0x100 + f.SP])
    |> (fun f => { f with P := Flags.ofByte ((readMem f.RAM (0x100 + f.SP)) % 256) })
    |> (fun f => { f with SP := (f.SP + 1) % 256 })
    |> (fun f => f.fetch [0x100 + f.SP])
    |> (fun f => { f with PC := (readMem f.RAM (0x100 + f.SP)) % 65536 })
    |> (fun f => { f with SP := (f.SP + 1) % 256 })
    |> (fun f => f.fetch [0x100 + f.SP])
    |> (fun f => { f with PC := (f.PC ||| ((readMem f.RAM (0x100 + f.SP)) <<< 8)) % 65536 })
    |> (fun f => { f with cycles := f.cycles + 6 })

/-- `case 0x41 : // IZX EOR` (line 792). -/
def op_41 (f : Frame) : Frame :=
  f |> (fun f => f.fetch [f.PC])
    |> (fun f => { f with value8 := ((readMem f.RAM f.PC) + f.X) % 256 })
    |> (fun f => { f with PC := (f.PC + 1) % 65536 })
    |> (fun f => f.fetch [f.value8])
    |> (fun f => { f with address := (readMem f.RAM f.value8) % 65536 })
    |> (fun f => { f with value8 := (f.value8 + 1) % 256 })
    |> (fun f => f.fetch [f.value8])
    |> (fun f => { f with address := (f.address ||| ((readMem f.RAM f.value8) <<< 8)) % 65536 })
    |> (fun f => f.fetch [f.address])
    |> (fun f => { f with A := (f.A ^^^ (readMem f.RAM f.address)) % 256 })
    |> (fun f => { f with P := { f.P with Z := decide (f.A = 0) } })
    |> (fun f => { f with P := { f.P with S := decide (f.A > 0x7F) } })
    |> (fun f => { f with cycles := f.cycles + 6 })

/-- `case 0x42 : // IMM NOP` (line 804). -/
def op_42 (f : Frame) : Frame :=
  f |> (fun f => { f with PC := (f.PC + 1) % 65536 })
    |> (fun f => { f with cycles := f.cycles + 2 })

/-- `case 0x43 : // IMP NOP` (line 809). -/
def op_43 (f : Frame) : Frame :=
  f |> (fun f => { f with cycles := f.cycles + 1 })

/-- `case 0x44 : // ZPG NOP` (line 813). -/
def op_44 (f : Frame) : Frame :=
  f |> (fun f => { f with PC := (f.PC + 1) % 65536 })
    |> (fun f => { f with cycles := f.cycles + 3 })

/-- `case 0x45 : // ZPG EOR` (line 818). -/
def op_45 (f : Frame) : Frame :=
  f |> (fun f => f.fetch [f.PC])
    |> (fun f => { f with address := (readMem f.RAM f.PC) % 65536 })
    |> (fun f => { f with PC := (f.PC + 1) % 65536 })
    |> (fun f => f.fetch [f.address])
    |> (fun f => { f with A := (f.A ^^^ (readMem f.RAM f.address)) % 256 })
    |> (fun f => { f with P := { f.P with Z := decide (f.A = 0) } })
    |> (fun f => { f with P := { f.P with S := decide (f.A > 0x7F) } })
    |> (fun f => { f with cycles := f.cycles + 3 })

/-- `case 0x46 : // ZPG LSR` (line 827). -/
def op_46 (f : Frame) : Frame :=
  f |> (fun f => f.fetch [f.PC])
    |> (fun f => { f with address := (readMem f.RAM f.PC) % 65536 })
    |> (fun f => { f with PC := (f.PC + 1) % 65536 })
    |> (fun f => f.fetch [f.address])
    |> (fun f => { f with value8 := (readMem f.RAM f.address) % 256 })
    |> (fun f => { f with P := { f.P with C := decide ((f.value8 &&& 1) ≠ 0) } })
    |> (fun f => { f with value8 := (f.value8 >>> 1) % 256 })
    |> (fun f => f.store f.address f.value8)
    |> (fun f => { f with P := { f.P with Z := decide (f.value8 = 0) } })
    |> (fun f => { f with P := { f.P with S := decide (f.value8 > 0x7F) } })
    |> (fun f => { f with cycles := f.cycles + 5 })

/-- `case 0x47 : // ZPG RMB` (line 839). -/
def op_47 (f : Frame) : Frame :=
  f |> (fun f => f.fetch [f.PC])
    |> (fun f => { f with address := (readMem f.RAM f.PC) % 65536 })
    |> (fun f => { f with PC := (f.PC + 1) % 65536 })
    |> (fun f => f.fetch [f.address])
    |> (fun f => f.store f.address ((readMem f.RAM f.address) &&& (not32 16)))
    |> (fun f => { f with cycles := f.cycles + 5 })

/-- `case 0x48 : // IMP PHA` (line 846). -/
def op_48 (f : Frame) : Frame :=
  f |> (fun f => f.store (0x100 + f.SP) f.A)
    |> (fun f => { f with SP := (sub32 f.SP 1) % 256 })
    |> (fun f => { f with cycles := f.cycles + 3 })

/-- `case 0x49 : // IMM EOR` (line 852). -/
def op_49 (f : Frame) : Frame :=
  f |> (fun f => f.fetch [f.PC])
    |> (fun f => { f with A := (f.A ^^^ (readMem f.RAM f.PC)) % 256 })
    |> (fun f => { f with PC := (f.PC + 1) % 65536 })
    |> (fun f => { f with P := { f.P with Z := decide (f.A = 0) } })
    |> (fun f => { f with P := { f.P with S := decide (f.A > 0x7F) } })
    |> (fun f => { f with cycles := f.cycles + 2 })

/-- `case 0x4A : // ACC LSR` (line 860). -/
def op_4A (f : Frame) : Frame :=
  f |> (fun f => { f with P := { f.P with C := decide ((f.A &&& 1) ≠ 0) } })
    |> (fun f => { f with A := (f.A >>> 1) % 256 })
    |> (fun f => { f with P := { f.P with Z := decide (f.A = 0) } })
    |> (fun f => { f with P := { f.P with S := decide (f.A > 0x7F) } })
    |> (fun f => { f with cycles := f.cycles + 2 })

/-- `case 0x4B : // IMP NOP` (line 868). -/
def op_4B (f : Frame) : Frame :=
  f |> (fun f => { f with cycles := f.cycles + 1 })

/-- `case 0x4C : // ABS JMP` (line 872). -/
def op_4C (f : Frame) : Frame :=
  f |> (fun f => f.fetch [f.PC, f.PC + 1])
    |> (fun f => { f with PC := ((readMem f.RAM f.PC) ||| ((readMem f.RAM (f.PC + 1)) <<< 8)) % 65536 })
    |> (fun f => { f with cycles := f.cycles + 3 })

/-- `case 0x4D : // ABS EOR` (line 877). -/
def op_4D (f : Frame) : Frame :=
  f |> (fun f => f.fetch [f.PC])
    |> (fun f => { f with address := (readMem f.RAM f.PC) % 65536 })
    |> (fun f => { f with PC := (f.PC + 1) % 65536 })
    |> (fun f => f.fetch [f.PC])
    |> (fun f => { f with address := (f.address ||| ((readMem f.RAM f.PC) <<< 8)) % 65536 })
    |> (fun f => { f with PC := (f.PC + 1) % 65536 })
    |> (fun f => f.fetch [f.address])
    |> (fun f => { f with A := (f.A ^^^ (readMem f.RAM f.address)) % 256 })
    |> (fun f => { f with P := { f.P with Z := decide (f.A = 0) } })
    |> (fun f => { f with P := { f.P with S := decide (f.A > 0x7F) } })
    |> (fun f => { f with cycles := f.cycles + 4 })

/-- `case 0x4E : // ABS LSR` (line 888). -/
def op_4E (f : Frame) : Frame :=
  f |> (fun f => f.fetch [f.PC])
    |> (fun f => { f with address := (readMem f.RAM f.PC) % 65536 })
    |> (fun f => { f with PC := (f.PC + 1) % 65536 })
    |> (fun f => f.fetch [f.PC])
    |> (fun f => { f with address := (f.address ||| ((readMem f.RAM f.PC) <<< 8)) % 65536 })
    |> (fun f => { f with PC := (f.PC + 1) % 65536 })
    |> (fun f => f.fetch [f.address])
    |> (fun f => { f with value8 := (readMem f.RAM f.address) % 256 })
    |> (fun f => { f with P := { f.P with C := decide ((f.value8 &&& 1) ≠ 0) } })
    |> (fun f => { f with value8 := (f.value8 >>> 1) % 256 })
    |> (fun f => f.store f.address f.value8)
    |> (fun f => { f with P := { f.P with Z := decide (f.value8 = 0) } })
    |> (fun f => { f with P := { f.P with S := decide (f.value8 > 0x7F) } })
    |> (fun f => { f with cycles := f.cycles + 6 })

/-- `case 0x4F : // ZPR BBR` (line 902). -/
def op_4F (f : Frame) : Frame :=
  f |> (fun f => f.fetch [f.PC, readMem f.RAM f.PC])
    |> (fun f => { f with value8 := (readMem f.RAM (readMem f.RAM f.PC)) % 256 })
    |> (fun f => { f with PC := (f.PC + 1) % 65536 })
    |> (fun f => f.fetch [f.PC])
    |> (fun f => { f with address := (readMem f.RAM f.PC) % 65536 })
    |> (fun f => { f with PC := (f.PC + 1) % 65536 })
    |> (fun f => if (f.address &&& SIGN) ≠ 0 then
        f |> (fun f => { f with address := (f.address ||| 0xFF00) % 65536 })
      else f)
    |> (fun f => if (f.value8 &&& 16) = 0 then
        f |> (fun f => { f with PC := (f.PC + f.address) % 65536 })
      else f)
    |> (fun f => { f with cycles := f.cycles + 5 })

/-- `case 0x50 : // REL BVC` (line 914). -/
def op_50 (f : Frame) : Frame :=
  f |> (fun f => f.fetch [f.PC])
    |> (fun f => { f with address := (readMem f.RAM f.PC) % 65536 })
    |> (fun f => { f with PC := (f.PC + 1) % 65536 })
    |> (fun f => if !f.P.V then
        f |> (fun f => { f with cycles := f.cycles + 1 })
          |> (fun f => if (f.address &&& SIGN) ≠ 0 then
              f |> (fun f => { f with address := (f.address ||| 0xFF00) % 65536 })
            else f)
          |> (fun f => if (((f.PC &&& 0xFF) + f.address) &&& 0xFF00) ≠ 0 then
              f |> (fun f => { f with cycles := f.cycles + 1 })
            else f)
          |> (fun f => { f with PC := (f.PC + f.address) % 65536 })
      else f)
    |> (fun f => { f with cycles := f.cycles + 2 })

/-- `case 0x51 : // IZY EOR` (line 928). -/
def op_51 (f : Frame) : Frame :=
  f |> (fun f => f.fetch [f.PC])
    |> (fun f => { f with value8 := (readMem f.RAM f.PC) % 256 })
    |> (fun f => { f with PC := (f.PC + 1) % 65536 })
    |> (fun f => f.fetch [f.value8])
    |> (fun f => { f with address := (readMem f.RAM f.value8) % 65536 })
    |> (fun f => { f with value8 := (f.value8 + 1) % 256 })
    |> (fun f => f.fetch [f.value8])
    |> (fun f => { f with address := (f.address ||| ((readMem f.RAM f.value8) <<< 8)) % 65536 })
    |> (fun f => { f with cycles := f.cycles + (if (((f.address &&& 0xFF) + f.Y) &&& 0xFF00) ≠ 0 then 6 else 5) })
    |> (fun f => f.fetch [f.address + f.Y])
    |> (fun f => { f with A := (f.A ^^^ (readMem f.RAM (f.address + f.Y))) % 256 })
    |> (fun f => { f with P := { f.P with Z := decide (f.A = 0) } })
    |> (fun f => { f with P := { f.P with S := decide (f.A > 0x7F) } })

/-- `case 0x52 : // IZP EOR` (line 940). -/
def op_52 (f : Frame) : Frame :=
  f |> (fun f => f.fetch [f.PC])
    |> (fun f => { f with value8 := (readMem f.RAM f.PC) % 256 })
    |> (fun f => { f with PC := (f.PC + 1) % 65536 })
    |> (fun f => f.fetch [f.value8])
    |> (fun f => { f with address := (readMem f.RAM f.value8) % 65536 })
    |> (fun f => { f with value8 := (f.value8 + 1) % 256 })
    |> (fun f => f.fetch [f.value8])
    |> (fun f => { f with address := (f.address ||| ((readMem f.RAM f.value8) <<< 8)) % 65536 })
    |> (fun f => f.fetch [f.address])
    |> (fun f => { f with A := (f.A ^^^ (readMem f.RAM f.address)) % 256 })
    |> (fun f => { f with P := { f.P with Z := decide (f.A = 0) } })
    |> (fun f => { f with P := { f.P with S := decide (f.A > 0x7F) } })
    |> (fun f => { f with cycles := f.cycles + 5 })

/-- `case 0x53 : // IMP NOP` (line 952). -/
def op_53 (f : Frame) : Frame :=
  f |> (fun f => { f with cycles := f.cycles + 1 })

/-- `case 0x54 : // ZPX NOP` (line 956). -/
def op_54 (f : Frame) : Frame :=
  f |> (fun f => { f with PC := (f.PC + 1) % 65536 })
    |> (fun f => { f with cycles := f.cycles + 4 })

/-- `case 0x55 : // ZPX EOR` (line 961). -/
def op_55 (f : Frame) : Frame :=
  f |> (fun f => f.fetch [f.PC])
    |> (fun f => { f with address := (((readMem f.RAM f.PC) + f.X) &&& 0xFF) % 65536 })
    |> (fun f => { f with PC := (f.PC + 1) % 65536 })
    |> (fun f => f.fetch [f.address])
    |> (fun f => { f with A := (f.A ^^^ (readMem f.RAM f.address)) % 256 })
    |> (fun f => { f with P := { f.P with Z := decide (f.A = 0) } })
    |> (fun f => { f with P := { f.P with S := decide (f.A > 0x7F) } })
    |> (fun f => { f with cycles := f.cycles + 4 })

/-- `case 0x56 : // ZPX LSR` (line 970). -/
def op_56 (f : Frame) : Frame :=
  f |> (fun f => f.fetch [f.PC])
    |> (fun f => { f with address := (((readMem f.RAM f.PC) + f.X) &&& 0xFF) % 65536 })
    |> (fun f => { f with PC := (f.PC + 1) % 65536 })
    |> (fun f => f.fetch [f.address])
    |> (fun f => { f with value8 := (readMem f.RAM f.address) % 256 })
    |> (fun f => { f with P := { f.P with C := decide ((f.value8 &&& 1) ≠ 0) } })
    |> (fun f => { f with value8 := (f.value8 >>> 1) % 256 })
    |> (fun f => f.store f.address f.value8)
    |> (fun f => { f with P := { f.P with Z := decide (f.value8 = 0) } })
    |> (fun f => { f with P := { f.P with S := decide (f.value8 > 0x7F) } })
    |> (fun f => { f with cycles := f.cycles + 6 })

/-- `case 0x57 : // ZPG RMB` (line 982). -/
def op_57 (f : Frame) : Frame :=
  f |> (fun f => f.fetch [f.PC])
    |> (fun f => { f with address := (readMem f.RAM f.PC) % 65536 })
    |> (fun f => { f with PC := (f.PC + 1) % 65536 })
    |> (fun f => f.fetch [f.address])
    |> (fun f => f.store f.address ((readMem f.RAM f.address) &&& (not32 32)))
    |> (fun f => { f with cycles := f.cycles + 5 })

/-- `case 0x58 : // IMP CLI` (line 989). -/
def op_58 (f : Frame) : Frame :=
  f |> (fun f => { f with P := { f.P with I := false } })
    |> (fun f => { f with cycles := f.cycles + 2 })

/-- `case 0x59 : // ABY EOR` (line 994). -/
def op_59 (f : Frame) : Frame :=
  f |> (fun f => f.fetch [f.PC])
    |> (fun f => { f with address := (readMem f.RAM f.PC) % 65536 })
    |> (fun f => { f with PC := (f.PC + 1) % 65536 })
    |> (fun f => { f with cycles := f.cycles + (if ((f.address + f.Y) &&& 0xFF00) ≠ 0 then 5 else 4) })
    |> (fun f => f.fetch [f.PC])
    |> (fun f => { f with address := (f.address ||| ((readMem f.RAM f.PC) <<< 8)) % 65536 })
    |> (fun f => { f with PC := (f.PC + 1) % 65536 })
    |> (fun f => { f with address := (f.address + f.Y) % 65536 })
    |> (fun f => f.fetch [f.address])
    |> (fun f => { f with A := (f.A ^^^ (readMem f.RAM f.address)) % 256 })
    |> (fun f => { f with P := { f.P with Z := decide (f.A = 0) } })
    |> (fun f => { f with P := { f.P with S := decide (f.A > 0x7F) } })

/-- `case 0x5A : // IMP PHY` (line 1006). -/
def op_5A (f : Frame) : Frame :=
  f |> (fun f => f.store (0x100 + f.SP) f.Y)
    |> (fun f => { f with SP := (sub32 f.SP 1) % 256 })
    |> (fun f => { f with cycles := f.cycles + 3 })

/-- `case 0x5B : // IMP NOP` (line 1012). -/
def op_5B (f : Frame) : Frame :=
  f |> (fun f => { f with cycles := f.cycles + 1 })

/-- `case 0x5C : // ABS NOP` (line 1016). -/
def op_5C (f : Frame) : Frame :=
  f |> (fun f => { f with PC := (f.PC + 2) % 65536 })
    |> (fun f => { f with cycles := f.cycles + 8 })

/-- `case 0x5D : // ABX EOR` (line 1021). -/
def op_5D (f : Frame) : Frame :=
  f |> (fun f => f.fetch [f.PC])
    |> (fun f => { f with address := (readMem f.RAM f.PC) % 65536 })
    |> (fun f => { f with PC := (f.PC + 1) % 65536 })
    |> (fun f => { f with cycles := f.cycles + (if ((f.address + f.X) &&& 0xFF00) ≠ 0 then 5 else 4) })
    |> (fun f => f.fetch [f.PC])
    |> (fun f => { f with address := (f.address ||| ((readMem f.RAM f.PC) <<< 8)) % 65536 })
    |> (fun f => { f with PC := (f.PC + 1) % 65536 })
    |> (fun f => { f with address := (f.address + f.X) % 65536 })
    |> (fun f => f.fetch [f.address])
    |> (fun f => { f with A := (f.A ^^^ (readMem f.RAM f.address)) % 256 })
    |> (fun f => { f with P := { f.P with Z := decide (f.A = 0) } })
    |> (fun f => { f with P := { f.P with S := decide (f.A > 0x7F) } })

/-- `case 0x5E : // ABX LSR` (line 1033). -/
def op_5E (f : Frame) : Frame :=
  f |> (fun f => f.fetch [f.PC])
    |> (fun f => { f with address := (readMem f.RAM f.PC) % 65536 })
    |> (fun f => { f with PC := (f.PC + 1) % 65536 })
    |> (fun f => { f with cycles := f.cycles + (if (f.address + f.X) > 0xFF then 7 else 6) })
    |> (fun f => f.fetch [f.PC])
    |> (fun f => { f with address := (f.address ||| ((readMem f.RAM f.PC) <<< 8)) % 65536 })
    |> (fun f => { f with PC := (f.PC + 1) % 65536 })
    |> (fun f => { f with address := (f.address + f.X) % 65536 })
    |> (fun f => f.fetch [f.address])
    |> (fun f => { f with value8 := (readMem f.RAM f.address) % 256 })
    |> (fun f => { f with P := { f.P with C := decide ((f.value8 &&& 1) ≠ 0) } })
    |> (fun f => { f with value8 := (f.value8 >>> 1) % 256 })
    |> (fun f => f.store f.address f.value8)
    |> (fun f => { f with P := { f.P with Z := decide (f.value8 = 0) } })
    |> (fun f => { f with P := { f.P with S := decide (f.value8 > 0x7F) } })

/-- `case 0x5F : // ZPR BBR` (line 1048). -/
def op_5F (f : Frame) : Frame :=
  f |> (fun f => f.fetch [f.PC, readMem f.RAM f.PC])
    |> (fun f => { f with value8 := (readMem f.RAM (readMem f.RAM f.PC)) % 256 })
    |> (fun f => { f with PC := (f.PC + 1) % 65536 })
    |> (fun f => f.fetch [f.PC])
    |> (fun f => { f with address := (readMem f.RAM f.PC) % 65536 })
    |> (fun f => { f with PC := (f.PC + 1) % 65536 })
    |> (fun f => if (f.address &&& SIGN) ≠ 0 then
        f |> (fun f => { f with address := (f.address ||| 0xFF00) % 65536 })
      else f)
    |> (fun f => if (f.value8 &&& 32) = 0 then
        f |> (fun f => { f with PC := (f.PC + f.address) % 65536 })
      else f)
    |> (fun f => { f with cycles := f.cycles + 5 })

/-- `case 0x60 : // IMP RTS` (line 1060). -/
def op_60 (f : Frame) : Frame :=
  f |> (fun f => { f with SP := (f.SP + 1) % 256 })
    |> (fun f => f.fetch [0x100 + f.SP])
    |> (fun f => { f with PC := (readMem f.RAM (0x100 + f.SP)) % 65536 })
    |> (fun f => { f with SP := (f.SP + 1) % 256 })
    |> (fun f => f.fetch [0x100 + f.SP])
    |> (fun f => { f with PC := (f.PC ||| ((readMem f.RAM (0x100 + f.SP)) <<< 8)) % 65536 })
    |> (fun f => { f with PC := (f.PC + 1) % 65536 })
    |> (fun f => { f with cycles := f.cycles + 6 })

/-- `case 0x61 : // IZX ADC` (line 1069). -/
def op_61 (f : Frame) : Frame :=
  f |> (fun f => f.fetch [f.PC])
    |> (fun f => { f with value8 := ((readMem f.RAM f.PC) + f.X) % 256 })
    |> (fun f => { f with PC := (f.PC + 1) % 65536 })
    |> (fun f => f.fetch [f.value8])
    |> (fun f => { f with address := (readMem f.RAM f.value8) % 65536 })
    |> (fun f => { f with value8 := (f.value8 + 1) % 256 })
    |> (fun f => f.fetch [f.value8])
    |> (fun f => { f with address := (f.address ||| ((readMem f.RAM f.value8) <<< 8)) % 65536 })
    |> (fun f => f.fetch [f.address])
    |> (fun f => { f with value8 := (readMem f.RAM f.address) % 256 })
    |> (fun f => { f with value16 := ((f.A + f.value8) + f.P.C.toNat) % 65536 })
    |> (fun f => { f with P := { f.P with V := decide ((((f.value16 ^^^ f.A) &&& (f.value16 ^^^ f.value8)) &&& 0x0080) ≠ 0) } })
    |> (fun f => if f.P.D then
        f |> (fun f => { f with value16 := (f.value16 + ((((((f.value16 + 0x66) ^^^ f.A) ^^^ f.value8) >>> 3) &&& 0x22) * 3)) % 65536 })
      else f)
    |> (fun f => { f with P := { f.P with C := decide (f.value16 > 0xFF) } })
    |> (fun f => { f with A := (f.value16 &&& 0xFF) % 256 })
    |> (fun f => { f with P := { f.P with Z := decide (f.A = 0) } })
    |> (fun f => { f with P := { f.P with S := decide (f.A > 0x7F) } })
    |> (fun f => { f with cycles := f.cycles + 6 })

/-- `case 0x62 : // IMM NOP` (line 1087). -/
def op_62 (f : Frame) : Frame :=
  f |> (fun f => { f with PC := (f.PC + 1) % 65536 })
    |> (fun f => { f with cycles := f.cycles + 2 })

/-- `case 0x63 : // IMP NOP` (line 1092). -/
def op_63 (f : Frame) : Frame :=
  f |> (fun f => { f with cycles := f.cycles + 1 })

/-- `case 0x64 : // ZPG STZ` (line 1096). -/
def op_64 (f : Frame) : Frame :=
  f |> (fun f => f.fetch [f.PC])
    |> (fun f => f.store (readMem f.RAM f.PC) 0x00)
    |> (fun f => { f with PC := (f.PC + 1) % 65536 })
    |> (fun f => { f with cycles := f.cycles + 3 })

/-- `case 0x65 : // ZPG ADC` (line 1102). -/
def op_65 (f : Frame) : Frame :=
  f |> (fun f => f.fetch [f.PC])
    |> (fun f => { f with address := (readMem f.RAM f.PC) % 65536 })
    |> (fun f => { f with PC := (f.PC + 1) % 65536 })
    |> (fun f => f.fetch [f.address])
    |> (fun f => { f with value8 := (readMem f.RAM f.address) % 256 })
    |> (fun f => { f with value16 := ((f.A + f.value8) + f.P.C.toNat) % 65536 })
    |> (fun f => { f with P := { f.P with V := decide ((((f.value16 ^^^ f.A) &&& (f.value16 ^^^ f.value8)) &&& 0x0080) ≠ 0) } })
    |> (fun f => if f.P.D then
        f |> (fun f => { f with value16 := (f.value16 + ((((((f.value16 + 0x66) ^^^ f.A) ^^^ f.value8) >>> 3) &&& 0x22) * 3)) % 65536 })
      else f)
    |> (fun f => { f with P := { f.P with C := decide (f.value16 > 0xFF) } })
    |> (fun f => { f with A := (f.value16 &&& 0xFF) % 256 })
    |> (fun f => { f with P := { f.P with Z := decide (f.A = 0) } })
    |> (fun f => { f with P := { f.P with S := decide (f.A > 0x7F) } })
    |> (fun f => { f with cycles := f.cycles + 3 })

/-- `case 0x66 : // ZPG ROR` (line 1117). -/
def op_66 (f : Frame) : Frame :=
  f |> (fun f => f.fetch [f.PC])
    |> (fun f => { f with address := (readMem f.RAM f.PC) % 65536 })
    |> (fun f => { f with PC := (f.PC + 1) % 65536 })
    |> (fun f => f.fetch [f.address])
    |> (fun f => { f with value8 := (readMem f.RAM f.address) % 256 })
    |> (fun f => { f with value16 := ((f.value8 >>> 1) ||| (f.P.C.toNat <<< 7)) % 65536 })
    |> (fun f => { f with P := { f.P with C := decide ((f.value8 &&& 0x1) ≠ 0) } })
    |> (fun f => { f with value16 := (f.value16 &&& 0xFF) % 65536 })
    |> (fun f => f.store f.address f.value16)
    |> (fun f => { f with P := { f.P with Z := decide (f.value16 = 0) } })
    |> (fun f => { f with P := { f.P with S := decide (f.value16 > 0x7F) } })
    |> (fun f => { f with cycles := f.cycles + 5 })

/-- `case 0x67 : // ZPG RMB` (line 1130). -/
def op_67 (f : Frame) : Frame :=
  f |> (fun f => f.fetch [f.PC])
    |> (fun f => { f with address := (readMem f.RAM f.PC) % 65536 })
    |> (fun f => { f with PC := (f.PC + 1) % 65536 })
    |> (fun f => f.fetch [f.address])
    |> (fun f => f.store f.address ((readMem f.RAM f.address) &&& (not32 64)))
    |> (fun f => { f with cycles := f.cycles + 5 })

/-- `case 0x68 : // IMP PLA` (line 1137). -/
def op_68 (f : Frame) : Frame :=
  f |> (fun f => { f with SP := (f.SP + 1) % 256 })
    |> (fun f => f.fetch [0x100 + f.SP])
    |> (fun f => { f with A := (readMem f.RAM (0x100 + f.SP)) % 256 })
    |> (fun f => { f with P := { f.P with Z := decide (f.A = 0) } })
    |> (fun f => { f with P := { f.P with S := decide (f.A > 0x7F) } })
    |> (fun f => { f with cycles := f.cycles + 4 })

/-- `case 0x69 : // IMM ADC` (line 1145). -/
def op_69 (f : Frame) : Frame :=
  f |> (fun f => f.fetch [f.PC])
    |> (fun f => { f with value8 := (readMem f.RAM f.PC) % 256 })
    |> (fun f => { f with PC := (f.PC + 1) % 65536 })
    |> (fun f => { f with value16 := ((f.A + f.value8) + f.P.C.toNat) % 65536 })
    |> (fun f => { f with P := { f.P with V := decide ((((f.value16 ^^^ f.A) &&& (f.value16 ^^^ f.value8)) &&& 0x0080) ≠ 0) } })
    |> (fun f => if f.P.D then
        f |> (fun f => { f with value16 := (f.value16 + ((((((f.value16 + 0x66) ^^^ f.A) ^^^ f.value8) >>> 3) &&& 0x22) * 3)) % 65536 })
      else f)
    |> (fun f => { f with P := { f.P with C := decide (f.value16 > 0xFF) } })
    |> (fun f => { f with A := (f.value16 &&& 0xFF) % 256 })
    |> (fun f => { f with P := { f.P with Z := decide (f.A = 0) } })
    |> (fun f => { f with P := { f.P with S := decide (f.A > 0x7F) } })
    |> (fun f => { f with cycles := f.cycles + 2 })

/-- `case 0x6A : // ACC ROR` (line 1159). -/
def op_6A (f : Frame) : Frame :=
  f |> (fun f => { f with value16 := ((f.A >>> 1) ||| (f.P.C.toNat <<< 7)) % 65536 })
    |> (fun f => { f with P := { f.P with C := decide ((f.A &&& 0x1) ≠ 0) } })
    |> (fun f => { f with A := (f.value16 &&& 0xFF) % 256 })
    |> (fun f => { f with P := { f.P with Z := decide (f.A = 0) } })
    |> (fun f => { f with P := { f.P with S := decide (f.A > 0x7F) } })
    |> (fun f => { f with cycles := f.cycles + 2 })

/-- `case 0x6B : // IMP NOP` (line 1168). -/
def op_6B (f : Frame) : Frame :=
  f |> (fun f => { f with cycles := f.cycles + 1 })

/-- `case 0x6C : // IND JMP` (line 1172). -/
def op_6C (f : Frame) : Frame :=
  f |> (fun f => f.fetch [f.PC, f.PC + 1])
    |> (fun f => { f with address := ((readMem f.RAM f.PC) ||| ((readMem f.RAM (f.PC + 1)) <<< 8)) % 65536 })
    |> (fun f => f.fetch [f.address, f.address + 1])
    |> (fun f => { f with PC := ((readMem f.RAM f.address) ||| ((readMem f.RAM (f.address + 1)) <<< 8)) % 65536 })
    |> (fun f => { f with cycles := f.cycles + 5 })

/-- `case 0x6D : // ABS ADC` (line 1178). -/
def op_6D (f : Frame) : Frame :=
  f |> (fun f => f.fetch [f.PC])
    |> (fun f => { f with address := (readMem f.RAM f.PC) % 65536 })
    |> (fun f => { f with PC := (f.PC + 1) % 65536 })
    |> (fun f => f.fetch [f.PC])
    |> (fun f => { f with address := (f.address ||| ((readMem f.RAM f.PC) <<< 8)) % 65536 })
    |> (fun f => { f with PC := (f.PC + 1) % 65536 })
    |> (fun f => f.fetch [f.address])
    |> (fun f => { f with value8 := (readMem f.RAM f.address) % 256 })
    |> (fun f => { f with value16 := ((f.A + f.value8) + f.P.C.toNat) % 65536 })
    |> (fun f => { f with P := { f.P with V := decide ((((f.value16 ^^^ f.A) &&& (f.value16 ^^^ f.value8)) &&& 0x0080) ≠ 0) } })
    |> (fun f => if f.P.D then
        f |> (fun f => { f with value16 := (f.value16 + ((((((f.value16 + 0x66) ^^^ f.A) ^^^ f.value8) >>> 3) &&& 0x22) * 3)) % 65536 })
      else f)
    |> (fun f => { f with P := { f.P with C := decide (f.value16 > 0xFF) } })
    |> (fun f => { f with A := (f.value16 &&& 0xFF) % 256 })
    |> (fun f => { f with P := { f.P with Z := decide (f.A = 0) } })
    |> (fun f => { f with P := { f.P with S := decide (f.A > 0x7F) } })
    |> (fun f => { f with cycles := f.cycles + 4 })

/-- `case 0x6E : // ABS ROR` (line 1195). -/
def op_6E (f : Frame) : Frame :=
  f |> (fun f => f.fetch [f.PC])
    |> (fun f => { f with address := (readMem f.RAM f.PC) % 65536 })
    |> (fun f => { f with PC := (f.PC + 1) % 65536 })
    |> (fun f => f.fetch [f.PC])
    |> (fun f => { f with address := (f.address ||| ((readMem f.RAM f.PC) <<< 8)) % 65536 })
    |> (fun f => { f with PC := (f.PC + 1) % 65536 })
    |> (fun f => f.fetch [f.address])
    |> (fun f => { f with value8 := (readMem f.RAM f.address) % 256 })
    |> (fun f => { f with value16 := ((f.value8 >>> 1) ||| (f.P.C.toNat <<< 7)) % 65536 })
    |> (fun f => { f with P := { f.P with C := decide ((f.value8 &&& 0x1) ≠ 0) } })
    |> (fun f => { f with value16 := (f.value16 &&& 0xFF) % 65536 })
    |> (fun f => f.store f.address f.value16)
    |> (fun f => { f with P := { f.P with Z := decide (f.value16 = 0) } })
    |> (fun f => { f with P := { f.P with S := decide (f.value16 > 0x7F) } })
    |> (fun f => { f with cycles := f.cycles + 6 })

/-- `case 0x6F : // ZPR BBR` (line 1210). -/
def op_6F (f : Frame) : Frame :=
  f |> (fun f => f.fetch [f.PC, readMem f.RAM f.PC])
    |> (fun f => { f with value8 := (readMem f.RAM (readMem f.RAM f.PC)) % 256 })
    |> (fun f => { f with PC := (f.PC + 1) % 65536 })
    |> (fun f => f.fetch [f.PC])
    |> (fun f => { f with address := (readMem f.RAM f.PC) % 65536 })
    |> (fun f => { f with PC := (f.PC + 1) % 65536 })
    |> (fun f => if (f.address &&& SIGN) ≠ 0 then
        f |> (fun f => { f with address := (f.address ||| 0xFF00) % 65536 })
      else f)
    |> (fun f => if (f.value8 &&& 64) = 0 then
        f |> (fun f => { f with PC := (f.PC + f.address) % 65536 })
      else f)
    |> (fun f => { f with cycles := f.cycles + 5 })

/-- `case 0x70 : // REL BVS` (line 1222). -/
def op_70 (f : Frame) : Frame :=
  f |> (fun f => f.fetch [f.PC])
    |> (fun f => { f with address := (readMem f.RAM f.PC) % 65536 })
    |> (fun f => { f with PC := (f.PC + 1) % 65536 })
    |> (fun f => if f.P.V then
        f |> (fun f => { f with cycles := f.cycles + 1 })
          |> (fun f => if (((f.PC &&& 0xFF) + f.address) &&& 0xFF00) ≠ 0 then
              f |> (fun f => { f with cycles := f.cycles + 1 })
            else f)
          |> (fun f => if (f.address &&& SIGN) ≠ 0 then
              f |> (fun f => { f with address := (f.address ||| 0xFF00) % 65536 })
            else f)
          |> (fun f => { f with PC := (f.PC + f.address) % 65536 })
      else f)
    |> (fun f => { f with cycles := f.cycles + 2 })

/-- `case 0x71 : // IZY ADC` (line 1236). -/
def op_71 (f : Frame) : Frame :=
  f |> (fun f => f.fetch [f.PC])
    |> (fun f => { f with value8 := (readMem f.RAM f.PC) % 256 })
    |> (fun f => { f with PC := (f.PC + 1) % 65536 })
    |> (fun f => f.fetch [f.value8])
    |> (fun f => { f with address := (readMem f.RAM f.value8) % 65536 })
    |> (fun f => if ((f.address + f.Y) &&& 0xFF00) ≠ 0 then
        f |> (fun f => { f with cycles := f.cycles + 1 })
      else f)
    |> (fun f => { f with value8 := (f.value8 + 1) % 256 })
    |> (fun f => f.fetch [f.value8])
    |> (fun f => { f with address := (f.address ||| ((readMem f.RAM f.value8) <<< 8)) % 65536 })
    |> (fun f => { f with address := (f.address + f.Y) % 65536 })
    |> (fun f => f.fetch [f.address])
    |> (fun f => { f with value8 := (readMem f.RAM f.address) % 256 })
    |> (fun f => { f with value16 := ((f.A + f.value8) + f.P.C.toNat) % 65536 })
    |> (fun f => { f with P := { f.P with V := decide ((((f.value16 ^^^ f.A) &&& (f.value16 ^^^ f.value8)) &&& 0x0080) ≠ 0) } })
    |> (fun f => if f.P.D then
        f |> (fun f => { f with value16 := (f.value16 + ((((((f.value16 + 0x66) ^^^ f.A) ^^^ f.value8) >>> 3) &&& 0x22) * 3)) % 65536 })
      else f)
    |> (fun f => { f with P := { f.P with C := decide (f.value16 > 0xFF) } })
    |> (fun f => { f with A := (f.value16 &&& 0xFF) % 256 })
    |> (fun f => { f with P := { f.P with Z := decide (f.A = 0) } })
    |> (fun f => { f with P := { f.P with S := decide (f.A > 0x7F) } })
    |> (fun f => { f with cycles := f.cycles + 5 })

/-- `case 0x72 : // IZP ADC` (line 1257). -/
def op_72 (f : Frame) : Frame :=
  f |> (fun f => f.fetch [f.PC])
    |> (fun f => { f with value8 := (readMem f.RAM f.PC) % 256 })
    |> (fun f => { f with PC := (f.PC + 1) % 65536 })
    |> (fun f => f.fetch [f.value8])
    |> (fun f => { f with address := (readMem f.RAM f.value8) % 65536 })
    |> (fun f => { f with value8 := (f.value8 + 1) % 256 })
    |> (fun f => f.fetch [f.value8])
    |> (fun f => { f with address := (f.address ||| ((readMem f.RAM f.value8) <<< 8)) % 65536 })
    |> (fun f => f.fetch [f.address])
    |> (fun f => { f with value8 := (readMem f.RAM f.address) % 256 })
    |> (fun f => { f with value16 := ((f.A + f.value8) + f.P.C.toNat) % 65536 })
    |> (fun f => { f with P := { f.P with V := decide ((((f.value16 ^^^ f.A) &&& (f.value16 ^^^ f.value8)) &&& 0x0080) ≠ 0) } })
    |> (fun f => if f.P.D then
        f |> (fun f => { f with value16 := (f.value16 + ((((((f.value16 + 0x66) ^^^ f.A) ^^^ f.value8) >>> 3) &&& 0x22) * 3)) % 65536 })
      else f)
    |> (fun f => { f with P := { f.P with C := decide (f.value16 > 0xFF) } })
    |> (fun f => { f with A := (f.value16 &&& 0xFF) % 256 })
    |> (fun f => { f with P := { f.P with Z := decide (f.A = 0) } })
    |> (fun f => { f with P := { f.P with S := decide (f.A > 0x7F) } })
    |> (fun f => { f with cycles := f.cycles + 5 })

/-- `case 0x73 : // IMP NOP` (line 1275). -/
def op_73 (f : Frame) : Frame :=
  f |> (fun f => { f with cycles := f.cycles + 1 })

/-- `case 0x74 : // ZPX STZ` (line 1279). -/
def op_74 (f : Frame) : Frame :=
  f |> (fun f => f.fetch [f.PC])
    |> (fun f => { f with value8 := ((readMem f.RAM f.PC) + f.X) % 256 })
    |> (fun f => { f with PC := (f.PC + 1) % 65536 })
    |> (fun f => f.store f.value8 0x00)
    |> (fun f => { f with cycles := f.cycles + 4 })

/-- `case 0x75 : // ZPX ADC` (line 1286). -/
def op_75 (f : Frame) : Frame :=
  f |> (fun f => f.fetch [f.PC])
    |> (fun f => { f with address := (((readMem f.RAM f.PC) + f.X) &&& 0xFF) % 65536 })
    |> (fun f => { f with PC := (f.PC + 1) % 65536 })
    |> (fun f => f.fetch [f.address])
    |> (fun f => { f with value8 := (readMem f.RAM f.address) % 256 })
    |> (fun f => { f with value16 := ((f.A + f.value8) + f.P.C.toNat) % 65536 })
    |> (fun f => { f with P := { f.P with V := decide ((((f.value16 ^^^ f.A) &&& (f.value16 ^^^ f.value8)) &&& 0x0080) ≠ 0) } })
    |> (fun f => if f.P.D then
        f |> (fun f => { f with value16 := (f.value16 + ((((((f.value16 + 0x66) ^^^ f.A) ^^^ f.value8) >>> 3) &&& 0x22) * 3)) % 65536 })
      else f)
    |> (fun f => { f with P := { f.P with C := decide (f.value16 > 0xFF) } })
    |> (fun f => { f with A := (f.value16 &&& 0xFF) % 256 })
    |> (fun f => { f with P := { f.P with Z := decide (f.A = 0) } })
    |> (fun f => { f with P := { f.P with S := decide (f.A > 0x7F) } })
    |> (fun f => { f with cycles := f.cycles + 4 })

/-- `case 0x76 : // ZPX ROR` (line 1301). -/
def op_76 (f : Frame) : Frame :=
  f |> (fun f => f.fetch [f.PC])
    |> (fun f => { f with address := (((readMem f.RAM f.PC) + f.X) &&& 0xFF) % 65536 })
    |> (fun f => { f with PC := (f.PC + 1) % 65536 })
    |> (fun f => f.fetch [f.address])
    |> (fun f => { f with value8 := (readMem f.RAM f.address) % 256 })
    |> (fun f => { f with value16 := ((f.value8 >>> 1) ||| (f.P.C.toNat <<< 7)) % 65536 })
    |> (fun f => { f with P := { f.P with C := decide ((f.value8 &&& 0x1) ≠ 0) } })
    |> (fun f => { f with value16 := (f.value16 &&& 0xFF) % 65536 })
    |> (fun f => f.store f.address f.value16)
    |> (fun f => { f with P := { f.P with Z := decide (f.value16 = 0) } })
    |> (fun f => { f with P := { f.P with S := decide (f.value16 > 0x7F) } })
    |> (fun f => { f with cycles := f.cycles + 6 })

/-- `case 0x77 : // ZPG RMB` (line 1314). -/
def op_77 (f : Frame) : Frame :=
  f |> (fun f => f.fetch [f.PC])
    |> (fun f => { f with address := (readMem f.RAM f.PC) % 65536 })
    |> (fun f => { f with PC := (f.PC + 1) % 65536 })
    |> (fun f => f.fetch [f.address])
    |> (fun f => f.store f.address ((readMem f.RAM f.address) &&& (not32 128)))
    |> (fun f => { f with cycles := f.cycles + 5 })

/-- `case 0x78 : // IMP SEI` (line 1321). -/
def op_78 (f : Frame) : Frame :=
  f |> (fun f => { f with P := { f.P with I := true } })
    |> (fun f => { f with cycles := f.cycles + 2 })

/-- `case 0x79 : // ABY ADC` (line 1326). -/
def op_79 (f : Frame) : Frame :=
  f |> (fun f => f.fetch [f.PC])
    |> (fun f => if (((readMem f.RAM f.PC) + f.Y) &&& 0xFF00) ≠ 0 then
        f |> (fun f => { f with cycles := f.cycles + 1 })
      else f)
    |> (fun f => f.fetch [f.PC])
    |> (fun f => { f with address := (readMem f.RAM f.PC) % 65536 })
    |> (fun f => { f with PC := (f.PC + 1) % 65536 })
    |> (fun f => f.fetch [f.PC])
    |> (fun f => { f with address := (f.address ||| ((readMem f.RAM f.PC) <<< 8)) % 65536 })
    |> (fun f => { f with PC := (f.PC + 1) % 65536 })
    |> (fun f => { f with address := (f.address + f.Y) % 65536 })
    |> (fun f => f.fetch [f.address])
    |> (fun f => { f with value8 := (readMem f.RAM f.address) % 256 })
    |> (fun f => { f with value16 := ((f.A + f.value8) + f.P.C.toNat) % 65536 })
    |> (fun f => { f with P := { f.P with V := decide ((((f.value16 ^^^ f.A) &&& (f.value16 ^^^ f.value8)) &&& 0x0080) ≠ 0) } })
    |> (fun f => if f.P.D then
        f |> (fun f => { f with value16 := (f.value16 + ((((((f.value16 + 0x66) ^^^ f.A) ^^^ f.value8) >>> 3) &&& 0x22) * 3)) % 65536 })
      else f)
    |> (fun f => { f with P := { f.P with C := decide (f.value16 > 0xFF) } })
    |> (fun f => { f with A := (f.value16 &&& 0xFF) % 256 })
    |> (fun f => { f with P := { f.P with Z := decide (f.A = 0) } })
    |> (fun f => { f with P := { f.P with S := decide (f.A > 0x7F) } })
    |> (fun f => { f with cycles := f.cycles + 4 })

/-- `case 0x7A : // IMP PLY` (line 1346). -/
def op_7A (f : Frame) : Frame :=
  f |> (fun f => { f with SP := (f.SP + 1) % 256 })
    |> (fun f => f.fetch [0x100 + f.SP])
    |> (fun f => { f with Y := (readMem f.RAM (0x100 + f.SP)) % 256 })
    |> (fun f => { f with P := { f.P with Z := decide (f.Y = 0) } })
    |> (fun f => { f with P := { f.P with S := decide (f.Y > 0x7F) } })
    |> (fun f => { f with cycles := f.cycles + 4 })

/-- `case 0x7B : // IMP NOP` (line 1354). -/
def op_7B (f : Frame) : Frame :=
  f |> (fun f => { f with cycles := f.cycles + 1 })

/-- `case 0x7C : // IAX JMP` (line 1358). -/
def op_7C (f : Frame) : Frame :=
  f |> (fun f => { f with cycles := f.cycles + (if ((f.PC &&& 0xFF) + f.X) > 0xFF then 7 else 6) })
    |> (fun f => f.fetch [(f.PC + 1) &&& 0xFFFF, f.PC])
    |> (fun f => { f with address := ((((readMem f.RAM ((f.PC + 1) &&& 0xFFFF)) <<< 8) + (readMem f.RAM f.PC)) + f.X) % 65536 })
    |> (fun f => f.fetch [f.address, (f.address + 1) &&& 0xFFFF])
    |> (fun f => { f with PC := ((readMem f.RAM f.address) ||| ((readMem f.RAM ((f.address + 1) &&& 0xFFFF)) <<< 8)) % 65536 })

/-- `case 0x7D : // ABX ADC` (line 1364). -/
def op_7D (f : Frame) : Frame :=
  f |> (fun f => f.fetch [f.PC])
    |> (fun f => if (((readMem f.RAM f.PC) + f.X) &&& 0xFF00) ≠ 0 then
        f |> (fun f => { f with cycles := f.cycles + 1 })
      else f)
    |> (fun f => f.fetch [f.PC])
    |> (fun f => { f with address := (readMem f.RAM f.PC) % 65536 })
    |> (fun f => { f with PC := (f.PC + 1) % 65536 })
    |> (fun f => f.fetch [f.PC])
    |> (fun f => { f with address := (f.address ||| ((readMem f.RAM f.PC) <<< 8)) % 65536 })
    |> (fun f => { f with PC := (f.PC + 1) % 65536 })
    |> (fun f => { f with address := (f.address + f.X) % 65536 })
    |> (fun f => f.fetch [f.address])
    |> (fun f => { f with value8 := (readMem f.RAM f.address) % 256 })
    |> (fun f => { f with value16 := ((f.A + f.value8) + f.P.C.toNat) % 65536 })
    |> (fun f => { f with P := { f.P with V := decide ((((f.value16 ^^^ f.A) &&& (f.value16 ^^^ f.value8)) &&& 0x0080) ≠ 0) } })
    |> (fun f => if f.P.D then
        f |> (fun f => { f with value16 := (f.value16 + ((((((f.value16 + 0x66) ^^^ f.A) ^^^ f.value8) >>> 3) &&& 0x22) * 3)) % 65536 })
      else f)
    |> (fun f => { f with P := { f.P with C := decide (f.value16 > 0xFF) } })
    |> (fun f => { f with A := (f.value16 &&& 0xFF) % 256 })
    |> (fun f => { f with P := { f.P with Z := decide (f.A = 0) } })
    |> (fun f => { f with P := { f.P with S := decide (f.A > 0x7F) } })
    |> (fun f => { f with cycles := f.cycles + 4 })

/-- `case 0x7E : // ABX ROR` (line 1384). -/
def op_7E (f : Frame) : Frame :=
  f |> (fun f => f.fetch [f.PC])
    |> (fun f => { f with address := (readMem f.RAM f.PC) % 65536 })
    |> (fun f => { f with PC := (f.PC + 1) % 65536 })
    |> (fun f => { f with cycles := f.cycles + (if (f.address + f.X) > 0xFF then 7 else 6) })
    |> (fun f => f.fetch [f.PC])
    |> (fun f => { f with address := (f.address ||| ((readMem f.RAM f.PC) <<< 8)) % 65536 })
    |> (fun f => { f with PC := (f.PC + 1) % 65536 })
    |> (fun f => { f with address := (f.address + f.X) % 65536 })
    |> (fun f => f.fetch [f.address])
    |> (fun f => { f with value8 := (readMem f.RAM f.address) % 256 })
    |> (fun f => { f with value16 := ((f.value8 >>> 1) ||| (f.P.C.toNat <<< 7)) % 65536 })
    |> (fun f => { f with P := { f.P with C := decide ((f.value8 &&& 0x1) ≠ 0) } })
    |> (fun f => { f with value16 := (f.value16 &&& 0xFF) % 65536 })
    |> (fun f => f.store f.address f.value16)
    |> (fun f => { f with P := { f.P with Z := decide (f.value16 = 0) } })
    |> (fun f => { f with P := { f.P with S := decide (f.value16 > 0x7F) } })

/-- `case 0x7F : // ZPR BBR` (line 1400). -/
def op_7F (f : Frame) : Frame :=
  f |> (fun f => f.fetch [f.PC, readMem f.RAM f.PC])
    |> (fun f => { f with value8 := (readMem f.RAM (readMem f.RAM f.PC)) % 256 })
    |> (fun f => { f with PC := (f.PC + 1) % 65536 })
    |> (fun f => f.fetch [f.PC])
    |> (fun f => { f with address := (readMem f.RAM f.PC) % 65536 })
    |> (fun f => { f with PC := (f.PC + 1) % 65536 })
    |> (fun f => if (f.address &&& SIGN) ≠ 0 then
        f |> (fun f => { f with address := (f.address ||| 0xFF00) % 65536 })
      else f)
    |> (fun f => if (f.value8 &&& 128) = 0 then
        f |> (fun f => { f with PC := (f.PC + f.address) % 65536 })
      else f)
    |> (fun f => { f with cycles := f.cycles + 5 })

/-- `case 0x80 : // REL BRA` (line 1412). -/
def op_80 (f : Frame) : Frame :=
  f |> (fun f => f.fetch [f.PC])
    |> (fun f => { f with address := (readMem f.RAM f.PC) % 65536 })
    |> (fun f => { f with PC := (f.PC + 1) % 65536 })
    |> (fun f => if (f.address &&& SIGN) ≠ 0 then
        f |> (fun f => { f with address := (f.address ||| 0xFF00) % 65536 })
      else f)
    |> (fun f => { f with cycles := f.cycles + (if (((f.PC &&& 0xFF) + f.address) &&& 0xFF00) ≠ 0 then 4 else 3) })
    |> (fun f => { f with PC := (f.PC + f.address) % 65536 })

/-- `case 0x81 : // IZX STA` (line 1421). -/
def op_81 (f : Frame) : Frame :=
  f |> (fun f => f.fetch [f.PC])
    |> (fun f => { f with value8 := ((readMem f.RAM f.PC) + f.X) % 256 })
    |> (fun f => { f with PC := (f.PC + 1) % 65536 })
    |> (fun f => f.fetch [f.value8])
    |> (fun f => { f with address := (readMem f.RAM f.value8) % 65536 })
    |> (fun f => { f with value8 := (f.value8 + 1) % 256 })
    |> (fun f => f.fetch [f.value8])
    |> (fun f => { f with address := (f.address ||| ((readMem f.RAM f.value8) <<< 8)) % 65536 })
    |> (fun f => f.store f.address f.A)
    |> (fun f => { f with cycles := f.cycles + 6 })

/-- `case 0x82 : // IMM NOP` (line 1431). -/
def op_82 (f : Frame) : Frame :=
  f |> (fun f => { f with PC := (f.PC + 1) % 65536 })
    |> (fun f => { f with cycles := f.cycles + 2 })

/-- `case 0x83 : // IMP NOP` (line 1436). -/
def op_83 (f : Frame) : Frame :=
  f |> (fun f => { f with cycles := f.cycles + 1 })

/-- `case 0x84 : // ZPG STY` (line 1440). -/
def op_84 (f : Frame) : Frame :=
  f |> (fun f => f.fetch [f.PC])
    |> (fun f => f.store (readMem f.RAM f.PC) f.Y)
    |> (fun f => { f with PC := (f.PC + 1) % 65536 })
    |> (fun f => { f with cycles := f.cycles + 3 })

/-- `case 0x85 : // ZPG STA` (line 1446). -/
def op_85 (f : Frame) : Frame :=
  f |> (fun f => f.fetch [f.PC])
    |> (fun f => f.store (readMem f.RAM f.PC) f.A)
    |> (fun f => { f with PC := (f.PC + 1) % 65536 })
    |> (fun f => { f with cycles := f.cycles + 3 })

/-- `case 0x86 : // ZPG STX` (line 1452). -/
def op_86 (f : Frame) : Frame :=
  f |> (fun f => f.fetch [f.PC])
    |> (fun f => f.store (readMem f.RAM f.PC) f.X)
    |> (fun f => { f with PC := (f.PC + 1) % 65536 })
    |> (fun f => { f with cycles := f.cycles + 3 })

/-- `case 0x87 : // ZPG SMB` (line 1458). -/
def op_87 (f : Frame) : Frame :=
  f |> (fun f => f.fetch [f.PC])
    |> (fun f => { f with address := (readMem f.RAM f.PC) % 65536 })
    |> (fun f => { f with PC := (f.PC + 1) % 65536 })
    |> (fun f => f.fetch [f.address])
    |> (fun f => f.store f.address ((readMem f.RAM f.address) ||| 1))
    |> (fun f => { f with cycles := f.cycles + 5 })

/-- `case 0x88 : // IMP DEY` (line 1465). -/
def op_88 (f : Frame) : Frame :=
  f |> (fun f => { f with Y := (sub32 f.Y 1) % 256 })
    |> (fun f => { f with P := { f.P with Z := decide ((f.Y &&& 0xFF) = 0) } })
    |> (fun f => { f with P := { f.P with S := decide ((f.Y &&& SIGN) ≠ 0) } })
    |> (fun f => { f with cycles := f.cycles + 2 })

/-- `case 0x89 : // IMM BIT` (line 1472). -/
def op_89 (f : Frame) : Frame :=
  f |> (fun f => f.fetch [f.PC])
    |> (fun f => { f with P := { f.P with Z := decide ((f.A &&& (readMem f.RAM f.PC)) = 0) } })
    |> (fun f => { f with PC := (f.PC + 1) % 65536 })
    |> (fun f => { f with cycles := f.cycles + 2 })

/-- `case 0x8A : // IMP TXA` (line 1478). -/
def op_8A (f : Frame) : Frame :=
  f |> (fun f => { f with A := f.X % 256 })
    |> (fun f => { f with P := { f.P with Z := decide (f.A = 0) } })
    |> (fun f => { f with P := { f.P with S := decide (f.A > 0x7F) } })
    |> (fun f => { f with cycles := f.cycles + 2 })

/-- `case 0x8B : // IMP NOP` (line 1485). -/
def op_8B (f : Frame) : Frame :=
  f |> (fun f => { f with cycles := f.cycles + 1 })

/-- `case 0x8C : // ABS STY` (line 1489). -/
def op_8C (f : Frame) : Frame :=
  f |> (fun f => f.fetch [f.PC])
    |> (fun f => { f with address := (readMem f.RAM f.PC) % 65536 })
    |> (fun f => { f with PC := (f.PC + 1) % 65536 })
    |> (fun f => f.fetch [f.PC])
    |> (fun f => { f with address := (f.address ||| ((readMem f.RAM f.PC) <<< 8)) % 65536 })
    |> (fun f => { f with PC := (f.PC + 1) % 65536 })
    |> (fun f => f.store f.address f.Y)
    |> (fun f => { f with cycles := f.cycles + 4 })

/-- `case 0x8D : // ABS STA` (line 1498). -/
def op_8D (f : Frame) : Frame :=
  f |> (fun f => f.fetch [f.PC])
    |> (fun f => { f with address := (readMem f.RAM f.PC) % 65536 })
    |> (fun f => { f with PC := (f.PC + 1) % 65536 })
    |> (fun f => f.fetch [f.PC])
    |> (fun f => { f with address := (f.address ||| ((readMem f.RAM f.PC) <<< 8)) % 65536 })
    |> (fun f => { f with PC := (f.PC + 1) % 65536 })
    |> (fun f => f.store f.address f.A)
    |> (fun f => { f with cycles := f.cycles + 4 })

/-- `case 0x8E : // ABS STX` (line 1507). -/
def op_8E (f : Frame) : Frame :=
  f |> (fun f => f.fetch [f.PC])
    |> (fun f => { f with address := (readMem f.RAM f.PC) % 65536 })
    |> (fun f => { f with PC := (f.PC + 1) % 65536 })
    |> (fun f => f.fetch [f.PC])
    |> (fun f => { f with address := (f.address ||| ((readMem f.RAM f.PC) <<< 8)) % 65536 })
    |> (fun f => { f with PC := (f.PC + 1) % 65536 })
    |> (fun f => f.store f.address f.X)
    |> (fun f => { f with cycles := f.cycles + 4 })

/-- `case 0x8F : // ZPR BBS` (line 1516). -/
def op_8F (f : Frame) : Frame :=
  f |> (fun f => f.fetch [f.PC, readMem f.RAM f.PC])
    |> (fun f => { f with value8 := (readMem f.RAM (readMem f.RAM f.PC)) % 256 })
    |> (fun f => { f with PC := (f.PC + 1) % 65536 })
    |> (fun f => f.fetch [f.PC])
    |> (fun f => { f with address := (readMem f.RAM f.PC) % 65536 })
    |> (fun f => { f with PC := (f.PC + 1) % 65536 })
    |> (fun f => if (f.address &&& SIGN) ≠ 0 then
        f |> (fun f => { f with address := (f.address ||| 0xFF00) % 65536 })
      else f)
    |> (fun f => if (f.value8 &&& 1) ≠ 0 then
        f |> (fun f => { f with PC := (f.PC + f.address) % 65536 })
      else f)
    |> (fun f => { f with cycles := f.cycles + 5 })

/-- `case 0x90 : // REL BCC` (line 1528). -/
def op_90 (f : Frame) : Frame :=
  f |> (fun f => f.fetch [f.PC])
    |> (fun f => { f with address := (readMem f.RAM f.PC) % 65536 })
    |> (fun f => { f with PC := (f.PC + 1) % 65536 })
    |> (fun f => if !f.P.C then
        f |> (fun f => { f with cycles := f.cycles + 1 })
          |> (fun f => if (((f.PC &&& 0xFF) + f.address) &&& 0xFF00) ≠ 0 then
              f |> (fun f => { f with cycles := f.cycles + 1 })
            else f)
          |> (fun f => if (f.address &&& SIGN) ≠ 0 then
              f |> (fun f => { f with address := (f.address ||| 0xFF00) % 65536 })
            else f)
          |> (fun f => { f with PC := (f.PC + f.address) % 65536 })
      else f)
    |> (fun f => { f with cycles := f.cycles + 2 })

/-- `case 0x91 : // IZY STA` (line 1542). -/
def op_91 (f : Frame) : Frame :=
  f |> (fun f => f.fetch [f.PC])
    |> (fun f => { f with value8 := (readMem f.RAM f.PC) % 256 })
    |> (fun f => { f with PC := (f.PC + 1) % 65536 })
    |> (fun f => f.fetch [f.value8])
    |> (fun f => { f with address := (readMem f.RAM f.value8) % 65536 })
    |> (fun f => { f with value8 := (f.value8 + 1) % 256 })
    |> (fun f => f.fetch [f.value8])
    |> (fun f => { f with address := (f.address ||| ((readMem f.RAM f.value8) <<< 8)) % 65536 })
    |> (fun f => { f with address := (f.address + f.Y) % 65536 })
    |> (fun f => f.store f.address f.A)
    |> (fun f => { f with cycles := f.cycles + 6 })

/-- `case 0x92 : // IZP STA` (line 1553). -/
def op_92 (f : Frame) : Frame :=
  f |> (fun f => f.fetch [f.PC])
    |> (fun f => { f with value8 := (readMem f.RAM f.PC) % 256 })
    |> (fun f => { f with PC := (f.PC + 1) % 65536 })
    |> (fun f => f.fetch [f.value8])
    |> (fun f => { f with address := (readMem f.RAM f.value8) % 65536 })
    |> (fun f => { f with value8 := (f.value8 + 1) % 256 })
    |> (fun f => f.fetch [f.value8])
    |> (fun f => { f with address := (f.address ||| ((readMem f.RAM f.value8) <<< 8)) % 65536 })
    |> (fun f => f.store f.address f.A)
    |> (fun f => { f with cycles := f.cycles + 5 })

/-- `case 0x93 : // IMP NOP` (line 1563). -/
def op_93 (f : Frame) : Frame :=
  f |> (fun f => { f with cycles := f.cycles + 1 })

/-- `case 0x94 : // ZPX STY` (line 1567). -/
def op_94 (f : Frame) : Frame :=
  f |> (fun f => f.fetch [f.PC])
    |> (fun f => { f with address := (((readMem f.RAM f.PC) + f.X) &&& 0xFF) % 65536 })
    |> (fun f => { f with PC := (f.PC + 1) % 65536 })
    |> (fun f => f.store f.address f.Y)
    |> (fun f => { f with cycles := f.cycles + 4 })

/-- `case 0x95 : // ZPX STA` (line 1574). -/
def op_95 (f : Frame) : Frame :=
  f |> (fun f => f.fetch [f.PC])
    |> (fun f => f.store (((readMem f.RAM f.PC) + f.X) &&& 0xFF) f.A)
    |> (fun f => { f with PC := (f.PC + 1) % 65536 })
    |> (fun f => { f with cycles := f.cycles + 4 })

/-- `case 0x96 : // ZPY STX` (line 1580). -/
def op_96 (f : Frame) : Frame :=
  f |> (fun f => f.fetch [f.PC])
    |> (fun f => f.store (((readMem f.RAM f.PC) + f.Y) &&& 0xFF) f.X)
    |> (fun f => { f with PC := (f.PC + 1) % 65536 })
    |> (fun f => { f with cycles := f.cycles + 4 })

/-- `case 0x97 : // ZPG SMB` (line 1586). -/
def op_97 (f : Frame) : Frame :=
  f |> (fun f => f.fetch [f.PC])
    |> (fun f => { f with address := (readMem f.RAM f.PC) % 65536 })
    |> (fun f => { f with PC := (f.PC + 1) % 65536 })
    |> (fun f => f.fetch [f.address])
    |> (fun f => f.store f.address ((readMem f.RAM f.address) ||| 2))
    |> (fun f => { f with cycles := f.cycles + 5 })

/-- `case 0x98 : // IMP TYA` (line 1593). -/
def op_98 (f : Frame) : Frame :=
  f |> (fun f => { f with A := f.Y % 256 })
    |> (fun f => { f with P := { f.P with Z := decide (f.A = 0) } })
    |> (fun f => { f with P := { f.P with S := decide (f.A > 0x7F) } })
    |> (fun f => { f with cycles := f.cycles + 2 })

/-- `case 0x99 : // ABY STA` (line 1600). -/
def op_99 (f : Frame) : Frame :=
  f |> (fun f => f.fetch [f.PC])
    |> (fun f => { f with address := (readMem f.RAM f.PC) % 65536 })
    |> (fun f => { f with PC := (f.PC + 1) % 65536 })
    |> (fun f => f.fetch [f.PC])
    |> (fun f => { f with address := (f.address ||| ((readMem f.RAM f.PC) <<< 8)) % 65536 })
    |> (fun f => { f with PC := (f.PC + 1) % 65536 })
    |> (fun f => { f with address := (f.address + f.Y) % 65536 })
    |> (fun f => f.store f.address f.A)
    |> (fun f => { f with cycles := f.cycles + 5 })

/-- `case 0x9A : // IMP TXS` (line 1610). -/
def op_9A (f : Frame) : Frame :=
  f |> (fun f => { f with SP := f.X % 256 })
    |> (fun f => { f with cycles := f.cycles + 2 })

/-- `case 0x9B : // IMP NOP` (line 1615). -/
def op_9B (f : Frame) : Frame :=
  f |> (fun f => { f with cycles := f.cycles + 1 })

/-- `case 0x9C : // ABS STZ` (line 1619). -/
def op_9C (f : Frame) : Frame :=
  f |> (fun f => f.fetch [f.PC])
    |> (fun f => { f with address := (readMem f.RAM f.PC) % 65536 })
    |> (fun f => { f with PC := (f.PC + 1) % 65536 })
    |> (fun f => f.fetch [f.PC])
    |> (fun f => { f with address := (f.address ||| ((readMem f.RAM f.PC) <<< 8)) % 65536 })
    |> (fun f => { f with PC := (f.PC + 1) % 65536 })
    |> (fun f => f.store f.address 0x00)
    |> (fun f => { f with cycles := f.cycles + 4 })

/-- `case 0x9D : // ABX STA` (line 1628). -/
def op_9D (f : Frame) : Frame :=
  f |> (fun f => f.fetch [f.PC])
    |> (fun f => { f with address := (readMem f.RAM f.PC) % 65536 })
    |> (fun f => { f with PC := (f.PC + 1) % 65536 })
    |> (fun f => f.fetch [f.PC])
    |> (fun f => { f with address := (f.address ||| ((readMem f.RAM f.PC) <<< 8)) % 65536 })
    |> (fun f => { f with PC := (f.PC + 1) % 65536 })
    |> (fun f => { f with address := (f.address + f.X) % 65536 })
    |> (fun f => f.store f.address f.A)
    |> (fun f => { f with cycles := f.cycles + 5 })

/-- `case 0x9E : // ABX STZ` (line 1638). -/
def op_9E (f : Frame) : Frame :=
  f |> (fun f => f.fetch [f.PC])
    |> (fun f => { f with cycles := f.cycles + (if ((readMem f.RAM f.PC) + f.X) > 0xFF then 6 else 5) })
    |> (fun f => f.fetch [f.PC])
    |> (fun f => { f with address := (readMem f.RAM f.PC) % 65536 })
    |> (fun f => { f with PC := (f.PC + 1) % 65536 })
    |> (fun f => f.fetch [f.PC])
    |> (fun f => { f with address := (f.address ||| ((readMem f.RAM f.PC) <<< 8)) % 65536 })
    |> (fun f => { f with PC := (f.PC + 1) % 65536 })
    |> (fun f => { f with address := (f.address + f.X) % 65536 })
    |> (fun f => f.store f.address 0x00)

/-- `case 0x9F : // ZPR BBS` (line 1648). -/
def op_9F (f : Frame) : Frame :=
  f |> (fun f => f.fetch [f.PC, readMem f.RAM f.PC])
    |> (fun f => { f with value8 := (readMem f.RAM (readMem f.RAM f.PC)) % 256 })
    |> (fun f => { f with PC := (f.PC + 1) % 65536 })
    |> (fun f => f.fetch [f.PC])
    |> (fun f => { f with address := (readMem f.RAM f.PC) % 65536 })
    |> (fun f => { f with PC := (f.PC + 1) % 65536 })
    |> (fun f => if (f.address &&& SIGN) ≠ 0 then
        f |> (fun f => { f with address := (f.address ||| 0xFF00) % 65536 })
      else f)
    |> (fun f => if (f.value8 &&& 2) ≠ 0 then
        f |> (fun f => { f with PC := (f.PC + f.address) % 65536 })
      else f)
    |> (fun f => { f with cycles := f.cycles + 5 })

/-- `case 0xA0 : // IMM LDY` (line 1660). -/
def op_A0 (f : Frame) : Frame :=
  f |> (fun f => f.fetch [f.PC])
    |> (fun f => { f with Y := (readMem f.RAM f.PC) % 256 })
    |> (fun f => { f with PC := (f.PC + 1) % 65536 })
    |> (fun f => { f with P := { f.P with Z := decide (f.Y = 0) } })
    |> (fun f => { f with P := { f.P with S := decide (f.Y > 0x7F) } })
    |> (fun f => { f with cycles := f.cycles + 2 })

/-- `case 0xA1 : // IZX LDA` (line 1668). -/
def op_A1 (f : Frame) : Frame :=
  f |> (fun f => f.fetch [f.PC])
    |> (fun f => { f with value8 := ((readMem f.RAM f.PC) + f.X) % 256 })
    |> (fun f => { f with PC := (f.PC + 1) % 65536 })
    |> (fun f => f.fetch [f.value8])
    |> (fun f => { f with address := (readMem f.RAM f.value8) % 65536 })
    |> (fun f => { f with value8 := (f.value8 + 1) % 256 })
    |> (fun f => f.fetch [f.value8])
    |> (fun f => { f with address := (f.address ||| ((readMem f.RAM f.value8) <<< 8)) % 65536 })
    |> (fun f => f.fetch [f.address])
    |> (fun f => { f with A := (readMem f.RAM f.address) % 256 })
    |> (fun f => { f with P := { f.P with Z := decide (f.A = 0) } })
    |> (fun f => { f with P := { f.P with S := decide (f.A > 0x7F) } })
    |> (fun f => { f with cycles := f.cycles + 6 })

/-- `case 0xA2 : // IMM LDX` (line 1680). -/
def op_A2 (f : Frame) : Frame :=
  f |> (fun f => { f with address := f.PC % 65536 })
    |> (fun f => { f with PC := (f.PC + 1) % 65536 })
    |> (fun f => f.fetch [f.address])
    |> (fun f => { f with X := (readMem f.RAM f.address) % 256 })
    |> (fun f => { f with P := { f.P with Z := decide (f.X = 0) } })
    |> (fun f => { f with P := { f.P with S := decide (f.X > 0x7F) } })
    |> (fun f => { f with cycles := f.cycles + 2 })

/-- `case 0xA4 : // ZPG LDY` (line 1689). -/
def op_A4 (f : Frame) : Frame :=
  f |> (fun f => f.fetch [f.PC, readMem f.RAM f.PC])
    |> (fun f => { f with Y := (readMem f.RAM (readMem f.RAM f.PC)) % 256 })
    |> (fun f => { f with PC := (f.PC + 1) % 65536 })
    |> (fun f => { f with P := { f.P with Z := decide (f.Y = 0) } })
    |> (fun f => { f with P := { f.P with S := decide (f.Y > 0x7F) } })
    |> (fun f => { f with cycles := f.cycles + 3 })

/-- `case 0xA5 : // ZPG LDA` (line 1697). -/
def op_A5 (f : Frame) : Frame :=
  f |> (fun f => f.fetch [f.PC, readMem f.RAM f.PC])
    |> (fun f => { f with A := (readMem f.RAM (readMem f.RAM f.PC)) % 256 })
    |> (fun f => { f with PC := (f.PC + 1) % 65536 })
    |> (fun f => { f with P := { f.P with Z := decide (f.A = 0) } })
    |> (fun f => { f with P := { f.P with S := decide (f.A > 0x7F) } })
    |> (fun f => { f with cycles := f.cycles + 3 })

/-- `case 0xA6 : // ZPG LDX` (line 1705). -/
def op_A6 (f : Frame) : Frame :=
  f |> (fun f => f.fetch [f.PC, readMem f.RAM f.PC])
    |> (fun f => { f with X := (readMem f.RAM (readMem f.RAM f.PC)) % 256 })
    |> (fun f => { f with PC := (f.PC + 1) % 65536 })
    |> (fun f => { f with P := { f.P with Z := decide (f.X = 0) } })
    |> (fun f => { f with P := { f.P with S := decide (f.X > 0x7F) } })
    |> (fun f => { f with cycles := f.cycles + 3 })

/-- `case 0xA7 : // ZPG SMB` (line 1713). -/
def op_A7 (f : Frame) : Frame :=
  f |> (fun f => f.fetch [f.PC])
    |> (fun f => { f with address := (readMem f.RAM f.PC) % 65536 })
    |> (fun f => { f with PC := (f.PC + 1) % 65536 })
    |> (fun f => f.fetch [f.address])
    |> (fun f => f.store f.address ((readMem f.RAM f.address) ||| 4))
    |> (fun f => { f with cycles := f.cycles + 5 })

/-- `case 0xA8 : // IMP TAY` (line 1720). -/
def op_A8 (f : Frame) : Frame :=
  f |> (fun f => { f with Y := f.A % 256 })
    |> (fun f => { f with P := { f.P with Z := decide (f.Y = 0) } })
    |> (fun f => { f with P := { f.P with S := decide (f.Y > 0x7F) } })
    |> (fun f => { f with cycles := f.cycles + 2 })

/-- `case 0xA9 : // IMM LDA` (line 1727). -/
def op_A9 (f : Frame) : Frame :=
  f |> (fun f => f.fetch [f.PC])
    |> (fun f => { f with A := (readMem f.RAM f.PC) % 256 })
    |> (fun f => { f with PC := (f.PC + 1) % 65536 })
    |> (fun f => { f with P := { f.P with Z := decide (f.A = 0) } })
    |> (fun f => { f with P := { f.P with S := decide (f.A > 0x7F) } })
    |> (fun f => { f with cycles := f.cycles + 2 })

/-- `case 0xAA : // IMP TAX` (line 1735). -/
def op_AA (f : Frame) : Frame :=
  f |> (fun f => { f with X := f.A % 256 })
    |> (fun f => { f with P := { f.P with Z := decide (f.X = 0) } })
    |> (fun f => { f with P := { f.P with S := decide (f.X > 0x7F) } })
    |> (fun f => { f with cycles := f.cycles + 2 })

/-- `case 0xAB : // IMP NOP` (line 1742). -/
def op_AB (f : Frame) : Frame :=
  f |> (fun f => { f with cycles := f.cycles + 1 })

/-- `case 0xAC : // ABS LDY` (line 1746). -/
def op_AC (f : Frame) : Frame :=
  f |> (fun f => f.fetch [f.PC])
    |> (fun f => { f with address := (readMem f.RAM f.PC) % 65536 })
    |> (fun f => { f with PC := (f.PC + 1) % 65536 })
    |> (fun f => f.fetch [f.PC])
    |> (fun f => { f with address := (f.address ||| ((readMem f.RAM f.PC) <<< 8)) % 65536 })
    |> (fun f => { f with PC := (f.PC + 1) % 65536 })
    |> (fun f => f.fetch [f.address])
    |> (fun f => { f with Y := (readMem f.RAM f.address) % 256 })
    |> (fun f => { f with P := { f.P with Z := decide (f.Y = 0) } })
    |> (fun f => { f with P := { f.P with S := decide (f.Y > 0x7F) } })
    |> (fun f => { f with cycles := f.cycles + 4 })

/-- `case 0xAD : // ABS LDA` (line 1757). -/
def op_AD (f : Frame) : Frame :=
  f |> (fun f => f.fetch [f.PC])
    |> (fun f => { f with address := (readMem f.RAM f.PC) % 65536 })
    |> (fun f => { f with PC := (f.PC + 1) % 65536 })
    |> (fun f => f.fetch [f.PC])
    |> (fun f => { f with address := (f.address ||| ((readMem f.RAM f.PC) <<< 8)) % 65536 })
    |> (fun f => { f with PC := (f.PC + 1) % 65536 })
    |> (fun f => f.fetch [f.address])
    |> (fun f => { f with A := (readMem f.RAM f.address) % 256 })
    |> (fun f => { f with P := { f.P with Z := decide (f.A = 0) } })
    |> (fun f => { f with P := { f.P with S := decide (f.A > 0x7F) } })
    |> (fun f => { f with cycles := f.cycles + 4 })

/-- `case 0xAE : // ABS LDX` (line 1768). -/
def op_AE (f : Frame) : Frame :=
  f |> (fun f => f.fetch [f.PC])
    |> (fun f => { f with address := (readMem f.RAM f.PC) % 65536 })
    |> (fun f => { f with PC := (f.PC + 1) % 65536 })
    |> (fun f => f.fetch [f.PC])
    |> (fun f => { f with address := (f.address ||| ((readMem f.RAM f.PC) <<< 8)) % 65536 })
    |> (fun f => { f with PC := (f.PC + 1) % 65536 })
    |> (fun f => f.fetch [f.address])
    |> (fun f => { f with X := (readMem f.RAM f.address) % 256 })
    |> (fun f => { f with P := { f.P with Z := decide (f.X = 0) } })
    |> (fun f => { f with P := { f.P with S := decide (f.X > 0x7F) } })
    |> (fun f => { f with cycles := f.cycles + 4 })

/-- `case 0xAF : // ZPR BBS` (line 1779). -/
def op_AF (f : Frame) : Frame :=
  f |> (fun f => f.fetch [f.PC, readMem f.RAM f.PC])
    |> (fun f => { f with value8 := (readMem f.RAM (readMem f.RAM f.PC)) % 256 })
    |> (fun f => { f with PC := (f.PC + 1) % 65536 })
    |> (fun f => f.fetch [f.PC])
    |> (fun f => { f with address := (readMem f.RAM f.PC) % 65536 })
    |> (fun f => { f with PC := (f.PC + 1) % 65536 })
    |> (fun f => if (f.address &&& SIGN) ≠ 0 then
        f |> (fun f => { f with address := (f.address ||| 0xFF00) % 65536 })
      else f)
    |> (fun f => if (f.value8 &&& 4) ≠ 0 then
        f |> (fun f => { f with PC := (f.PC + f.address) % 65536 })
      else f)
    |> (fun f => { f with cycles := f.cycles + 5 })

/-- `case 0xB0 : // REL BCS` (line 1791). -/
def op_B0 (f : Frame) : Frame :=
  f |> (fun f => f.fetch [f.PC])
    |> (fun f => { f with address := (readMem f.RAM f.PC) % 65536 })
    |> (fun f => { f with PC := (f.PC + 1) % 65536 })
    |> (fun f => if f.P.C then
        f |> (fun f => { f with cycles := f.cycles + 1 })
          |> (fun f => if (f.address &&& SIGN) ≠ 0 then
              f |> (fun f => { f with address := (f.address ||| 0xFF00) % 65536 })
            else f)
          |> (fun f => if (((f.PC &&& 0xFF) + f.address) &&& 0xFF00) ≠ 0 then
              f |> (fun f => { f with cycles := f.cycles + 1 })
            else f)
          |> (fun f => { f with PC := (f.PC + f.address) % 65536 })
      else f)
    |> (fun f => { f with cycles := f.cycles + 2 })

/-- `case 0xB1 : // IZY LDA` (line 1805). -/
def op_B1 (f : Frame) : Frame :=
  f |> (fun f => f.fetch [f.PC])
    |> (fun f => { f with value8 := (readMem f.RAM f.PC) % 256 })
    |> (fun f => { f with PC := (f.PC + 1) % 65536 })
    |> (fun f => f.fetch [f.value8])
    |> (fun f => { f with address := (readMem f.RAM f.value8) % 65536 })
    |> (fun f => { f with value8 := (f.value8 + 1) % 256 })
    |> (fun f => f.fetch [f.value8])
    |> (fun f => { f with address := (f.address ||| ((readMem f.RAM f.value8) <<< 8)) % 65536 })
    |> (fun f => f.fetch [f.address + f.Y])
    |> (fun f => { f with A := (readMem f.RAM (f.address + f.Y)) % 256 })
    |> (fun f => { f with cycles := f.cycles + (if (((f.address &&& 0xFF) + f.Y) &&& 0xFF00) ≠ 0 then 6 else 5) })
    |> (fun f => { f with P := { f.P with Z := decide (f.A = 0) } })
    |> (fun f => { f with P := { f.P with S := decide (f.A > 0x7F) } })

/-- `case 0xB2 : // IZP LDA` (line 1817). -/
def op_B2 (f : Frame) : Frame :=
  f |> (fun f => f.fetch [f.PC])
    |> (fun f => { f with value8 := (readMem f.RAM f.PC) % 256 })
    |> (fun f => { f with PC := (f.PC + 1) % 65536 })
    |> (fun f => f.fetch [f.value8])
    |> (fun f => { f with address := (readMem f.RAM f.value8) % 65536 })
    |> (fun f => { f with value8 := (f.value8 + 1) % 256 })
    |> (fun f => f.fetch [f.value8])
    |> (fun f => { f with address := (f.address ||| ((readMem f.RAM f.value8) <<< 8)) % 65536 })
    |> (fun f => f.fetch [f.address])
    |> (fun f => { f with A := (readMem f.RAM f.address) % 256 })
    |> (fun f => { f with P := { f.P with Z := decide (f.A = 0) } })
    |> (fun f => { f with P := { f.P with S := decide (f.A > 0x7F) } })
    |> (fun f => { f with cycles := f.cycles + 5 })

/-- `case 0xB3 : // IMP NOP` (line 1829). -/
def op_B3 (f : Frame) : Frame :=
  f |> (fun f => { f with cycles := f.cycles + 1 })

/-- `case 0xB4 : // ZPX LDY` (line 1833). -/
def op_B4 (f : Frame) : Frame :=
  f |> (fun f => f.fetch [f.PC])
    |> (fun f => { f with address := (((readMem f.RAM f.PC) + f.X) &&& 0xFF) % 65536 })
    |> (fun f => { f with PC := (f.PC + 1) % 65536 })
    |> (fun f => f.fetch [f.address])
    |> (fun f => { f with Y := (readMem f.RAM f.address) % 256 })
    |> (fun f => { f with P := { f.P with Z := decide (f.Y = 0) } })
    |> (fun f => { f with P := { f.P with S := decide (f.Y > 0x7F) } })
    |> (fun f => { f with cycles := f.cycles + 4 })

/-- `case 0xB5 : // ZPX LDA` (line 1842). -/
def op_B5 (f : Frame) : Frame :=
  f |> (fun f => f.fetch [f.PC])
    |> (fun f => { f with address := (((readMem f.RAM f.PC) + f.X) &&& 0xFF) % 65536 })
    |> (fun f => { f with PC := (f.PC + 1) % 65536 })
    |> (fun f => f.fetch [f.address])
    |> (fun f => { f with A := (readMem f.RAM f.address) % 256 })
    |> (fun f => { f with P := { f.P with Z := decide (f.A = 0) } })
    |> (fun f => { f with P := { f.P with S := decide (f.A > 0x7F) } })
    |> (fun f => { f with cycles := f.cycles + 4 })

/-- `case 0xB6 : // ZPY LDX` (line 1851). -/
def op_B6 (f : Frame) : Frame :=
  f |> (fun f => f.fetch [f.PC])
    |> (fun f => { f with address := (((readMem f.RAM f.PC) + f.Y) &&& 0xFF) % 65536 })
    |> (fun f => { f with PC := (f.PC + 1) % 65536 })
    |> (fun f => f.fetch [f.address])
    |> (fun f => { f with X := (readMem f.RAM f.address) % 256 })
    |> (fun f => { f with P := { f.P with Z := decide (f.X = 0) } })
    |> (fun f => { f with P := { f.P with S := decide (f.X > 0x7F) } })
    |> (fun f => { f with cycles := f.cycles + 4 })

/-- `case 0xB7 : // ZPG SMB` (line 1860). -/
def op_B7 (f : Frame) : Frame :=
  f |> (fun f => f.fetch [f.PC])
    |> (fun f => { f with address := (readMem f.RAM f.PC) % 65536 })
    |> (fun f => { f with PC := (f.PC + 1) % 65536 })
    |> (fun f => f.fetch [f.address])
    |> (fun f => f.store f.address ((readMem f.RAM f.address) ||| 8))
    |> (fun f => { f with cycles := f.cycles + 5 })

/-- `case 0xB8 : // IMP CLV` (line 1867). -/
def op_B8 (f : Frame) : Frame :=
  f |> (fun f => { f with P := { f.P with V := false } })
    |> (fun f => { f with cycles := f.cycles + 2 })

/-- `case 0xB9 : // ABY LDA` (line 1872). -/
def op_B9 (f : Frame) : Frame :=
  f |> (fun f => f.fetch [f.PC])
    |> (fun f => { f with address := (readMem f.RAM f.PC) % 65536 })
    |> (fun f => { f with PC := (f.PC + 1) % 65536 })
    |> (fun f => { f with cycles := f.cycles + (if ((f.address + f.Y) &&& 0xFF00) ≠ 0 then 5 else 4) })
    |> (fun f => f.fetch [f.PC])
    |> (fun f => { f with address := (f.address ||| ((readMem f.RAM f.PC) <<< 8)) % 65536 })
    |> (fun f => { f with PC := (f.PC + 1) % 65536 })
    |> (fun f => { f with address := (f.address + f.Y) % 65536 })
    |> (fun f => f.fetch [f.address])
    |> (fun f => { f with A := (readMem f.RAM f.address) % 256 })
    |> (fun f => { f with P := { f.P with Z := decide (f.A = 0) } })
    |> (fun f => { f with P := { f.P with S := decide (f.A > 0x7F) } })

/-- `case 0xBA : // IMP TSX` (line 1884). -/
def op_BA (f : Frame) : Frame :=
  f |> (fun f => { f with X := f.SP % 256 })
    |> (fun f => { f with P := { f.P with Z := decide (f.X = 0) } })
    |> (fun f => { f with P := { f.P with S := decide (f.X > 0x7F) } })
    |> (fun f => { f with cycles := f.cycles + 2 })

/-- `case 0xBB : // IMP NOP` (line 1891). -/
def op_BB (f : Frame) : Frame :=
  f |> (fun f => { f with cycles := f.cycles + 1 })

/-- `case 0xBC : // ABX LDY` (line 1895). -/
def op_BC (f : Frame) : Frame :=
  f |> (fun f => f.fetch [f.PC])
    |> (fun f => { f with address := (readMem f.RAM f.PC) % 65536 })
    |> (fun f => { f with PC := (f.PC + 1) % 65536 })
    |> (fun f => { f with cycles := f.cycles + (if ((f.address + f.X) &&& 0xFF00) ≠ 0 then 5 else 4) })
    |> (fun f => f.fetch [f.PC])
    |> (fun f => { f with address := (f.address ||| ((readMem f.RAM f.PC) <<< 8)) % 65536 })
    |> (fun f => { f with PC := (f.PC + 1) % 65536 })
    |> (fun f => { f with address := (f.address + f.X) % 65536 })
    |> (fun f => f.fetch [f.address])
    |> (fun f => { f with Y := (readMem f.RAM f.address) % 256 })
    |> (fun f => { f with P := { f.P with Z := decide (f.Y = 0) } })
    |> (fun f => { f with P := { f.P with S := decide (f.Y > 0x7F) } })

/-- `case 0xBD : // ABX LDA` (line 1907). -/
def op_BD (f : Frame) : Frame :=
  f |> (fun f => f.fetch [f.PC])
    |> (fun f => { f with address := (readMem f.RAM f.PC) % 65536 })
    |> (fun f => { f with PC := (f.PC + 1) % 65536 })
    |> (fun f => { f with cycles := f.cycles + (if ((f.address + f.X) &&& 0xFF00) ≠ 0 then 5 else 4) })
    |> (fun f => f.fetch [f.PC])
    |> (fun f => { f with address := (f.address ||| ((readMem f.RAM f.PC) <<< 8)) % 65536 })
    |> (fun f => { f with PC := (f.PC + 1) % 65536 })
    |> (fun f => { f with address := (f.address + f.X) % 65536 })
    |> (fun f => f.fetch [f.address])
    |> (fun f => { f with A := (readMem f.RAM f.address) % 256 })
    |> (fun f => { f with P := { f.P with Z := decide (f.A = 0) } })
    |> (fun f => { f with P := { f.P with S := decide (f.A > 0x7F) } })

/-- `case 0xBE : // ABY LDX` (line 1919). -/
def op_BE (f : Frame) : Frame :=
  f |> (fun f => f.fetch [f.PC])
    |> (fun f => { f with address := (readMem f.RAM f.PC) % 65536 })
    |> (fun f => { f with PC := (f.PC + 1) % 65536 })
    |> (fun f => { f with cycles := f.cycles + (if ((f.address + f.Y) &&& 0xFF00) ≠ 0 then 5 else 4) })
    |> (fun f => f.fetch [f.PC])
    |> (fun f => { f with address := (f.address ||| ((readMem f.RAM f.PC) <<< 8)) % 65536 })
    |> (fun f => { f with PC := (f.PC + 1) % 65536 })
    |> (fun f => { f with address := (f.address + f.Y) % 65536 })
    |> (fun f => f.fetch [f.address])
    |> (fun f => { f with X := (readMem f.RAM f.address) % 256 })
    |> (fun f => { f with P := { f.P with Z := decide (f.X = 0) } })
    |> (fun f => { f with P := { f.P with S := decide (f.X > 0x7F) } })

/-- `case 0xBF : // ZPR BBS` (line 1931). -/
def op_BF (f : Frame) : Frame :=
  f |> (fun f => f.fetch [f.PC, readMem f.RAM f.PC])
    |> (fun f => { f with value8 := (readMem f.RAM (readMem f.RAM f.PC)) % 256 })
    |> (fun f => { f with PC := (f.PC + 1) % 65536 })
    |> (fun f => f.fetch [f.PC])
    |> (fun f => { f with address := (readMem f.RAM f.PC) % 65536 })
    |> (fun f => { f with PC := (f.PC + 1) % 65536 })
    |> (fun f => if (f.address &&& SIGN) ≠ 0 then
        f |> (fun f => { f with address := (f.address ||| 0xFF00) % 65536 })
      else f)
    |> (fun f => if (f.value8 &&& 8) ≠ 0 then
        f |> (fun f => { f with PC := (f.PC + f.address) % 65536 })
      else f)
    |> (fun f => { f with cycles := f.cycles + 5 })

/-- `case 0xC0 : // IMM CPY` (line 1943). -/
def op_C0 (f : Frame) : Frame :=
  f |> (fun f => f.fetch [f.PC])
    |> (fun f => { f with value8 := (readMem f.RAM f.PC) % 256 })
    |> (fun f => { f with PC := (f.PC + 1) % 65536 })
    |> (fun f => { f with P := { f.P with Z := decide (((sub32 f.Y f.value8) &&& 0xFF) = 0) } })
    |> (fun f => { f with P := { f.P with S := decide (((sub32 f.Y f.value8) &&& SIGN) ≠ 0) } })
    |> (fun f => { f with P := { f.P with C := decide (f.Y ≥ f.value8) } })
    |> (fun f => { f with cycles := f.cycles + 2 })

/-- `case 0xC1 : // IZX CMP` (line 1952). -/
def op_C1 (f : Frame) : Frame :=
  f |> (fun f => f.fetch [f.PC])
    |> (fun f => { f with value8 := ((readMem f.RAM f.PC) + f.X) % 256 })
    |> (fun f => { f with PC := (f.PC + 1) % 65536 })
    |> (fun f => f.fetch [f.value8])
    |> (fun f => { f with address := (readMem f.RAM f.value8) % 65536 })
    |> (fun f => { f with value8 := (f.value8 + 1) % 256 })
    |> (fun f => f.fetch [f.value8])
    |> (fun f => { f with address := (f.address ||| ((readMem f.RAM f.value8) <<< 8)) % 65536 })
    |> (fun f => f.fetch [f.address])
    |> (fun f => { f with value8 := (readMem f.RAM f.address) % 256 })
    |> (fun f => { f with P := { f.P with Z := decide (((sub32 f.A f.value8) &&& 0xFF) = 0) } })
    |> (fun f => { f with P := { f.P with S := decide (((sub32 f.A f.value8) &&& SIGN) ≠ 0) } })
    |> (fun f => { f with P := { f.P with C := decide (f.A ≥ f.value8) } })
    |> (fun f => { f with cycles := f.cycles + 6 })

/-- `case 0xC2 : // IMM NOP` (line 1965). -/
def op_C2 (f : Frame) : Frame :=
  f |> (fun f => { f with PC := (f.PC + 1) % 65536 })
    |> (fun f => { f with cycles := f.cycles + 2 })

/-- `case 0xC3 : // IMP NOP` (line 1970). -/
def op_C3 (f : Frame) : Frame :=
  f |> (fun f => { f with cycles := f.cycles + 1 })

/-- `case 0xC4 : // ZPG CPY` (line 1974). -/
def op_C4 (f : Frame) : Frame :=
  f |> (fun f => f.fetch [f.PC, readMem f.RAM f.PC])
    |> (fun f => { f with value8 := (readMem f.RAM (readMem f.RAM f.PC)) % 256 })
    |> (fun f => { f with PC := (f.PC + 1) % 65536 })
    |> (fun f => { f with P := { f.P with Z := decide (((sub32 f.Y f.value8) &&& 0xFF) = 0) } })
    |> (fun f => { f with P := { f.P with S := decide (((sub32 f.Y f.value8) &&& SIGN) ≠ 0) } })
    |> (fun f => { f with P := { f.P with C := decide (f.Y ≥ f.value8) } })
    |> (fun f => { f with cycles := f.cycles + 3 })

/-- `case 0xC5 : // ZPG CMP` (line 1983). -/
def op_C5 (f : Frame) : Frame :=
  f |> (fun f => f.fetch [f.PC, readMem f.RAM f.PC])
    |> (fun f => { f with value8 := (readMem f.RAM (readMem f.RAM f.PC)) % 256 })
    |> (fun f => { f with PC := (f.PC + 1) % 65536 })
    |> (fun f => { f with P := { f.P with Z := decide (((sub32 f.A f.value8) &&& 0xFF) = 0) } })
    |> (fun f => { f with P := { f.P with S := decide (((sub32 f.A f.value8) &&& SIGN) ≠ 0) } })
    |> (fun f => { f with P := { f.P with C := decide (f.A ≥ f.value8) } })
    |> (fun f => { f with cycles := f.cycles + 3 })

/-- `case 0xC6 : // ZPG DEC` (line 1992). -/
def op_C6 (f : Frame) : Frame :=
  f |> (fun f => f.fetch [f.PC])
    |> (fun f => { f with address := (readMem f.RAM f.PC) % 65536 })
    |> (fun f => { f with PC := (f.PC + 1) % 65536 })
    |> (fun f => f.fetch [f.address])
    |> (fun f => { f with value8 := (readMem f.RAM f.address) % 256 })
    |> (fun f => { f with value8 := (sub32 f.value8 1) % 256 })
    |> (fun f => f.store f.address f.value8)
    |> (fun f => { f with P := { f.P with Z := decide (f.value8 = 0) } })
    |> (fun f => { f with P := { f.P with S := decide (f.value8 > 0x7F) } })
    |> (fun f => { f with cycles := f.cycles + 5 })

/-- `case 0xC7 : // ZPG SMB` (line 2003). -/
def op_C7 (f : Frame) : Frame :=
  f |> (fun f => f.fetch [f.PC])
    |> (fun f => { f with address := (readMem f.RAM f.PC) % 65536 })
    |> (fun f => { f with PC := (f.PC + 1) % 65536 })
    |> (fun f => f.fetch [f.address])
    |> (fun f => f.store f.address ((readMem f.RAM f.address) ||| 16))
    |> (fun f => { f with cycles := f.cycles + 5 })

/-- `case 0xC8 : // IMP INY` (line 2010). -/
def op_C8 (f : Frame) : Frame :=
  f |> (fun f => { f with Y := (f.Y + 1) % 256 })
    |> (fun f => { f with P := { f.P with Z := decide (f.Y = 0) } })
    |> (fun f => { f with P := { f.P with S := decide (f.Y > 0x7F) } })
    |> (fun f => { f with cycles := f.cycles + 2 })

/-- `case 0xC9 : // IMM CMP` (line 2017). -/
def op_C9 (f : Frame) : Frame :=
  f |> (fun f => f.fetch [f.PC])
    |> (fun f => { f with value8 := (readMem f.RAM f.PC) % 256 })
    |> (fun f => { f with PC := (f.PC + 1) % 65536 })
    |> (fun f => { f with P := { f.P with Z := decide (((sub32 f.A f.value8) &&& 0xFF) = 0) } })
    |> (fun f => { f with P := { f.P with S := decide (((sub32 f.A f.value8) &&& SIGN) ≠ 0) } })
    |> (fun f => { f with P := { f.P with C := decide (f.A ≥ f.value8) } })
    |> (fun f => { f with cycles := f.cycles + 2 })

/-- `case 0xCA : // IMP DEX` (line 2026). -/
def op_CA (f : Frame) : Frame :=
  f |> (fun f => { f with X := (sub32 f.X 1) % 256 })
    |> (fun f => { f with P := { f.P with Z := decide ((f.X &&& 0xFF) = 0) } })
    |> (fun f => { f with P := { f.P with S := decide (f.X > 0x7F) } })
    |> (fun f => { f with cycles := f.cycles + 2 })

/-- `case 0xCB : // IMP WAI` (line 2033). -/
def op_CB (f : Frame) : Frame :=
  f |> (fun f => { f with state := status.wait })
    |> (fun f => { f with cycles := f.cycles + 3 })

/-- `case 0xCC : // ABS CPY` (line 2038). -/
def op_CC (f : Frame) : Frame :=
  f |> (fun f => f.fetch [f.PC])
    |> (fun f => { f with address := (readMem f.RAM f.PC) % 65536 })
    |> (fun f => { f with PC := (f.PC + 1) % 65536 })
    |> (fun f => f.fetch [f.PC])
    |> (fun f => { f with address := (f.address ||| ((readMem f.RAM f.PC) <<< 8)) % 65536 })
    |> (fun f => { f with PC := (f.PC + 1) % 65536 })
    |> (fun f => f.fetch [f.address])
    |> (fun f => { f with value8 := (readMem f.RAM f.address) % 256 })
    |> (fun f => { f with P := { f.P with Z := decide (((sub32 f.Y f.value8) &&& 0xFF) = 0) } })
    |> (fun f => { f with P := { f.P with S := decide (((sub32 f.Y f.value8) &&& SIGN) ≠ 0) } })
    |> (fun f => { f with P := { f.P with C := decide (f.Y ≥ f.value8) } })
    |> (fun f => { f with cycles := f.cycles + 4 })

/-- `case 0xCD : // ABS CMP` (line 2050). -/
def op_CD (f : Frame) : Frame :=
  f |> (fun f => f.fetch [f.PC])
    |> (fun f => { f with address := (readMem f.RAM f.PC) % 65536 })
    |> (fun f => { f with PC := (f.PC + 1) % 65536 })
    |> (fun f => f.fetch [f.PC])
    |> (fun f => { f with address := (f.address ||| ((readMem f.RAM f.PC) <<< 8)) % 65536 })
    |> (fun f => { f with PC := (f.PC + 1) % 65536 })
    |> (fun f => f.fetch [f.address])
    |> (fun f => { f with value8 := (readMem f.RAM f.address) % 256 })
    |> (fun f => { f with P := { f.P with Z := decide (((sub32 f.A f.value8) &&& 0xFF) = 0) } })
    |> (fun f => { f with P := { f.P with S := decide (((sub32 f.A f.value8) &&& SIGN) ≠ 0) } })
    |> (fun f => { f with P := { f.P with C := decide (f.A ≥ f.value8) } })
    |> (fun f => { f with cycles := f.cycles + 4 })

/-- `case 0xCE : // ABS DEC` (line 2062). -/
def op_CE (f : Frame) : Frame :=
  f |> (fun f => f.fetch [f.PC])
    |> (fun f => { f with address := (readMem f.RAM f.PC) % 65536 })
    |> (fun f => { f with PC := (f.PC + 1) % 65536 })
    |> (fun f => f.fetch [f.PC])
    |> (fun f => { f with address := (f.address ||| ((readMem f.RAM f.PC) <<< 8)) % 65536 })
    |> (fun f => { f with PC := (f.PC + 1) % 65536 })
    |> (fun f => f.fetch [f.address])
    |> (fun f => { f with value8 := (readMem f.RAM f.address) % 256 })
    |> (fun f => { f with value8 := (sub32 f.value8 1) % 256 })
    |> (fun f => f.store f.address f.value8)
    |> (fun f => { f with P := { f.P with Z := decide (f.value8 = 0) } })
    |> (fun f => { f with P := { f.P with S := decide (f.value8 > 0x7F) } })
    |> (fun f => { f with cycles := f.cycles + 3 })

/-- `case 0xCF : // ZPR BBS` (line 2075). -/
def op_CF (f : Frame) : Frame :=
  f |> (fun f => f.fetch [f.PC, readMem f.RAM f.PC])
    |> (fun f => { f with value8 := (readMem f.RAM (readMem f.RAM f.PC)) % 256 })
    |> (fun f => { f with PC := (f.PC + 1) % 65536 })
    |> (fun f => f.fetch [f.PC])
    |> (fun f => { f with address := (readMem f.RAM f.PC) % 65536 })
    |> (fun f => { f with PC := (f.PC + 1) % 65536 })
    |> (fun f => if (f.address &&& SIGN) ≠ 0 then
        f |> (fun f => { f with address := (f.address ||| 0xFF00) % 65536 })
      else f)
    |> (fun f => if (f.value8 &&& 16) ≠ 0 then
        f |> (fun f => { f with PC := (f.PC + f.address) % 65536 })
      else f)
    |> (fun f => { f with cycles := f.cycles + 5 })

/-- `case 0xD0 : // REL BNE` (line 2087). -/
def op_D0 (f : Frame) : Frame :=
  f |> (fun f => f.fetch [f.PC])
    |> (fun f => { f with address := (readMem f.RAM f.PC) % 65536 })
    |> (fun f => { f with PC := (f.PC + 1) % 65536 })
    |> (fun f => if !f.P.Z then
        f |> (fun f => { f with cycles := f.cycles + 1 })
          |> (fun f => if (f.address &&& SIGN) ≠ 0 then
              f |> (fun f => { f with address := (f.address ||| 0xFF00) % 65536 })
            else f)
          |> (fun f => if (((f.PC &&& 0xFF) + f.address) &&& 0xFF00) ≠ 0 then
              f |> (fun f => { f with cycles := f.cycles + 1 })
            else f)
          |> (fun f => { f with PC := (f.PC + f.address) % 65536 })
      else f)
    |> (fun f => { f with cycles := f.cycles + 2 })

/-- `case 0xD1 : // IZY CMP` (line 2101). -/
def op_D1 (f : Frame) : Frame :=
  f |> (fun f => f.fetch [f.PC])
    |> (fun f => { f with value8 := (readMem f.RAM f.PC) % 256 })
    |> (fun f => { f with PC := (f.PC + 1) % 65536 })
    |> (fun f => f.fetch [f.value8])
    |> (fun f => { f with address := (readMem f.RAM f.value8) % 65536 })
    |> (fun f => { f with cycles := f.cycles + (if ((f.address + f.Y) &&& 0xFF00) ≠ 0 then 6 else 5) })
    |> (fun f => { f with value8 := (f.value8 + 1) % 256 })
    |> (fun f => f.fetch [f.value8])
    |> (fun f => { f with address := (f.address ||| ((readMem f.RAM f.value8) <<< 8)) % 65536 })
    |> (fun f => { f with address := (f.address + f.Y) % 65536 })
    |> (fun f => f.fetch [f.address])
    |> (fun f => { f with value8 := (readMem f.RAM f.address) % 256 })
    |> (fun f => { f with P := { f.P with Z := decide (((sub32 f.A f.value8) &&& 0xFF) = 0) } })
    |> (fun f => { f with P := { f.P with S := decide (((sub32 f.A f.value8) &&& SIGN) ≠ 0) } })
    |> (fun f => { f with P := { f.P with C := decide (f.A ≥ f.value8) } })

/-- `case 0xD2 : // IZP CMP` (line 2115). -/
def op_D2 (f : Frame) : Frame :=
  f |> (fun f => f.fetch [f.PC])
    |> (fun f => { f with value8 := (readMem f.RAM f.PC) % 256 })
    |> (fun f => { f with PC := (f.PC + 1) % 65536 })
    |> (fun f => f.fetch [f.value8])
    |> (fun f => { f with address := (readMem f.RAM f.value8) % 65536 })
    |> (fun f => { f with value8 := (f.value8 + 1) % 256 })
    |> (fun f => f.fetch [f.value8])
    |> (fun f => { f with address := (f.address ||| ((readMem f.RAM f.value8) <<< 8)) % 65536 })
    |> (fun f => f.fetch [f.address])
    |> (fun f => { f with value8 := (readMem f.RAM f.address) % 256 })
    |> (fun f => { f with P := { f.P with Z := decide (((sub32 f.A f.value8) &&& 0xFF) = 0) } })
    |> (fun f => { f with P := { f.P with S := decide (((sub32 f.A f.value8) &&& SIGN) ≠ 0) } })
    |> (fun f => { f with P := { f.P with C := decide (f.A ≥ f.value8) } })
    |> (fun f => { f with cycles := f.cycles + 5 })

/-- `case 0xD3 : // IMP NOP` (line 2128). -/
def op_D3 (f : Frame) : Frame :=
  f |> (fun f => { f with cycles := f.cycles + 1 })

/-- `case 0xD4 : // ZPX NOP` (line 2132). -/
def op_D4 (f : Frame) : Frame :=
  f |> (fun f => { f with PC := (f.PC + 1) % 65536 })
    |> (fun f => { f with cycles := f.cycles + 4 })

/-- `case 0xD5 : // ZPX CMP` (line 2137). -/
def op_D5 (f : Frame) : Frame :=
  f |> (fun f => f.fetch [f.PC])
    |> (fun f => { f with address := (((readMem f.RAM f.PC) + f.X) &&& 0xFF) % 65536 })
    |> (fun f => { f with PC := (f.PC + 1) % 65536 })
    |> (fun f => f.fetch [f.address])
    |> (fun f => { f with value8 := (readMem f.RAM f.address) % 256 })
    |> (fun f => { f with P := { f.P with Z := decide (((sub32 f.A f.value8) &&& 0xFF) = 0) } })
    |> (fun f => { f with P := { f.P with S := decide (((sub32 f.A f.value8) &&& SIGN) ≠ 0) } })
    |> (fun f => { f with P := { f.P with C := decide (f.A ≥ f.value8) } })
    |> (fun f => { f with cycles := f.cycles + 4 })

/-- `case 0xD6 : // ZPX DEC` (line 2147). -/
def op_D6 (f : Frame) : Frame :=
  f |> (fun f => f.fetch [f.PC])
    |> (fun f => { f with address := (((readMem f.RAM f.PC) + f.X) &&& 0xFF) % 65536 })
    |> (fun f => { f with PC := (f.PC + 1) % 65536 })
    |> (fun f => f.fetch [f.address])
    |> (fun f => { f with value8 := (readMem f.RAM f.address) % 256 })
    |> (fun f => { f with value8 := (sub32 f.value8 1) % 256 })
    |> (fun f => f.store f.address f.value8)
    |> (fun f => { f with P := { f.P with Z := decide (f.value8 = 0) } })
    |> (fun f => { f with P := { f.P with S := decide (f.value8 > 0x7F) } })
    |> (fun f => { f with cycles := f.cycles + 6 })

/-- `case 0xD7 : // ZPG SMB` (line 2158). -/
def op_D7 (f : Frame) : Frame :=
  f |> (fun f => f.fetch [f.PC])
    |> (fun f => { f with address := (readMem f.RAM f.PC) % 65536 })
    |> (fun f => { f with PC := (f.PC + 1) % 65536 })
    |> (fun f => f.fetch [f.address])
    |> (fun f => f.store f.address ((readMem f.RAM f.address) ||| 32))
    |> (fun f => { f with cycles := f.cycles + 5 })

/-- `case 0xD8 : // IMP CLD` (line 2165). -/
def op_D8 (f : Frame) : Frame :=
  f |> (fun f => { f with P := { f.P with D := false } })
    |> (fun f => { f with cycles := f.cycles + 2 })

/-- `case 0xD9 : // ABY CMP` (line 2170). -/
def op_D9 (f : Frame) : Frame :=
  f |> (fun f => f.fetch [f.PC])
    |> (fun f => { f with address := (readMem f.RAM f.PC) % 65536 })
    |> (fun f => { f with PC := (f.PC + 1) % 65536 })
    |> (fun f => { f with cycles := f.cycles + (if ((f.address + f.Y) &&& 0xFF00) ≠ 0 then 5 else 4) })
    |> (fun f => f.fetch [f.PC])
    |> (fun f => { f with address := (f.address ||| ((readMem f.RAM f.PC) <<< 8)) % 65536 })
    |> (fun f => { f with PC := (f.PC + 1) % 65536 })
    |> (fun f => { f with address := (f.address + f.Y) % 65536 })
    |> (fun f => f.fetch [f.address])
    |> (fun f => { f with value8 := (readMem f.RAM f.address) % 256 })
    |> (fun f => { f with P := { f.P with Z := decide (((sub32 f.A f.value8) &&& 0xFF) = 0) } })
    |> (fun f => { f with P := { f.P with S := decide (((sub32 f.A f.value8) &&& SIGN) ≠ 0) } })
    |> (fun f => { f with P := { f.P with C := decide (f.A ≥ f.value8) } })

/-- `case 0xDA : // IMP PHX` (line 2183). -/
def op_DA (f : Frame) : Frame :=
  f |> (fun f => f.store (0x100 + f.SP) f.X)
    |> (fun f => { f with SP := (sub32 f.SP 1) % 256 })
    |> (fun f => { f with cycles := f.cycles + 3 })

/-- `case 0xDB : // IMP STP` (line 2189). -/
def op_DB (f : Frame) : Frame :=
  f |> (fun f => { f with state := status.stop })
    |> (fun f => { f with cycles := f.cycles + 3 })

/-- `case 0xDC : // ABS NOP` (line 2194). -/
def op_DC (f : Frame) : Frame :=
  f |> (fun f => { f with PC := (f.PC + 2) % 65536 })
    |> (fun f => { f with cycles := f.cycles + 4 })

/-- `case 0xDD : // ABX CMP` (line 2199). -/
def op_DD (f : Frame) : Frame :=
  f |> (fun f => f.fetch [f.PC])
    |> (fun f => { f with address := (readMem f.RAM f.PC) % 65536 })
    |> (fun f => { f with PC := (f.PC + 1) % 65536 })
    |> (fun f => { f with cycles := f.cycles + (if ((f.address + f.X) &&& 0xFF00) ≠ 0 then 5 else 4) })
    |> (fun f => f.fetch [f.PC])
    |> (fun f => { f with address := (f.address ||| ((readMem f.RAM f.PC) <<< 8)) % 65536 })
    |> (fun f => { f with PC := (f.PC + 1) % 65536 })
    |> (fun f => { f with address := (f.address + f.X) % 65536 })
    |> (fun f => f.fetch [f.address])
    |> (fun f => { f with value8 := (readMem f.RAM f.address) % 256 })
    |> (fun f => { f with P := { f.P with Z := decide (((sub32 f.A f.value8) &&& 0xFF) = 0) } })
    |> (fun f => { f with P := { f.P with S := decide (((sub32 f.A f.value8) &&& SIGN) ≠ 0) } })
    |> (fun f => { f with P := { f.P with C := decide (f.A ≥ f.value8) } })

/-- `case 0xDE : // ABX DEC` (line 2212). -/
def op_DE (f : Frame) : Frame :=
  f |> (fun f => f.fetch [f.PC])
    |> (fun f => { f with address := (readMem f.RAM f.PC) % 65536 })
    |> (fun f => { f with PC := (f.PC + 1) % 65536 })
    |> (fun f => f.fetch [f.PC])
    |> (fun f => { f with address := (f.address ||| ((readMem f.RAM f.PC) <<< 8)) % 65536 })
    |> (fun f => { f with PC := (f.PC + 1) % 65536 })
    |> (fun f => { f with address := (f.address + f.X) % 65536 })
    |> (fun f => f.fetch [f.address])
    |> (fun f => { f with value8 := (readMem f.RAM f.address) % 256 })
    |> (fun f => { f with value8 := (sub32 f.value8 1) % 256 })
    |> (fun f => f.store f.address f.value8)
    |> (fun f => { f with P := { f.P with Z := decide (f.value8 = 0) } })
    |> (fun f => { f with P := { f.P with S := decide ((f.value8 &&& SIGN) ≠ 0) } })
    |> (fun f => { f with cycles := f.cycles + 7 })

/-- `case 0xDF : // ZPR BBS` (line 2226). -/
def op_DF (f : Frame) : Frame :=
  f |> (fun f => f.fetch [f.PC, readMem f.RAM f.PC])
    |> (fun f => { f with value8 := (readMem f.RAM (readMem f.RAM f.PC)) % 256 })
    |> (fun f => { f with PC := (f.PC + 1) % 65536 })
    |> (fun f => f.fetch [f.PC])
    |> (fun f => { f with address := (readMem f.RAM f.PC) % 65536 })
    |> (fun f => { f with PC := (f.PC + 1) % 65536 })
    |> (fun f => if (f.address &&& SIGN) ≠ 0 then
        f |> (fun f => { f with address := (f.address ||| 0xFF00) % 65536 })
      else f)
    |> (fun f => if (f.value8 &&& 32) ≠ 0 then
        f |> (fun f => { f with PC := (f.PC + f.address) % 65536 })
      else f)
    |> (fun f => { f with cycles := f.cycles + 5 })

/-- `case 0xE0 : // IMM CPX` (line 2238). -/
def op_E0 (f : Frame) : Frame :=
  f |> (fun f => f.fetch [f.PC])
    |> (fun f => { f with value8 := (readMem f.RAM f.PC) % 256 })
    |> (fun f => { f with PC := (f.PC + 1) % 65536 })
    |> (fun f => { f with P := { f.P with Z := decide (((sub32 f.X f.value8) &&& 0xFF) = 0) } })
    |> (fun f => { f with P := { f.P with S := decide (((sub32 f.X f.value8) &&& SIGN) ≠ 0) } })
    |> (fun f => { f with P := { f.P with C := decide (f.X ≥ f.value8) } })
    |> (fun f => { f with cycles := f.cycles + 2 })

/-- `case 0xE1 : // IZX SBC` (line 2247). -/
def op_E1 (f : Frame) : Frame :=
  f |> (fun f => f.fetch [f.PC])
    |> (fun f => { f with value8 := ((readMem f.RAM f.PC) + f.X) % 256 })
    |> (fun f => { f with PC := (f.PC + 1) % 65536 })
    |> (fun f => f.fetch [f.value8])
    |> (fun f => { f with address := (readMem f.RAM f.value8) % 65536 })
    |> (fun f => { f with value8 := (f.value8 + 1) % 256 })
    |> (fun f => f.fetch [f.value8])
    |> (fun f => { f with address := (f.address ||| ((readMem f.RAM f.value8) <<< 8)) % 65536 })
    |> (fun f => f.fetch [f.address])
    |> (fun f => { f with value8 := (readMem f.RAM f.address) % 256 })
    |> (fun f => { f with value8 := (f.value8 ^^^ 0xFF) % 256 })
    |> (fun f => if f.P.D then
        f |> (fun f => { f with value8 := (sub32 f.value8 0x0066) % 256 })
      else f)
    |> (fun f => { f with value16 := ((f.A + f.value8) + f.P.C.toNat) % 65536 })
    |> (fun f => { f with P := { f.P with V := decide ((((f.value16 ^^^ f.A) &&& (f.value16 ^^^ f.value8)) &&& 0x0080) ≠ 0) } })
    |> (fun f => if f.P.D then
        f |> (fun f => { f with value16 := (f.value16 + ((((((f.value16 + 0x66) ^^^ f.A) ^^^ f.value8) >>> 3) &&& 0x22) * 3)) % 65536 })
      else f)
    |> (fun f => { f with P := { f.P with C := decide (f.value16 > 0xFF) } })
    |> (fun f => { f with A := (f.value16 &&& 0xFF) % 256 })
    |> (fun f => { f with P := { f.P with Z := decide (f.A = 0) } })
    |> (fun f => { f with P := { f.P with S := decide (f.A > 0x7F) } })
    |> (fun f => { f with cycles := f.cycles + 6 })

/-- `case 0xE2 : // IMM NOP` (line 2268). -/
def op_E2 (f : Frame) : Frame :=
  f |> (fun f => { f with PC := (f.PC + 1) % 65536 })
    |> (fun f => { f with cycles := f.cycles + 2 })

/-- `case 0xE3 : // IMP NOP` (line 2273). -/
def op_E3 (f : Frame) : Frame :=
  f |> (fun f => { f with cycles := f.cycles + 1 })

/-- `case 0xE4 : // ZPG CPX` (line 2277). -/
def op_E4 (f : Frame) : Frame :=
  f |> (fun f => f.fetch [f.PC, readMem f.RAM f.PC])
    |> (fun f => { f with value8 := (readMem f.RAM (readMem f.RAM f.PC)) % 256 })
    |> (fun f => { f with PC := (f.PC + 1) % 65536 })
    |> (fun f => { f with P := { f.P with Z := decide (((sub32 f.X f.value8) &&& 0xFF) = 0) } })
    |> (fun f => { f with P := { f.P with S := decide (((sub32 f.X f.value8) &&& SIGN) ≠ 0) } })
    |> (fun f => { f with P := { f.P with C := decide (f.X ≥ f.value8) } })
    |> (fun f => { f with cycles := f.cycles + 3 })

/-- `case 0xE5 : // ZPG SBC` (line 2286). -/
def op_E5 (f : Frame) : Frame :=
  f |> (fun f => f.fetch [f.PC, readMem f.RAM f.PC])
    |> (fun f => { f with value8 := (readMem f.RAM (readMem f.RAM f.PC)) % 256 })
    |> (fun f => { f with PC := (f.PC + 1) % 65536 })
    |> (fun f => { f with value8 := (f.value8 ^^^ 0xFF) % 256 })
    |> (fun f => if f.P.D then
        f |> (fun f => { f with value8 := (sub32 f.value8 0x0066) % 256 })
      else f)
    |> (fun f => { f with value16 := ((f.A + f.value8) + f.P.C.toNat) % 65536 })
    |> (fun f => { f with P := { f.P with V := decide ((((f.value16 ^^^ f.A) &&& (f.value16 ^^^ f.value8)) &&& 0x0080) ≠ 0) } })
    |> (fun f => if f.P.D then
        f |> (fun f => { f with value16 := (f.value16 + ((((((f.value16 + 0x66) ^^^ f.A) ^^^ f.value8) >>> 3) &&& 0x22) * 3)) % 65536 })
      else f)
    |> (fun f => { f with P := { f.P with C := decide (f.value16 > 0xFF) } })
    |> (fun f => { f with A := (f.value16 &&& 0xFF) % 256 })
    |> (fun f => { f with P := { f.P with Z := decide (f.A = 0) } })
    |> (fun f => { f with P := { f.P with S := decide (f.A > 0x7F) } })
    |> (fun f => { f with cycles := f.cycles + 3 })

/-- `case 0xE6 : // ZPG INC` (line 2303). -/
def op_E6 (f : Frame) : Frame :=
  f |> (fun f => f.fetch [f.PC])
    |> (fun f => { f with address := (readMem f.RAM f.PC) % 65536 })
    |> (fun f => { f with PC := (f.PC + 1) % 65536 })
    |> (fun f => f.fetch [f.address])
    |> (fun f => { f with value8 := (readMem f.RAM f.address) % 256 })
    |> (fun f => { f with value8 := (f.value8 + 1) % 256 })
    |> (fun f => f.store f.address f.value8)
    |> (fun f => { f with P := { f.P with Z := decide (f.value8 = 0) } })
    |> (fun f => { f with P := { f.P with S := decide (f.value8 > 0x7F) } })
    |> (fun f => { f with cycles := f.cycles + 5 })

/-- `case 0xE7 : // ZPG SMB` (line 2314). -/
def op_E7 (f : Frame) : Frame :=
  f |> (fun f => f.fetch [f.PC])
    |> (fun f => { f with address := (readMem f.RAM f.PC) % 65536 })
    |> (fun f => { f with PC := (f.PC + 1) % 65536 })
    |> (fun f => f.fetch [f.address])
    |> (fun f => f.store f.address ((readMem f.RAM f.address) ||| 64))
    |> (fun f => { f with cycles := f.cycles + 5 })

/-- `case 0xE8 : // IMP INX` (line 2321). -/
def op_E8 (f : Frame) : Frame :=
  f |> (fun f => { f with X := (f.X + 1) % 256 })
    |> (fun f => { f with P := { f.P with Z := decide (f.X = 0) } })
    |> (fun f => { f with P := { f.P with S := decide (f.X > 0x7F) } })
    |> (fun f => { f with cycles := f.cycles + 2 })

/-- `case 0xE9 : // IMM SBC` (line 2328). -/
def op_E9 (f : Frame) : Frame :=
  f |> (fun f => f.fetch [f.PC])
    |> (fun f => { f with value8 := (readMem f.RAM f.PC) % 256 })
    |> (fun f => { f with PC := (f.PC + 1) % 65536 })
    |> (fun f => { f with value8 := (f.value8 ^^^ 0xFF) % 256 })
    |> (fun f => if f.P.D then
        f |> (fun f => { f with value8 := (sub32 f.value8 0x0066) % 256 })
      else f)
    |> (fun f => { f with value16 := ((f.A + f.value8) + f.P.C.toNat) % 65536 })
    |> (fun f => { f with P := { f.P with V := decide ((((f.value16 ^^^ f.A) &&& (f.value16 ^^^ f.value8)) &&& 0x0080) ≠ 0) } })
    |> (fun f => if f.P.D then
        f |> (fun f => { f with value16 := (f.value16 + ((((((f.value16 + 0x66) ^^^ f.A) ^^^ f.value8) >>> 3) &&& 0x22) * 3)) % 65536 })
      else f)
    |> (fun f => { f with P := { f.P with C := decide (f.value16 > 0xFF) } })
    |> (fun f => { f with A := (f.value16 &&& 0xFF) % 256 })
    |> (fun f => { f with P := { f.P with Z := decide (f.A = 0) } })
    |> (fun f => { f with P := { f.P with S := decide (f.A > 0x7F) } })
    |> (fun f => { f with cycles := f.cycles + 2 })

/-- `case 0xEA: // IMP NOP` (line 2345). -/
def op_EA (f : Frame) : Frame :=
  f |> (fun f => { f with cycles := f.cycles + 2 })

/-- `case 0xEB : // IMP NOP` (line 2349). -/
def op_EB (f : Frame) : Frame :=
  f |> (fun f => { f with cycles := f.cycles + 1 })

/-- `case 0xEC : // ABS CPX` (line 2353). -/
def op_EC (f : Frame) : Frame :=
  f |> (fun f => f.fetch [f.PC])
    |> (fun f => { f with address := (readMem f.RAM f.PC) % 65536 })
    |> (fun f => { f with PC := (f.PC + 1) % 65536 })
    |> (fun f => f.fetch [f.PC])
    |> (fun f => { f with address := (f.address ||| ((readMem f.RAM f.PC) <<< 8)) % 65536 })
    |> (fun f => { f with PC := (f.PC + 1) % 65536 })
    |> (fun f => f.fetch [f.address])
    |> (fun f => { f with value8 := (readMem f.RAM f.address) % 256 })
    |> (fun f => { f with P := { f.P with Z := decide (((sub32 f.X f.value8) &&& 0xFF) = 0) } })
    |> (fun f => { f with P := { f.P with S := decide (((sub32 f.X f.value8) &&& SIGN) ≠ 0) } })
    |> (fun f => { f with P := { f.P with C := decide (f.X ≥ f.value8) } })
    |> (fun f => { f with cycles := f.cycles + 4 })

/-- `case 0xED : // ABS SBC` (line 2365). -/
def op_ED (f : Frame) : Frame :=
  f |> (fun f => f.fetch [f.PC])
    |> (fun f => { f with address := (readMem f.RAM f.PC) % 65536 })
    |> (fun f => { f with PC := (f.PC + 1) % 65536 })
    |> (fun f => f.fetch [f.PC])
    |> (fun f => { f with address := (f.address ||| ((readMem f.RAM f.PC) <<< 8)) % 65536 })
    |> (fun f => { f with PC := (f.PC + 1) % 65536 })
    |> (fun f => f.fetch [f.address])
    |> (fun f => { f with value8 := (readMem f.RAM f.address) % 256 })
    |> (fun f => { f with value8 := (f.value8 ^^^ 0xFF) % 256 })
    |> (fun f => if f.P.D then
        f |> (fun f => { f with value8 := (sub32 f.value8 0x0066) % 256 })
      else f)
    |> (fun f => { f with value16 := ((f.A + f.value8) + f.P.C.toNat) % 65536 })
    |> (fun f => { f with P := { f.P with V := decide ((((f.value16 ^^^ f.A) &&& (f.value16 ^^^ f.value8)) &&& 0x0080) ≠ 0) } })
    |> (fun f => if f.P.D then
        f |> (fun f => { f with value16 := (f.value16 + ((((((f.value16 + 0x66) ^^^ f.A) ^^^ f.value8) >>> 3) &&& 0x22) * 3)) % 65536 })
      else f)
    |> (fun f => { f with P := { f.P with C := decide (f.value16 > 0xFF) } })
    |> (fun f => { f with A := (f.value16 &&& 0xFF) % 256 })
    |> (fun f => { f with P := { f.P with Z := decide (f.A = 0) } })
    |> (fun f => { f with P := { f.P with S := decide (f.A > 0x7F) } })
    |> (fun f => { f with cycles := f.cycles + 4 })

/-- `case 0xEE : // ABS INC` (line 2385). -/
def op_EE (f : Frame) : Frame :=
  f |> (fun f => f.fetch [f.PC])
    |> (fun f => { f with address := (readMem f.RAM f.PC) % 65536 })
    |> (fun f => { f with PC := (f.PC + 1) % 65536 })
    |> (fun f => f.fetch [f.PC])
    |> (fun f => { f with address := (f.address ||| ((readMem f.RAM f.PC) <<< 8)) % 65536 })
    |> (fun f => { f with PC := (f.PC + 1) % 65536 })
    |> (fun f => f.fetch [f.address])
    |> (fun f => { f with value8 := (readMem f.RAM f.address) % 256 })
    |> (fun f => { f with value8 := (f.value8 + 1) % 256 })
    |> (fun f => f.store f.address f.value8)
    |> (fun f => { f with P := { f.P with Z := decide (f.value8 = 0) } })
    |> (fun f => { f with P := { f.P with S := decide (f.value8 > 0x7F) } })
    |> (fun f => { f with cycles := f.cycles + 6 })

/-- `case 0xEF : // ZPR BBS` (line 2398). -/
def op_EF (f : Frame) : Frame :=
  f |> (fun f => f.fetch [f.PC, readMem f.RAM f.PC])
    |> (fun f => { f with value8 := (readMem f.RAM (readMem f.RAM f.PC)) % 256 })
    |> (fun f => { f with PC := (f.PC + 1) % 65536 })
    |> (fun f => f.fetch [f.PC])
    |> (fun f => { f with address := (readMem f.RAM f.PC) % 65536 })
    |> (fun f => { f with PC := (f.PC + 1) % 65536 })
    |> (fun f => if (f.address &&& SIGN) ≠ 0 then
        f |> (fun f => { f with address := (f.address ||| 0xFF00) % 65536 })
      else f)
    |> (fun f => if (f.value8 &&& 64) ≠ 0 then
        f |> (fun f => { f with PC := (f.PC + f.address) % 65536 })
      else f)
    |> (fun f => { f with cycles := f.cycles + 5 })

/-- `case 0xF0 : // REL BEQ` (line 2410). -/
def op_F0 (f : Frame) : Frame :=
  f |> (fun f => f.fetch [f.PC])
    |> (fun f => { f with address := (readMem f.RAM f.PC) % 65536 })
    |> (fun f => { f with PC := (f.PC + 1) % 65536 })
    |> (fun f => if f.P.Z then
        f |> (fun f => { f with cycles := f.cycles + 1 })
          |> (fun f => if (f.address &&& SIGN) ≠ 0 then
              f |> (fun f => { f with address := (f.address ||| 0xFF00) % 65536 })
            else f)
          |> (fun f => if (((f.PC &&& 0xFF) + f.address) &&& 0xFF00) ≠ 0 then
              f |> (fun f => { f with cycles := f.cycles + 1 })
            else f)
          |> (fun f => { f with PC := (f.PC + f.address) % 65536 })
      else f)
    |> (fun f => { f with cycles := f.cycles + 2 })

/-- `case 0xF1 : // IZY SBC` (line 2424). -/
def op_F1 (f : Frame) : Frame :=
  f |> (fun f => f.fetch [f.PC])
    |> (fun f => { f with value8 := (readMem f.RAM f.PC) % 256 })
    |> (fun f => { f with PC := (f.PC + 1) % 65536 })
    |> (fun f => f.fetch [f.value8])
    |> (fun f => { f with address := (readMem f.RAM f.value8) % 65536 })
    |> (fun f => if ((f.address + f.Y) &&& 0xFF00) ≠ 0 then
        f |> (fun f => { f with cycles := f.cycles + 1 })
      else f)
    |> (fun f => { f with value8 := (f.value8 + 1) % 256 })
    |> (fun f => f.fetch [f.value8])
    |> (fun f => { f with address := (f.address ||| ((readMem f.RAM f.value8) <<< 8)) % 65536 })
    |> (fun f => { f with address := (f.address + f.Y) % 65536 })
    |> (fun f => f.fetch [f.address])
    |> (fun f => { f with value8 := (readMem f.RAM f.address) % 256 })
    |> (fun f => { f with value8 := (f.value8 ^^^ 0xFF) % 256 })
    |> (fun f => if f.P.D then
        f |> (fun f => { f with value8 := (sub32 f.value8 0x0066) % 256 })
      else f)
    |> (fun f => { f with value16 := ((f.A + f.value8) + f.P.C.toNat) % 65536 })
    |> (fun f => { f with P := { f.P with V := decide ((((f.value16 ^^^ f.A) &&& (f.value16 ^^^ f.value8)) &&& 0x0080) ≠ 0) } })
    |> (fun f => if f.P.D then
        f |> (fun f => { f with value16 := (f.value16 + ((((((f.value16 + 0x66) ^^^ f.A) ^^^ f.value8) >>> 3) &&& 0x22) * 3)) % 65536 })
      else f)
    |> (fun f => { f with P := { f.P with C := decide (f.value16 > 0xFF) } })
    |> (fun f => { f with A := (f.value16 &&& 0xFF) % 256 })
    |> (fun f => { f with P := { f.P with Z := decide (f.A = 0) } })
    |> (fun f => { f with P := { f.P with S := decide (f.A > 0x7F) } })
    |> (fun f => { f with cycles := f.cycles + 5 })

/-- `case 0xF2 : // IZP SBC` (line 2448). -/
def op_F2 (f : Frame) : Frame :=
  f |> (fun f => f.fetch [f.PC])
    |> (fun f => { f with value8 := (readMem f.RAM f.PC) % 256 })
    |> (fun f => { f with PC := (f.PC + 1) % 65536 })
    |> (fun f => f.fetch [f.value8])
    |> (fun f => { f with address := (readMem f.RAM f.value8) % 65536 })
    |> (fun f => { f with value8 := (f.value8 + 1) % 256 })
    |> (fun f => f.fetch [f.value8])
    |> (fun f => { f with address := (f.address ||| ((readMem f.RAM f.value8) <<< 8)) % 65536 })
    |> (fun f => f.fetch [f.address])
    |> (fun f => { f with value8 := (readMem f.RAM f.address) % 256 })
    |> (fun f => { f with value8 := (f.value8 ^^^ 0xFF) % 256 })
    |> (fun f => if f.P.D then
        f |> (fun f => { f with value8 := (sub32 f.value8 0x0066) % 256 })
      else f)
    |> (fun f => { f with value16 := ((f.A + f.value8) + f.P.C.toNat) % 65536 })
    |> (fun f => { f with P := { f.P with V := decide ((((f.value16 ^^^ f.A) &&& (f.value16 ^^^ f.value8)) &&& 0x0080) ≠ 0) } })
    |> (fun f => if f.P.D then
        f |> (fun f => { f with value16 := (f.value16 + ((((((f.value16 + 0x66) ^^^ f.A) ^^^ f.value8) >>> 3) &&& 0x22) * 3)) % 65536 })
      else f)
    |> (fun f => { f with P := { f.P with C := decide (f.value16 > 0xFF) } })
    |> (fun f => { f with A := (f.value16 &&& 0xFF) % 256 })
    |> (fun f => { f with P := { f.P with Z := decide (f.A = 0) } })
    |> (fun f => { f with P := { f.P with S := decide (f.A > 0x7F) } })
    |> (fun f => { f with cycles := f.cycles + 5 })

/-- `case 0xF3 : // IMP NOP` (line 2469). -/
def op_F3 (f : Frame) : Frame :=
  f |> (fun f => { f with cycles := f.cycles + 1 })

/-- `case 0xF4 : // ZPX NOP` (line 2473). -/
def op_F4 (f : Frame) : Frame :=
  f |> (fun f => { f with PC := (f.PC + 1) % 65536 })
    |> (fun f => { f with cycles := f.cycles + 4 })

/-- `case 0xF5 : // ZPX SBC` (line 2478). -/
def op_F5 (f : Frame) : Frame :=
  f |> (fun f => f.fetch [f.PC])
    |> (fun f => { f with address := (((readMem f.RAM f.PC) + f.X) &&& 0xFF) % 65536 })
    |> (fun f => { f with PC := (f.PC + 1) % 65536 })
    |> (fun f => f.fetch [f.address])
    |> (fun f => { f with value8 := (readMem f.RAM f.address) % 256 })
    |> (fun f => { f with value8 := (f.value8 ^^^ 0xFF) % 256 })
    |> (fun f => if f.P.D then
        f |> (fun f => { f with value8 := (sub32 f.value8 0x0066) % 256 })
      else f)
    |> (fun f => { f with value16 := ((f.A + f.value8) + f.P.C.toNat) % 65536 })
    |> (fun f => { f with P := { f.P with V := decide ((((f.value16 ^^^ f.A) &&& (f.value16 ^^^ f.value8)) &&& 0x0080) ≠ 0) } })
    |> (fun f => if f.P.D then
        f |> (fun f => { f with value16 := (f.value16 + ((((((f.value16 + 0x66) ^^^ f.A) ^^^ f.value8) >>> 3) &&& 0x22) * 3)) % 65536 })
      else f)
    |> (fun f => { f with P := { f.P with C := decide (f.value16 > 0xFF) } })
    |> (fun f => { f with A := (f.value16 &&& 0xFF) % 256 })
    |> (fun f => { f with P := { f.P with Z := decide (f.A = 0) } })
    |> (fun f => { f with P := { f.P with S := decide (f.A > 0x7F) } })
    |> (fun f => { f with cycles := f.cycles + 4 })

/-- `case 0xF6 : // ZPX INC` (line 2496). -/
def op_F6 (f : Frame) : Frame :=
  f |> (fun f => f.fetch [f.PC])
    |> (fun f => { f with address := (((readMem f.RAM f.PC) + f.X) &&& 0xFF) % 65536 })
    |> (fun f => { f with PC := (f.PC + 1) % 65536 })
    |> (fun f => f.fetch [f.address])
    |> (fun f => { f with value8 := (readMem f.RAM f.address) % 256 })
    |> (fun f => { f with value8 := (f.value8 + 1) % 256 })
    |> (fun f => f.store f.address f.value8)
    |> (fun f => { f with P := { f.P with Z := decide (f.value8 = 0) } })
    |> (fun f => { f with P := { f.P with S := decide (f.value8 > 0x7F) } })
    |> (fun f => { f with cycles := f.cycles + 6 })

/-- `case 0xF7 : // ZPG SMB` (line 2507). -/
def op_F7 (f : Frame) : Frame :=
  f |> (fun f => f.fetch [f.PC])
    |> (fun f => { f with address := (readMem f.RAM f.PC) % 65536 })
    |> (fun f => { f with PC := (f.PC + 1) % 65536 })
    |> (fun f => f.fetch [f.address])
    |> (fun f => f.store f.address ((readMem f.RAM f.address) ||| 128))
    |> (fun f => { f with cycles := f.cycles + 5 })

/-- `case 0xF8 : // IMP SED` (line 2514). -/
def op_F8 (f : Frame) : Frame :=
  f |> (fun f => { f with P := { f.P with D := true } })
    |> (fun f => { f with cycles := f.cycles + 2 })

/-- `case 0xF9 : // ABY SBC` (line 2519). -/
def op_F9 (f : Frame) : Frame :=
  f |> (fun f => f.fetch [f.PC])
    |> (fun f => { f with address := (readMem f.RAM f.PC) % 65536 })
    |> (fun f => { f with PC := (f.PC + 1) % 65536 })
    |> (fun f => if ((f.address + f.Y) &&& 0xFF00) ≠ 0 then
        f |> (fun f => { f with cycles := f.cycles + 1 })
      else f)
    |> (fun f => f.fetch [f.PC])
    |> (fun f => { f with address := (f.address ||| ((readMem f.RAM f.PC) <<< 8)) % 65536 })
    |> (fun f => { f with PC := (f.PC + 1) % 65536 })
    |> (fun f => { f with address := (f.address + f.Y) % 65536 })
    |> (fun f => f.fetch [f.address])
    |> (fun f => { f with value8 := (readMem f.RAM f.address) % 256 })
    |> (fun f => { f with value8 := (f.value8 ^^^ 0xFF) % 256 })
    |> (fun f => if f.P.D then
        f |> (fun f => { f with value8 := (sub32 f.value8 0x0066) % 256 })
      else f)
    |> (fun f => { f with value16 := ((f.A + f.value8) + f.P.C.toNat) % 65536 })
    |> (fun f => { f with P := { f.P with V := decide ((((f.value16 ^^^ f.A) &&& (f.value16 ^^^ f.value8)) &&& 0x0080) ≠ 0) } })
    |> (fun f => if f.P.D then
        f |> (fun f => { f with value16 := (f.value16 + ((((((f.value16 + 0x66) ^^^ f.A) ^^^ f.value8) >>> 3) &&& 0x22) * 3)) % 65536 })
      else f)
    |> (fun f => { f with P := { f.P with C := decide (f.value16 > 0xFF) } })
    |> (fun f => { f with A := (f.value16 &&& 0xFF) % 256 })
    |> (fun f => { f with P := { f.P with Z := decide (f.A = 0) } })
    |> (fun f => { f with P := { f.P with S := decide (f.A > 0x7F) } })
    |> (fun f => { f with cycles := f.cycles + 4 })

/-- `case 0xFA : // IMP PLX` (line 2542). -/
def op_FA (f : Frame) : Frame :=
  f |> (fun f => { f with SP := (f.SP + 1) % 256 })
    |> (fun f => f.fetch [0x100 + f.SP])
    |> (fun f => { f with X := (readMem f.RAM (0x100 + f.SP)) % 256 })
    |> (fun f => { f with P := { f.P with Z := decide (f.X = 0) } })
    |> (fun f => { f with P := { f.P with S := decide (f.X > 0x7F) } })
    |> (fun f => { f with cycles := f.cycles + 4 })

/-- `case 0xFB : // IMP NOP` (line 2550). -/
def op_FB (f : Frame) : Frame :=
  f |> (fun f => { f with cycles := f.cycles + 1 })

/-- `case 0xFC : // ABS NOP` (line 2554). -/
def op_FC (f : Frame) : Frame :=
  f |> (fun f => { f with PC := (f.PC + 2) % 65536 })
    |> (fun f => { f with cycles := f.cycles + 4 })

/-- `case 0xFD : // ABX SBC` (line 2559). -/
def op_FD (f : Frame) : Frame :=
  f |> (fun f => f.fetch [f.PC])
    |> (fun f => { f with address := (readMem f.RAM f.PC) % 65536 })
    |> (fun f => { f with PC := (f.PC + 1) % 65536 })
    |> (fun f => if ((f.address + f.X) &&& 0xFF00) ≠ 0 then
        f |> (fun f => { f with cycles := f.cycles + 1 })
      else f)
    |> (fun f => f.fetch [f.PC])
    |> (fun f => { f with address := (f.address ||| ((readMem f.RAM f.PC) <<< 8)) % 65536 })
    |> (fun f => { f with PC := (f.PC + 1) % 65536 })
    |> (fun f => { f with address := (f.address + f.X) % 65536 })
    |> (fun f => f.fetch [f.address])
    |> (fun f => { f with value8 := (readMem f.RAM f.address) % 256 })
    |> (fun f => { f with value8 := (f.value8 ^^^ 0xFF) % 256 })
    |> (fun f => if f.P.D then
        f |> (fun f => { f with value8 := (sub32 f.value8 0x0066) % 256 })
      else f)
    |> (fun f => { f with value16 := ((f.A + f.value8) + f.P.C.toNat) % 65536 })
    |> (fun f => { f with P := { f.P with V := decide ((((f.value16 ^^^ f.A) &&& (f.value16 ^^^ f.value8)) &&& 0x0080) ≠ 0) } })
    |> (fun f => if f.P.D then
        f |> (fun f => { f with value16 := (f.value16 + ((((((f.value16 + 0x66) ^^^ f.A) ^^^ f.value8) >>> 3) &&& 0x22) * 3)) % 65536 })
      else f)
    |> (fun f => { f with P := { f.P with C := decide ((f.value16 &&& 0xFF00) ≠ 0) } })
    |> (fun f => { f with A := (f.value16 &&& 0xFF) % 256 })
    |> (fun f => { f with P := { f.P with Z := decide (f.A = 0) } })
    |> (fun f => { f with P := { f.P with S := decide (f.A > 0x7F) } })
    |> (fun f => { f with cycles := f.cycles + 4 })

/-- `case 0xFE : // ABX INC` (line 2582). -/
def op_FE (f : Frame) : Frame :=
  f |> (fun f => f.fetch [f.PC])
    |> (fun f => { f with address := (readMem f.RAM f.PC) % 65536 })
    |> (fun f => { f with PC := (f.PC + 1) % 65536 })
    |> (fun f => f.fetch [f.PC])
    |> (fun f => { f with address := (f.address ||| ((readMem f.RAM f.PC) <<< 8)) % 65536 })
    |> (fun f => { f with PC := (f.PC + 1) % 65536 })
    |> (fun f => { f with address := (f.address + f.X) % 65536 })
    |> (fun f => f.fetch [f.address])
    |> (fun f => { f with value8 := (readMem f.RAM f.address) % 256 })
    |> (fun f => { f with value8 := (f.value8 + 1) % 256 })
    |> (fun f => f.store f.address f.value8)
    |> (fun f => { f with P := { f.P with Z := decide (f.value8 = 0) } })
    |> (fun f => { f with P := { f.P with S := decide (f.value8 > 0x7F) } })
    |> (fun f => { f with cycles := f.cycles + 7 })

/-- `case 0xFF : // ZPR BBS` (line 2596). -/
def op_FF (f : Frame) : Frame :=
  f |> (fun f => f.fetch [f.PC, readMem f.RAM f.PC])
    |> (fun f => { f with value8 := (readMem f.RAM (readMem f.RAM f.PC)) % 256 })
    |> (fun f => { f with PC := (f.PC + 1) % 65536 })
    |> (fun f => f.fetch [f.PC])
    |> (fun f => { f with address := (readMem f.RAM f.PC) % 65536 })
    |> (fun f => { f with PC := (f.PC + 1) % 65536 })
    |> (fun f => if (f.address &&& SIGN) ≠ 0 then
        f |> (fun f => { f with address := (f.address ||| 0xFF00) % 65536 })
      else f)
    |> (fun f => if (f.value8 &&& 128) ≠ 0 then
        f |> (fun f => { f with PC := (f.PC + f.address) % 65536 })
      else f)
    |> (fun f => { f with cycles := f.cycles + 5 })

/-- The cases `0x00` .. `0x0F` of the `switch` in `puce6502Step`. -/
def exec_row_0 (opcode : Nat) (f : Frame) : Frame :=
  match opcode with
  | 0x00 => op_00 f
  | 0x01 => op_01 f
  | 0x02 => op_02 f
  | 0x03 => op_03 f
  | 0x04 => op_04 f
  | 0x05 => op_05 f
  | 0x06 => op_06 f
  | 0x07 => op_07 f
  | 0x08 => op_08 f
  | 0x09 => op_09 f
  | 0x0A => op_0A f
  | 0x0B => op_0B f
  | 0x0C => op_0C f
  | 0x0D => op_0D f
  | 0x0E => op_0E f
  | 0x0F => op_0F f
  | _ => f

/-- The cases `0x10` .. `0x1F` of the `switch` in `puce6502Step`. -/
def exec_row_1 (opcode : Nat) (f : Frame) : Frame :=
  match opcode with
  | 0x10 => op_10 f
  | 0x11 => op_11 f
  | 0x12 => op_12 f
  | 0x13 => op_13 f
  | 0x14 => op_14 f
  | 0x15 => op_15 f
  | 0x16 => op_16 f
  | 0x17 => op_17 f
  | 0x18 => op_18 f
  | 0x19 => op_19 f
  | 0x1A => op_1A f
  | 0x1B => op_1B f
  | 0x1C => op_1C f
  | 0x1D => op_1D f
  | 0x1E => op_1E f
  | 0x1F => op_1F f
  | _ => f

/-- The cases `0x20` .. `0x2F` of the `switch` in `puce6502Step`. -/
def exec_row_2 (opcode : Nat) (f : Frame) : Frame :=
  match opcode with
  | 0x20 => op_20 f
  | 0x21 => op_21 f
  | 0x22 => op_22 f
  | 0x23 => op_23 f
  | 0x24 => op_24 f
  | 0x25 => op_25 f
  | 0x26 => op_26 f
  | 0x27 => op_27 f
  | 0x28 => op_28 f
  | 0x29 => op_29 f
  | 0x2A => op_2A f
  | 0x2B => op_2B f
  | 0x2C => op_2C f
  | 0x2D => op_2D f
  | 0x2E => op_2E f
  | 0x2F => op_2F f
  | _ => f

/-- The cases `0x30` .. `0x3F` of the `switch` in `puce6502Step`. -/
def exec_row_3 (opcode : Nat) (f : Frame) : Frame :=
  match opcode with
  | 0x30 => op_30 f
  | 0x31 => op_31 f
  | 0x32 => op_32 f
  | 0x33 => op_33 f
  | 0x34 => op_34 f
  | 0x35 => op_35 f
  | 0x36 => op_36 f
  | 0x37 => op_37 f
  | 0x38 => op_38 f
  | 0x39 => op_39 f
  | 0x3A => op_3A f
  | 0x3B => op_3B f
  | 0x3C => op_3C f
  | 0x3D => op_3D f
  | 0x3E => op_3E f
  | 0x3F => op_3F f
  | _ => f

/-- The cases `0x40` .. `0x4F` of the `switch` in `puce6502Step`. -/
def exec_row_4 (opcode : Nat) (f : Frame) : Frame :=
  match opcode with
  | 0x40 => op_40 f
  | 0x41 => op_41 f
  | 0x42 => op_42 f
  | 0x43 => op_43 f
  | 0x44 => op_44 f
  | 0x45 => op_45 f
  | 0x46 => op_46 f
  | 0x47 => op_47 f
  | 0x48 => op_48 f
  | 0x49 => op_49 f
  | 0x4A => op_4A f
  | 0x4B => op_4B f
  | 0x4C => op_4C f
  | 0x4D => op_4D f
  | 0x4E => op_4E f
  | 0x4F => op_4F f
  | _ => f

/-- The cases `0x50` .. `0x5F` of the `switch` in `puce6502Step`. -/
def exec_row_5 (opcode : Nat) (f : Frame) : Frame :=
  match opcode with
  | 0x50 => op_50 f
  | 0x51 => op_51 f
  | 0x52 => op_52 f
  | 0x53 => op_53 f
  | 0x54 => op_54 f
  | 0x55 => op_55 f
  | 0x56 => op_56 f
  | 0x57 => op_57 f
  | 0x58 => op_58 f
  | 0x59 => op_59 f
  | 0x5A => op_5A f
  | 0x5B => op_5B f
  | 0x5C => op_5C f
  | 0x5D => op_5D f
  | 0x5E => op_5E f
  | 0x5F => op_5F f
  | _ => f

/-- The cases `0x60` .. `0x6F` of the `switch` in `puce6502Step`. -/
def exec_row_6 (opcode : Nat) (f : Frame) : Frame :=
  match opcode with
  | 0x60 => op_60 f
  | 0x61 => op_61 f
  | 0x62 => op_62 f
  | 0x63 => op_63 f
  | 0x64 => op_64 f
  | 0x65 => op_65 f
  | 0x66 => op_66 f
  | 0x67 => op_67 f
  | 0x68 => op_68 f
  | 0x69 => op_69 f
  | 0x6A => op_6A f
  | 0x6B => op_6B f
  | 0x6C => op_6C f
  | 0x6D => op_6D f
  | 0x6E => op_6E f
  | 0x6F => op_6F f
  | _ => f

/-- The cases `0x70` .. `0x7F` of the `switch` in `puce6502Step`. -/
def exec_row_7 (opcode : Nat) (f : Frame) : Frame :=
  match opcode with
  | 0x70 => op_70 f
  | 0x71 => op_71 f
  | 0x72 => op_72 f
  | 0x73 => op_73 f
  | 0x74 => op_74 f
  | 0x75 => op_75 f
  | 0x76 => op_76 f
  | 0x77 => op_77 f
  | 0x78 => op_78 f
  | 0x79 => op_79 f
  | 0x7A => op_7A f
  | 0x7B => op_7B f
  | 0x7C => op_7C f
  | 0x7D => op_7D f
  | 0x7E => op_7E f
  | 0x7F => op_7F f
  | _ => f

/-- The cases `0x80` .. `0x8F` of the `switch` in `puce6502Step`. -/
def exec_row_8 (opcode : Nat) (f : Frame) : Frame :=
  match opcode with
  | 0x80 => op_80 f
  | 0x81 => op_81 f
  | 0x82 => op_82 f
  | 0x83 => op_83 f
  | 0x84 => op_84 f
  | 0x85 => op_85 f
  | 0x86 => op_86 f
  | 0x87 => op_87 f
  | 0x88 => op_88 f
  | 0x89 => op_89 f
  | 0x8A => op_8A f
  | 0x8B => op_8B f
  | 0x8C => op_8C f
  | 0x8D => op_8D f
  | 0x8E => op_8E f
  | 0x8F => op_8F f
  | _ => f

/-- The cases `0x90` .. `0x9F` of the `switch` in `puce6502Step`. -/
def exec_row_9 (opcode : Nat) (f : Frame) : Frame :=
  match opcode with
  | 0x90 => op_90 f
  | 0x91 => op_91 f
  | 0x92 => op_92 f
  | 0x93 => op_93 f
  | 0x94 => op_94 f
  | 0x95 => op_95 f
  | 0x96 => op_96 f
  | 0x97 => op_97 f
  | 0x98 => op_98 f
  | 0x99 => op_99 f
  | 0x9A => op_9A f
  | 0x9B => op_9B f
  | 0x9C => op_9C f
  | 0x9D => op_9D f
  | 0x9E => op_9E f
  | 0x9F => op_9F f
  | _ => f

/-- The cases `0xA0` .. `0xAF` of the `switch` in `puce6502Step`. -/
def exec_row_A (opcode : Nat) (f : Frame) : Frame :=
  match opcode with
  | 0xA0 => op_A0 f
  | 0xA1 => op_A1 f
  | 0xA2 => op_A2 f
  | 0xA4 => op_A4 f
  | 0xA5 => op_A5 f
  | 0xA6 => op_A6 f
  | 0xA7 => op_A7 f
  | 0xA8 => op_A8 f
  | 0xA9 => op_A9 f
  | 0xAA => op_AA f
  | 0xAB => op_AB f
  | 0xAC => op_AC f
  | 0xAD => op_AD f
  | 0xAE => op_AE f
  | 0xAF => op_AF f
  | _ => f

/-- The cases `0xB0` .. `0xBF` of the `switch` in `puce6502Step`. -/
def exec_row_B (opcode : Nat) (f : Frame) : Frame :=
  match opcode with
  | 0xB0 => op_B0 f
  | 0xB1 => op_B1 f
  | 0xB2 => op_B2 f
  | 0xB3 => op_B3 f
  | 0xB4 => op_B4 f
  | 0xB5 => op_B5 f
  | 0xB6 => op_B6 f
  | 0xB7 => op_B7 f
  | 0xB8 => op_B8 f
  | 0xB9 => op_B9 f
  | 0xBA => op_BA f
  | 0xBB => op_BB f
  | 0xBC => op_BC f
  | 0xBD => op_BD f
  | 0xBE => op_BE f
  | 0xBF => op_BF f
  | _ => f

/-- The cases `0xC0` .. `0xCF` of the `switch` in `puce6502Step`. -/
def exec_row_C (opcode : Nat) (f : Frame) : Frame :=
  match opcode with
  | 0xC0 => op_C0 f
  | 0xC1 => op_C1 f
  | 0xC2 => op_C2 f
  | 0xC3 => op_C3 f
  | 0xC4 => op_C4 f
  | 0xC5 => op_C5 f
  | 0xC6 => op_C6 f
  | 0xC7 => op_C7 f
  | 0xC8 => op_C8 f
  | 0xC9 => op_C9 f
  | 0xCA => op_CA f
  | 0xCB => op_CB f
  | 0xCC => op_CC f
  | 0xCD => op_CD f
  | 0xCE => op_CE f
  | 0xCF => op_CF f
  | _ => f

/-- The cases `0xD0` .. `0xDF` of the `switch` in `puce6502Step`. -/
def exec_row_D (opcode : Nat) (f : Frame) : Frame :=
  match opcode with
  | 0xD0 => op_D0 f
  | 0xD1 => op_D1 f
  | 0xD2 => op_D2 f
  | 0xD3 => op_D3 f
  | 0xD4 => op_D4 f
  | 0xD5 => op_D5 f
  | 0xD6 => op_D6 f
  | 0xD7 => op_D7 f
  | 0xD8 => op_D8 f
  | 0xD9 => op_D9 f
  | 0xDA => op_DA f
  | 0xDB => op_DB f
  | 0xDC => op_DC f
  | 0xDD => op_DD f
  | 0xDE => op_DE f
  | 0xDF => op_DF f
  | _ => f

/-- The cases `0xE0` .. `0xEF` of the `switch` in `puce6502Step`. -/
def exec_row_E (opcode : Nat) (f : Frame) : Frame :=
  match opcode with
  | 0xE0 => op_E0 f
  | 0xE1 => op_E1 f
  | 0xE2 => op_E2 f
  | 0xE3 => op_E3 f
  | 0xE4 => op_E4 f
  | 0xE5 => op_E5 f
  | 0xE6 => op_E6 f
  | 0xE7 => op_E7 f
  | 0xE8 => op_E8 f
  | 0xE9 => op_E9 f
  | 0xEA => op_EA f
  | 0xEB => op_EB f
  | 0xEC => op_EC f
  | 0xED => op_ED f
  | 0xEE => op_EE f
  | 0xEF => op_EF f
  | _ => f

/-- The cases `0xF0` .. `0xFF` of the `switch` in `puce6502Step`. -/
def exec_row_F (opcode : Nat) (f : Frame) : Frame :=
  match opcode with
  | 0xF0 => op_F0 f
  | 0xF1 => op_F1 f
  | 0xF2 => op_F2 f
  | 0xF3 => op_F3 f
  | 0xF4 => op_F4 f
  | 0xF5 => op_F5 f
  | 0xF6 => op_F6 f
  | 0xF7 => op_F7 f
  | 0xF8 => op_F8 f
  | 0xF9 => op_F9 f
  | 0xFA => op_FA f
  | 0xFB => op_FB f
  | 0xFC => op_FC f
  | 0xFD => op_FD f
  | 0xFE => op_FE f
  | 0xFF => op_FF f
  | _ => f

/-- The `switch( readMem(PC++) )` of `puce6502Step`, dispatched on the high nibble
first.  There is no `default:` label (it is commented out in the source): an
opcode without a `case` leaves every variable as it is. -/
def exec_opcode (opcode : Nat) (f : Frame) : Frame :=
  match opcode / 16 with
  | 0x0 => exec_row_0 opcode f
  | 0x1 => exec_row_1 opcode f
  | 0x2 => exec_row_2 opcode f
  | 0x3 => exec_row_3 opcode f
  | 0x4 => exec_row_4 opcode f
  | 0x5 => exec_row_5 opcode f
  | 0x6 => exec_row_6 opcode f
  | 0x7 => exec_row_7 opcode f
  | 0x8 => exec_row_8 opcode f
  | 0x9 => exec_row_9 opcode f
  | 0xA => exec_row_A opcode f
  | 0xB => exec_row_B opcode f
  | 0xC => exec_row_C opcode f
  | 0xD => exec_row_D opcode f
  | 0xE => exec_row_E opcode f
  | 0xF => exec_row_F opcode f
  | _ => f

/-- `puce6502Step`: the variables after the call and the value returned (`cycles`).
The locals `address`, `value8`, `value16` are uninitialised in C; every `case`
assigns them before reading them, and they start at 0 here. -/
def puce6502Step (s : Cpu) : Cpu × Nat :=
  if s.state = status.run ∨ s.state = status.step then
    let opcode := readMem s.RAM s.PC
    let s := s.fetch [s.PC]
    let s := { s with PC := (s.PC + 1) % 65536 }
    let f : Frame := { toCpu := s, address := 0, value8 := 0, value16 := 0, cycles := 0 }
    let f := exec_opcode opcode f
    (f.toCpu, f.cycles)
  else
    (s, 0 + 2)

/-- The loop `while (ticks < cycleCount) ticks += puce6502Step();` with an
iteration budget: `none` when the budget is used up before the loop exits. -/
def puce6502Exec_loop (cycleCount : Nat) : Nat → Cpu → Option Cpu
  | 0, _ => none
  | fuel + 1, s =>
    if s.ticks < cycleCount then
      let r := puce6502Step s
      puce6502Exec_loop cycleCount fuel
        { r.1 with ticks := (r.1.ticks + r.2) % 18446744073709551616 }
    else some s

/-- `puce6502Exec(cycleCount)`: the variables on return and the value returned
(`PC`), or `none` when the loop has not finished within `fuel` iterations. -/
def puce6502Exec (fuel : Nat) (s : Cpu) (cycleCount : Nat) : Option (Cpu × Nat) :=
  let cycleCount := (cycleCount + s.ticks) % 18446744073709551616
  match puce6502Exec_loop cycleCount fuel s with
  | none => none
  | some s => some (s, s.PC)

/-- The mnemonic table `mn[256]`. -/
def mn : List String := [
  "BRK","ORA","NOP","NOP","TSB","ORA","ASL","RMB","PHP","ORA","ASL","NOP","TSB","ORA","ASL","BBR",
  "BPL","ORA","ORA","NOP","TRB","ORA","ASL","RMB","CLC","ORA","INC","NOP","TRB","ORA","ASL","BBR",
  "JSR","AND","NOP","NOP","BIT","AND","ROL","RMB","PLP","AND","ROL","NOP","BIT","AND","ROL","BBR",
  "BMI","AND","AND","NOP","BIT","AND","ROL","RMB","SEC","AND","DEC","NOP","BIT","AND","ROL","BBR",
  "RTI","EOR","NOP","NOP","NOP","EOR","LSR","RMB","PHA","EOR","LSR","NOP","JMP","EOR","LSR","BBR",
  "BVC","EOR","EOR","NOP","NOP","EOR","LSR","RMB","CLI","EOR","PHY","NOP","NOP","EOR","LSR","BBR",
  "RTS","ADC","NOP","NOP","STZ","ADC","ROR","RMB","PLA","ADC","ROR","NOP","JMP","ADC","ROR","BBR",
  "BVS","ADC","ADC","NOP","STZ","ADC","ROR","RMB","SEI","ADC","PLY","NOP","JMP","ADC","ROR","BBR",
  "BRA","STA","NOP","NOP","STY","STA","STX","SMB","DEY","BIT","TXA","NOP","STY","STA","STX","BBS",
  "BCC","STA","STA","NOP","STY","STA","STX","SMB","TYA","STA","TXS","NOP","STZ","STA","STZ","BBS",
  "LDY","LDA","LDX","NOP","LDY","LDA","LDX","SMB","TAY","LDA","TAX","NOP","LDY","LDA","LDX","BBS",
  "BCS","LDA","LDA","NOP","LDY","LDA","LDX","SMB","CLV","LDA","TSX","NOP","LDY","LDA","LDX","BBS",
  "CPY","CMP","NOP","NOP","CPY","CMP","DEC","SMB","INY","CMP","DEX","WAI","CPY","CMP","DEC","BBS",
  "BNE","CMP","CMP","NOP","NOP","CMP","DEC","SMB","CLD","CMP","PHX","STP","NOP","CMP","DEC","BBS",
  "CPX","SBC","NOP","NOP","CPX","SBC","INC","SMB","INX","SBC","NOP","NOP","CPX","SBC","INC","BBS",
  "BEQ","SBC","SBC","NOP","NOP","SBC","INC","SMB","SED","SBC","PLX","NOP","NOP","SBC","INC","BBS"]


/-! ## Auxiliary definitions used in the statements of the lemmas below -/

/-- The value `pair` computed in the first loop of `nibbilize` for a source byte `b`
(the two low bits of `b`, swapped). -/
def swapped_pair (b : Nat) : Nat := (((b &&& 2) >>> 1) ||| ((b &&& 1) <<< 1)) % 256

/-- Closed form of `secondary_buf[j]` after `n` iterations of the first loop of
`nibbilize` over the source bytes `b 0, b 1, ...`. -/
def secondary_after (b : Nat → Nat) (n j : Nat) : Nat :=
  (if j < n then swapped_pair (b j) else 0) |||
  (if 86 + j < n then swapped_pair (b (86 + j)) <<< 2 else 0) |||
  (if 172 + j < n then swapped_pair (b (172 + j)) <<< 4 else 0)

/-- The sequence of 6-bit values that `nibbilize` encodes for the sector at
`(track, sector)`: the 86 entries of `secondary_buf`, then the 256 entries of
`primary_buf`. -/
def nib_stream (dsk_buf : List Nat) (track sector : Nat) (k : Nat) : Nat :=
  if k < 86 then (nibbilize_bufs dsk_buf track sector).2.getD k 0
  else (nibbilize_bufs dsk_buf track sector).1.getD (k - 86) 0

/-- The sector record that `dsk2nib` copies to the NIB buffer for sector index
`sec` of track `trk`. -/
def sector_record (volume : Nat) (dsk_buf : List Nat) (trk sec : Nat) : nib_sector_t :=
  (dsk2nib_sector volume dsk_buf trk (dsk2nib_init volume, []) sec).1

/-- The members of a `nib_sector_t` that the loops of `dsk2nib` never assign. -/
def same_marks (a b : nib_sector_t) : Prop :=
  a.gap1 = b.gap1 ∧ a.addr.prolog = b.addr.prolog ∧ a.addr.volume = b.addr.volume ∧
  a.addr.epilog = b.addr.epilog ∧ a.gap2 = b.gap2 ∧ a.data.prolog = b.data.prolog ∧
  a.data.epilog = b.data.epilog

/-- Invariant of the loops of `dsk2nib`: when the sectors before index `n` of track
`trk` (and all sectors of the tracks before `trk`) have been processed, their
records are in place in the NIB buffer, whose length is `len`. -/
def nib_inv (volume : Nat) (dsk_buf : List Nat) (len trk n : Nat)
    (st : nib_sector_t × List Nat) : Prop :=
  same_marks st.1 (dsk2nib_init volume) ∧ st.2.length = len ∧
  ∀ trk' s', s' < 16 → (trk' < trk ∨ (trk' = trk ∧ s' < n)) → ∀ j, j < 416 →
    st.2.getD (nib_get trk' (phys_interleave.getD s' 0) + j) 0
      = (sector_record volume dsk_buf trk' s').bytes.getD j 0

/-- The 22 bytes between the first gap and the data bytes of a sector record:
address field, second gap and data prolog. -/
def record_header (volume trk sec : Nat) : List Nat :=
  [0xd5, 0xaa, 0x96] ++ odd_even_encode volume ++ odd_even_encode trk ++ odd_even_encode sec
    ++ odd_even_encode (volume ^^^ trk ^^^ sec) ++ [0xde, 0xaa, 0xeb]
    ++ [0xff, 0xff, 0xff, 0xff, 0xff] ++ [0xd5, 0xaa, 0xad]

/-- `Reach nib_buf max_tracks k s s'`: starting with the variables `s`, the loop of
`nib2dsk` runs `k` iterations without returning and arrives at `s'`. -/
inductive Reach (nib_buf : List Nat) (max_tracks : Nat) :
    Nat → Nib2dskVars → Nib2dskVars → Prop where
  | refl (s : Nib2dskVars) : Reach nib_buf max_tracks 0 s s
  | step {k : Nat} {s s' s'' : Nib2dskVars} :
      s.state ≠ STATE_DONE → nib2dsk_body nib_buf max_tracks s = Flow.next s' →
      Reach nib_buf max_tracks k s' s'' → Reach nib_buf max_tracks (k + 1) s s''

/-- `covered n q`: byte position `q` of the DSK image belongs to a sector whose
record is among the first `n` records of the NIB buffer (record `trk * 16 + p` is
the one in physical slot `p` of track `trk`). -/
def covered (n q : Nat) : Prop :=
  ∃ trk s, s < 16 ∧ trk * 16 + phys_interleave.getD s 0 < n ∧
    trk * 4096 + soft_interleave.getD s 0 * 256 ≤ q ∧
    q < trk * 4096 + soft_interleave.getD s 0 * 256 + 256

/-- A byte read as a signed 8-bit value. -/
def signed8 (x : Nat) : Int := if x < 128 then (x : Int) else (x : Int) - 256

/-- Flags with only `U` set. -/
def flags_U : Flags :=
  { C := false, Z := false, I := false, D := false, B := false, U := true, V := false, S := false }

/-- A running CPU at `pc` with accumulator `a`, flags `p`, stack pointer `sp`, and a
memory that holds the bytes `prog` from address `pc` on and `fill` elsewhere. -/
def cpu_at (pc a x y sp : Nat) (p : Flags) (prog : List Nat) (fill : Nat) : Cpu :=
  { PC := pc, A := a, X := x, Y := y, SP := sp, P := p, state := status.run, ticks := 0,
    RAM := fun i => if pc ≤ i then prog.getD (i - pc) fill else fill, bus := [] }

/-- `ADC #$50` at `0x1000` with `A = 0x50`, carry and decimal flags clear. -/
def adc_example : Cpu := cpu_at 0x1000 0x50 0 0 0xFF flags_U [0x69, 0x50] 0

/-- A running CPU with `PC = 0x12FF`, `SP = 0xFF`, only the `U` flag set
(`P.byte = 0x20`), and memory filled with zero bytes. -/
def irq_example : Cpu := cpu_at 0x12FF 0 0 0 0xFF flags_U [] 0

/-- A running CPU at address 0 whose memory holds `0xA3` at every address. -/
def a3_example : Cpu := cpu_at 0 0 0 0 0xFF flags_U [] 0xA3

/-- `BCC $FE` at `0x100E` with the carry clear: the branch is taken, from `0x1010`
back to `0x100E`. -/
def bcc_example : Cpu := cpu_at 0x100E 0 0 0 0xFF flags_U [0x90, 0xFE] 0

/-- The same branch with `BNE` (opcode `0xD0`, zero flag clear). -/
def bne_example : Cpu := cpu_at 0x100E 0 0 0 0xFF flags_U [0xD0, 0xFE] 0

/-- `BVS $FE` at `0x100E` with the overflow flag set. -/
def bvs_example : Cpu := cpu_at 0x100E 0 0 0 0xFF { flags_U with V := true } [0x70, 0xFE] 0

/-- The condition tested by the `case` of each conditional branch opcode. -/
def branch_taken (opcode : Nat) (P : Flags) : Bool :=
  match opcode with
  | 0x10 => !P.S
  | 0x30 => P.S
  | 0x50 => !P.V
  | 0x70 => P.V
  | 0x90 => !P.C
  | 0xB0 => P.C
  | 0xD0 => !P.Z
  | 0xF0 => P.Z
  | _ => false

/-- Specification side: the branch destination, the address `pc1` after the
instruction plus the offset byte `b` read as a signed 8-bit number, modulo 65536. -/
def spec_branch_dest (pc1 b : Nat) : Nat :=
  (((pc1 : Int) + signed8 b) % 65536).toNat

/-- Specification side: 2 cycles when the branch is not taken, 3 when it is taken to
the page of the address after the instruction, 4 when it is taken to another page. -/
def spec_branch_cost (taken : Bool) (pc1 dest : Nat) : Nat :=
  if taken then (if dest / 256 = pc1 / 256 then 3 else 4) else 2

/-- The body shared by the `case`s of BPL, BMI, BVC, BCS, BNE and BEQ, with the
tested condition as a parameter: the offset is sign-extended, then the page test
is made. -/
def rel_sign_then_page (taken : Bool) (f : Frame) : Frame :=
  f |> (fun f => f.fetch [f.PC])
    |> (fun f => { f with address := (readMem f.RAM f.PC) % 65536 })
    |> (fun f => { f with PC := (f.PC + 1) % 65536 })
    |> (fun f => if taken then
        f |> (fun f => { f with cycles := f.cycles + 1 })
          |> (fun f => if (f.address &&& SIGN) ≠ 0 then
              f |> (fun f => { f with address := (f.address ||| 0xFF00) % 65536 })
            else f)
          |> (fun f => if (((f.PC &&& 0xFF) + f.address) &&& 0xFF00) ≠ 0 then
              f |> (fun f => { f with cycles := f.cycles + 1 })
            else f)
          |> (fun f => { f with PC := (f.PC + f.address) % 65536 })
      else f)
    |> (fun f => { f with cycles := f.cycles + 2 })

/-- The body shared by the `case`s of BVS and BCC: the page test is made on the
offset byte as read, before it is sign-extended. -/
def rel_page_then_sign (taken : Bool) (f : Frame) : Frame :=
  f |> (fun f => f.fetch [f.PC])
    |> (fun f => { f with address := (readMem f.RAM f.PC) % 65536 })
    |> (fun f => { f with PC := (f.PC + 1) % 65536 })
    |> (fun f => if taken then
        f |> (fun f => { f with cycles := f.cycles + 1 })
          |> (fun f => if (((f.PC &&& 0xFF) + f.address) &&& 0xFF00) ≠ 0 then
              f |> (fun f => { f with cycles := f.cycles + 1 })
            else f)
          |> (fun f => if (f.address &&& SIGN) ≠ 0 then
              f |> (fun f => { f with address := (f.address ||| 0xFF00) % 65536 })
            else f)
          |> (fun f => { f with PC := (f.PC + f.address) % 65536 })
      else f)
    |> (fun f => { f with cycles := f.cycles + 2 })


/-! ## Binary-coded decimal (specification side) -/

/-- Both nibbles of the byte are decimal digits. -/
def bcd_valid (a : Nat) : Prop := a / 16 ≤ 9 ∧ a % 16 ≤ 9

instance (a : Nat) : Decidable (bcd_valid a) := by
  unfold bcd_valid
  infer_instance

/-- The decimal value (0..99) that a valid BCD byte stands for. -/
def bcd_value (a : Nat) : Nat := (a / 16) * 10 + a % 16

/-- The BCD byte that stands for the decimal value `v` (0..99). -/
def bcd_encode (v : Nat) : Nat := (v / 10) * 16 + v % 10

/-- The arithmetic of `case 0x69` with the Decimal flag set: `value16` after the
correction, from `A`, the operand and the carry. -/
def adc_dec_value16 (a m c : Nat) : Nat :=
  ((a + m + c) % 65536 + ((((((a + m + c) % 65536 + 0x66) ^^^ a) ^^^ m) >>> 3) &&& 0x22) * 3) % 65536

/-- The arithmetic of `case 0xE9` with the Decimal flag set: `value8` after
`value8 ^= 0xFF; value8 -= 0x0066;`. -/
def sbc_dec_value8 (m : Nat) : Nat := (sub32 ((m ^^^ 0xFF) % 256) 0x0066) % 256

/-- `ADC #$01` at `0x1000` with `A = 0x09`, carry clear, Decimal flag set. -/
def adc_dec_example : Cpu :=
  cpu_at 0x1000 0x09 0 0 0xFF { flags_U with D := true } [0x69, 0x01] 0

/-- `SBC #$01` at `0x1000` with `A = 0x10`, carry set (no borrow), Decimal flag set. -/
def sbc_dec_example : Cpu :=
  cpu_at 0x1000 0x10 0 0 0xFF { flags_U with D := true, C := true } [0xE9, 0x01] 0


/-! ## `reinetteII+.c`: recognising a disk image by its length -/

/-- Conversion of a `size_t` value to `int` (32 bits, two's complement: the value
modulo `2^32`, read as signed), as in `trk = flen/BYTES_PER_TRACK` where `trk` is
an `int` and `flen` a `size_t`. -/
def int_of_size_t (q : Nat) : Int :=
  if q % 4294967296 < 2147483648 then ((q % 4294967296 : Nat) : Int)
  else ((q % 4294967296 : Nat) : Int) - 4294967296

/-- `is_dsk_file(flen)`, with `flen` a `size_t`. -/
def is_dsk_file (flen : Nat) : Int :=
  if flen % BYTES_PER_TRACK ≠ 0 then 0
  else
    let trk := int_of_size_t (flen / BYTES_PER_TRACK)
    if trk ≥ 35 ∧ trk ≤ 40 then trk else 0

/-- `is_nib_file(flen)`, with `flen` a `size_t`. -/
def is_nib_file (flen : Nat) : Int :=
  if flen % BYTES_PER_NIB_TRACK ≠ 0 then 0
  else
    let trk := int_of_size_t (flen / BYTES_PER_NIB_TRACK)
    if trk ≥ 35 ∧ trk ≤ 40 then trk else 0

/-- The variables of `nib2dsk` when the loop is entered: `byte` is the first byte
of the buffer, `index` is 1. -/
def nib2dsk_start (byte : Nat) (dsk_buf : List Nat) : Nib2dskVars :=
  { state := STATE_INIT, addr_prolog_index := 0, addr_epilog_index := 0,
    data_prolog_index := 0, data_epilog_index := 0, byte := byte,
    track := 0, sector := 0, volume := 0, index := 1, extra := 0, dsk_buf := dsk_buf }

/-- The variables after `k` iterations of the loop of `nib2dsk`, when none of them
returns and the loop does not exit before. -/
def nib2dsk_run (nib_buf : List Nat) (max_tracks : Nat) : Nat → Nib2dskVars → Option Nib2dskVars
  | 0, s => some s
  | k + 1, s =>
    if s.state ≠ STATE_DONE then
      match nib2dsk_body nib_buf max_tracks s with
      | Flow.exit _ => none
      | Flow.next s' => nib2dsk_run nib_buf max_tracks k s'
    else none

/-- A bound on the number of iterations left: an iteration either advances `index`
or goes from an accept state back to a scan state (0 or 9) without reading. -/
def nib2dsk_measure (max_tracks : Nat) (s : Nib2dskVars) : Nat :=
  2 * (max_tracks * BYTES_PER_NIB_TRACK - s.index) + (if s.state = 0 ∨ s.state = 9 then 0 else 1)

/-- The 343 bytes of a data field (342 data bytes and the checksum byte) when
`process_data` is entered: `byte`, then the bytes of the buffer from `index` on. -/
def field_bytes (nib_buf : List Nat) (byte index : Nat) : List Nat :=
  byte :: (List.range 342).map (fun k => nib_buf.getD (index + k) 0)

/-- Specification side: a data field passes the checksum when each of its bytes is
a valid disk nibble and the XOR of the untranslated bytes is 0. -/
def checksum_ok (field : List Nat) : Prop :=
  (∀ b, b ∈ field → untranslate b ≠ 0xFF) ∧
  field.foldl (fun a b => a ^^^ untranslate b) 0 = 0

instance (field : List Nat) : Decidable (checksum_ok field) := by
  unfold checksum_ok
  infer_instance

/-! ### Sample buffers -/

/-- The 343 bytes that encode a sector of 256 bytes `0x04`: the secondary buffer is
all zero (`0x96` is `translate 0`), the primary buffer is all ones (`0x97` is
`translate 1`). -/
def sample_field : List Nat :=
  List.replicate 86 0x96 ++ [0x97] ++ List.replicate 255 0x96 ++ [0x97]

/-- A data field whose first byte is wrong: the XOR of the untranslated bytes is 1. -/
def sample_field_bad : List Nat := [0x97] ++ List.replicate 342 0x96

/-- A sector record of track 0, volume 254, sector index `sec`, with the given
data field and data epilog. -/
def sample_record (sec : Nat) (field epilog : List Nat) : List Nat :=
  List.replicate 48 0xFF ++ record_header 254 0 sec ++ field ++ epilog

/-- A one-track NIB buffer: the bytes `l`, then gap bytes up to 6656 bytes. -/
def pad_track (l : List Nat) : List Nat := l ++ List.replicate (6656 - l.length) 0xFF

/-- One track: a record whose data field fails the checksum, then a well-formed
record. -/
def nib_bad_checksum : List Nat :=
  pad_track (sample_record 0 sample_field_bad [0xDE, 0xAA, 0xEB]
    ++ sample_record 1 sample_field [0xDE, 0xAA, 0xEB])

/-- One track: a record whose data epilog is `DE BB EB`, then a well-formed record. -/
def nib_bad_epilog : List Nat :=
  pad_track (sample_record 0 sample_field [0xDE, 0xBB, 0xEB]
    ++ sample_record 1 sample_field [0xDE, 0xAA, 0xEB])

/-- One track of gap bytes. -/
def nib_gap : List Nat := List.replicate 6656 0xFF

/-- An empty one-track DSK image buffer. -/
def dsk_blank : List Nat := List.replicate 4096 0


/-! ## Calls made by the host program, and sample machine states -/

/-- One call of the interface of `puce65c02.c` other than the reset. -/
inductive CpuCall where
  | step
  | irq
  | nmi
  deriving DecidableEq, Repr

/-- The variables after one call (`puce6502Step` taken without the cycle count it
returns). -/
def CpuCall.apply : CpuCall → Cpu → Cpu
  | CpuCall.step, s => (puce6502Step s).1
  | CpuCall.irq, s => puce6502IRQ s
  | CpuCall.nmi, s => puce6502NMI s

/-- The variables after a sequence of calls, made in order. -/
def run_calls (calls : List CpuCall) (s : Cpu) : Cpu :=
  calls.foldl (fun s c => c.apply s) s

/-- `STP` at `0x1000`. -/
def stp_example : Cpu := cpu_at 0x1000 0 0 0 0xFF flags_U [0xDB] 0

/-- `RTI` at `0x1000` with `SP = 0xF0` and a memory that holds zero bytes
elsewhere, so that the three bytes pulled are `0x00`. -/
def rti_example : Cpu := cpu_at 0x1000 0 0 0 0xF0 flags_U [0x40] 0

/-- `PLP` at `0x1000` with `SP = 0xF0`; the byte pulled is `0x00`. -/
def plp_example : Cpu := cpu_at 0x1000 0 0 0 0xF0 flags_U [0x28] 0

/-- `STZ $10FF,X` at `0x2000` with the given `X`. -/
def stz_abx_example (x : Nat) : Cpu := cpu_at 0x2000 0 x 0 0xFF flags_U [0x9E, 0xFF, 0x10] 0

/-- `PHA` at `0x1000` with `A = 0x42` and `SP = 0x00`. -/
def pha_example : Cpu := cpu_at 0x1000 0x42 0 0 0x00 flags_U [0x48] 0

/-- The body shared by the sixteen `case`s of `BBR` and `BBS` (`0x0F` ... `0xFF`),
with the condition tested on `value8` as a parameter: `!(value8 & mask)` for
`BBR`, `value8 & mask` for `BBS`. -/
def zpr_body (test : Nat → Prop) [DecidablePred test] (f : Frame) : Frame :=
  f |> (fun f => f.fetch [f.PC, readMem f.RAM f.PC])
    |> (fun f => { f with value8 := (readMem f.RAM (readMem f.RAM f.PC)) % 256 })
    |> (fun f => { f with PC := (f.PC + 1) % 65536 })
    |> (fun f => f.fetch [f.PC])
    |> (fun f => { f with address := (readMem f.RAM f.PC) % 65536 })
    |> (fun f => { f with PC := (f.PC + 1) % 65536 })
    |> (fun f => if (f.address &&& SIGN) ≠ 0 then
        f |> (fun f => { f with address := (f.address ||| 0xFF00) % 65536 })
      else f)
    |> (fun f => if test f.value8 then
        f |> (fun f => { f with PC := (f.PC + f.address) % 65536 })
      else f)
    |> (fun f => { f with cycles := f.cycles + 5 })

/-- `BBR3 $10,$FD` at `0x2000` (a branch to itself when taken); the zero-page byte
`0x10` holds `v`. -/
def bbr3_example (v : Nat) : Cpu :=
  { PC := 0x2000, A := 0, X := 0, Y := 0, SP := 0xFF, P := flags_U, state := status.run,
    ticks := 0,
    RAM := fun i => if i = 0x10 then v else [0x3F, 0x10, 0xFD].getD (i - 0x2000) 0,
    bus := [] }

/-- The body shared by the sixteen `case`s of `RMB` and `SMB` (`0x07` ... `0xF7`),
with the byte written back as a function of the byte read: `v & ~mask` for `RMB`,
`v | mask` for `SMB`. -/
def zpg_bit_body (g : Nat → Nat) (f : Frame) : Frame :=
  f |> (fun f => f.fetch [f.PC])
    |> (fun f => { f with address := (readMem f.RAM f.PC) % 65536 })
    |> (fun f => { f with PC := (f.PC + 1) % 65536 })
    |> (fun f => f.fetch [f.address])
    |> (fun f => f.store f.address (g (readMem f.RAM f.address)))
    |> (fun f => { f with cycles := f.cycles + 5 })

/-- `RMB5 $10` (`op = 0x57`) or `SMB5 $10` (`op = 0xD7`) at `0x2000`; the zero-page
byte `0x10` holds `v`. -/
def rmb5_example (op v : Nat) : Cpu :=
  { PC := 0x2000, A := 1, X := 2, Y := 3, SP := 0xFF, P := flags_U, state := status.run,
    ticks := 0,
    RAM := fun i => if i = 0x10 then v else [op, 0x10].getD (i - 0x2000) 0,
    bus := [] }

/-- Specification side, for the compare instructions: `s'` is `s` after comparing
the register value `r` with the operand `m`, the byte that the last memory read of
the instruction returned. Carry is `r >= m`, Zero is `r = m`, Sign is bit 7 of
`(r - m) mod 256`; the other flags, the registers and the memory are those of
`s`. -/
def compare_spec (r : Nat) (s s' : Cpu) : Prop :=
  ∃ a, s'.bus.getLast? = some (BusOp.read a) ∧
    s'.P = { s.P with C := decide (readMem s.RAM a ≤ r)
                      Z := decide (r = readMem s.RAM a)
                      S := decide ((r + 256 - readMem s.RAM a) % 256 / 128 % 2 = 1) } ∧
    s'.A = s.A ∧ s'.X = s.X ∧ s'.Y = s.Y ∧ s'.SP = s.SP ∧ s'.RAM = s.RAM

/-- `CMP #$50` at `0x1000` with the given accumulator. -/
def cmp_example (a : Nat) : Cpu := cpu_at 0x1000 a 0 0 0xFF flags_U [0xC9, 0x50] 0

/-- Specification side, for the shift and rotate instructions: the flags `P` after
an instruction with operand `m` that stored the 8-bit result `res`. Carry is the
bit shifted out of the operand (bit 7 when shifting left, bit 0 when shifting
right), Zero tells whether the result is 0, Sign is bit 7 of the result. -/
def shift_flags_spec (left : Bool) (m res : Nat) (P : Flags) : Prop :=
  P.C = decide ((if left then m / 128 % 2 else m % 2) = 1) ∧
  P.Z = decide (res = 0) ∧
  P.S = decide (res / 128 % 2 = 1)

/-- Specification side, memory forms: the last memory call of the instruction
writes the result `res` at the address `a` whose byte was the operand. -/
def shift_mem_spec (left : Bool) (s s' : Cpu) : Prop :=
  ∃ a res, s'.bus.getLast? = some (BusOp.write a res) ∧
    shift_flags_spec left (readMem s.RAM a) res s'.P

/-- Specification side, accumulator forms: the operand is `A` before the
instruction and the result is `A` after it. -/
def shift_acc_spec (left : Bool) (s s' : Cpu) : Prop :=
  shift_flags_spec left s.A s'.A s'.P

/-- `ASL $10,X` at `0x2000` with `X = 0`; the zero-page byte `0x10` holds `v`. -/
def asl_zpx_example (v : Nat) : Cpu :=
  { PC := 0x2000, A := 0, X := 0, Y := 0, SP := 0xFF, P := flags_U, state := status.run,
    ticks := 0,
    RAM := fun i => if i = 0x10 then v else [0x16, 0x10].getD (i - 0x2000) 0,
    bus := [] }

/-- `LDA $10FF,X` at `0x2000` with the given `X`. -/
def lda_abx_example (x : Nat) : Cpu := cpu_at 0x2000 0 x 0 0xFF flags_U [0xBD, 0xFF, 0x10] 0

/-- A 35-track NIB buffer whose first sector record names track 0 and sector 16 (the
pair `AA BA` decodes to `0x10`) and carries a data field that passes the checksum;
the rest is gap bytes. -/
def nib_sector16 : List Nat :=
  sample_record 16 sample_field [0xDE, 0xAA, 0xEB] ++ List.replicate (35 * 6656 - 416) 0xFF

/-- The same buffer with a record that names track 35, sector 0. -/
def nib_track35 : List Nat :=
  List.replicate 48 0xFF ++ record_header 254 35 0 ++ sample_field ++ [0xDE, 0xAA, 0xEB]
    ++ List.replicate (35 * 6656 - 416) 0xFF

/-! ## The disk ][ interface of `reinetteII+.c` (stepper and data latch) -/

/-- The members of `disk[curDrv]` used by `stepMotorQ` and by the data-latch
switches, together with `phs[curDrv]`, `quarterTrackPos[curDrv]` and the static
`dLatch` of `softSwitches`. -/
structure DriveHead where
  data : List Nat
  motorOn : Bool
  writeMode : Bool
  track : Nat
  nibble : Nat
  phs : List Nat
  quarterTrackPos : Int
  dLatch : Nat
  deriving DecidableEq, Repr

/-- The cascade of `if`s of `stepMotorQ` that turns the four phase values into the
position `q` (8 when no phase is left on). -/
def stepMotorQ_q (ph : List Nat) : Int :=
  if ph.getD 0 0 ≠ 0 then
    let q : Int := 0
    let q := if ph.getD 1 0 ≠ 0 then 1 else q
    let q := if ph.getD 3 0 ≠ 0 then 7 else q
    q
  else if ph.getD 1 0 ≠ 0 then
    let q : Int := 2
    let q := if ph.getD 2 0 ≠ 0 then 3 else q
    q
  else if ph.getD 2 0 ≠ 0 then
    let q : Int := 4
    let q := if ph.getD 3 0 ≠ 0 then 5 else q
    q
  else if ph.getD 3 0 ≠ 0 then 6
  else 8

/-- The statements of `stepMotorQ` under `if(q!=8)`: the value of
`quarterTrackPos[curDrv]` after them. `int` values are integers (all stay far below
`2^31`) and `x & 0x7` on an `int` is `x mod 8`. -/
def stepMotorQ_pos (q pos : Int) : Int :=
  let qT := pos % 8
  let q := if q < qT then q + 8 - qT else q - qT
  let pos := if q ≥ 1 ∧ q ≤ 3 then pos + q else pos
  let pos := if q ≥ 5 ∧ q ≤ 7 then pos + (q - 8) else pos
  let pos := if pos < 0 then 0 else pos
  let pos := if pos ≥ (MAX_TRACKS_PER_DISK : Int) * 8 - 4
    then (MAX_TRACKS_PER_DISK : Int) * 8 - 4 else pos
  pos

/-- `stepMotorQ(address)`: the drive variables after the call. The division by 4
truncates, and the store into `uint8_t track` reduces modulo 256. -/
def stepMotorQ (address : Nat) (d : DriveHead) : DriveHead :=
  let address := (address % 65536) &&& 7
  let phase := address >>> 1
  let phs := d.phs.set phase (address &&& 1)
  let ph := phs
  let ph := if ph.getD 0 0 = ph.getD 2 0 then (ph.set 2 0).set 0 0 else ph
  let ph := if ph.getD 1 0 = ph.getD 3 0 then (ph.set 3 0).set 1 0 else ph
  let q := stepMotorQ_q ph
  if !d.motorOn then { d with phs := phs }
  else
    let pos := if q ≠ 8 then stepMotorQ_pos q d.quarterTrackPos else d.quarterTrackPos
    { d with phs := phs, quarterTrackPos := pos, track := (Int.tdiv (pos + 1) 4 % 256).toNat }

/-- `case 0xC0EC` of `softSwitches` (shift data latch): the drive variables after
the access and the value returned, or `none` when `track*0x1A00 + nibble` is not
an index of `data` (undefined behaviour in C). -/
def softSwitches_C0EC (d : DriveHead) : Option (DriveHead × Nat) :=
  let idx := d.track * 0x1A00 + d.nibble
  if idx < d.data.length then
    let d := if d.writeMode then { d with data := d.data.set idx (d.dLatch % 256) }
      else { d with dLatch := d.data.getD idx 0 % 256 }
    let d := { d with nibble := (d.nibble + 1) % 0x1A00 % 65536 }
    some (d, d.dLatch)
  else none

/-- One access of the host program to the stepper: a call of `stepMotorQ` (switches
`0xC0E0` .. `0xC0E7`) or a motor switch (`0xC0E8` off, `0xC0E9` on). -/
inductive StepperAccess where
  | phase (address : Nat)
  | motor (running : Bool)
  deriving DecidableEq, Repr

/-- The drive variables after one access. -/
def StepperAccess.apply : StepperAccess → DriveHead → DriveHead
  | StepperAccess.phase address, d => stepMotorQ address d
  | StepperAccess.motor running, d => { d with motorOn := running }

/-- The drive variables after a sequence of accesses, made in order. -/
def run_stepper (l : List StepperAccess) (d : DriveHead) : DriveHead :=
  l.foldl (fun d a => a.apply d) d

/-- The drive variables at program start (`disk[2] = { 0 }`, `phs` and
`quarterTrackPos` zero), with the given nibble buffer. -/
def drive_init (data : List Nat) : DriveHead :=
  { data := data, motorOn := false, writeMode := false, track := 0, nibble := 0,
    phs := [0, 0, 0, 0], quarterTrackPos := 0, dLatch := 0 }

/-- The range of `quarterTrackPos` and of `track` that `stepMotorQ` keeps. -/
def DriveHead.in_range (d : DriveHead) : Prop :=
  0 ≤ d.quarterTrackPos ∧ d.quarterTrackPos ≤ 316 ∧ d.track ≤ 79

/-- Stepping outwards by `n` tracks: `2 * n` times a phase switched on and off
again, phases 1, 2, 3, 0 in turn. -/
def step_out : Nat → List StepperAccess
  | 0 => []
  | n + 1 =>
    step_out n ++ (if n % 2 = 0
      then [StepperAccess.phase 0xC0E3, StepperAccess.phase 0xC0E2,
            StepperAccess.phase 0xC0E5, StepperAccess.phase 0xC0E4]
      else [StepperAccess.phase 0xC0E7, StepperAccess.phase 0xC0E6,
            StepperAccess.phase 0xC0E1, StepperAccess.phase 0xC0E0])

/-- A drive whose buffer starts with `FF FF FF FF FF D5 AA 96`; head on track 0 at
offset 5, latch `0x96`. -/
def latch_example (w : Bool) : DriveHead :=
  { data := [0xFF, 0xFF, 0xFF, 0xFF, 0xFF, 0xD5, 0xAA, 0x96],
    motorOn := true, writeMode := w, track := 0, nibble := 5,
    phs := [0, 0, 0, 0], quarterTrackPos := 0, dLatch := 0x96 }

/-! ## Specification predicates for disk nibbles -/

/-- Specification side: the number of positions `i < 7` at which bit `i` and bit
`i + 1` of a byte are both zero. -/
def adjacent_zero_pairs (x : Nat) : Nat :=
  ((List.range 7).filter (fun i => !x.testBit i && !x.testBit (i + 1))).length

/-- Specification side: the buffer `nib` with the first 48 bytes of each 416-byte
record (the gap in front of its address prolog) replaced: byte `i` of the gap of
record `r` becomes `g r i`. -/
def replace_gaps (g : Nat → Nat → Nat) (nib : List Nat) : List Nat :=
  (List.range nib.length).map
    (fun x => if x % 416 < 48 then g (x / 416) (x % 416) else nib.getD x 0)

/-- Specification side: the 48 bytes `f 0`, ..., `f 47` do not contain the sequence
`D5 AA 96`. -/
def no_addr_prolog (f : Nat → Nat) : Prop :=
  ∀ i, i + 2 < 48 → ¬ (f i = 0xD5 ∧ f (i + 1) = 0xAA ∧ f (i + 2) = 0x96)

/-- Gap bytes that end with a partial address prolog: `0x00` forty-six times, then
`D5 AA` directly in front of the prolog of the record; in the gap of record 1 a
`D5 AA AD` and a lone `D5` as well. -/
def noisy_gap (r i : Nat) : Nat :=
  if i = 46 then 0xD5 else if i = 47 then 0xAA
  else if r = 1 ∧ i = 10 then 0xD5 else if r = 1 ∧ i = 11 then 0xAA
  else if r = 1 ∧ i = 12 then 0xAD else if r = 1 ∧ i = 20 then 0xD5 else 0

/-! ## More sample machine states and specification predicates for the CPU -/

/-- The address of a memory call. -/
def BusOp.address : BusOp → Nat
  | BusOp.read a => a
  | BusOp.write a _ => a

/-- Specification side, zero-page,X mode: after the reads of the opcode and of the
operand byte, the instruction makes at least one more memory call, and each of
them is at `(operand + X) mod 256`. -/
def zpx_access_spec (s s' : Cpu) : Prop :=
  ∃ rest, s'.bus = s.bus ++ [BusOp.read (s.PC % 65536), BusOp.read ((s.PC + 1) % 65536)] ++ rest ∧
    rest ≠ [] ∧ ∀ op, op ∈ rest → op.address = (readMem s.RAM (s.PC + 1) + s.X) % 256

/-- Specification side, absolute,X mode: the last memory call of the instruction is
the read of the operand byte at `(base + X) mod 65536`, with `base` the 16-bit
operand (low byte first). -/
def abx_read_spec (s s' : Cpu) : Prop :=
  s'.bus.getLast? = some (BusOp.read
    ((readMem s.RAM (s.PC + 1) + 256 * readMem s.RAM (s.PC + 2) + s.X) % 65536))

/-- A CPU stopped by `STP`, with `PC = 0x1001`. -/
def stopped_example : Cpu := { cpu_at 0x1001 7 8 9 0xFF flags_U [0xEA] 0 with state := status.stop }

/-- `ORA $FF,X` at `0x2000` with `X = 1`. -/
def ora_zpx_example : Cpu := cpu_at 0x2000 0 1 0 0xFF flags_U [0x15, 0xFF] 0

/-- `LDA $FF,X` at `0x2000` with `X = 1`. -/
def lda_zpx_example : Cpu := cpu_at 0x2000 0 1 0 0xFF flags_U [0xB5, 0xFF] 0

/-- `BIT $3001,X` (`op = 0x3C`) or `LDA $3001,X` (`op = 0xBD`) at `0x2000` with
`X = 1`. -/
def abx_example (op : Nat) : Cpu := cpu_at 0x2000 0 1 0 0xFF flags_U [op, 0x01, 0x30] 0

/-- `JSR $3000` at `0x2000` with the given stack pointer; `RTS` at `0x3000`. -/
def jsr_example (sp : Nat) : Cpu :=
  { PC := 0x2000, A := 0, X := 0, Y := 0, SP := sp, P := flags_U, state := status.run,
    ticks := 0,
    RAM := fun i => if i = 0x3000 then 0x60
      else if 0x2000 ≤ i then [0x20, 0x00, 0x30].getD (i - 0x2000) 0 else 0,
    bus := [] }

/-! ## Properties of the translation table -/

theorem table62_getD_mem : ∀ i, i < 64 → table62.getD i 0 ∈ table62 := by decide

theorem untranslate_table62 : ∀ i, i < 64 → untranslate (table62.getD i 0) = i := by decide

theorem and_63_lt (x : Nat) : x &&& 0x3f < 64 :=
  Nat.and_lt_two_pow x (by norm_num : (0x3f : Nat) < 2 ^ 6)

theorem translate_mem (x : Nat) : translate x ∈ table62 :=
  table62_getD_mem _ (and_63_lt x)

theorem untranslate_translate (x : Nat) : untranslate (translate x) = x &&& 0x3f :=
  untranslate_table62 _ (and_63_lt x)

theorem untranslate_loop_not_mem (x : Nat) :
    ∀ (l : List Nat) (i : Nat), x ∉ l → untranslate_loop x l i = 0xFF := by
  intro l
  induction l with
  | nil => intro i _; rfl
  | cons t ts ih =>
    intro i h
    have h1 : t ≠ x := fun e => h (by simp [e])
    have h2 : x ∉ ts := fun e => h (by simp [e])
    simp [untranslate_loop, h1, ih (i + 1) h2]

theorem xor_cancel_mid (a b c : Nat) : a ^^^ b ^^^ (c ^^^ b) = a ^^^ c := by
  apply Nat.eq_of_testBit_eq
  intro i
  simp only [Nat.testBit_xor]
  cases a.testBit i <;> cases b.testBit i <;> cases c.testBit i <;> rfl

theorem xor_fold_telescope (w : Nat → Nat) (n acc : Nat) :
    List.foldl (fun a b => a ^^^ untranslate b) acc
      ((List.range n).map (fun k => translate (w (k + 1) ^^^ w k)))
      = acc ^^^ (w 0 &&& 0x3f) ^^^ (w n &&& 0x3f) := by
  induction n with
  | zero => simp [Nat.xor_assoc]
  | succ n ih =>
    rw [List.range_succ, List.map_append, List.foldl_append, ih]
    simp only [List.map_cons, List.map_nil, List.foldl_cons, List.foldl_nil,
      untranslate_translate, Nat.and_xor_distrib_right]
    exact xor_cancel_mid _ _ _

set_option maxRecDepth 100000 in
theorem odd_even_roundtrip : ∀ v, v < 256 →
    odd_even_decode ((odd_even_encode v).getD 0 0) ((odd_even_encode v).getD 1 0) = v := by
  decide

/-- C3: `untranslate` inverts `translate` on the 64 six-bit values; a byte that is
not an entry of `table62` gives the invalid-nibble marker `0xFF`, and an entry of
the table never does. -/
theorem untranslate_translate_inverse :
    (∀ v, v < 64 → untranslate (translate v) = v) ∧
    (∀ b, b ∉ table62 → untranslate b = 0xFF) ∧
    (∀ b, b ∈ table62 → untranslate b ≠ 0xFF) := by
  refine ⟨by decide, fun b hb => untranslate_loop_not_mem b table62 0 hb, by decide⟩

/-- C4: `odd_even_decode` applied to the two bytes written by `odd_even_encode(v)`
returns `v`, for every byte value `v`. -/
theorem odd_even_decode_encode :
    ∀ v, v < 256 →
      odd_even_decode ((odd_even_encode v).getD 0 0) ((odd_even_encode v).getD 1 0) = v :=
  odd_even_roundtrip

/-- C4 at `v = 0xA5`: the two bytes written are `0xFA` and `0xAF`, and they decode
to `0xA5`. -/
theorem odd_even_decode_encode_witness :
    (0xA5 : Nat) < 256 ∧ odd_even_encode 0xA5 = [0xFA, 0xAF] ∧
    odd_even_decode ((odd_even_encode 0xA5).getD 0 0) ((odd_even_encode 0xA5).getD 1 0)
      = 0xA5 :=
  ⟨by decide, by decide, odd_even_decode_encode 0xA5 (by decide)⟩

/-- C5: the 342 data bytes and the checksum byte written by `nibbilize` are entries
of `table62`, and the XOR of the `untranslate` values of these 343 bytes is 0. -/
theorem nibbilize_checksum_closure (dsk_buf : List Nat) (track sector : Nat)
    (nib_sector : nib_sector_t) :
    let d := (nibbilize dsk_buf track sector nib_sector).data
    d.data.length = 342 ∧
    (∀ b, b ∈ d.data ++ [d.data_checksum] → b ∈ table62) ∧
    List.foldl (fun a b => a ^^^ untranslate b) 0 (d.data ++ [d.data_checksum]) = 0 := by
  refine ⟨by simp [nibbilize], ?_, ?_⟩
  · intro b hb
    simp only [nibbilize, List.mem_append, List.mem_map, List.mem_singleton,
      List.mem_cons] at hb
    rcases hb with (((h | ⟨k, _, h⟩) | h) | ⟨k, _, h⟩) | h
    all_goals first
      | (rcases h with h | h
         · subst h; exact translate_mem _
         · exact absurd h (List.not_mem_nil _))
      | (subst h; exact translate_mem _)
  · simp only [nibbilize, List.foldl_append, List.foldl_cons, List.foldl_nil,
      xor_fold_telescope (fun k => (nibbilize_bufs dsk_buf track sector).2.getD k 0),
      xor_fold_telescope (fun k => (nibbilize_bufs dsk_buf track sector).1.getD k 0),
      untranslate_translate, Nat.and_xor_distrib_right]
    apply Nat.eq_of_testBit_eq
    intro i
    simp only [Nat.testBit_xor, Nat.zero_testBit]
    generalize Nat.testBit ((nibbilize_bufs dsk_buf track sector).2.getD 0 0 &&& 0x3f) i = a
    generalize Nat.testBit ((nibbilize_bufs dsk_buf track sector).2.getD (SECONDARY_BUF_LEN - 1) 0 &&& 0x3f) i = b
    generalize Nat.testBit ((nibbilize_bufs dsk_buf track sector).1.getD 0 0 &&& 0x3f) i = c
    generalize Nat.testBit ((nibbilize_bufs dsk_buf track sector).1.getD (PRIMARY_BUF_LEN - 1) 0 &&& 0x3f) i = d
    cases a <;> cases b <;> cases c <;> cases d <;> rfl

/-! ## Buffers: reads after writes -/

theorem getD_set_eq (l : List Nat) (i j v : Nat) :
    (l.set i v).getD j 0 = if i = j ∧ i < l.length then v else l.getD j 0 := by
  simp only [List.getD_eq_getElem?_getD, List.getElem?_set]
  by_cases h : i = j
  · subst h
    by_cases h2 : i < l.length
    · simp [h2]
    · simp [h2]
      rw [List.getElem?_eq_none (by omega)]
      rfl
  · simp [h]

theorem getD_memcpy (dst : List Nat) (off : Nat) (src : List Nat) (i : Nat)
    (h : off + src.length ≤ dst.length) :
    (memcpy dst off src).getD i 0 =
      if off ≤ i ∧ i < off + src.length then src.getD (i - off) 0 else dst.getD i 0 := by
  unfold memcpy
  have hlt : (dst.take off).length = off := by simp; omega
  by_cases h1 : i < off
  · rw [List.append_assoc, List.getD_append _ _ _ _ (by omega)]
    have : ¬ (off ≤ i ∧ i < off + src.length) := by omega
    simp only [this, if_false]
    simp only [List.getD_eq_getElem?_getD, List.getElem?_take_of_lt h1]
  · by_cases h2 : i < off + src.length
    · rw [List.getD_append _ _ _ _ (by simp; omega),
        List.getD_append_right _ _ _ _ (by omega)]
      simp [hlt, h2, Nat.le_of_not_lt h1]
    · rw [List.getD_append_right _ _ _ _ (by simp; omega)]
      have : ¬ (off ≤ i ∧ i < off + src.length) := by omega
      simp only [this, if_false]
      simp only [List.getD_eq_getElem?_getD, List.length_append, hlt, List.getElem?_drop]
      congr 2
      omega

theorem length_memcpy (dst : List Nat) (off : Nat) (src : List Nat)
    (h : off + src.length ≤ dst.length) : (memcpy dst off src).length = dst.length := by
  unfold memcpy
  simp
  omega

theorem getD_range_map (f : Nat → Nat) (n k : Nat) (h : k < n) :
    ((List.range n).map f).getD k 0 = f k := by
  simp [List.getD_eq_getElem?_getD, List.getElem?_range h]

/-! ## The buffers of `nibbilize` in closed form -/

theorem swapped_pair_lt (b : Nat) : swapped_pair b < 4 := by
  unfold swapped_pair
  have h1 : (b &&& 2) >>> 1 ≤ 1 := by
    have : b &&& 2 ≤ 2 := Nat.and_le_right
    rw [Nat.shiftRight_eq_div_pow]; omega
  have h2 : (b &&& 1) <<< 1 ≤ 2 := by
    have : b &&& 1 ≤ 1 := Nat.and_le_right
    rw [Nat.shiftLeft_eq]; omega
  have h3 : ((b &&& 2) >>> 1 ||| (b &&& 1) <<< 1) < 2 ^ 2 :=
    Nat.or_lt_two_pow (by omega) (by omega)
  omega

theorem secondary_mod : ∀ x, x < 4 → ∀ y, y < 4 → ∀ z, z < 4 →
    (x ||| y <<< 2 ||| z <<< 4) % 256 = x ||| y <<< 2 ||| z <<< 4 := by decide

theorem secondary_after_lt (b : Nat → Nat) (n j : Nat) : secondary_after b n j < 64 := by
  have key : ∀ x, x < 4 → ∀ y, y < 4 → ∀ z, z < 4 → (x ||| y <<< 2 ||| z <<< 4) < 64 := by
    decide
  unfold secondary_after
  have hp := swapped_pair_lt
  split_ifs
  · exact key _ (hp _) _ (hp _) _ (hp _)
  · simpa using key _ (hp (b j)) _ (hp (b (86 + j))) 0 (by omega)
  · simpa using key _ (hp (b j)) 0 (by omega) _ (hp (b (172 + j)))
  · simpa using key _ (hp (b j)) 0 (by omega) 0 (by omega)
  · simpa using key 0 (by omega) _ (hp (b (86 + j))) _ (hp (b (172 + j)))
  · simpa using key 0 (by omega) _ (hp (b (86 + j))) 0 (by omega)
  · simpa using key 0 (by omega) 0 (by omega) _ (hp (b (172 + j)))
  · simp

theorem nibbilize_fold_inv (dsk_buf : List Nat) (src : Nat) :
    ∀ n, n ≤ 256 →
      let st := (List.range n).foldl (nibbilize_body dsk_buf src)
        (List.replicate PRIMARY_BUF_LEN 0, List.replicate SECONDARY_BUF_LEN 0)
      st.1.length = 256 ∧ st.2.length = 86 ∧
      (∀ i, i < n → st.1.getD i 0 = (dsk_buf.getD (src + i) 0 >>> 2) % 256) ∧
      (∀ j, j < 86 → st.2.getD j 0 = secondary_after (fun i => dsk_buf.getD (src + i) 0) n j) := by
  intro n
  induction n with
  | zero =>
    intro _
    refine ⟨by simp, by simp, fun i hi => absurd hi (by omega), fun j hj => ?_⟩
    simp [secondary_after, List.getElem?_replicate, hj]
  | succ n ih =>
    intro hn
    obtain ⟨h1, h2, h3, h4⟩ := ih (by omega)
    rw [List.range_succ, List.foldl_append]
    simp only [List.foldl_cons, List.foldl_nil]
    generalize (List.range n).foldl (nibbilize_body dsk_buf src)
        (List.replicate PRIMARY_BUF_LEN 0, List.replicate SECONDARY_BUF_LEN 0) = st at h1 h2 h3 h4
    refine ⟨by simp [nibbilize_body, h1], by simp [nibbilize_body, h2], ?_, ?_⟩
    · intro i hi
      simp only [nibbilize_body, getD_set_eq, h1]
      by_cases h : n = i
      · subst h; simp [show n < 256 by omega]
      · have : ¬ (n = i ∧ n < 256) := fun hh => h hh.1
        rw [if_neg this]
        exact h3 i (by omega)
    · intro j hj
      simp only [nibbilize_body, getD_set_eq, h2]
      have hmod : n % 86 < 86 := Nat.mod_lt _ (by norm_num)
      by_cases h : n % 86 = j
      · rw [if_pos ⟨h, hmod⟩, h, h4 j hj]
        have hd : n / 86 = 0 ∨ n / 86 = 1 ∨ n / 86 = 2 := by omega
        have hp := swapped_pair_lt
        rcases hd with hd | hd | hd
        · have e : n = j := by omega
          subst e
          simp only [secondary_after, hd]
          simp only [show ¬ (n < n) by omega, show ¬ (86 + n < n) by omega,
            show ¬ (172 + n < n) by omega, show n < n + 1 by omega,
            show ¬ (86 + n < n + 1) by omega, show ¬ (172 + n < n + 1) by omega, if_true, if_false]
          simp [swapped_pair]
        · have e : n = 86 + j := by omega
          subst e
          simp only [secondary_after, hd]
          simp only [show j < 86 + j by omega, show ¬ (86 + j < 86 + j) by omega,
            show ¬ (172 + j < 86 + j) by omega, show j < 86 + j + 1 by omega,
            show 86 + j < 86 + j + 1 by omega, show ¬ (172 + j < 86 + j + 1) by omega,
            if_true, if_false]
          have := secondary_mod _ (hp (dsk_buf.getD (src + j) 0)) _
            (hp (dsk_buf.getD (src + (86 + j)) 0)) 0 (by omega)
          simpa [swapped_pair] using this
        · have e : n = 172 + j := by omega
          subst e
          simp only [secondary_after, hd]
          simp only [show j < 172 + j by omega, show 86 + j < 172 + j by omega,
            show ¬ (172 + j < 172 + j) by omega, show j < 172 + j + 1 by omega,
            show 86 + j < 172 + j + 1 by omega, show 172 + j < 172 + j + 1 by omega,
            if_true, if_false]
          have := secondary_mod _ (hp (dsk_buf.getD (src + j) 0)) _
            (hp (dsk_buf.getD (src + (86 + j)) 0)) _ (hp (dsk_buf.getD (src + (172 + j)) 0))
          simpa [swapped_pair] using this
      · have : ¬ (n % 86 = j ∧ n % 86 < 86) := fun hh => h hh.1
        rw [if_neg this, h4 j hj]
        simp only [secondary_after]
        have e1 : j < n + 1 ↔ j < n := by omega
        have e2 : 86 + j < n + 1 ↔ 86 + j < n := by omega
        have e3 : 172 + j < n + 1 ↔ 172 + j < n := by omega
        simp only [e1, e2, e3]

/-! ## The encoded data field as a stream of XOR differences -/

theorem nibbilize_bufs_primary (dsk_buf : List Nat) (track sector i : Nat) (hi : i < 256) :
    (nibbilize_bufs dsk_buf track sector).1.getD i 0
      = (dsk_buf.getD (dsk_get track sector + i) 0 >>> 2) % 256 :=
  (nibbilize_fold_inv dsk_buf (dsk_get track sector) 256 (le_refl _)).2.2.1 i hi

theorem nibbilize_bufs_secondary (dsk_buf : List Nat) (track sector j : Nat) (hj : j < 86) :
    (nibbilize_bufs dsk_buf track sector).2.getD j 0
      = secondary_after (fun i => dsk_buf.getD (dsk_get track sector + i) 0) 256 j :=
  (nibbilize_fold_inv dsk_buf (dsk_get track sector) 256 (le_refl _)).2.2.2 j hj

theorem nib_stream_lt (dsk_buf : List Nat) (track sector : Nat)
    (hb : ∀ i, i < 256 → dsk_buf.getD (dsk_get track sector + i) 0 < 256) :
    ∀ k, k < 342 → nib_stream dsk_buf track sector k < 64 := by
  intro k hk
  unfold nib_stream
  split_ifs with h
  · rw [nibbilize_bufs_secondary _ _ _ _ h]
    exact secondary_after_lt _ _ _
  · rw [nibbilize_bufs_primary _ _ _ _ (by omega)]
    have := hb (k - 86) (by omega)
    rw [Nat.shiftRight_eq_div_pow]
    omega

theorem nibbilize_data_zero (dsk_buf : List Nat) (track sector : Nat) (ns : nib_sector_t) :
    (nibbilize dsk_buf track sector ns).data.data.getD 0 0
      = translate (nib_stream dsk_buf track sector 0) := by
  simp [nibbilize, nib_stream]

theorem nibbilize_data_succ (dsk_buf : List Nat) (track sector : Nat) (ns : nib_sector_t)
    (k : Nat) (hk : k < 341) :
    (nibbilize dsk_buf track sector ns).data.data.getD (k + 1) 0
      = translate (nib_stream dsk_buf track sector (k + 1) ^^^ nib_stream dsk_buf track sector k) := by
  simp only [nibbilize, SECONDARY_BUF_LEN, PRIMARY_BUF_LEN, Nat.reduceSub]
  rw [List.append_assoc, List.append_assoc, List.getD_append_right _ _ _ _ (by simp)]
  simp only [List.length_singleton, Nat.add_sub_cancel]
  by_cases h1 : k < 85
  · rw [List.getD_append _ _ _ _ (by simp; omega)]
    have := getD_range_map (fun k => translate ((nibbilize_bufs dsk_buf track sector).2.getD (k + 1) 0
      ^^^ (nibbilize_bufs dsk_buf track sector).2.getD k 0)) 85 k h1
    simp only [nib_stream, show k + 1 < 86 by omega, show k < 86 by omega, if_true]
    exact this
  · rw [List.getD_append_right _ _ _ _ (by simp; omega)]
    simp only [List.length_map, List.length_range]
    by_cases h2 : k = 85
    · subst h2
      simp [nib_stream]
    · have e : k - 85 = (k - 86) + 1 := by omega
      rw [e, List.singleton_append, List.getD_cons_succ]
      have := getD_range_map (fun k => translate ((nibbilize_bufs dsk_buf track sector).1.getD (k + 1) 0
        ^^^ (nibbilize_bufs dsk_buf track sector).1.getD k 0)) 255 (k - 86) (by omega)
      simp only [nib_stream, show ¬ (k + 1 < 86) by omega, show ¬ (k < 86) by omega, if_false]
      rw [show k + 1 - 86 = k - 86 + 1 by omega]
      exact this

theorem nibbilize_checksum (dsk_buf : List Nat) (track sector : Nat) (ns : nib_sector_t) :
    (nibbilize dsk_buf track sector ns).data.data_checksum
      = translate (nib_stream dsk_buf track sector 341) := by
  simp [nibbilize, nib_stream]

theorem nibbilize_data_length (dsk_buf : List Nat) (track sector : Nat) (ns : nib_sector_t) :
    (nibbilize dsk_buf track sector ns).data.data.length = 342 := by
  simp [nibbilize]

/-! ## `process_data` on an encoded data field -/

theorem and_63_of_lt : ∀ x, x < 64 → x &&& 0x3f = x := by decide

theorem xor_xor_cancel (a b : Nat) : a ^^^ (b ^^^ a) = b := by
  apply Nat.eq_of_testBit_eq
  intro i
  simp only [Nat.testBit_xor]
  cases a.testBit i <;> cases b.testBit i <;> rfl

theorem xor_lt_64 (a b : Nat) (ha : a < 64) (hb : b < 64) : a ^^^ b < 64 :=
  Nat.xor_lt_two_pow (n := 6) ha hb

theorem process_data_fill_stream (nib_buf : List Nat) (max_tracks : Nat) (w : Nat → Nat) :
    ∀ n index m buf,
      (∀ k, k < n →
        get_nib_byte nib_buf max_tracks (index + k)
          = some (translate (w (m + k + 1) ^^^ w (m + k)))) →
      (∀ k, k ≤ m + n → w k < 64) →
      process_data_fill nib_buf max_tracks n index (w m) buf
        = some (index + n, w (m + n), buf ++ (List.range n).map (fun k => w (m + k + 1))) := by
  intro n
  induction n with
  | zero => intro index m buf _ _; simp [process_data_fill]
  | succ n ih =>
    intro index m buf hread hw
    have h0 := hread 0 (by omega)
    simp only [Nat.add_zero] at h0
    have hx : w (m + 1) ^^^ w m < 64 := xor_lt_64 _ _ (hw _ (by omega)) (hw _ (by omega))
    have hne : ¬ (w (m + 1) ^^^ w m = 255) := by omega
    have hmod : (w m ^^^ (w (m + 1) ^^^ w m)) % 256 = w (m + 1) := by
      rw [xor_xor_cancel]
      exact Nat.mod_eq_of_lt (by have := hw (m + 1) (by omega); omega)
    simp only [process_data_fill, h0, untranslate_translate, and_63_of_lt _ hx, hne, if_false,
      hmod]
    rw [ih (index + 1) (m + 1) (buf ++ [w (m + 1)])
      (fun k hk => by
        have := hread (k + 1) (by omega)
        rw [show index + 1 + k = index + (k + 1) by omega,
          show m + 1 + k + 1 = m + (k + 1) + 1 by omega,
          show m + 1 + k = m + (k + 1) by omega]
        exact this)
      (fun k hk => hw k (by omega))]
    have e1 : index + 1 + n = index + (n + 1) := by omega
    have e2 : m + 1 + n = m + (n + 1) := by omega
    have e3 : [w (m + 1)] ++ List.map (fun k => w (m + 1 + k + 1)) (List.range n)
        = List.map (fun k => w (m + k + 1)) (List.range (n + 1)) := by
      rw [List.range_succ_eq_map, List.map_cons, List.map_map]
      simp only [List.singleton_append, Nat.add_zero]
      congr 1
      apply List.map_congr_left
      intro k _
      simp only [Function.comp, Nat.succ_eq_add_one]
      congr 1
      omega
    rw [e1, e2, List.append_assoc, e3]

theorem process_data_denib_spec (primary_buf secondary_buf : List Nat)
    (track sector index : Nat) (g : Nat → Nat) (hsec : sector < 16)
    (hg : ∀ i, i < 256 → ∃ b0 b1, process_data_bits secondary_buf i = some (b0, b1) ∧
      ((primary_buf.getD i 0 <<< 2) ||| (b1 <<< 1) ||| b0) % 256 = g i) :
    ∀ n i dsk_buf, i + n = 256 →
      track * 4096 + soft_interleave.getD sector 0 * 256 + 256 ≤ dsk_buf.length →
      ∃ dsk', process_data_denib primary_buf secondary_buf track sector index n i dsk_buf
          = PDResult.ret index dsk' ∧
        dsk'.length = dsk_buf.length ∧
        ∀ q, dsk'.getD q 0 =
          if track * 4096 + soft_interleave.getD sector 0 * 256 + i ≤ q ∧
             q < track * 4096 + soft_interleave.getD sector 0 * 256 + 256
          then g (q - (track * 4096 + soft_interleave.getD sector 0 * 256))
          else dsk_buf.getD q 0 := by
  intro n
  induction n with
  | zero =>
    intro i dsk_buf hi _
    refine ⟨dsk_buf, by simp [process_data_denib], rfl, fun q => ?_⟩
    have : ¬ (track * 4096 + soft_interleave.getD sector 0 * 256 + i ≤ q ∧
             q < track * 4096 + soft_interleave.getD sector 0 * 256 + 256) := by omega
    rw [if_neg this]
  | succ n ih =>
    intro i dsk_buf hi hlen
    obtain ⟨b0, b1, hbits, hval⟩ := hg i (by omega)
    have hpos : track * 4096 + soft_interleave.getD sector 0 * 256 + i < dsk_buf.length := by
      omega
    obtain ⟨dsk', h1, h2, h3⟩ := ih (i + 1)
      (dsk_buf.set (track * 4096 + soft_interleave.getD sector 0 * 256 + i) (g i))
      (by omega) (by simpa using hlen)
    refine ⟨dsk', ?_, by simpa using h2, fun q => ?_⟩
    · simp only [process_data_denib, hbits, SECTORS_PER_TRACK, hsec, if_true, BYTES_PER_TRACK,
        BYTES_PER_SECTOR, hpos, hval]
      exact h1
    · rw [h3 q, getD_set_eq]
      by_cases hq : track * 4096 + soft_interleave.getD sector 0 * 256 + i = q
      · subst hq
        rw [if_neg (by omega), if_pos ⟨rfl, hpos⟩, if_pos (by omega)]
        congr 1
        omega
      · by_cases hq2 : track * 4096 + soft_interleave.getD sector 0 * 256 + (i + 1) ≤ q ∧
             q < track * 4096 + soft_interleave.getD sector 0 * 256 + 256
        · have hq3 : track * 4096 + soft_interleave.getD sector 0 * 256 + i ≤ q ∧
             q < track * 4096 + soft_interleave.getD sector 0 * 256 + 256 := by omega
          rw [if_pos hq2, if_pos hq3]
        · have hq3 : ¬ (track * 4096 + soft_interleave.getD sector 0 * 256 + i ≤ q ∧
             q < track * 4096 + soft_interleave.getD sector 0 * 256 + 256) := by omega
          rw [if_neg hq2, if_neg hq3, if_neg (fun h => hq h.1)]

theorem denib_bits_finite : ∀ x, x < 4 → ∀ y, y < 4 → ∀ z, z < 4 →
    ((x ||| y <<< 2 ||| z <<< 4) &&& 2 > 0 ↔ x &&& 2 > 0) ∧
    ((x ||| y <<< 2 ||| z <<< 4) &&& 1 > 0 ↔ x &&& 1 > 0) ∧
    ((x ||| y <<< 2 ||| z <<< 4) &&& 8 > 0 ↔ y &&& 2 > 0) ∧
    ((x ||| y <<< 2 ||| z <<< 4) &&& 4 > 0 ↔ y &&& 1 > 0) ∧
    ((x ||| y <<< 2 ||| z <<< 4) &&& 0x20 > 0 ↔ z &&& 2 > 0) ∧
    ((x ||| y <<< 2 ||| z <<< 4) &&& 0x10 > 0 ↔ z &&& 1 > 0) := by
  intro x hx y hy z hz
  interval_cases x <;> interval_cases y <;> interval_cases z <;> simp <;> decide

set_option maxRecDepth 100000 in
theorem denib_recombine : ∀ v, v < 256 →
    ((((v >>> 2) % 256) <<< 2) ||| ((if swapped_pair v &&& 1 > 0 then 1 else 0) <<< 1)
      ||| (if swapped_pair v &&& 2 > 0 then 1 else 0)) % 256 = v := by
  decide

theorem secondary_after_decomp (b : Nat → Nat) (j : Nat) (hj : j < 86) :
    ∃ z, z < 4 ∧
      secondary_after b 256 j
        = swapped_pair (b j) ||| swapped_pair (b (86 + j)) <<< 2 ||| z <<< 4 ∧
      (172 + j < 256 → z = swapped_pair (b (172 + j))) := by
  unfold secondary_after
  by_cases h : 172 + j < 256
  · exact ⟨swapped_pair (b (172 + j)), swapped_pair_lt _,
      by simp [show j < 256 by omega, show 86 + j < 256 by omega, h], fun _ => rfl⟩
  · exact ⟨0, by omega,
      by simp [show j < 256 by omega, show 86 + j < 256 by omega, h], fun h' => absurd h' h⟩

theorem denib_value (b : Nat → Nat) (primary_buf secondary_buf : List Nat)
    (hP : ∀ i, i < 256 → primary_buf.getD i 0 = (b i >>> 2) % 256)
    (hS : ∀ j, j < 86 → secondary_buf.getD j 0 = secondary_after b 256 j)
    (hb : ∀ i, i < 256 → b i < 256) :
    ∀ i, i < 256 → ∃ b0 b1, process_data_bits secondary_buf i = some (b0, b1) ∧
      ((primary_buf.getD i 0 <<< 2) ||| (b1 <<< 1) ||| b0) % 256 = b i := by
  intro i hi
  have hmod : i % 86 < 86 := Nat.mod_lt _ (by norm_num)
  obtain ⟨z, hz, hdec, hz2⟩ := secondary_after_decomp b (i % 86) hmod
  obtain ⟨f1, f2, f3, f4, f5, f6⟩ := denib_bits_finite _ (swapped_pair_lt (b (i % 86))) _
    (swapped_pair_lt (b (86 + i % 86))) z hz
  have hd : i / 86 = 0 ∨ i / 86 = 1 ∨ i / 86 = 2 := by omega
  rcases hd with hd | hd | hd
  · refine ⟨_, _, by simp only [process_data_bits, SECONDARY_BUF_LEN, hd]; rfl, ?_⟩
    rw [hS _ hmod, hP i hi, hdec]
    simp only [f1, f2]
    rw [show i % 86 = i by omega]
    exact denib_recombine _ (hb i hi)
  · refine ⟨_, _, by simp only [process_data_bits, SECONDARY_BUF_LEN, hd]; rfl, ?_⟩
    rw [hS _ hmod, hP i hi, hdec]
    simp only [f3, f4]
    rw [show 86 + i % 86 = i by omega]
    exact denib_recombine _ (hb i hi)
  · refine ⟨_, _, by simp only [process_data_bits, SECONDARY_BUF_LEN, hd]; rfl, ?_⟩
    rw [hS _ hmod, hP i hi, hdec]
    simp only [f5, f6]
    rw [hz2 (by omega), show 172 + i % 86 = i by omega]
    exact denib_recombine _ (hb i hi)

/-- `process_data` on a data field that encodes the stream `w` (as `nibbilize`
writes it) succeeds, consumes the 342 remaining bytes and stores the 256 source
bytes `b` at the position of the sector. -/
theorem process_data_encoded (nib_buf : List Nat) (max_tracks : Nat) (w b : Nat → Nat)
    (track sector index : Nat) (dsk_buf : List Nat)
    (hsec : sector < 16)
    (hlen : track * 4096 + soft_interleave.getD sector 0 * 256 + 256 ≤ dsk_buf.length)
    (hread : ∀ k, k < 341 →
      get_nib_byte nib_buf max_tracks (index + k) = some (translate (w (k + 1) ^^^ w k)))
    (hck : get_nib_byte nib_buf max_tracks (index + 341) = some (translate (w 341)))
    (hS : ∀ j, j < 86 → w j = secondary_after b 256 j)
    (hP : ∀ i, i < 256 → w (86 + i) = (b i >>> 2) % 256)
    (hb : ∀ i, i < 256 → b i < 256) :
    ∃ dsk', process_data (translate (w 0)) dsk_buf nib_buf max_tracks track sector index
        = PDResult.ret (index + 342) dsk' ∧
      dsk'.length = dsk_buf.length ∧
      ∀ q, dsk'.getD q 0 =
        if track * 4096 + soft_interleave.getD sector 0 * 256 ≤ q ∧
           q < track * 4096 + soft_interleave.getD sector 0 * 256 + 256
        then b (q - (track * 4096 + soft_interleave.getD sector 0 * 256))
        else dsk_buf.getD q 0 := by
  have hw : ∀ k, k ≤ 341 → w k < 64 := by
    intro k hk
    by_cases h : k < 86
    · rw [hS k h]; exact secondary_after_lt _ _ _
    · have := hP (k - 86) (by omega)
      rw [show 86 + (k - 86) = k by omega] at this
      rw [this, Nat.shiftRight_eq_div_pow]
      have := hb (k - 86) (by omega)
      omega
  have hfill1 := process_data_fill_stream nib_buf max_tracks w 85 index 0 [w 0]
    (fun k hk => by simpa using hread k (by omega)) (fun k hk => hw k (by omega))
  have hfill2 := process_data_fill_stream nib_buf max_tracks w 256 (index + 85) 85 []
    (fun k hk => by
      have := hread (85 + k) (by omega)
      rw [show index + 85 + k = index + (85 + k) by omega]
      exact this) (fun k hk => hw k (by omega))
  simp only [Nat.zero_add] at hfill1
  simp only [List.nil_append] at hfill2
  have hne : ¬ (w 0 = 255) := by have := hw 0 (by omega); omega
  have hne2 : ¬ (w 341 = 255) := by have := hw 341 (by omega); omega
  have hck' : get_nib_byte nib_buf max_tracks (index + 85 + 256) = some (translate (w 341)) := by
    rw [show index + 85 + 256 = index + 341 by omega]; exact hck
  obtain ⟨dsk', h1, h2, h3⟩ := process_data_denib_spec
    (List.map (fun k => w (85 + k + 1)) (List.range 256))
    ([w 0] ++ List.map (fun k => w (k + 1)) (List.range 85))
    track sector (index + 85 + 256 + 1) b hsec
    (denib_value b _ _
      (fun i hi => by
        rw [getD_range_map _ _ _ hi, show 85 + i + 1 = 86 + i by omega]
        exact hP i hi)
      (fun j hj => by
        rw [← hS j hj]
        cases j with
        | zero => simp
        | succ j =>
          rw [List.singleton_append, List.getD_cons_succ, getD_range_map _ _ _ (by omega)])
      hb)
    256 0 dsk_buf (by omega) hlen
  refine ⟨dsk', ?_, h2, fun q => by simpa using h3 q⟩
  simp only [process_data, untranslate_translate, and_63_of_lt _ (hw 0 (by omega)), hne,
    if_false, SECONDARY_BUF_LEN, PRIMARY_BUF_LEN, Nat.reduceSub, hfill1, hfill2, hck',
    and_63_of_lt _ (hw 341 (by omega)), hne2, Nat.xor_self, Nat.zero_mod, ne_eq,
    not_true_eq_false, Nat.reduceAdd]
  rw [show index + 342 = index + 85 + 256 + 1 by omega]
  exact h1

/-! ## The NIB buffer written by `dsk2nib` -/

theorem phys_interleave_lt : ∀ s, s < 16 → phys_interleave.getD s 0 < 16 := by decide

theorem phys_interleave_inj : ∀ a, a < 16 → ∀ b, b < 16 →
    phys_interleave.getD a 0 = phys_interleave.getD b 0 → a = b := by decide

theorem phys_interleave_surj : ∀ p, p < 16 → ∃ s, s < 16 ∧ phys_interleave.getD s 0 = p := by
  decide

theorem soft_interleave_lt : ∀ s, s < 16 → soft_interleave.getD s 0 < 16 := by decide

theorem soft_interleave_surj : ∀ l, l < 16 → ∃ s, s < 16 ∧ soft_interleave.getD s 0 = l := by
  decide

theorem sector_record_bytes (volume : Nat) (dsk_buf : List Nat) (trk sec : Nat) :
    (sector_record volume dsk_buf trk sec).bytes
      = List.replicate 48 0xff ++ (record_header volume trk sec
          ++ ((sector_record volume dsk_buf trk sec).data.data
          ++ [(sector_record volume dsk_buf trk sec).data.data_checksum, 0xde, 0xaa, 0xeb])) := by
  simp only [sector_record, dsk2nib_sector, dsk2nib_init, nibbilize, nib_sector_t.bytes,
    addr_t.bytes, data_t.bytes, record_header, addr_prolog, addr_epilog, data_prolog,
    data_epilog, List.append_assoc]
  rfl

theorem sector_record_data (volume : Nat) (dsk_buf : List Nat) (trk sec : Nat) :
    (sector_record volume dsk_buf trk sec).data
      = (nibbilize dsk_buf trk (soft_interleave.getD sec 0) (dsk2nib_init volume)).data := by
  simp [sector_record, dsk2nib_sector, nibbilize]

theorem record_header_length (volume trk sec : Nat) :
    (record_header volume trk sec).length = 22 := by
  simp [record_header, odd_even_encode]

theorem sector_record_length (volume : Nat) (dsk_buf : List Nat) (trk sec : Nat) :
    (sector_record volume dsk_buf trk sec).bytes.length = 416 := by
  rw [sector_record_bytes, sector_record_data]
  simp [record_header_length, nibbilize_data_length]

theorem sector_record_marks (volume : Nat) (dsk_buf : List Nat) (trk sec : Nat) :
    same_marks (sector_record volume dsk_buf trk sec) (dsk2nib_init volume) := by
  simp [sector_record, dsk2nib_sector, nibbilize, same_marks]

theorem dsk2nib_sector_fst (volume : Nat) (dsk_buf : List Nat) (trk sec : Nat)
    (ns : nib_sector_t) (nib_buf : List Nat) (h : same_marks ns (dsk2nib_init volume)) :
    (dsk2nib_sector volume dsk_buf trk (ns, nib_buf) sec).1
      = sector_record volume dsk_buf trk sec := by
  obtain ⟨gap1, ⟨p, v, t, s, c, e⟩, gap2, ⟨dp, dd, dc, de⟩⟩ := ns
  simp only [same_marks] at h
  obtain ⟨h1, h2, h3, h4, h5, h6, h7⟩ := h
  subst h1 h2 h3 h4 h5 h6 h7
  simp [sector_record, dsk2nib_sector, nibbilize, dsk2nib_init]

theorem dsk2nib_sector_snd (volume : Nat) (dsk_buf : List Nat) (trk sec : Nat)
    (ns : nib_sector_t) (nib_buf : List Nat) (h : same_marks ns (dsk2nib_init volume)) :
    (dsk2nib_sector volume dsk_buf trk (ns, nib_buf) sec).2
      = memcpy nib_buf (nib_get trk (phys_interleave.getD sec 0))
          (sector_record volume dsk_buf trk sec).bytes := by
  have := dsk2nib_sector_fst volume dsk_buf trk sec ns nib_buf h
  simp only [dsk2nib_sector] at this ⊢
  rw [this]

theorem dsk2nib_track_inv (volume : Nat) (dsk_buf : List Nat) (len trk : Nat)
    (hlen : (trk + 1) * 6656 ≤ len) (st : nib_sector_t × List Nat)
    (h0 : nib_inv volume dsk_buf len trk 0 st) :
    ∀ n, n ≤ 16 →
      nib_inv volume dsk_buf len trk n
        ((List.range n).foldl (dsk2nib_sector volume dsk_buf trk) st) := by
  intro n
  induction n with
  | zero => intro _; simpa using h0
  | succ n ih =>
    intro hn
    have ih' := ih (by omega)
    rw [List.range_succ, List.foldl_append]
    simp only [List.foldl_cons, List.foldl_nil]
    generalize (List.range n).foldl (dsk2nib_sector volume dsk_buf trk) st = st' at ih'
    obtain ⟨ns, nib⟩ := st'
    obtain ⟨hm, hl, hc⟩ := ih'
    simp only at hm hl hc
    have hp := phys_interleave_lt n (by omega)
    have hin : nib_get trk (phys_interleave.getD n 0)
        + (sector_record volume dsk_buf trk n).bytes.length ≤ nib.length := by
      rw [sector_record_length, hl]
      simp only [nib_get, BYTES_PER_NIB_TRACK, BYTES_PER_NIB_SECTOR]
      omega
    refine ⟨?_, ?_, ?_⟩
    · rw [dsk2nib_sector_fst _ _ _ _ _ _ hm]
      exact sector_record_marks _ _ _ _
    · rw [dsk2nib_sector_snd _ _ _ _ _ _ hm, length_memcpy _ _ _ hin]
      exact hl
    · intro trk' s' hs' hdone j hj
      rw [dsk2nib_sector_snd _ _ _ _ _ _ hm, getD_memcpy _ _ _ _ hin, sector_record_length]
      have hp' := phys_interleave_lt s' hs'
      by_cases hsame : trk' = trk ∧ s' = n
      · obtain ⟨e1, e2⟩ := hsame
        subst e1 e2
        rw [if_pos (by omega)]
        congr 1
        omega
      · have hne : trk' ≠ trk ∨ phys_interleave.getD s' 0 ≠ phys_interleave.getD n 0 := by
          by_cases e : trk' = trk
          · right
            intro hh
            exact hsame ⟨e, phys_interleave_inj s' hs' n (by omega) hh⟩
          · left; exact e
        have hdis : ¬ (nib_get trk (phys_interleave.getD n 0)
              ≤ nib_get trk' (phys_interleave.getD s' 0) + j ∧
            nib_get trk' (phys_interleave.getD s' 0) + j
              < nib_get trk (phys_interleave.getD n 0) + 416) := by
          simp only [nib_get, BYTES_PER_NIB_TRACK, BYTES_PER_NIB_SECTOR]
          omega
        rw [if_neg hdis]
        apply hc trk' s' hs' _ j hj
        rcases hdone with h | ⟨h1, h2⟩
        · left; exact h
        · right
          refine ⟨h1, ?_⟩
          have : s' ≠ n := fun e => hsame ⟨h1, e⟩
          omega

theorem dsk2nib_inv (volume : Nat) (dsk_buf nib_buf : List Nat) (tracks : Nat)
    (hlen : tracks * 6656 ≤ nib_buf.length) :
    ∀ t, t ≤ tracks →
      nib_inv volume dsk_buf nib_buf.length t 0
        ((List.range t).foldl (dsk2nib_track volume dsk_buf) (dsk2nib_init volume, nib_buf)) := by
  intro t
  induction t with
  | zero =>
    intro _
    refine ⟨?_, rfl, ?_⟩
    · simp [same_marks]
    · intro trk' s' _ h
      omega
  | succ t ih =>
    intro ht
    have ih' := ih (by omega)
    rw [List.range_succ, List.foldl_append]
    simp only [List.foldl_cons, List.foldl_nil]
    have := dsk2nib_track_inv volume dsk_buf nib_buf.length t (by nlinarith) _ ih' 16 (le_refl _)
    obtain ⟨h1, h2, h3⟩ := this
    refine ⟨h1, h2, ?_⟩
    intro trk' s' hs' hdone j hj
    apply h3 trk' s' hs' _ j hj
    omega

/-- After `dsk2nib`, the record of sector index `s` of track `trk` lies at
`nib_get trk phys_interleave[s]`. -/
theorem dsk2nib_getD (tracks volume : Nat) (dsk_buf nib_buf : List Nat)
    (hlen : tracks * 6656 ≤ nib_buf.length) (trk s j : Nat)
    (ht : trk < tracks) (hs : s < 16) (hj : j < 416) :
    (dsk2nib tracks volume dsk_buf nib_buf).getD
        (nib_get trk (phys_interleave.getD s 0) + j) 0
      = (sector_record volume dsk_buf trk s).bytes.getD j 0 :=
  (dsk2nib_inv volume dsk_buf nib_buf tracks hlen tracks (le_refl _)).2.2 trk s hs
    (Or.inl ht) j hj

theorem dsk2nib_length (tracks volume : Nat) (dsk_buf nib_buf : List Nat)
    (hlen : tracks * 6656 ≤ nib_buf.length) :
    (dsk2nib tracks volume dsk_buf nib_buf).length = nib_buf.length :=
  (dsk2nib_inv volume dsk_buf nib_buf tracks hlen tracks (le_refl _)).2.1

/-! ## Single iterations of the loop of `nib2dsk` -/

theorem reach_loop {nib_buf : List Nat} {max_tracks k : Nat} {s s' : Nib2dskVars}
    (h : Reach nib_buf max_tracks k s s') :
    ∀ n, nib2dsk_loop nib_buf max_tracks (k + n) s = nib2dsk_loop nib_buf max_tracks n s' := by
  induction h with
  | refl s => intro n; simp
  | @step k s s' s'' hs hb _ ih =>
    intro n
    rw [show k + 1 + n = (k + n) + 1 by omega]
    simp only [nib2dsk_loop, hs, ne_eq, not_false_eq_true, if_true, hb]
    exact ih n

theorem reach_trans {nib_buf : List Nat} {max_tracks k m : Nat} {s s' s'' : Nib2dskVars}
    (h1 : Reach nib_buf max_tracks k s s') (h2 : Reach nib_buf max_tracks m s' s'') :
    Reach nib_buf max_tracks (m + k) s s'' := by
  induction h1 with
  | refl s => simpa using h2
  | step hs hb _ ih => exact Reach.step hs hb (ih h2)

section steps

variable {nib_buf : List Nat} {max_tracks : Nat}
variable {api aei dpi dei byte tr se vo idx ex b b2 : Nat} {dsk : List Nat}

theorem body_0_skip (h : byte ≠ 0xd5) (hr : get_nib_byte nib_buf max_tracks idx = some b) :
    nib2dsk_body nib_buf max_tracks ⟨0, api, aei, dpi, dei, byte, tr, se, vo, idx, ex, dsk⟩
      = Flow.next ⟨0, 0, aei, dpi, dei, b, tr, se, vo, idx + 1, ex, dsk⟩ := by
  simp [nib2dsk_body, addr_prolog, h, hr]

theorem body_0_hit (h : byte = 0xd5) (hr : get_nib_byte nib_buf max_tracks idx = some b) :
    nib2dsk_body nib_buf max_tracks ⟨0, api, aei, dpi, dei, byte, tr, se, vo, idx, ex, dsk⟩
      = Flow.next ⟨1, 1, aei, dpi, dei, b, tr, se, vo, idx + 1, ex, dsk⟩ := by
  simp [nib2dsk_body, addr_prolog, h, hr]

theorem body_1 (h : byte = 0xaa) (hr : get_nib_byte nib_buf max_tracks idx = some b) :
    nib2dsk_body nib_buf max_tracks ⟨1, 1, aei, dpi, dei, byte, tr, se, vo, idx, ex, dsk⟩
      = Flow.next ⟨2, 2, aei, dpi, dei, b, tr, se, vo, idx + 1, ex, dsk⟩ := by
  simp [nib2dsk_body, read_or_return, addr_prolog, h, hr]

theorem body_2 (h : byte = 0x96) (hr : get_nib_byte nib_buf max_tracks idx = some b) :
    nib2dsk_body nib_buf max_tracks ⟨2, 2, aei, dpi, dei, byte, tr, se, vo, idx, ex, dsk⟩
      = Flow.next ⟨3, 3, aei, dpi, dei, b, tr, se, vo, idx + 1, ex, dsk⟩ := by
  simp [nib2dsk_body, read_or_return, addr_prolog, h, hr]

theorem body_3 (hr2 : get_nib_byte nib_buf max_tracks idx = some b2)
    (hr : get_nib_byte nib_buf max_tracks (idx + 1) = some b) :
    nib2dsk_body nib_buf max_tracks ⟨3, api, aei, dpi, dei, byte, tr, se, vo, idx, ex, dsk⟩
      = Flow.next ⟨4, api, aei, dpi, dei, b, tr, se, odd_even_decode byte b2, idx + 1 + 1,
          ex, dsk⟩ := by
  simp [nib2dsk_body, decode_pair, read_or_return, hr2, hr]

theorem body_4 (hr2 : get_nib_byte nib_buf max_tracks idx = some b2)
    (hr : get_nib_byte nib_buf max_tracks (idx + 1) = some b) :
    nib2dsk_body nib_buf max_tracks ⟨4, api, aei, dpi, dei, byte, tr, se, vo, idx, ex, dsk⟩
      = Flow.next ⟨5, api, aei, dpi, dei, b, odd_even_decode byte b2, se, vo, idx + 1 + 1,
          ex, dsk⟩ := by
  simp [nib2dsk_body, decode_pair, read_or_return, hr2, hr]

theorem body_5 (hr2 : get_nib_byte nib_buf max_tracks idx = some b2)
    (hr : get_nib_byte nib_buf max_tracks (idx + 1) = some b) :
    nib2dsk_body nib_buf max_tracks ⟨5, api, aei, dpi, dei, byte, tr, se, vo, idx, ex, dsk⟩
      = Flow.next ⟨6, api, aei, dpi, dei, b, tr, odd_even_decode byte b2, vo, idx + 1 + 1,
          ex, dsk⟩ := by
  simp [nib2dsk_body, decode_pair, read_or_return, hr2, hr]

theorem body_6 (hr2 : get_nib_byte nib_buf max_tracks idx = some b2)
    (hr : get_nib_byte nib_buf max_tracks (idx + 1) = some b) :
    nib2dsk_body nib_buf max_tracks ⟨6, api, aei, dpi, dei, byte, tr, se, vo, idx, ex, dsk⟩
      = Flow.next ⟨7, api, aei, dpi, dei, b, tr, se, vo, idx + 1 + 1, ex, dsk⟩ := by
  simp [nib2dsk_body, decode_pair, read_or_return, hr2, hr]

theorem body_7 (h : byte = 0xde) (hr : get_nib_byte nib_buf max_tracks idx = some b) :
    nib2dsk_body nib_buf max_tracks ⟨7, api, aei, dpi, dei, byte, tr, se, vo, idx, ex, dsk⟩
      = Flow.next ⟨8, api, 1, dpi, dei, b, tr, se, vo, idx + 1, ex, dsk⟩ := by
  simp [nib2dsk_body, read_or_return, addr_epilog, h, hr]

theorem body_8 (h : byte = 0xaa) (hr : get_nib_byte nib_buf max_tracks idx = some b) :
    nib2dsk_body nib_buf max_tracks ⟨8, api, 1, dpi, dei, byte, tr, se, vo, idx, ex, dsk⟩
      = Flow.next ⟨9, api, 1, dpi, dei, b, tr, se, vo, idx + 1, ex, dsk⟩ := by
  simp [nib2dsk_body, read_or_return, addr_epilog, h, hr]

theorem body_9_skip (h : byte ≠ 0xd5) (hr : get_nib_byte nib_buf max_tracks idx = some b) :
    nib2dsk_body nib_buf max_tracks ⟨9, api, aei, dpi, dei, byte, tr, se, vo, idx, ex, dsk⟩
      = Flow.next ⟨9, api, aei, 0, dei, b, tr, se, vo, idx + 1, ex, dsk⟩ := by
  simp [nib2dsk_body, read_or_return, data_prolog, h, hr]

theorem body_9_hit (h : byte = 0xd5) (hr : get_nib_byte nib_buf max_tracks idx = some b) :
    nib2dsk_body nib_buf max_tracks ⟨9, api, aei, dpi, dei, byte, tr, se, vo, idx, ex, dsk⟩
      = Flow.next ⟨10, api, aei, 1, dei, b, tr, se, vo, idx + 1, ex, dsk⟩ := by
  simp [nib2dsk_body, read_or_return, data_prolog, h, hr]

theorem body_10 (h : byte = 0xaa) (hr : get_nib_byte nib_buf max_tracks idx = some b) :
    nib2dsk_body nib_buf max_tracks ⟨10, api, aei, 1, dei, byte, tr, se, vo, idx, ex, dsk⟩
      = Flow.next ⟨11, api, aei, 2, dei, b, tr, se, vo, idx + 1, ex, dsk⟩ := by
  simp [nib2dsk_body, read_or_return, data_prolog, h, hr]

theorem body_11 (h : byte = 0xad) (hr : get_nib_byte nib_buf max_tracks idx = some b) :
    nib2dsk_body nib_buf max_tracks ⟨11, api, aei, 2, dei, byte, tr, se, vo, idx, ex, dsk⟩
      = Flow.next ⟨12, api, aei, 3, dei, b, tr, se, vo, idx + 1, ex, dsk⟩ := by
  simp [nib2dsk_body, read_or_return, data_prolog, h, hr]

theorem body_12 {idx' : Nat} {dsk' : List Nat}
    (hp : process_data byte dsk nib_buf max_tracks tr se idx = PDResult.ret idx' dsk')
    (h0 : idx' ≠ 0) (hr : get_nib_byte nib_buf max_tracks idx' = some b) :
    nib2dsk_body nib_buf max_tracks ⟨12, api, aei, dpi, dei, byte, tr, se, vo, idx, ex, dsk⟩
      = Flow.next ⟨13, api, aei, dpi, dei, b, tr, se, vo, idx' + 1, ex, dsk'⟩ := by
  simp [nib2dsk_body, read_or_return, hp, h0, hr]

theorem body_13 (h : byte = 0xde) (hr : get_nib_byte nib_buf max_tracks idx = some b) :
    nib2dsk_body nib_buf max_tracks ⟨13, api, aei, dpi, dei, byte, tr, se, vo, idx, ex, dsk⟩
      = Flow.next ⟨14, api, aei, dpi, 1, b, tr, se, vo, idx + 1, 0, dsk⟩ := by
  by_cases hex : ex = 0
  · simp [nib2dsk_body, read_or_return, data_epilog, h, hr, hex]
  · simp [nib2dsk_body, read_or_return, data_epilog, h, hr, hex]

theorem body_14 (h : byte = 0xaa) (hr : get_nib_byte nib_buf max_tracks idx = some b) :
    nib2dsk_body nib_buf max_tracks ⟨14, api, aei, dpi, 1, byte, tr, se, vo, idx, ex, dsk⟩
      = Flow.next ⟨15, api, aei, dpi, 2, b, tr, se, vo, idx + 1, ex, dsk⟩ := by
  simp [nib2dsk_body, read_or_return, data_epilog, h, hr]

theorem body_15_more (h : byte = 0xeb) (hr : get_nib_byte nib_buf max_tracks idx = some b) :
    nib2dsk_body nib_buf max_tracks ⟨15, api, aei, dpi, 2, byte, tr, se, vo, idx, ex, dsk⟩
      = Flow.next ⟨0, api, aei, dpi, 2, b, tr, se, vo, idx + 1, ex, dsk⟩ := by
  simp [nib2dsk_body, data_epilog, h, hr]

theorem body_15_end (h : byte = 0xeb) (hr : get_nib_byte nib_buf max_tracks idx = none) :
    nib2dsk_body nib_buf max_tracks ⟨15, api, aei, dpi, 2, byte, tr, se, vo, idx, ex, dsk⟩
      = Flow.next ⟨STATE_DONE, api, aei, dpi, 2, byte, tr, se, vo, idx + 1, ex, dsk⟩ := by
  simp [nib2dsk_body, data_epilog, h, hr]

/-- Scanning a run of `k` gap bytes `0xff` in state 0. -/
theorem scan_0 (aei dpi dei tr se vo ex : Nat) (dsk : List Nat) :
    ∀ k api idx, (∀ j, j < k → get_nib_byte nib_buf max_tracks (idx + j) = some 0xff) →
      ∃ api', Reach nib_buf max_tracks k
        ⟨0, api, aei, dpi, dei, 0xff, tr, se, vo, idx, ex, dsk⟩
        ⟨0, api', aei, dpi, dei, 0xff, tr, se, vo, idx + k, ex, dsk⟩ := by
  intro k
  induction k with
  | zero => intro api idx _; exact ⟨api, Reach.refl _⟩
  | succ k ih =>
    intro api idx h
    obtain ⟨api', hr⟩ := ih 0 (idx + 1) (fun j hj => by
      rw [show idx + 1 + j = idx + (j + 1) by omega]; exact h (j + 1) (by omega))
    refine ⟨api', ?_⟩
    rw [show idx + (k + 1) = idx + 1 + k by omega]
    exact Reach.step (by simp) (body_0_skip (by decide) (by simpa using h 0 (by omega))) hr

/-- Scanning a run of `k` gap bytes `0xff` in state 9. -/
theorem scan_9 (api aei dei tr se vo ex : Nat) (dsk : List Nat) :
    ∀ k dpi idx, (∀ j, j < k → get_nib_byte nib_buf max_tracks (idx + j) = some 0xff) →
      ∃ dpi', Reach nib_buf max_tracks k
        ⟨9, api, aei, dpi, dei, 0xff, tr, se, vo, idx, ex, dsk⟩
        ⟨9, api, aei, dpi', dei, 0xff, tr, se, vo, idx + k, ex, dsk⟩ := by
  intro k
  induction k with
  | zero => intro dpi idx _; exact ⟨dpi, Reach.refl _⟩
  | succ k ih =>
    intro dpi idx h
    obtain ⟨dpi', hr⟩ := ih 0 (idx + 1) (fun j hj => by
      rw [show idx + 1 + j = idx + (j + 1) by omega]; exact h (j + 1) (by omega))
    refine ⟨dpi', ?_⟩
    rw [show idx + (k + 1) = idx + 1 + k by omega]
    exact Reach.step (by simp) (body_9_skip (by decide) (by simpa using h 0 (by omega))) hr

end steps

/-! ## Decoding one sector record -/

theorem getD_replicate_append (n a : Nat) (l : List Nat) (j : Nat) (hj : j < n) :
    (List.replicate n a ++ l).getD j 0 = a := by
  rw [List.getD_append _ _ _ _ (by rw [List.length_replicate]; exact hj)]
  simp [List.getElem?_replicate, hj]

theorem getD_append_add (l1 l2 : List Nat) (n j : Nat) (hn : l1.length = n) :
    (l1 ++ l2).getD (n + j) 0 = l2.getD j 0 := by
  rw [List.getD_append_right _ _ _ _ (by omega)]
  congr 1
  omega

theorem record_getD_gap (volume : Nat) (dsk_buf : List Nat) (trk sec j : Nat) (hj : j < 48) :
    (sector_record volume dsk_buf trk sec).bytes.getD j 0 = 0xff := by
  rw [sector_record_bytes]
  exact getD_replicate_append 48 0xff _ j hj

theorem record_getD_header (volume : Nat) (dsk_buf : List Nat) (trk sec j : Nat) (hj : j < 22) :
    (sector_record volume dsk_buf trk sec).bytes.getD (48 + j) 0
      = (record_header volume trk sec).getD j 0 := by
  rw [sector_record_bytes, getD_append_add _ _ 48 j (List.length_replicate _ _),
    List.getD_append _ _ _ _ (by rw [record_header_length]; exact hj)]

theorem record_getD_data (volume : Nat) (dsk_buf : List Nat) (trk sec k : Nat) (hk : k < 342) :
    (sector_record volume dsk_buf trk sec).bytes.getD (70 + k) 0
      = (nibbilize dsk_buf trk (soft_interleave.getD sec 0) (dsk2nib_init volume)).data.data.getD
          k 0 := by
  rw [sector_record_bytes, show 70 + k = 48 + (22 + k) by omega,
    getD_append_add _ _ 48 _ (List.length_replicate _ _),
    getD_append_add _ _ 22 _ (record_header_length _ _ _), sector_record_data,
    List.getD_append _ _ _ _ (by rw [nibbilize_data_length]; exact hk)]

theorem record_getD_tail (volume : Nat) (dsk_buf : List Nat) (trk sec j : Nat) :
    (sector_record volume dsk_buf trk sec).bytes.getD (412 + j) 0
      = [(nibbilize dsk_buf trk (soft_interleave.getD sec 0)
            (dsk2nib_init volume)).data.data_checksum, 0xde, 0xaa, 0xeb].getD j 0 := by
  rw [sector_record_bytes, show 412 + j = 48 + (22 + (342 + j)) by omega,
    getD_append_add _ _ 48 _ (List.length_replicate _ _),
    getD_append_add _ _ 22 _ (record_header_length _ _ _), sector_record_data,
    getD_append_add _ _ 342 _ (nibbilize_data_length _ _ _ _)]

/-- From the first byte of a sector record written by `dsk2nib` (state 0, the
record starting at `base`), 69 iterations lead to state 15 with the last epilog
byte in `byte`; on the way the 256 source bytes of the sector are stored in the
DSK buffer. -/
theorem walk_record (nib_buf : List Nat) (max_tracks volume : Nat) (img : List Nat)
    (trk sec base : Nat) (dsk : List Nat)
    (hrd : ∀ j, j < 416 → get_nib_byte nib_buf max_tracks (base + j)
      = some ((sector_record volume img trk sec).bytes.getD j 0))
    (htrk : trk < 256) (hsec : sec < 16)
    (hlen : trk * 4096 + soft_interleave.getD sec 0 * 256 + 256 ≤ dsk.length)
    (hb : ∀ q, q < img.length → img.getD q 0 < 256) :
    ∃ dsk', dsk'.length = dsk.length ∧
      (∀ q, dsk'.getD q 0 =
        if trk * 4096 + soft_interleave.getD sec 0 * 256 ≤ q ∧
           q < trk * 4096 + soft_interleave.getD sec 0 * 256 + 256
        then img.getD q 0 else dsk.getD q 0) ∧
      ∀ api aei dpi dei tr0 se0 vo0 ex, ∃ vo',
        Reach nib_buf max_tracks 69
          ⟨0, api, aei, dpi, dei, 0xff, tr0, se0, vo0, base + 1, ex, dsk⟩
          ⟨15, 3, 1, 3, 2, 0xeb, trk, sec, vo', base + 416, 0, dsk'⟩ := by
  -- the reads of the record
  have hgap : ∀ j, j < 48 → get_nib_byte nib_buf max_tracks (base + j) = some 0xff :=
    fun j hj => by rw [hrd j (by omega), record_getD_gap _ _ _ _ j hj]
  have hhdr : ∀ j, j < 22 → get_nib_byte nib_buf max_tracks (base + (48 + j))
      = some ((record_header volume trk sec).getD j 0) :=
    fun j hj => by rw [hrd (48 + j) (by omega), record_getD_header _ _ _ _ j hj]
  have htail : ∀ j, j < 4 → get_nib_byte nib_buf max_tracks (base + (412 + j))
      = some ([(nibbilize img trk (soft_interleave.getD sec 0)
            (dsk2nib_init volume)).data.data_checksum, 0xde, 0xaa, 0xeb].getD j 0) :=
    fun j hj => by rw [hrd (412 + j) (by omega), record_getD_tail _ _ _ _ j]
  have hdata : ∀ k, k < 342 → get_nib_byte nib_buf max_tracks (base + (70 + k))
      = some ((nibbilize img trk (soft_interleave.getD sec 0)
          (dsk2nib_init volume)).data.data.getD k 0) :=
    fun k hk => by rw [hrd (70 + k) (by omega), record_getD_data _ _ _ _ k hk]
  -- the bytes of the source sector
  have hbyte : ∀ i, img.getD (dsk_get trk (soft_interleave.getD sec 0) + i) 0 < 256 := by
    intro i
    by_cases h : dsk_get trk (soft_interleave.getD sec 0) + i < img.length
    · exact hb _ h
    · rw [List.getD_eq_default _ _ (by omega)]
      omega
  -- the data field
  obtain ⟨dsk', hpd, hl', hc'⟩ := process_data_encoded nib_buf max_tracks
    (nib_stream img trk (soft_interleave.getD sec 0))
    (fun i => img.getD (dsk_get trk (soft_interleave.getD sec 0) + i) 0)
    trk sec (base + 71) dsk hsec hlen
    (fun k hk => by
      have := hdata (k + 1) (by omega)
      rw [nibbilize_data_succ _ _ _ _ k hk] at this
      rw [show base + 71 + k = base + (70 + (k + 1)) by omega]
      exact this)
    (by
      have := htail 0 (by omega)
      rw [nibbilize_checksum] at this
      exact this)
    (fun j hj => by
      simp only [nib_stream, hj, if_true]
      exact nibbilize_bufs_secondary _ _ _ _ hj)
    (fun i hi => by
      simp only [nib_stream, show ¬ (86 + i < 86) by omega, if_false,
        show 86 + i - 86 = i by omega]
      exact nibbilize_bufs_primary _ _ _ _ hi)
    (fun i _ => hbyte i)
  have hd0 := hdata 0 (by omega)
  rw [nibbilize_data_zero] at hd0
  refine ⟨dsk', hl', ?_, ?_⟩
  · intro q
    rw [hc' q]
    split_ifs with h
    · simp only [dsk_get, BYTES_PER_TRACK, BYTES_PER_SECTOR]
      congr 1
      omega
    · rfl
  · intro api aei dpi dei tr0 se0 vo0 ex
    obtain ⟨api', hscan⟩ := @scan_0 nib_buf max_tracks
      aei dpi dei tr0 se0 vo0 ex dsk 47 api (base + 1)
      (fun j hj => by rw [show base + 1 + j = base + (1 + j) by omega]; exact hgap _ (by omega))
    obtain ⟨dpi', hscan9⟩ := @scan_9 nib_buf max_tracks
      3 1 dei trk sec (odd_even_decode ((record_header volume trk sec).getD 3 0)
        ((record_header volume trk sec).getD 4 0)) ex dsk 4 0 (base + 63)
      (fun j hj => by
        have := hhdr (15 + j) (by omega)
        rw [show base + 63 + j = base + (48 + (15 + j)) by omega, this]
        have hj' : j = 0 ∨ j = 1 ∨ j = 2 ∨ j = 3 := by omega
        rcases hj' with e | e | e | e <;> subst e <;> rfl)
    refine ⟨odd_even_decode ((record_header volume trk sec).getD 3 0)
      ((record_header volume trk sec).getD 4 0), reach_trans hscan ?_⟩
    have ht : odd_even_decode ((record_header volume trk sec).getD 5 0)
        ((record_header volume trk sec).getD 6 0) = trk := odd_even_roundtrip trk htrk
    have hs : odd_even_decode ((record_header volume trk sec).getD 7 0)
        ((record_header volume trk sec).getD 8 0) = sec := odd_even_roundtrip sec (by omega)
    refine Reach.step (by simp) (body_0_skip (by decide) (hhdr 0 (by omega))) ?_
    refine Reach.step (by simp) (body_0_hit rfl (hhdr 1 (by omega))) ?_
    refine Reach.step (by simp) (body_1 rfl (hhdr 2 (by omega))) ?_
    refine Reach.step (by simp) (body_2 rfl (hhdr 3 (by omega))) ?_
    refine Reach.step (by simp) (body_3 (hhdr 4 (by omega)) (hhdr 5 (by omega))) ?_
    refine Reach.step (by simp) (body_4 (hhdr 6 (by omega)) (hhdr 7 (by omega))) ?_
    refine Reach.step (by simp) (body_5 (hhdr 8 (by omega)) (hhdr 9 (by omega))) ?_
    refine Reach.step (by simp) (body_6 (hhdr 10 (by omega)) (hhdr 11 (by omega))) ?_
    refine Reach.step (by simp) (body_7 rfl (hhdr 12 (by omega))) ?_
    refine Reach.step (by simp) (body_8 rfl (hhdr 13 (by omega))) ?_
    refine Reach.step (by simp)
      (body_9_skip (show (0xeb : Nat) ≠ 0xd5 by decide) (hhdr 14 (by omega))) ?_
    rw [ht, hs]
    refine reach_trans hscan9 ?_
    refine Reach.step (by simp) (body_9_skip (by decide) (hhdr 19 (by omega))) ?_
    refine Reach.step (by simp) (body_9_hit rfl (hhdr 20 (by omega))) ?_
    refine Reach.step (by simp) (body_10 rfl (hhdr 21 (by omega))) ?_
    refine Reach.step (by simp) (body_11 rfl hd0) ?_
    refine Reach.step (by simp) (body_12 hpd (by omega) (htail 1 (by omega))) ?_
    refine Reach.step (by simp) (body_13 rfl (htail 2 (by omega))) ?_
    refine Reach.step (by simp) (body_14 rfl (htail 3 (by omega))) ?_
    exact Reach.refl _

/-! ## Round trip `nib2dsk ∘ dsk2nib` -/

/-- The reads of record number `n` (in buffer order) of a NIB buffer written by
`dsk2nib`. -/
theorem record_reads (t volume : Nat) (img nib0 : List Nat)
    (hnib : t * 6656 ≤ nib0.length) (n : Nat) (hn : n < 16 * t) :
    ∃ trk s, trk < t ∧ s < 16 ∧ trk * 16 + phys_interleave.getD s 0 = n ∧
      ∀ j, j < 416 → get_nib_byte (dsk2nib t volume img nib0) t (n * 416 + j)
        = some ((sector_record volume img trk s).bytes.getD j 0) := by
  obtain ⟨s, hs, hp⟩ := phys_interleave_surj (n % 16) (Nat.mod_lt _ (by norm_num))
  refine ⟨n / 16, s, by omega, hs, by omega, fun j hj => ?_⟩
  have hlt : ¬ (n * 416 + j ≥ t * BYTES_PER_NIB_TRACK) := by
    simp only [BYTES_PER_NIB_TRACK]; omega
  simp only [get_nib_byte, hlt, if_false]
  have := dsk2nib_getD t volume img nib0 hnib (n / 16) s j (by omega) hs hj
  rw [← this]
  simp only [nib_get, BYTES_PER_NIB_TRACK, BYTES_PER_NIB_SECTOR]
  rw [show n * 416 + j = n / 16 * 6656 + phys_interleave.getD s 0 * 416 + j by omega]

/-- The variables of `nib2dsk` when the loop starts. -/
theorem nib2dsk_unfold (dsk_buf nib_buf : List Nat) (max_tracks b : Nat)
    (h : get_nib_byte nib_buf max_tracks 0 = some b) :
    nib2dsk dsk_buf nib_buf max_tracks
      = nib2dsk_loop nib_buf max_tracks (nib2dsk_fuel max_tracks)
          ⟨0, 0, 0, 0, 0, b, 0, 0, 0, 1, 0, dsk_buf⟩ := by
  unfold nib2dsk
  rw [h]

/-- After `n` records the loop is back in state 0 at the first byte of record `n`,
and the sectors of the first `n` records are in the DSK buffer. -/
theorem decode_prefix (t volume : Nat) (img nib0 out0 : List Nat)
    (ht : t ≤ 40) (hbytes : ∀ q, q < img.length → img.getD q 0 < 256)
    (hnib : t * 6656 ≤ nib0.length) (hout : t * 4096 ≤ out0.length) :
    ∀ n, n < 16 * t →
      ∃ api aei dpi dei tr se vo ex dsk,
        Reach (dsk2nib t volume img nib0) t (70 * n)
          ⟨0, 0, 0, 0, 0, 0xff, 0, 0, 0, 1, 0, out0⟩
          ⟨0, api, aei, dpi, dei, 0xff, tr, se, vo, n * 416 + 1, ex, dsk⟩ ∧
        dsk.length = out0.length ∧
        ∀ q, covered n q → dsk.getD q 0 = img.getD q 0 := by
  intro n
  induction n with
  | zero =>
    intro _
    refine ⟨0, 0, 0, 0, 0, 0, 0, 0, out0, Reach.refl _, rfl, ?_⟩
    intro q ⟨trk, s, _, h, _⟩
    omega
  | succ n ih =>
    intro hn
    obtain ⟨api, aei, dpi, dei, tr, se, vo, ex, dsk, hreach, hlen, hcov⟩ := ih (by omega)
    obtain ⟨trk, s, htrk, hs, hidx, hrd⟩ := record_reads t volume img nib0 hnib n (by omega)
    have hsoft := soft_interleave_lt s hs
    obtain ⟨dsk', hl', hc', hwalk⟩ := walk_record (dsk2nib t volume img nib0) t volume img
      trk s (n * 416) dsk hrd (by omega) hs (by omega) hbytes
    obtain ⟨vo', hw⟩ := hwalk api aei dpi dei tr se vo ex
    obtain ⟨trk2, s2, _, _, _, hrd2⟩ := record_reads t volume img nib0 hnib (n + 1) hn
    have hnext : get_nib_byte (dsk2nib t volume img nib0) t (n * 416 + 416) = some 0xff := by
      have := hrd2 0 (by omega)
      rw [record_getD_gap _ _ _ _ 0 (by omega)] at this
      rw [show n * 416 + 416 = (n + 1) * 416 + 0 by omega]
      exact this
    refine ⟨3, 1, 3, 2, trk, s, vo', 0, dsk', ?_, by rw [hl', hlen], ?_⟩
    · have h1 := reach_trans hreach hw
      have h2 := reach_trans h1
        (Reach.step (by simp) (body_15_more rfl hnext) (Reach.refl _))
      rw [show 70 * (n + 1) = 0 + 1 + (69 + 70 * n) by omega,
        show (n + 1) * 416 + 1 = n * 416 + 416 + 1 by omega]
      exact h2
    · intro q hq
      rw [hc' q]
      split_ifs with h
      · rfl
      · apply hcov q
        obtain ⟨trk', s', hs', hlt, hq1, hq2⟩ := hq
        refine ⟨trk', s', hs', ?_, hq1, hq2⟩
        by_contra hcon
        have e : trk' * 16 + phys_interleave.getD s' 0 = trk * 16 + phys_interleave.getD s 0 := by
          omega
        have hp' := phys_interleave_lt s' hs'
        have hp := phys_interleave_lt s hs
        have e1 : trk' = trk := by omega
        have e2 : s' = s := phys_interleave_inj s' hs' s hs (by omega)
        subst e1 e2
        exact h ⟨hq1, hq2⟩

/-- Every position of the image is covered once all `16 * t` records are decoded. -/
theorem covered_all (t q : Nat) (hq : q < t * 4096) : covered (16 * t) q := by
  obtain ⟨s, hs, hsoft⟩ := soft_interleave_surj (q % 4096 / 256) (by omega)
  have hp := phys_interleave_lt s hs
  exact ⟨q / 4096, s, hs, by omega, by omega, by omega⟩

theorem roundtrip_core (t volume : Nat) (img nib0 out0 : List Nat)
    (ht1 : 1 ≤ t) (ht : t ≤ 40)
    (hbytes : ∀ q, q < img.length → img.getD q 0 < 256)
    (hnib : t * 6656 ≤ nib0.length) (hout : t * 4096 ≤ out0.length) :
    ∃ out, nib2dsk out0 (dsk2nib t volume img nib0) t = Outcome.ret 1 out ∧
      out.length = out0.length ∧ ∀ q, q < t * 4096 → out.getD q 0 = img.getD q 0 := by
  obtain ⟨api, aei, dpi, dei, tr, se, vo, ex, dsk, hreach, hlen, hcov⟩ :=
    decode_prefix t volume img nib0 out0 ht hbytes hnib hout (16 * t - 1) (by omega)
  obtain ⟨trk, s, htrk, hs, hidx, hrd⟩ :=
    record_reads t volume img nib0 hnib (16 * t - 1) (by omega)
  have hsoft := soft_interleave_lt s hs
  obtain ⟨dsk', hl', hc', hwalk⟩ := walk_record (dsk2nib t volume img nib0) t volume img
    trk s ((16 * t - 1) * 416) dsk hrd (by omega) hs (by omega) hbytes
  obtain ⟨vo', hw⟩ := hwalk api aei dpi dei tr se vo ex
  have hend : get_nib_byte (dsk2nib t volume img nib0) t ((16 * t - 1) * 416 + 416) = none := by
    have : (16 * t - 1) * 416 + 416 ≥ t * BYTES_PER_NIB_TRACK := by
      simp only [BYTES_PER_NIB_TRACK]; omega
    simp only [get_nib_byte, this, if_true]
  have h0 : get_nib_byte (dsk2nib t volume img nib0) t 0 = some 0xff := by
    obtain ⟨trk0, s0, _, _, _, hrd0⟩ := record_reads t volume img nib0 hnib 0 (by omega)
    have := hrd0 0 (by omega)
    rw [record_getD_gap _ _ _ _ 0 (by omega)] at this
    simpa using this
  have hall := reach_trans (reach_trans hreach hw)
    (Reach.step (by simp) (body_15_end rfl hend) (Reach.refl _))
  refine ⟨dsk', ?_, by rw [hl', hlen], ?_⟩
  · rw [nib2dsk_unfold _ _ _ _ h0]
    have hf : nib2dsk_fuel t
        = (0 + 1 + (69 + 70 * (16 * t - 1))) + ((nib2dsk_fuel t - 1120 * t - 1) + 1) := by
      simp only [nib2dsk_fuel, BYTES_PER_NIB_TRACK]; omega
    rw [hf, reach_loop hall]
    simp [nib2dsk_loop]
  · intro q hq
    rw [hc' q]
    split_ifs with h
    · rfl
    · apply hcov q
      obtain ⟨trk', s', hs', hlt, hq1, hq2⟩ := covered_all t q hq
      refine ⟨trk', s', hs', ?_, hq1, hq2⟩
      by_contra hcon
      have hp' := phys_interleave_lt s' hs'
      have hp := phys_interleave_lt s hs
      have e1 : trk' = trk := by omega
      have e2 : s' = s := phys_interleave_inj s' hs' s hs (by omega)
      subst e1 e2
      exact h ⟨hq1, hq2⟩

/-- C1: for a track count `t` in 35..40, any volume value and any image `img` of
`t * 4096` bytes, `nib2dsk` with `max_tracks = t` applied to the NIB buffer written
by `dsk2nib t volume img` returns 1 and leaves exactly `img` in the first
`t * 4096` bytes of the output buffer, whatever both buffers held before. -/
theorem dsk2nib_nib2dsk_roundtrip (t volume : Nat) (img nib0 out0 : List Nat)
    (ht : 35 ≤ t ∧ t ≤ 40) (himg : img.length = t * 4096)
    (hbytes : ∀ b, b ∈ img → b < 256)
    (hnib : t * 6656 ≤ nib0.length) (hout : t * 4096 ≤ out0.length) :
    ∃ out, nib2dsk out0 (dsk2nib t volume img nib0) t = Outcome.ret 1 out ∧
      out.length = out0.length ∧ out.take (t * 4096) = img := by
  obtain ⟨out, h1, h2, h3⟩ := roundtrip_core t volume img nib0 out0 (by omega) ht.2
    (fun q hq => by
      rw [List.getD_eq_getElem _ _ hq]
      exact hbytes _ (List.getElem_mem hq))
    hnib hout
  refine ⟨out, h1, h2, ?_⟩
  apply List.ext_getElem
  · rw [List.length_take, himg]; omega
  · intro q hq1 hq2
    have hq : q < t * 4096 := by rw [himg] at hq2; exact hq2
    have := h3 q hq
    rw [List.getD_eq_getElem _ _ (by omega), List.getD_eq_getElem _ _ hq2] at this
    rw [List.getElem_take]
    exact this

/-- Witness for C1: a blank 35-track image, volume 254, zeroed buffers of the
sizes used by the emulator. -/
theorem dsk2nib_nib2dsk_roundtrip_witness :
    ∃ out, nib2dsk (List.replicate (40 * 4096) 0)
        (dsk2nib 35 254 (List.replicate (35 * 4096) 0) (List.replicate (40 * 6656) 0)) 35
          = Outcome.ret 1 out ∧
      out.length = (List.replicate (40 * 4096) 0).length ∧
      out.take (35 * 4096) = List.replicate (35 * 4096) 0 :=
  dsk2nib_nib2dsk_roundtrip 35 254 (List.replicate (35 * 4096) 0)
    (List.replicate (40 * 6656) 0) (List.replicate (40 * 4096) 0)
    ⟨by decide, by decide⟩ (List.length_replicate _ _)
    (fun b hb => by rw [List.eq_of_mem_replicate hb]; decide)
    (by rw [List.length_replicate]; decide) (by rw [List.length_replicate]; decide)

/-! ## Where `dsk2nib` puts the sector records -/

theorem take_drop_eq_of_getD (l r : List Nat) (off n : Nat) (hl : off + n ≤ l.length)
    (hr : r.length = n) (h : ∀ j, j < n → l.getD (off + j) 0 = r.getD j 0) :
    (l.drop off).take n = r := by
  apply List.ext_getElem
  · rw [List.length_take, List.length_drop, hr]
    omega
  · intro j h1 h2
    have hj : j < n := by rw [hr] at h2; exact h2
    have := h j hj
    rw [List.getD_eq_getElem _ _ (by omega), List.getD_eq_getElem _ _ h2] at this
    rw [List.getElem_take, List.getElem_drop]
    exact this

theorem getD_take_drop (l : List Nat) (off n i : Nat) (hi : i < n) :
    ((l.drop off).take n).getD i 0 = l.getD (off + i) 0 := by
  simp only [List.getD_eq_getElem?_getD, List.getElem?_take, hi, if_true, List.getElem?_drop]

/-- `nibbilize` reads only the 256 source bytes of its sector. -/
theorem nibbilize_bufs_slice (dsk_buf : List Nat) (track sector : Nat) :
    nibbilize_bufs dsk_buf track sector
      = nibbilize_bufs ((dsk_buf.drop (track * 4096 + sector * 256)).take 256) 0 0 := by
  unfold nibbilize_bufs
  apply List.foldl_ext
  intro bufs i hi
  have hi' : i < 256 := by simpa [PRIMARY_BUF_LEN] using hi
  simp only [nibbilize_body, dsk_get, BYTES_PER_TRACK, BYTES_PER_SECTOR, Nat.zero_mul,
    Nat.zero_add, getD_take_drop _ _ _ _ hi']

theorem dsk2nib_record_slice (tracks volume : Nat) (dsk_buf nib_buf : List Nat)
    (hlen : tracks * 6656 ≤ nib_buf.length) (t s : Nat) (ht : t < tracks) (hs : s < 16) :
    ((dsk2nib tracks volume dsk_buf nib_buf).drop
        (t * 6656 + phys_interleave.getD s 0 * 416)).take 416
      = (sector_record volume dsk_buf t s).bytes := by
  have hp := phys_interleave_lt s hs
  apply take_drop_eq_of_getD
  · rw [dsk2nib_length _ _ _ _ hlen]
    have : (t + 1) * 6656 ≤ tracks * 6656 := Nat.mul_le_mul_right _ ht
    omega
  · exact sector_record_length _ _ _ _
  · intro j hj
    exact dsk2nib_getD tracks volume dsk_buf nib_buf hlen t s j ht hs hj

theorem header_sector_pair (volume trk sec j : Nat) (hj : j < 2) :
    (record_header volume trk sec).getD (7 + j) 0 = (odd_even_encode sec).getD j 0 := by
  interval_cases j <;> simp [record_header, odd_even_encode]

theorem nibbilize_slice (dsk_buf : List Nat) (track sector : Nat) (ns : nib_sector_t) :
    (nibbilize dsk_buf track sector ns).data
      = (nibbilize ((dsk_buf.drop (track * 4096 + sector * 256)).take 256) 0 0 ns).data := by
  simp only [nibbilize]
  rw [nibbilize_bufs_slice]

theorem dsk2nib_getD_sector_pair (tracks volume : Nat) (dsk_buf nib_buf : List Nat)
    (hlen : tracks * 6656 ≤ nib_buf.length) (t s : Nat) (ht : t < tracks) (hs : s < 16)
    (j : Nat) (hj : j < 2) :
    (dsk2nib tracks volume dsk_buf nib_buf).getD
        (t * 6656 + phys_interleave.getD s 0 * 416 + 55 + j) 0
      = (odd_even_encode s).getD j 0 := by
  have h := dsk2nib_getD tracks volume dsk_buf nib_buf hlen t s (48 + (7 + j)) ht hs (by omega)
  rw [record_getD_header _ _ _ _ _ (by omega), header_sector_pair _ _ _ _ hj] at h
  rw [show t * 6656 + phys_interleave.getD s 0 * 416 + 55 + j
    = nib_get t (phys_interleave.getD s 0) + (48 + (7 + j)) by
      simp only [nib_get, BYTES_PER_NIB_TRACK, BYTES_PER_NIB_SECTOR]; omega]
  exact h

/-- C14: for every track `t` below the track count and every index `s` in 0..15,
the 416 bytes that `dsk2nib` leaves at offset `t*6656 + phys_interleave[s]*416`
of the NIB buffer carry the odd-even pair of `s` in the sector member of the
address field (bytes 55 and 56 of the record, decoding to `s`) and, in the data
field (bytes 70..412), the 342 data bytes and the checksum that `nibbilize`
computes from the 256 source bytes at offset `t*4096 + soft_interleave[s]*256`. -/
theorem dsk2nib_sector_placement (tracks volume : Nat) (dsk_buf nib_buf : List Nat)
    (hlen : tracks * 6656 ≤ nib_buf.length) (t s : Nat) (ht : t < tracks) (hs : s < 16) :
    (((dsk2nib tracks volume dsk_buf nib_buf).drop
        (t * 6656 + phys_interleave.getD s 0 * 416 + 55)).take 2 = odd_even_encode s) ∧
    odd_even_decode
        ((dsk2nib tracks volume dsk_buf nib_buf).getD
          (t * 6656 + phys_interleave.getD s 0 * 416 + 55) 0)
        ((dsk2nib tracks volume dsk_buf nib_buf).getD
          (t * 6656 + phys_interleave.getD s 0 * 416 + 56) 0) = s ∧
    (((dsk2nib tracks volume dsk_buf nib_buf).drop
        (t * 6656 + phys_interleave.getD s 0 * 416 + 70)).take 343
      = (nibbilize ((dsk_buf.drop (t * 4096 + soft_interleave.getD s 0 * 256)).take 256) 0 0
            (dsk2nib_init volume)).data.data
        ++ [(nibbilize ((dsk_buf.drop (t * 4096 + soft_interleave.getD s 0 * 256)).take 256) 0 0
            (dsk2nib_init volume)).data.data_checksum]) := by
  have hp := phys_interleave_lt s hs
  have hl := dsk2nib_length tracks volume dsk_buf nib_buf hlen
  have hb : (t + 1) * 6656 ≤ tracks * 6656 := Nat.mul_le_mul_right _ ht
  have h0 := dsk2nib_getD_sector_pair tracks volume dsk_buf nib_buf hlen t s ht hs 0 (by omega)
  have h1 := dsk2nib_getD_sector_pair tracks volume dsk_buf nib_buf hlen t s ht hs 1 (by omega)
  refine ⟨?_, ?_, ?_⟩
  · apply take_drop_eq_of_getD
    · omega
    · simp [odd_even_encode]
    · intro j hj
      exact dsk2nib_getD_sector_pair tracks volume dsk_buf nib_buf hlen t s ht hs j hj
  · rw [Nat.add_zero] at h0
    rw [h0, show t * 6656 + phys_interleave.getD s 0 * 416 + 56
      = t * 6656 + phys_interleave.getD s 0 * 416 + 55 + 1 by omega, h1]
    exact odd_even_roundtrip s (by omega)
  · rw [← nibbilize_slice]
    apply take_drop_eq_of_getD
    · omega
    · simp [nibbilize_data_length]
    · intro j hj
      have h := dsk2nib_getD tracks volume dsk_buf nib_buf hlen t s (70 + j) ht hs (by omega)
      rw [show t * 6656 + phys_interleave.getD s 0 * 416 + 70 + j
        = nib_get t (phys_interleave.getD s 0) + (70 + j) by
          simp only [nib_get, BYTES_PER_NIB_TRACK, BYTES_PER_NIB_SECTOR]; omega, h]
      by_cases hj2 : j < 342
      · rw [record_getD_data _ _ _ _ _ hj2,
          List.getD_append _ _ _ _ (by rw [nibbilize_data_length]; exact hj2)]
      · have hj3 : j = 342 := by omega
        subst hj3
        rw [show 70 + 342 = 412 + 0 by omega, record_getD_tail,
          show (342 : Nat) = 342 + 0 by omega,
          getD_append_add _ _ 342 0 (nibbilize_data_length _ _ _ _)]
        rfl

/-- C14 for a 35-track image, track 0, index 0: `phys_interleave[0] = 0` and
`soft_interleave[0] = 0`, so the record at NIB offset 0 holds the encoding of the
256 bytes at DSK offset 0. -/
theorem dsk2nib_sector_placement_witness :
    phys_interleave.getD 0 0 = 0 ∧ soft_interleave.getD 0 0 = 0 ∧
    ((dsk2nib 35 254 (List.replicate (35 * 4096) 0) (List.replicate (40 * 6656) 0)).drop
        (0 * 6656 + phys_interleave.getD 0 0 * 416 + 70)).take 343
      = (nibbilize (((List.replicate (35 * 4096) 0).drop
            (0 * 4096 + soft_interleave.getD 0 0 * 256)).take 256) 0 0
            (dsk2nib_init 254)).data.data
        ++ [(nibbilize (((List.replicate (35 * 4096) 0).drop
            (0 * 4096 + soft_interleave.getD 0 0 * 256)).take 256) 0 0
            (dsk2nib_init 254)).data.data_checksum] :=
  ⟨by decide, by decide,
    (dsk2nib_sector_placement 35 254 (List.replicate (35 * 4096) 0)
      (List.replicate (40 * 6656) 0) (by rw [List.length_replicate]; decide) 0 0
      (by decide) (by decide)).2.2⟩

/-- C15: every 416-byte sector record written by `dsk2nib` is, in order, 48 bytes
`0xFF`, the address prolog `D5 AA 96`, the odd-even pairs of the volume, the
track, the sector index `s` and `volume XOR track XOR s`, the address epilog
`DE AA EB`, 5 bytes `0xFF`, the data prolog `D5 AA AD`, 342 data bytes, one
checksum byte and the data epilog `DE AA EB`; every byte of a track's 6656 bytes
lies in exactly one of its 16 records. -/
theorem dsk2nib_record_layout (tracks volume : Nat) (dsk_buf nib_buf : List Nat)
    (hlen : tracks * 6656 ≤ nib_buf.length) :
    (∀ t s, t < tracks → s < 16 →
      ∃ data cks, data.length = 342 ∧
        ((dsk2nib tracks volume dsk_buf nib_buf).drop
            (t * 6656 + phys_interleave.getD s 0 * 416)).take 416
          = List.replicate 48 0xFF ++ [0xD5, 0xAA, 0x96] ++ odd_even_encode volume
            ++ odd_even_encode t ++ odd_even_encode s ++ odd_even_encode (volume ^^^ t ^^^ s)
            ++ [0xDE, 0xAA, 0xEB] ++ List.replicate 5 0xFF ++ [0xD5, 0xAA, 0xAD]
            ++ data ++ [cks] ++ [0xDE, 0xAA, 0xEB]) ∧
    (∀ n, n < tracks * 6656 →
      ∃ s, s < 16 ∧ n / 6656 * 6656 + phys_interleave.getD s 0 * 416 ≤ n ∧
        n < n / 6656 * 6656 + phys_interleave.getD s 0 * 416 + 416 ∧
        ∀ s', s' < 16 → n / 6656 * 6656 + phys_interleave.getD s' 0 * 416 ≤ n →
          n < n / 6656 * 6656 + phys_interleave.getD s' 0 * 416 + 416 → s' = s) := by
  constructor
  · intro t s ht hs
    refine ⟨(sector_record volume dsk_buf t s).data.data,
      (sector_record volume dsk_buf t s).data.data_checksum, ?_, ?_⟩
    · rw [sector_record_data]
      exact nibbilize_data_length _ _ _ _
    · rw [dsk2nib_record_slice tracks volume dsk_buf nib_buf hlen t s ht hs,
        sector_record_bytes]
      simp [record_header]
  · intro n _
    obtain ⟨s, hs, hps⟩ := phys_interleave_surj (n % 6656 / 416) (by omega)
    refine ⟨s, hs, by omega, by omega, ?_⟩
    intro s' hs' h1 h2
    exact phys_interleave_inj s' hs' s hs (by omega)

/-- C15 for a 35-track image written with volume 254: the record of track 34,
sector index 15 (the last physical slot, `phys_interleave[15] = 15`). -/
theorem dsk2nib_record_layout_witness :
    ∃ data cks, data.length = 342 ∧
      ((dsk2nib 35 254 (List.replicate (35 * 4096) 0) (List.replicate (40 * 6656) 0)).drop
          (34 * 6656 + phys_interleave.getD 15 0 * 416)).take 416
        = List.replicate 48 0xFF ++ [0xD5, 0xAA, 0x96] ++ odd_even_encode 254
          ++ odd_even_encode 34 ++ odd_even_encode 15 ++ odd_even_encode (254 ^^^ 34 ^^^ 15)
          ++ [0xDE, 0xAA, 0xEB] ++ List.replicate 5 0xFF ++ [0xD5, 0xAA, 0xAD]
          ++ data ++ [cks] ++ [0xDE, 0xAA, 0xEB] :=
  (dsk2nib_record_layout 35 254 (List.replicate (35 * 4096) 0)
    (List.replicate (40 * 6656) 0) (by rw [List.length_replicate]; decide)).1 34 15
    (by decide) (by decide)

/-! ## Every iteration of the loop of `nib2dsk` makes progress -/

theorem get_nib_byte_some {nib_buf : List Nat} {max_tracks index b : Nat}
    (h : get_nib_byte nib_buf max_tracks index = some b) :
    index < max_tracks * 6656 ∧ b = nib_buf.getD index 0 := by
  unfold get_nib_byte at h
  simp only [BYTES_PER_NIB_TRACK] at h
  split_ifs at h with hc
  simp only [Option.some.injEq] at h
  exact ⟨by omega, h.symm⟩

theorem process_data_fill_index (nib_buf : List Nat) (max_tracks : Nat) :
    ∀ n index c buf i' c' buf',
      process_data_fill nib_buf max_tracks n index c buf = some (i', c', buf') →
      i' = index + n ∧ (0 < n → index + n ≤ max_tracks * 6656) := by
  intro n
  induction n with
  | zero =>
    intro index c buf i' c' buf' h
    simp only [process_data_fill, Option.some.injEq, Prod.mk.injEq] at h
    exact ⟨by omega, fun h0 => absurd h0 (by omega)⟩
  | succ n ih =>
    intro index c buf i' c' buf' h
    unfold process_data_fill at h
    split at h
    · exact absurd h (by simp)
    · rename_i byte hb
      have hlt := (get_nib_byte_some hb).1
      simp only [] at h
      split_ifs at h
      have := ih _ _ _ _ _ _ h
      refine ⟨by omega, fun _ => ?_⟩
      by_cases hn : 0 < n
      · have := this.2 hn
        omega
      · omega

theorem process_data_denib_ret (primary_buf secondary_buf : List Nat)
    (track sector index : Nat) :
    ∀ n i dsk_buf v d,
      process_data_denib primary_buf secondary_buf track sector index n i dsk_buf
        = PDResult.ret v d → v = 0 ∨ v = index := by
  intro n
  induction n with
  | zero =>
    intro i dsk_buf v d h
    simp only [process_data_denib, PDResult.ret.injEq] at h
    exact Or.inr h.1.symm
  | succ n ih =>
    intro i dsk_buf v d h
    unfold process_data_denib at h
    split at h
    · simp only [PDResult.ret.injEq] at h
      exact Or.inl h.1.symm
    · simp only [] at h
      split_ifs at h
      exact ih _ _ _ _ h

/-- A value returned by `process_data` is 0 or the position after the 343 bytes of
the field, which then lie inside the buffer. -/
theorem process_data_ret (byte : Nat) (dsk_buf nib_buf : List Nat)
    (max_tracks track sector index v : Nat) (d : List Nat)
    (h : process_data byte dsk_buf nib_buf max_tracks track sector index = PDResult.ret v d) :
    v = 0 ∨ (v = index + 342 ∧ index + 342 ≤ max_tracks * 6656) := by
  unfold process_data at h
  simp only [SECONDARY_BUF_LEN, PRIMARY_BUF_LEN, Nat.reduceSub] at h
  split_ifs at h with h1
  · simp only [PDResult.ret.injEq] at h
    exact Or.inl h.1.symm
  · split at h
    · simp only [PDResult.ret.injEq] at h
      exact Or.inl h.1.symm
    · rename_i i1 c1 sb hf1
      have e1 := process_data_fill_index _ _ _ _ _ _ _ _ _ hf1
      split at h
      · simp only [PDResult.ret.injEq] at h
        exact Or.inl h.1.symm
      · rename_i i2 c2 pb hf2
        have e2 := process_data_fill_index _ _ _ _ _ _ _ _ _ hf2
        split at h
        · simp only [PDResult.ret.injEq] at h
          exact Or.inl h.1.symm
        · rename_i b3 hb3
          have e3 := (get_nib_byte_some hb3).1
          split_ifs at h with h4 h5
          · simp only [PDResult.ret.injEq] at h
            exact Or.inl h.1.symm
          · simp only [PDResult.ret.injEq] at h
            exact Or.inl h.1.symm
          · rcases process_data_denib_ret _ _ _ _ _ _ _ _ _ _ h with h6 | h6
            · exact Or.inl h6
            · exact Or.inr ⟨by omega, by omega⟩
theorem read_or_return_next {nib_buf : List Nat} {max_tracks : Nat} {s s' : Nib2dskVars}
    (h : read_or_return nib_buf max_tracks s = Flow.next s') :
    s.index < max_tracks * 6656 ∧
    s' = { s with byte := nib_buf.getD s.index 0, index := s.index + 1 } := by
  unfold read_or_return at h
  split at h
  · exact absurd h (by simp)
  · rename_i b hb
    obtain ⟨h1, h2⟩ := get_nib_byte_some hb
    simp only [Flow.next.injEq] at h
    subst h2
    exact ⟨h1, h.symm⟩

theorem decode_pair_next {nib_buf : List Nat} {max_tracks : Nat} {s s' : Nib2dskVars}
    {store : Nib2dskVars → Nat → Nib2dskVars}
    (h : decode_pair nib_buf max_tracks s store = Flow.next s')
    (hst : ∀ t v, (store t v).index = t.index ∧ (store t v).state = t.state) :
    s.index + 1 < max_tracks * 6656 ∧ s'.index = s.index + 2 ∧ s'.state = s.state + 1 := by
  unfold decode_pair at h
  split at h
  · exact absurd h (by simp)
  · rename_i b hb
    simp only [] at h
    obtain ⟨h1, h2⟩ := read_or_return_next h
    subst h2
    simp only [(hst _ _).1, (hst _ _).2] at h1 ⊢
    exact ⟨h1, trivial, trivial⟩

set_option linter.unreachableTactic false in
set_option linter.unusedTactic false in
set_option linter.unnecessarySeqFocus false in
/-- An iteration that does not return either ends the loop or decreases the
measure. -/
theorem body_measure (nib_buf : List Nat) (max_tracks : Nat) (s s' : Nib2dskVars)
    (h : nib2dsk_body nib_buf max_tracks s = Flow.next s') :
    s'.state = STATE_DONE ∨ nib2dsk_measure max_tracks s' < nib2dsk_measure max_tracks s := by
  unfold nib2dsk_body at h
  split at h
  · -- state 0
    rename_i x heq
    simp only [] at h
    split_ifs at h with hc <;> split at h <;> simp only [Flow.next.injEq] at h <;> subst h <;>
      first
      | (left; rfl)
      | (rename_i b hb; have hlt := (get_nib_byte_some hb).1; simp only [] at hlt
         right; simp only [nib2dsk_measure, BYTES_PER_NIB_TRACK, heq]; norm_num <;> omega)
  · -- state 1
    rename_i x heq
    split_ifs at h with hc
    · obtain ⟨h1, h2⟩ := read_or_return_next h; subst h2; (try simp only [] at h1); right; simp only [nib2dsk_measure, BYTES_PER_NIB_TRACK, heq]; norm_num <;> omega
    · simp only [Flow.next.injEq] at h; subst h; right; simp only [nib2dsk_measure, BYTES_PER_NIB_TRACK, heq]; norm_num <;> omega
  · -- state 2
    rename_i x heq
    split_ifs at h with hc
    · obtain ⟨h1, h2⟩ := read_or_return_next h; subst h2; (try simp only [] at h1); right; simp only [nib2dsk_measure, BYTES_PER_NIB_TRACK, heq]; norm_num <;> omega
    · simp only [Flow.next.injEq] at h; subst h; right; simp only [nib2dsk_measure, BYTES_PER_NIB_TRACK, heq]; norm_num <;> omega
  · -- state 3
    rename_i x heq
    obtain ⟨h1, h2, h3⟩ := decode_pair_next h (fun t v => ⟨rfl, rfl⟩)
    right
    simp only [nib2dsk_measure, BYTES_PER_NIB_TRACK, heq, h2, h3]
    norm_num <;> omega
  · -- state 4
    rename_i x heq
    obtain ⟨h1, h2, h3⟩ := decode_pair_next h (fun t v => ⟨rfl, rfl⟩)
    right
    simp only [nib2dsk_measure, BYTES_PER_NIB_TRACK, heq, h2, h3]
    norm_num <;> omega
  · -- state 5
    rename_i x heq
    obtain ⟨h1, h2, h3⟩ := decode_pair_next h (fun t v => ⟨rfl, rfl⟩)
    right
    simp only [nib2dsk_measure, BYTES_PER_NIB_TRACK, heq, h2, h3]
    norm_num <;> omega
  · -- state 6
    rename_i x heq
    obtain ⟨h1, h2, h3⟩ := decode_pair_next h (fun t v => ⟨rfl, rfl⟩)
    right
    simp only [nib2dsk_measure, BYTES_PER_NIB_TRACK, heq, h2, h3]
    norm_num <;> omega
  · -- state 7
    rename_i x heq
    simp only [] at h
    split_ifs at h with hc
    · obtain ⟨h1, h2⟩ := read_or_return_next h; subst h2; (try simp only [] at h1); right; simp only [nib2dsk_measure, BYTES_PER_NIB_TRACK, heq]; norm_num <;> omega
    · simp only [Flow.next.injEq] at h; subst h; right; simp only [nib2dsk_measure, BYTES_PER_NIB_TRACK, heq]; norm_num <;> omega
  · -- state 8
    rename_i x heq
    split_ifs at h with hc
    · obtain ⟨h1, h2⟩ := read_or_return_next h; subst h2; (try simp only [] at h1); right; simp only [nib2dsk_measure, BYTES_PER_NIB_TRACK, heq]; norm_num <;> omega
    · simp only [Flow.next.injEq] at h; subst h; right; simp only [nib2dsk_measure, BYTES_PER_NIB_TRACK, heq]; norm_num <;> omega
  · -- state 9
    rename_i x heq
    simp only [] at h
    split_ifs at h with hc <;>
      (obtain ⟨h1, h2⟩ := read_or_return_next h; subst h2; (try simp only [] at h1); right; simp only [nib2dsk_measure, BYTES_PER_NIB_TRACK, heq]; norm_num <;> omega)
  · -- state 10
    rename_i x heq
    split_ifs at h with hc
    · obtain ⟨h1, h2⟩ := read_or_return_next h; subst h2; (try simp only [] at h1); right; simp only [nib2dsk_measure, BYTES_PER_NIB_TRACK, heq]; norm_num <;> omega
    · simp only [Flow.next.injEq] at h; subst h; right; simp only [nib2dsk_measure, BYTES_PER_NIB_TRACK, heq]; norm_num <;> omega
  · -- state 11
    rename_i x heq
    split_ifs at h with hc
    · obtain ⟨h1, h2⟩ := read_or_return_next h; subst h2; (try simp only [] at h1); right; simp only [nib2dsk_measure, BYTES_PER_NIB_TRACK, heq]; norm_num <;> omega
    · simp only [Flow.next.injEq] at h; subst h; right; simp only [nib2dsk_measure, BYTES_PER_NIB_TRACK, heq]; norm_num <;> omega
  · -- state 12
    rename_i x heq
    split at h
    · exact absurd h (by simp)
    · rename_i v d hpd
      split_ifs at h with hv
      rcases process_data_ret _ _ _ _ _ _ _ _ _ hpd with h0 | ⟨h3, h4⟩
      · exact absurd h0 hv
      · obtain ⟨h1, h2⟩ := read_or_return_next h
        subst h2
        right
        simp only [nib2dsk_measure, BYTES_PER_NIB_TRACK, heq]
        norm_num <;> omega
  · -- state 13
    rename_i x heq
    simp only [] at h
    split_ifs at h with hc he <;>
      (obtain ⟨h1, h2⟩ := read_or_return_next h; subst h2; (try simp only [] at h1); right; simp only [nib2dsk_measure, BYTES_PER_NIB_TRACK, heq]; norm_num <;> omega)
  · -- state 14
    rename_i x heq
    split_ifs at h with hc
    · obtain ⟨h1, h2⟩ := read_or_return_next h; subst h2; (try simp only [] at h1); right; simp only [nib2dsk_measure, BYTES_PER_NIB_TRACK, heq]; norm_num <;> omega
  · -- state 15
    rename_i x heq
    split_ifs at h with hc
    · split at h <;> simp only [Flow.next.injEq] at h <;> subst h
      · left; rfl
      · rename_i b hb
        have hlt := (get_nib_byte_some hb).1
        right; simp only [nib2dsk_measure, BYTES_PER_NIB_TRACK, heq]; norm_num <;> omega
  · exact absurd h (by simp)

theorem reach_done {nib_buf : List Nat} {max_tracks k : Nat} {s s' : Nib2dskVars}
    (h : Reach nib_buf max_tracks k s s') (hd : s.state = STATE_DONE) : k = 0 ∧ s' = s := by
  cases h with
  | refl => exact ⟨rfl, rfl⟩
  | step hs _ _ => exact absurd hd hs

/-- The number of iterations of a run is bounded by the measure of its first state. -/
theorem reach_measure {nib_buf : List Nat} {max_tracks k : Nat} {s s' : Nib2dskVars}
    (h : Reach nib_buf max_tracks k s s') :
    (s'.state ≠ STATE_DONE → k + nib2dsk_measure max_tracks s' ≤ nib2dsk_measure max_tracks s) ∧
    k ≤ nib2dsk_measure max_tracks s + 1 := by
  induction h with
  | refl s => exact ⟨fun _ => by omega, by omega⟩
  | @step k s s1 s2 hs hb hr ih =>
    rcases body_measure nib_buf max_tracks s s1 hb with hd | hlt
    · obtain ⟨h1, h2⟩ := reach_done hr hd
      subst h1 h2
      exact ⟨fun hn => absurd hd hn, by omega⟩
    · exact ⟨fun hn => by have := ih.1 hn; omega, by omega⟩

theorem run_reach (nib_buf : List Nat) (max_tracks : Nat) :
    ∀ k s s', nib2dsk_run nib_buf max_tracks k s = some s' → Reach nib_buf max_tracks k s s' := by
  intro k
  induction k with
  | zero =>
    intro s s' h
    simp only [nib2dsk_run, Option.some.injEq] at h
    subst h
    exact Reach.refl _
  | succ k ih =>
    intro s s' h
    unfold nib2dsk_run at h
    split_ifs at h with hs
    split at h
    · exact absurd h (by simp)
    · rename_i s1 hb
      exact Reach.step hs hb (ih _ _ h)

/-- After a run of `k` iterations from the first state, `nib2dsk` has at least six
iterations left beyond the measure of the state reached (if the loop has not
ended), and it returns 1 with the DSK buffer of that state if the loop has ended. -/
theorem nib2dsk_of_reach (dsk_buf nib_buf : List Nat) (max_tracks b k : Nat) (s : Nib2dskVars)
    (h0 : get_nib_byte nib_buf max_tracks 0 = some b)
    (h : Reach nib_buf max_tracks k (nib2dsk_start b dsk_buf) s) :
    (s.state ≠ STATE_DONE → ∃ n, nib2dsk dsk_buf nib_buf max_tracks
        = nib2dsk_loop nib_buf max_tracks (n + 6) s) ∧
    (s.state = STATE_DONE → nib2dsk dsk_buf nib_buf max_tracks = Outcome.ret 1 s.dsk_buf) := by
  have hm := reach_measure h
  have hlt := (get_nib_byte_some h0).1
  have hst : nib2dsk_measure max_tracks (nib2dsk_start b dsk_buf) = 2 * (max_tracks * 6656 - 1) := by
    simp [nib2dsk_measure, nib2dsk_start, BYTES_PER_NIB_TRACK]
  have hu : nib2dsk dsk_buf nib_buf max_tracks
      = nib2dsk_loop nib_buf max_tracks (nib2dsk_fuel max_tracks) (nib2dsk_start b dsk_buf) := by
    unfold nib2dsk
    rw [h0]
    rfl
  have hf : nib2dsk_fuel max_tracks = 2 * (max_tracks * 6656) + 4 := by
    simp [nib2dsk_fuel, BYTES_PER_NIB_TRACK]
  constructor
  · intro hn
    have := hm.1 hn
    obtain ⟨n, e⟩ : ∃ n, nib2dsk_fuel max_tracks = k + (n + 6) :=
      ⟨nib2dsk_fuel max_tracks - k - 6, by omega⟩
    exact ⟨n, by rw [hu, e, reach_loop h]⟩
  · intro hd
    have := hm.2
    obtain ⟨n, e⟩ : ∃ n, nib2dsk_fuel max_tracks = k + (n + 1) :=
      ⟨nib2dsk_fuel max_tracks - k - 1, by omega⟩
    rw [hu, e, reach_loop h]
    simp [nib2dsk_loop, hd]

/-! ## What `process_data` checks before it writes -/

theorem untranslate_loop_lt (x : Nat) : ∀ l i, untranslate_loop x l i < 256 := by
  intro l
  induction l with
  | nil => intro i; simp [untranslate_loop]
  | cons t ts ih =>
    intro i
    unfold untranslate_loop
    split_ifs
    · exact Nat.mod_lt _ (by norm_num)
    · exact ih _

theorem untranslate_lt (x : Nat) : untranslate x < 256 := untranslate_loop_lt x _ _

theorem xor_lt_256 (a b : Nat) (ha : a < 256) (hb : b < 256) : a ^^^ b < 256 :=
  Nat.xor_lt_two_pow (n := 8) ha hb

theorem range_map_succ (f : Nat → Nat) (n : Nat) :
    (List.range (n + 1)).map f = f 0 :: (List.range n).map (fun k => f (k + 1)) := by
  rw [List.range_succ_eq_map, List.map_cons, List.map_map]
  rfl

/-- A read loop of `process_data` that runs to its end has met only valid nibbles
inside the buffer, and its checksum is the XOR of their untranslated values. -/
theorem process_data_fill_fold (nib_buf : List Nat) (max_tracks : Nat) :
    ∀ n index c buf i' c' buf', c < 256 →
      process_data_fill nib_buf max_tracks n index c buf = some (i', c', buf') →
      (∀ k, k < n → untranslate (nib_buf.getD (index + k) 0) ≠ 0xFF) ∧
      c' = ((List.range n).map (fun k => nib_buf.getD (index + k) 0)).foldl
              (fun a b => a ^^^ untranslate b) c ∧
      c' < 256 := by
  intro n
  induction n with
  | zero =>
    intro index c buf i' c' buf' hc h
    simp only [process_data_fill, Option.some.injEq, Prod.mk.injEq] at h
    obtain ⟨_, h2, _⟩ := h
    subst h2
    exact ⟨fun k hk => absurd hk (by omega), by simp, hc⟩
  | succ n ih =>
    intro index c buf i' c' buf' hc h
    unfold process_data_fill at h
    split at h
    · exact absurd h (by simp)
    · rename_i byte hb
      obtain ⟨hlt, hbyte⟩ := get_nib_byte_some hb
      subst hbyte
      simp only [] at h
      split_ifs at h with hff
      have hx := xor_lt_256 c _ hc (untranslate_lt (nib_buf.getD index 0))
      rw [Nat.mod_eq_of_lt hx] at h
      obtain ⟨h1, h2, h3⟩ := ih _ _ _ _ _ _ hx h
      refine ⟨?_, ?_, h3⟩
      · intro k hk
        rcases Nat.eq_zero_or_pos k with h0 | h0
        · subst h0; exact hff
        · have := h1 (k - 1) (by omega)
          rw [show index + 1 + (k - 1) = index + k by omega] at this
          exact this
      · rw [range_map_succ, List.foldl_cons, h2]
        simp only [Nat.add_zero]
        congr 1
        apply List.map_congr_left
        intro k _
        congr 1
        omega

theorem span_append (g : Nat → Nat) (i n m : Nat) :
    (List.range (n + m)).map (fun k => g (i + k))
      = (List.range n).map (fun k => g (i + k)) ++ (List.range m).map (fun k => g (i + n + k)) := by
  rw [List.range_add, List.map_append, List.map_map]
  congr 1
  apply List.map_congr_left
  intro k _
  simp only [Function.comp]
  congr 1
  omega

/-- `process_data` either returns 0 with the DSK buffer untouched, or the 343 bytes
of the field lie inside the buffer and pass the checksum, and the result is that
of the denibbilize loop. -/
theorem process_data_checked (byte : Nat) (dsk_buf nib_buf : List Nat)
    (max_tracks track sector index : Nat) :
    process_data byte dsk_buf nib_buf max_tracks track sector index = PDResult.ret 0 dsk_buf ∨
    ((index + 342 ≤ max_tracks * 6656 ∧ checksum_ok (field_bytes nib_buf byte index)) ∧
      ∃ pb sb, process_data byte dsk_buf nib_buf max_tracks track sector index
        = process_data_denib pb sb track sector (index + 342) 256 0 dsk_buf) := by
  unfold process_data
  simp only [SECONDARY_BUF_LEN, PRIMARY_BUF_LEN, Nat.reduceSub]
  split_ifs with h1
  · exact Or.inl rfl
  · split
    · exact Or.inl rfl
    · rename_i i1 c1 sb hf1
      have e1 := (process_data_fill_index _ _ _ _ _ _ _ _ _ hf1).1
      obtain ⟨v1, x1, l1⟩ := process_data_fill_fold _ _ _ _ _ _ _ _ _ (untranslate_lt byte) hf1
      subst e1
      split
      · exact Or.inl rfl
      · rename_i i2 c2 pb hf2
        have e2 := (process_data_fill_index _ _ _ _ _ _ _ _ _ hf2).1
        obtain ⟨v2, x2, l2⟩ := process_data_fill_fold _ _ _ _ _ _ _ _ _ l1 hf2
        subst e2
        split
        · exact Or.inl rfl
        · rename_i b3 hb3
          obtain ⟨hlt, hbyte⟩ := get_nib_byte_some hb3
          subst hbyte
          split_ifs with h4 h5
          · exact Or.inl rfl
          · exact Or.inl rfl
          · right
            refine ⟨⟨by omega, ?_, ?_⟩, pb, sb, ?_⟩
            · intro b hb
              simp only [field_bytes, List.mem_cons, List.mem_map, List.mem_range] at hb
              rcases hb with rfl | ⟨k, hk, rfl⟩
              · exact h1
              · by_cases hk1 : k < 85
                · exact v1 k hk1
                · by_cases hk2 : k < 341
                  · have := v2 (k - 85) (by omega)
                    rw [show index + 85 + (k - 85) = index + k by omega] at this
                    exact this
                  · have : k = 341 := by omega
                    subst this
                    rw [show index + 341 = index + 85 + 256 by omega]
                    exact h4
            · have hx := xor_lt_256 c2 _ l2 (untranslate_lt (nib_buf.getD (index + 85 + 256) 0))
              rw [Nat.mod_eq_of_lt hx] at h5
              have h5' : c2 ^^^ untranslate (nib_buf.getD (index + 85 + 256) 0) = 0 := by
                by_contra hne
                exact h5 hne
              simp only [field_bytes, List.foldl_cons, Nat.zero_xor]
              rw [show (342 : Nat) = 85 + (256 + 1) by rfl,
                span_append (fun j => nib_buf.getD j 0) index 85 (256 + 1),
                span_append (fun j => nib_buf.getD j 0) (index + 85) 256 1,
                List.foldl_append, List.foldl_append, ← x1, ← x2]
              rw [show List.range 1 = [0] by rfl, List.map_cons, List.map_nil, List.foldl_cons,
                List.foldl_nil, Nat.add_zero]
              exact h5'
            · congr 1

/-! ## How `nib2dsk` ends on a damaged buffer -/

/-- From state 13 with `0xDE` in `byte`, unless the next two bytes of the buffer
are `0xAA 0xEB`, the loop returns 0 within three iterations. -/
theorem epilog_mismatch_loop (nib_buf : List Nat) (max_tracks : Nat) (s : Nib2dskVars) (n : Nat)
    (hst : s.state = 13) (hde : s.byte = 0xDE)
    (hbad : ¬ (get_nib_byte nib_buf max_tracks s.index = some 0xAA ∧
      get_nib_byte nib_buf max_tracks (s.index + 1) = some 0xEB)) :
    nib2dsk_loop nib_buf max_tracks (n + 3) s = Outcome.ret 0 s.dsk_buf := by
  obtain ⟨st, api, aei, dpi, dei, byte, tr, se, vo, idx, ex, dsk⟩ := s
  simp only [] at hst hde hbad
  subst hst hde
  by_cases hex : ex = 0 <;>
  cases h1 : get_nib_byte nib_buf max_tracks idx with
  | none =>
    simp [nib2dsk_loop, nib2dsk_body, read_or_return, data_epilog, h1, hex]
  | some b1 =>
    by_cases hb1 : b1 = 0xAA
    · subst hb1
      cases h2 : get_nib_byte nib_buf max_tracks (idx + 1) with
      | none =>
        simp [nib2dsk_loop, nib2dsk_body, read_or_return, data_epilog, h1, h2, hex]
      | some b2 =>
        have hb2 : b2 ≠ 0xEB := by
          intro hb2
          subst hb2
          exact hbad ⟨h1, h2⟩
        simp [nib2dsk_loop, nib2dsk_body, read_or_return, data_epilog, h1, h2, hb2, hex]
    · simp [nib2dsk_loop, nib2dsk_body, read_or_return, data_epilog, h1, hb1, hex]

/-- C19: if the loop of `nib2dsk` is in state 13 (a data field has been processed)
with the first data-epilog byte `0xDE` in `byte`, then unless the next two bytes
of the buffer are `0xAA` and `0xEB`, `nib2dsk` returns 0 at once, whatever follows
in the buffer; the DSK buffer is left as it was at that point. -/
theorem nib2dsk_data_epilog_mismatch (dsk_buf nib_buf : List Nat) (max_tracks b k : Nat)
    (s : Nib2dskVars)
    (h0 : get_nib_byte nib_buf max_tracks 0 = some b)
    (hrun : nib2dsk_run nib_buf max_tracks k (nib2dsk_start b dsk_buf) = some s)
    (hst : s.state = 13) (hde : s.byte = 0xDE)
    (hbad : ¬ (get_nib_byte nib_buf max_tracks s.index = some 0xAA ∧
      get_nib_byte nib_buf max_tracks (s.index + 1) = some 0xEB)) :
    nib2dsk dsk_buf nib_buf max_tracks = Outcome.ret 0 s.dsk_buf := by
  obtain ⟨n, hn⟩ := (nib2dsk_of_reach dsk_buf nib_buf max_tracks b k s h0
    (run_reach _ _ _ _ _ hrun)).1 (by rw [hst]; decide)
  rw [hn, show n + 6 = (n + 3) + 3 by omega]
  exact epilog_mismatch_loop nib_buf max_tracks s _ hst hde hbad

set_option maxRecDepth 1000000 in
theorem nib_bad_epilog_run :
    nib2dsk_run nib_bad_epilog 1 67 (nib2dsk_start 0xFF dsk_blank)
      = some ⟨13, 3, 1, 3, 0, 0xDE, 0, 0, 254, 414, 0,
          List.replicate 256 4 ++ List.replicate 3840 0⟩ := by
  decide!

/-- C19 on a one-track buffer whose first record ends with `DE BB EB`: the sector
of that record has been written, the well-formed record after it is not read. -/
theorem nib2dsk_data_epilog_mismatch_witness :
    nib2dsk dsk_blank nib_bad_epilog 1
      = Outcome.ret 0 (List.replicate 256 4 ++ List.replicate 3840 0) :=
  nib2dsk_data_epilog_mismatch dsk_blank nib_bad_epilog 1 0xFF 67 _ (by decide)
    nib_bad_epilog_run rfl rfl (by decide)

/-- In state 12, a data field that is cut by the end of the buffer or does not pass
the checksum makes the loop return 0 with the DSK buffer untouched. -/
theorem checksum_failure_loop (nib_buf : List Nat) (max_tracks : Nat) (s : Nib2dskVars) (n : Nat)
    (hst : s.state = 12)
    (hbad : ¬ (s.index + 342 ≤ max_tracks * 6656 ∧
      checksum_ok (field_bytes nib_buf s.byte s.index))) :
    nib2dsk_loop nib_buf max_tracks (n + 1) s = Outcome.ret 0 s.dsk_buf := by
  obtain ⟨st, api, aei, dpi, dei, byte, tr, se, vo, idx, ex, dsk⟩ := s
  simp only [] at hst hbad
  subst hst
  rcases process_data_checked byte dsk nib_buf max_tracks tr se idx with h | ⟨h, _⟩
  · simp [nib2dsk_loop, nib2dsk_body, h]
  · exact absurd h hbad

/-- C18 (what the code does): if the loop of `nib2dsk` is in state 12 at a data
field that does not pass the checksum (an invalid nibble, a non-zero XOR of the
343 untranslated bytes, or the end of the buffer inside the field), `nib2dsk`
returns 0 at once with the DSK buffer as it was: the records after that field are
not decoded. -/
theorem nib2dsk_checksum_failure (dsk_buf nib_buf : List Nat) (max_tracks b k : Nat)
    (s : Nib2dskVars)
    (h0 : get_nib_byte nib_buf max_tracks 0 = some b)
    (hrun : nib2dsk_run nib_buf max_tracks k (nib2dsk_start b dsk_buf) = some s)
    (hst : s.state = 12)
    (hbad : ¬ (s.index + 342 ≤ max_tracks * 6656 ∧
      checksum_ok (field_bytes nib_buf s.byte s.index))) :
    nib2dsk dsk_buf nib_buf max_tracks = Outcome.ret 0 s.dsk_buf := by
  obtain ⟨n, hn⟩ := (nib2dsk_of_reach dsk_buf nib_buf max_tracks b k s h0
    (run_reach _ _ _ _ _ hrun)).1 (by rw [hst]; decide)
  rw [hn, show n + 6 = (n + 5) + 1 by omega]
  exact checksum_failure_loop nib_buf max_tracks s _ hst hbad

set_option maxRecDepth 1000000 in
theorem nib_bad_checksum_run :
    nib2dsk_run nib_bad_checksum 1 66 (nib2dsk_start 0xFF dsk_blank)
      = some ⟨12, 3, 1, 3, 0, 0x97, 0, 0, 254, 71, 0, dsk_blank⟩ := by
  decide!

set_option maxRecDepth 1000000 in
theorem sample_field_bad_checksum :
    ¬ (71 + 342 ≤ 1 * 6656 ∧ checksum_ok (field_bytes nib_bad_checksum 0x97 71)) := by
  decide!

/-- C18 on a one-track buffer whose first record has a wrong first data byte:
`nib2dsk` returns 0 and leaves the output image blank. -/
theorem nib2dsk_checksum_failure_witness :
    nib2dsk dsk_blank nib_bad_checksum 1 = Outcome.ret 0 dsk_blank :=
  nib2dsk_checksum_failure dsk_blank nib_bad_checksum 1 0xFF 66 _ (by decide)
    nib_bad_checksum_run rfl sample_field_bad_checksum

set_option maxRecDepth 1000000 in
theorem nib_bad_checksum_records :
    (nib_bad_checksum.drop 416).take 416 = sample_record 1 sample_field [0xDE, 0xAA, 0xEB] ∧
    checksum_ok sample_field ∧ ¬ checksum_ok sample_field_bad := by
  decide!

/-- C18, counterexample: in `nib_bad_checksum` the record at offset 416 is well
formed (its data field passes the checksum and stands for sector index 1), the
data field of the record before it does not pass the checksum, and `nib2dsk`
returns 0 with nothing decoded into the output image. -/
theorem nib2dsk_checksum_failure_stops :
    (nib_bad_checksum.drop 416).take 416 = sample_record 1 sample_field [0xDE, 0xAA, 0xEB] ∧
    checksum_ok sample_field ∧
    ¬ checksum_ok sample_field_bad ∧
    nib2dsk dsk_blank nib_bad_checksum 1 = Outcome.ret 0 dsk_blank := by
  obtain ⟨h1, h2, h3⟩ := nib_bad_checksum_records
  refine ⟨h1, h2, h3, ?_⟩
  obtain ⟨n, hn⟩ := (nib2dsk_of_reach dsk_blank nib_bad_checksum 1 0xFF 66 _ (by decide)
    (run_reach _ _ _ _ _ nib_bad_checksum_run)).1 (by decide)
  rw [hn, show n + 6 = (n + 5) + 1 by omega]
  exact checksum_failure_loop nib_bad_checksum 1 _ _ rfl sample_field_bad_checksum

/-- The lengths at which the conversion of the quotient to `int` first wraps:
`(2^32 + 35) * 4096` for `is_dsk_file` and `(2^32 + 35) * 6656` for `is_nib_file`.
They lie far above every value of the `long` that `fn_filesize` gets from `ftell`
and of the `int data_len` of `loadFloppy`. -/
theorem is_dsk_nib_file_wrap :
    is_dsk_file 17592186187776 = 35 ∧ is_nib_file 28587302555136 = 35 := by
  decide

/-- The value `(size_t)-1` that `fn_filesize` stores when `ftell` fails is not
taken for a disk image. -/
theorem is_dsk_nib_file_ftell_error :
    is_dsk_file 18446744073709551615 = 0 ∧ is_nib_file 18446744073709551615 = 0 := by
  decide

theorem read_or_return_not_nofuel (nib_buf : List Nat) (max_tracks : Nat) (s : Nib2dskVars) :
    read_or_return nib_buf max_tracks s ≠ Flow.exit Outcome.nofuel := by
  unfold read_or_return
  split <;> simp

theorem decode_pair_not_nofuel (nib_buf : List Nat) (max_tracks : Nat) (s : Nib2dskVars)
    (store : Nib2dskVars → Nat → Nib2dskVars) :
    decode_pair nib_buf max_tracks s store ≠ Flow.exit Outcome.nofuel := by
  unfold decode_pair
  split
  · simp
  · exact read_or_return_not_nofuel _ _ _

set_option linter.unreachableTactic false in
set_option linter.unusedTactic false in
set_option linter.unnecessarySeqFocus false in
/-- An iteration of the loop that returns does so with a `return` statement or with
an access outside an array: the body itself always ends. -/
theorem nib2dsk_body_not_nofuel (nib_buf : List Nat) (max_tracks : Nat) (s : Nib2dskVars) :
    nib2dsk_body nib_buf max_tracks s ≠ Flow.exit Outcome.nofuel := by
  unfold nib2dsk_body
  split <;> (try simp only []) <;>
    first
    | exact decode_pair_not_nofuel _ _ _ _
    | exact read_or_return_not_nofuel _ _ _
    | (simp; done)
    | (split_ifs <;> first
        | exact read_or_return_not_nofuel _ _ _
        | (simp; done)
        | (split <;> (simp; done)))
    | (split <;> first
        | (simp; done)
        | (split_ifs <;> first | (simp; done) | exact read_or_return_not_nofuel _ _ _))

/-- With more iterations left than the measure of the variables plus one, the loop
ends. -/
theorem nib2dsk_loop_not_nofuel (nib_buf : List Nat) (max_tracks : Nat) :
    ∀ fuel s, nib2dsk_measure max_tracks s + 1 < fuel →
      nib2dsk_loop nib_buf max_tracks fuel s ≠ Outcome.nofuel := by
  intro fuel
  induction fuel with
  | zero => intro s h; omega
  | succ n ih =>
    intro s h
    unfold nib2dsk_loop
    split_ifs with hs
    · split
      · rename_i o hb
        intro ho
        subst ho
        exact nib2dsk_body_not_nofuel _ _ _ hb
      · rename_i s' hb
        rcases body_measure nib_buf max_tracks s s' hb with hd | hlt
        · obtain ⟨m, rfl⟩ : ∃ m, n = m + 1 := ⟨n - 1, by omega⟩
          unfold nib2dsk_loop
          rw [if_neg (by simp [hd])]
          simp
        · exact ih s' (by omega)
    · simp

/-- The function `nib2dsk` returns for every buffer and every track count. -/
theorem nib2dsk_not_nofuel (dsk_buf nib_buf : List Nat) (max_tracks : Nat) :
    nib2dsk dsk_buf nib_buf max_tracks ≠ Outcome.nofuel := by
  unfold nib2dsk
  split
  · simp
  · rename_i b hb
    have hlt := (get_nib_byte_some hb).1
    apply nib2dsk_loop_not_nofuel
    simp only [nib2dsk_measure, nib2dsk_fuel, BYTES_PER_NIB_TRACK, STATE_INIT, true_or, if_true]
    omega

theorem process_data_denib_sector_fault (primary_buf secondary_buf : List Nat)
    (track sector index : Nat) (dsk_buf : List Nat) (h : 16 ≤ sector) :
    process_data_denib primary_buf secondary_buf track sector index 256 0 dsk_buf
      = PDResult.fault := by
  unfold process_data_denib
  simp only [process_data_bits, SECONDARY_BUF_LEN, SECTORS_PER_TRACK, Nat.zero_div,
    show ¬ sector < 16 by omega, if_false]

theorem process_data_denib_track_fault (primary_buf secondary_buf : List Nat)
    (track sector index : Nat) (dsk_buf : List Nat) (h : sector < 16)
    (hlen : dsk_buf.length ≤ track * 4096 + soft_interleave.getD sector 0 * 256) :
    process_data_denib primary_buf secondary_buf track sector index 256 0 dsk_buf
      = PDResult.fault := by
  unfold process_data_denib
  simp only [process_data_bits, SECONDARY_BUF_LEN, SECTORS_PER_TRACK, Nat.zero_div]
  rw [if_pos h]
  have hn : ¬ (track * BYTES_PER_TRACK + soft_interleave.getD sector 0 * BYTES_PER_SECTOR + 0
      < dsk_buf.length) := by
    show ¬ (track * 4096 + soft_interleave.getD sector 0 * 256 + 0 < dsk_buf.length)
    omega
  rw [if_neg hn]

/-- The early returns of `process_data` do not depend on the DSK buffer: either
the call returns 0 whatever the buffer, or it reaches the denibbilize loop with
the same primary and secondary buffers whatever the DSK buffer. -/
theorem process_data_uniform (byte : Nat) (nib_buf : List Nat)
    (max_tracks track sector index : Nat) :
    (∀ d, process_data byte d nib_buf max_tracks track sector index = PDResult.ret 0 d) ∨
    (∃ pb sb idx, ∀ d, process_data byte d nib_buf max_tracks track sector index
      = process_data_denib pb sb track sector idx 256 0 d) := by
  by_cases h1 : untranslate byte = 0xFF
  · left; intro d
    simp [process_data, h1]
  cases hf1 : process_data_fill nib_buf max_tracks 85 index
      (untranslate byte) [untranslate byte] with
  | none =>
    left; intro d
    simp [process_data, h1, hf1]
  | some r1 =>
    obtain ⟨i1, c1, sb⟩ := r1
    cases hf2 : process_data_fill nib_buf max_tracks PRIMARY_BUF_LEN i1 c1 [] with
    | none =>
      left; intro d
      simp [process_data, h1, hf1, hf2]
    | some r2 =>
      obtain ⟨i2, c2, pb⟩ := r2
      cases hb : get_nib_byte nib_buf max_tracks i2 with
      | none =>
        left; intro d
        simp [process_data, h1, hf1, hf2, hb]
      | some b3 =>
        by_cases h4 : untranslate b3 = 0xFF
        · left; intro d
          simp [process_data, h1, hf1, hf2, hb, h4]
        by_cases h5 : (c2 ^^^ untranslate b3) % 256 = 0
        · right
          refine ⟨pb, sb, i2 + 1, fun d => ?_⟩
          simp [process_data, h1, hf1, hf2, hb, h4, h5, PRIMARY_BUF_LEN]
        · left; intro d
          simp [process_data, h1, hf1, hf2, hb, h4, h5]

set_option maxRecDepth 100000 in
theorem nib_sector16_length : nib_sector16.length = 35 * 6656 := by
  rw [nib_sector16, List.length_append, List.length_replicate,
    show (sample_record 16 sample_field [0xDE, 0xAA, 0xEB]).length = 416 from rfl]

set_option maxRecDepth 100000 in
theorem nib_track35_length : nib_track35.length = 35 * 6656 := by
  have e : (List.replicate 48 (0xFF : Nat) ++ record_header 254 35 0 ++ sample_field
      ++ [0xDE, 0xAA, 0xEB]).length = 416 := rfl
  rw [nib_track35, List.length_append, List.length_replicate, e]

/-- From the gap before a sector record to its data field: when the buffer holds,
from `base` on, 48 gap bytes and the 22 header bytes of a record of track `trk` and
sector `sec`, 66 iterations lead from state 0 to state 12 with the decoded track
and sector numbers, the first data byte in `byte`, and the DSK buffer untouched. -/
theorem walk_header (nib_buf : List Nat) (max_tracks volume trk sec base b0 : Nat)
    (dsk : List Nat)
    (hgap : ∀ j, j < 48 → get_nib_byte nib_buf max_tracks (base + j) = some 0xff)
    (hhdr : ∀ j, j < 22 → get_nib_byte nib_buf max_tracks (base + (48 + j))
      = some ((record_header volume trk sec).getD j 0))
    (hd0 : get_nib_byte nib_buf max_tracks (base + 70) = some b0)
    (htrk : trk < 256) (hsec : sec < 256) :
    ∀ api aei dpi dei tr0 se0 vo0 ex, ∃ vo',
      Reach nib_buf max_tracks 66
        ⟨0, api, aei, dpi, dei, 0xff, tr0, se0, vo0, base + 1, ex, dsk⟩
        ⟨12, 3, 1, 3, dei, b0, trk, sec, vo', base + 71, ex, dsk⟩ := by
  intro api aei dpi dei tr0 se0 vo0 ex
  obtain ⟨api', hscan⟩ := @scan_0 nib_buf max_tracks
    aei dpi dei tr0 se0 vo0 ex dsk 47 api (base + 1)
    (fun j hj => by rw [show base + 1 + j = base + (1 + j) by omega]; exact hgap _ (by omega))
  obtain ⟨dpi', hscan9⟩ := @scan_9 nib_buf max_tracks
    3 1 dei trk sec (odd_even_decode ((record_header volume trk sec).getD 3 0)
      ((record_header volume trk sec).getD 4 0)) ex dsk 4 0 (base + 63)
    (fun j hj => by
      have := hhdr (15 + j) (by omega)
      rw [show base + 63 + j = base + (48 + (15 + j)) by omega, this]
      have hj' : j = 0 ∨ j = 1 ∨ j = 2 ∨ j = 3 := by omega
      rcases hj' with e | e | e | e <;> subst e <;> rfl)
  refine ⟨odd_even_decode ((record_header volume trk sec).getD 3 0)
    ((record_header volume trk sec).getD 4 0), reach_trans hscan ?_⟩
  have ht : odd_even_decode ((record_header volume trk sec).getD 5 0)
      ((record_header volume trk sec).getD 6 0) = trk := odd_even_roundtrip trk htrk
  have hs : odd_even_decode ((record_header volume trk sec).getD 7 0)
      ((record_header volume trk sec).getD 8 0) = sec := odd_even_roundtrip sec hsec
  refine Reach.step (by simp) (body_0_skip (by decide) (hhdr 0 (by omega))) ?_
  refine Reach.step (by simp) (body_0_hit rfl (hhdr 1 (by omega))) ?_
  refine Reach.step (by simp) (body_1 rfl (hhdr 2 (by omega))) ?_
  refine Reach.step (by simp) (body_2 rfl (hhdr 3 (by omega))) ?_
  refine Reach.step (by simp) (body_3 (hhdr 4 (by omega)) (hhdr 5 (by omega))) ?_
  refine Reach.step (by simp) (body_4 (hhdr 6 (by omega)) (hhdr 7 (by omega))) ?_
  refine Reach.step (by simp) (body_5 (hhdr 8 (by omega)) (hhdr 9 (by omega))) ?_
  refine Reach.step (by simp) (body_6 (hhdr 10 (by omega)) (hhdr 11 (by omega))) ?_
  refine Reach.step (by simp) (body_7 rfl (hhdr 12 (by omega))) ?_
  refine Reach.step (by simp) (body_8 rfl (hhdr 13 (by omega))) ?_
  refine Reach.step (by simp)
    (body_9_skip (show (0xeb : Nat) ≠ 0xd5 by decide) (hhdr 14 (by omega))) ?_
  rw [ht, hs]
  refine reach_trans hscan9 ?_
  refine Reach.step (by simp) (body_9_skip (by decide) (hhdr 19 (by omega))) ?_
  refine Reach.step (by simp) (body_9_hit rfl (hhdr 20 (by omega))) ?_
  refine Reach.step (by simp) (body_10 rfl (hhdr 21 (by omega))) ?_
  refine Reach.step (by simp) (body_11 rfl hd0) ?_
  exact Reach.refl _

/-- A run that arrives in state 12 where `process_data` goes outside an array ends
`nib2dsk` there. -/
theorem nib2dsk_fault_of_reach (dsk_buf nib_buf : List Nat) (max_tracks b k : Nat)
    (s : Nib2dskVars) (h0 : get_nib_byte nib_buf max_tracks 0 = some b)
    (hr : Reach nib_buf max_tracks k (nib2dsk_start b dsk_buf) s)
    (hst : s.state = 12)
    (hpd : process_data s.byte s.dsk_buf nib_buf max_tracks s.track s.sector s.index
      = PDResult.fault) :
    nib2dsk dsk_buf nib_buf max_tracks = Outcome.fault := by
  obtain ⟨n, hn⟩ := (nib2dsk_of_reach dsk_buf nib_buf max_tracks b k s h0 hr).1
    (by rw [hst]; decide)
  rw [hn]
  unfold nib2dsk_loop
  rw [if_pos (by rw [hst]; decide)]
  simp only [nib2dsk_body, hst, hpd]

set_option maxRecDepth 1000000 in
theorem nib_sector16_bytes :
    (∀ j, j < 48 → get_nib_byte nib_sector16 35 (0 + j) = some 0xff) ∧
    (∀ j, j < 22 → get_nib_byte nib_sector16 35 (0 + (48 + j))
      = some ((record_header 254 0 16).getD j 0)) ∧
    get_nib_byte nib_sector16 35 (0 + 70) = some 0x96 ∧
    get_nib_byte nib_sector16 35 0 = some 0xFF := by
  decide!

set_option maxRecDepth 1000000 in
theorem nib_track35_bytes :
    (∀ j, j < 48 → get_nib_byte nib_track35 35 (0 + j) = some 0xff) ∧
    (∀ j, j < 22 → get_nib_byte nib_track35 35 (0 + (48 + j))
      = some ((record_header 254 35 0).getD j 0)) ∧
    get_nib_byte nib_track35 35 (0 + 70) = some 0x96 ∧
    get_nib_byte nib_track35 35 0 = some 0xFF := by
  decide!

set_option maxRecDepth 1000000 in
theorem nib_sector16_field :
    process_data 0x96 [] nib_sector16 35 0 16 71 = PDResult.fault := by
  decide!

set_option maxRecDepth 1000000 in
theorem nib_track35_field :
    process_data 0x96 [] nib_track35 35 35 0 71 = PDResult.fault := by
  decide!

theorem nib_sector16_fault (d : List Nat) : nib2dsk d nib_sector16 35 = Outcome.fault := by
  obtain ⟨vo, hr⟩ := walk_header nib_sector16 35 254 0 16 0 0x96 d nib_sector16_bytes.1
    nib_sector16_bytes.2.1 nib_sector16_bytes.2.2.1 (by decide) (by decide) 0 0 0 0 0 0 0 0
  apply nib2dsk_fault_of_reach d nib_sector16 35 0xFF 66 _ nib_sector16_bytes.2.2.2 hr rfl
  show process_data 0x96 d nib_sector16 35 0 16 (0 + 71) = PDResult.fault
  rcases process_data_uniform 0x96 nib_sector16 35 0 16 71 with h0 | ⟨pb, sb, idx, hd⟩
  · have h := h0 []
    rw [nib_sector16_field] at h
    exact absurd h (by simp)
  · rw [Nat.zero_add, hd]
    exact process_data_denib_sector_fault pb sb 0 16 idx d (by decide)

theorem nib_track35_fault (d : List Nat) (hlen : d.length ≤ 35 * 4096) :
    nib2dsk d nib_track35 35 = Outcome.fault := by
  obtain ⟨vo, hr⟩ := walk_header nib_track35 35 254 35 0 0 0x96 d nib_track35_bytes.1
    nib_track35_bytes.2.1 nib_track35_bytes.2.2.1 (by decide) (by decide) 0 0 0 0 0 0 0 0
  apply nib2dsk_fault_of_reach d nib_track35 35 0xFF 66 _ nib_track35_bytes.2.2.2 hr rfl
  show process_data 0x96 d nib_track35 35 35 0 (0 + 71) = PDResult.fault
  rcases process_data_uniform 0x96 nib_track35 35 35 0 71 with h0 | ⟨pb, sb, idx, hd⟩
  · have h := h0 []
    rw [nib_track35_field] at h
    exact absurd h (by simp)
  · rw [Nat.zero_add, hd]
    exact process_data_denib_track_fault pb sb 35 0 idx d (by decide)
      (by rw [show soft_interleave.getD 0 0 = 0 from rfl]; omega)

/-- C21: `nib2dsk` returns for every nibble buffer and every track count, and it
reads the nibble buffer only through `get_nib_byte`, which reads below
`max_tracks * 6656`. But the track and sector numbers it decodes from the buffer
are used unchecked: with a sector number of 16 or more `soft_interleave[sector]`
is read outside the table, and with a position at or beyond the end of the image
the store goes outside it. The 35-track buffers `nib_sector16` (a record naming
sector 16) and `nib_track35` (a record naming track 35) make `nib2dsk` do so,
whatever the contents of a 35-track image buffer. -/
theorem nib2dsk_terminates_unchecked_header :
    (∀ dsk_buf nib_buf max_tracks, nib2dsk dsk_buf nib_buf max_tracks ≠ Outcome.nofuel) ∧
    (∀ nib_buf max_tracks index b,
      get_nib_byte nib_buf max_tracks index = some b → index < max_tracks * 6656) ∧
    (∀ pb sb track sector index dsk_buf, 16 ≤ sector →
      process_data_denib pb sb track sector index 256 0 dsk_buf = PDResult.fault) ∧
    (∀ pb sb track sector index dsk_buf, sector < 16 →
      dsk_buf.length ≤ track * 4096 + soft_interleave.getD sector 0 * 256 →
      process_data_denib pb sb track sector index 256 0 dsk_buf = PDResult.fault) ∧
    nib_sector16.length = 35 * 6656 ∧ nib_track35.length = 35 * 6656 ∧
    (∀ dsk_buf, nib2dsk dsk_buf nib_sector16 35 = Outcome.fault) ∧
    (∀ dsk_buf, dsk_buf.length ≤ 35 * 4096 →
      nib2dsk dsk_buf nib_track35 35 = Outcome.fault) :=
  ⟨nib2dsk_not_nofuel, fun _ _ _ _ h => (get_nib_byte_some h).1,
    fun pb sb t sec i d h => process_data_denib_sector_fault pb sb t sec i d h,
    fun pb sb t sec i d h hl => process_data_denib_track_fault pb sb t sec i d h hl,
    nib_sector16_length, nib_track35_length, nib_sector16_fault, nib_track35_fault⟩

/-! ## `process_data` rejects a bad data field before writing -/

theorem mem_table62_of_untranslate (b : Nat) (h : untranslate b ≠ 0xFF) : b ∈ table62 := by
  by_contra hb
  exact h (untranslate_loop_not_mem b table62 0 hb)

/-- C31: if one of the 343 bytes of the data field is not an entry of `table62`, or
the XOR of their `untranslate` values is not 0, `process_data` returns 0 with the
output image as it was. When it does not return 0 with the image as it was, all
343 bytes are entries of `table62`, their XOR is 0, and the result is that of the
loop that stores the 256 bytes of the sector, entered with the image as it was. -/
theorem process_data_atomic (byte : Nat) (dsk_buf nib_buf : List Nat)
    (max_tracks track sector index : Nat) :
    (((∃ b, b ∈ field_bytes nib_buf byte index ∧ b ∉ table62) ∨
        (field_bytes nib_buf byte index).foldl (fun a b => a ^^^ untranslate b) 0 ≠ 0) →
      process_data byte dsk_buf nib_buf max_tracks track sector index
        = PDResult.ret 0 dsk_buf) ∧
    (process_data byte dsk_buf nib_buf max_tracks track sector index ≠ PDResult.ret 0 dsk_buf →
      (∀ b, b ∈ field_bytes nib_buf byte index → b ∈ table62) ∧
      (field_bytes nib_buf byte index).foldl (fun a b => a ^^^ untranslate b) 0 = 0 ∧
      ∃ pb sb, process_data byte dsk_buf nib_buf max_tracks track sector index
        = process_data_denib pb sb track sector (index + 342) 256 0 dsk_buf) := by
  rcases process_data_checked byte dsk_buf nib_buf max_tracks track sector index with
    h | ⟨⟨_, hall, hx⟩, hd⟩
  · exact ⟨fun _ => h, fun hne => absurd h hne⟩
  · refine ⟨fun hbad => ?_, fun _ => ⟨fun b hb => mem_table62_of_untranslate b (hall b hb), hx, hd⟩⟩
    rcases hbad with ⟨b, hb, hnot⟩ | hbad
    · exact absurd (mem_table62_of_untranslate b (hall b hb)) hnot
    · exact absurd hx hbad

set_option maxRecDepth 1000000 in
theorem sample_field_bad_xor :
    (field_bytes nib_bad_checksum 0x97 71).foldl (fun a b => a ^^^ untranslate b) 0 ≠ 0 := by
  decide!

/-- C31 on the first data field of `nib_bad_checksum`, whose first byte is wrong:
`process_data` returns 0 and the output image is as it was. -/
theorem process_data_atomic_witness :
    process_data 0x97 dsk_blank nib_bad_checksum 1 0 0 71 = PDResult.ret 0 dsk_blank :=
  (process_data_atomic 0x97 dsk_blank nib_bad_checksum 1 0 0 71).1
    (Or.inr sample_field_bad_xor)

/-! ## The bytes that `translate` produces -/

theorem table62_entries : ∀ i, i < 64 →
    (table62.getD i 0).testBit 7 = true ∧ table62.getD i 0 < 256 ∧
    adjacent_zero_pairs (table62.getD i 0) ≤ 1 ∧ table62.getD i 0 ≠ 0xD5 := by
  decide

theorem and_63_idem (b : Nat) : (b &&& 0x3f) &&& 0x3f = b &&& 0x3f := by
  rw [Nat.and_assoc, Nat.and_self]

/-- C33: `translate b = translate (b AND 0x3F)` for every `b`; each output byte has
its high bit set and contains at most one pair of adjacent zero bits. -/
theorem translate_output (b : Nat) :
    translate b = translate (b &&& 0x3F) ∧
    (translate b).testBit 7 = true ∧ translate b < 256 ∧
    adjacent_zero_pairs (translate b) ≤ 1 := by
  have h := table62_entries (b &&& 0x3f) (and_63_lt b)
  refine ⟨?_, h.1, h.2.1, h.2.2.1⟩
  unfold translate
  rw [and_63_idem]

/-- C33, counterexample: `translate 0` is `0x96` (binary `10010110`), whose bits 5
and 6 are both zero. -/
theorem translate_adjacent_zero_bits :
    translate 0 = 0x96 ∧ (translate 0).testBit 5 = false ∧ (translate 0).testBit 6 = false ∧
    adjacent_zero_pairs (translate 0) = 1 := by
  decide

/-! ## Where `0xD5` occurs in the output of `dsk2nib` -/

theorem odd_even_byte (x : Nat) :
    (((x &&& 0x55) % 256 ||| 0xaa) % 256).testBit 7 = true ∧
    ((x &&& 0x55) % 256 ||| 0xaa) % 256 < 256 ∧
    ((x &&& 0x55) % 256 ||| 0xaa) % 256 ≠ 0xD5 := by
  have h : x &&& 0x55 < 86 := Nat.lt_succ_of_le Nat.and_le_right
  generalize x &&& 0x55 = y at h
  interval_cases y <;> decide

theorem translate_byte (x : Nat) :
    (translate x).testBit 7 = true ∧ translate x < 256 ∧ translate x ≠ 0xD5 := by
  have h := table62_entries (x &&& 0x3f) (and_63_lt x)
  exact ⟨h.1, h.2.1, h.2.2.2⟩

theorem record_byte (volume : Nat) (dsk_buf : List Nat) (trk sec j : Nat) (hj : j < 416) :
    ((sector_record volume dsk_buf trk sec).bytes.getD j 0).testBit 7 = true ∧
    (sector_record volume dsk_buf trk sec).bytes.getD j 0 < 256 ∧
    ((sector_record volume dsk_buf trk sec).bytes.getD j 0 = 0xD5 ↔ j = 48 ∨ j = 67) := by
  by_cases h1 : j < 48
  · rw [record_getD_gap _ _ _ _ _ h1]
    refine ⟨by decide, by decide, ?_⟩
    constructor
    · intro h; exact absurd h (by decide)
    · intro h; omega
  by_cases h2 : j < 70
  · obtain ⟨k, rfl⟩ : ∃ k, j = 48 + k := ⟨j - 48, by omega⟩
    rw [record_getD_header _ _ _ _ _ (by omega)]
    have hk : k < 22 := by omega
    have e0 := odd_even_byte (volume >>> 1)
    have e1 := odd_even_byte volume
    have e2 := odd_even_byte (trk >>> 1)
    have e3 := odd_even_byte trk
    have e4 := odd_even_byte (sec >>> 1)
    have e5 := odd_even_byte sec
    have e6 := odd_even_byte ((volume ^^^ trk ^^^ sec) >>> 1)
    have e7 := odd_even_byte (volume ^^^ trk ^^^ sec)
    simp only [record_header, odd_even_encode, List.cons_append, List.nil_append]
    interval_cases k
    all_goals simp only [List.getD_cons_zero, List.getD_cons_succ]
    all_goals first
      | exact ⟨by decide, by decide, by decide⟩
      | exact ⟨e0.1, e0.2.1, ⟨fun h => absurd h e0.2.2, fun h => by omega⟩⟩
      | exact ⟨e1.1, e1.2.1, ⟨fun h => absurd h e1.2.2, fun h => by omega⟩⟩
      | exact ⟨e2.1, e2.2.1, ⟨fun h => absurd h e2.2.2, fun h => by omega⟩⟩
      | exact ⟨e3.1, e3.2.1, ⟨fun h => absurd h e3.2.2, fun h => by omega⟩⟩
      | exact ⟨e4.1, e4.2.1, ⟨fun h => absurd h e4.2.2, fun h => by omega⟩⟩
      | exact ⟨e5.1, e5.2.1, ⟨fun h => absurd h e5.2.2, fun h => by omega⟩⟩
      | exact ⟨e6.1, e6.2.1, ⟨fun h => absurd h e6.2.2, fun h => by omega⟩⟩
      | exact ⟨e7.1, e7.2.1, ⟨fun h => absurd h e7.2.2, fun h => by omega⟩⟩
  by_cases h3 : j < 412
  · obtain ⟨k, rfl⟩ : ∃ k, j = 70 + k := ⟨j - 70, by omega⟩
    rw [record_getD_data _ _ _ _ _ (by omega)]
    have hc : ∃ x, (nibbilize dsk_buf trk (soft_interleave.getD sec 0)
        (dsk2nib_init volume)).data.data.getD k 0 = translate x := by
      cases k with
      | zero => exact ⟨_, nibbilize_data_zero _ _ _ _⟩
      | succ m => exact ⟨_, nibbilize_data_succ _ _ _ _ m (by omega)⟩
    obtain ⟨x, hx⟩ := hc
    rw [hx]
    have t := translate_byte x
    exact ⟨t.1, t.2.1, ⟨fun h => absurd h t.2.2, fun h => by omega⟩⟩
  · obtain ⟨k, rfl⟩ : ∃ k, j = 412 + k := ⟨j - 412, by omega⟩
    rw [record_getD_tail, nibbilize_checksum]
    have t := translate_byte (nib_stream dsk_buf trk (soft_interleave.getD sec 0) 341)
    have hk : k < 4 := by omega
    interval_cases k
    all_goals simp only [List.getD_cons_zero, List.getD_cons_succ]
    · exact ⟨t.1, t.2.1, ⟨fun h => absurd h t.2.2, fun h => by omega⟩⟩
    all_goals exact ⟨by decide, by decide, by decide⟩

/-- C39: in the buffer written by `dsk2nib`, for every source image and volume
byte, every byte of the first `tracks * 6656` bytes has its high bit set, and it is
`0xD5` exactly at the offsets 48 and 67 of a 416-byte record (the first byte of the
address prolog and of the data prolog). -/
theorem dsk2nib_sync_bytes (tracks volume : Nat) (dsk_buf nib_buf : List Nat)
    (hlen : tracks * 6656 ≤ nib_buf.length) (x : Nat) (hx : x < tracks * 6656) :
    ((dsk2nib tracks volume dsk_buf nib_buf).getD x 0).testBit 7 = true ∧
    (dsk2nib tracks volume dsk_buf nib_buf).getD x 0 < 256 ∧
    ((dsk2nib tracks volume dsk_buf nib_buf).getD x 0 = 0xD5 ↔
      x % 416 = 48 ∨ x % 416 = 67) := by
  obtain ⟨trk, s, _, _, _, hr⟩ := record_reads tracks volume dsk_buf nib_buf hlen (x / 416)
    (by omega)
  have h := hr (x % 416) (Nat.mod_lt _ (by norm_num))
  rw [show x / 416 * 416 + x % 416 = x by omega] at h
  obtain ⟨_, hb⟩ := get_nib_byte_some h
  rw [← hb]
  exact record_byte volume dsk_buf trk s (x % 416) (Nat.mod_lt _ (by norm_num))

/-- C39 for a 35-track image written with volume 254, at offset 67 of the last
record (byte `34 * 6656 + 15 * 416 + 67`). -/
theorem dsk2nib_sync_bytes_witness :
    ((dsk2nib 35 254 (List.replicate (35 * 4096) 0) (List.replicate (40 * 6656) 0)).getD
      232611 0).testBit 7 = true ∧
    (dsk2nib 35 254 (List.replicate (35 * 4096) 0) (List.replicate (40 * 6656) 0)).getD
      232611 0 < 256 ∧
    ((dsk2nib 35 254 (List.replicate (35 * 4096) 0) (List.replicate (40 * 6656) 0)).getD
      232611 0 = 0xD5 ↔ 232611 % 416 = 48 ∨ 232611 % 416 = 67) :=
  dsk2nib_sync_bytes 35 254 (List.replicate (35 * 4096) 0) (List.replicate (40 * 6656) 0)
    (by rw [List.length_replicate]; decide) 232611 (by decide)

/-! ## Noise in the gap before an address field -/

section noise

variable {nib_buf : List Nat} {max_tracks : Nat}
variable {aei dpi dei byte tr se vo idx ex : Nat} {dsk : List Nat}

theorem body_1_miss (h : byte ≠ 0xaa) :
    nib2dsk_body nib_buf max_tracks ⟨1, 1, aei, dpi, dei, byte, tr, se, vo, idx, ex, dsk⟩
      = Flow.next ⟨0, 1, aei, dpi, dei, byte, tr, se, vo, idx, ex, dsk⟩ := by
  simp [nib2dsk_body, addr_prolog, h]

theorem body_2_miss (h : byte ≠ 0x96) :
    nib2dsk_body nib_buf max_tracks ⟨2, 2, aei, dpi, dei, byte, tr, se, vo, idx, ex, dsk⟩
      = Flow.next ⟨0, 2, aei, dpi, dei, byte, tr, se, vo, idx, ex, dsk⟩ := by
  simp [nib2dsk_body, addr_prolog, h]

end noise

/-- Scanning the 48 bytes in front of an address prolog when they do not contain
`D5 AA 96`: from state 0 at any of these bytes the loop arrives in state 0 at the
first byte of the prolog, with the other variables as they were. -/
theorem scan_noise (nib_buf : List Nat) (max_tracks : Nat) (r : Nat → Nat) (base : Nat)
    (hrd : ∀ j, j ≤ 50 → get_nib_byte nib_buf max_tracks (base + j) = some (r j))
    (h48 : r 48 = 0xd5)
    (hnoise : ∀ i, i + 2 < 48 → ¬ (r i = 0xd5 ∧ r (i + 1) = 0xaa ∧ r (i + 2) = 0x96))
    (aei dpi dei tr se vo ex : Nat) (dsk : List Nat) :
    ∀ m p, p + m = 48 → ∀ api, ∃ k api', Reach nib_buf max_tracks k
      ⟨0, api, aei, dpi, dei, r p, tr, se, vo, base + p + 1, ex, dsk⟩
      ⟨0, api', aei, dpi, dei, 0xd5, tr, se, vo, base + 49, ex, dsk⟩ := by
  intro m
  induction m using Nat.strong_induction_on with
  | _ m ih =>
    intro p hp api
    by_cases hm : m = 0
    · have e : p = 48 := by omega
      subst e
      rw [h48]
      exact ⟨0, api, Reach.refl _⟩
    have r1 := hrd (p + 1) (by omega)
    rw [show base + (p + 1) = base + p + 1 by omega] at r1
    by_cases h0 : r p = 0xd5
    · by_cases h1 : r (p + 1) = 0xaa
      · have hp1 : p + 1 ≠ 48 := by
          intro e
          rw [e, h48] at h1
          exact absurd h1 (by decide)
        have r2 := hrd (p + 2) (by omega)
        rw [show base + (p + 2) = base + p + 1 + 1 by omega] at r2
        have h2 : r (p + 2) ≠ 0x96 := by
          intro h2
          by_cases e : p + 2 = 48
          · rw [e, h48] at h2
            exact absurd h2 (by decide)
          · exact hnoise p (by omega) ⟨h0, h1, h2⟩
        obtain ⟨k, api', hk⟩ := ih (m - 2) (by omega) (p + 2) (by omega) 2
        rw [show base + (p + 2) + 1 = base + p + 1 + 1 + 1 by omega] at hk
        exact ⟨k + 1 + 1 + 1, api',
          Reach.step (by simp) (body_0_hit h0 r1)
            (Reach.step (by simp) (body_1 h1 r2)
              (Reach.step (by simp) (body_2_miss h2) hk))⟩
      · obtain ⟨k, api', hk⟩ := ih (m - 1) (by omega) (p + 1) (by omega) 1
        rw [show base + (p + 1) + 1 = base + p + 1 + 1 by omega] at hk
        exact ⟨k + 1 + 1, api',
          Reach.step (by simp) (body_0_hit h0 r1)
            (Reach.step (by simp) (body_1_miss h1) hk)⟩
    · obtain ⟨k, api', hk⟩ := ih (m - 1) (by omega) (p + 1) (by omega) 0
      rw [show base + (p + 1) + 1 = base + p + 1 + 1 by omega] at hk
      exact ⟨k + 1, api', Reach.step (by simp) (body_0_skip h0 r1) hk⟩

/-- From the first byte of the address prolog of a sector record written by
`dsk2nib` (state 0, the record starting at `base`), 21 iterations lead to state 15
with the last epilog byte in `byte`; on the way the 256 source bytes of the sector
are stored in the DSK buffer. Only the bytes of the record from offset 48 on are
read. -/
theorem walk_fields (nib_buf : List Nat) (max_tracks volume : Nat) (img : List Nat)
    (trk sec base : Nat) (dsk : List Nat)
    (hrd : ∀ j, 48 ≤ j → j < 416 → get_nib_byte nib_buf max_tracks (base + j)
      = some ((sector_record volume img trk sec).bytes.getD j 0))
    (htrk : trk < 256) (hsec : sec < 16)
    (hlen : trk * 4096 + soft_interleave.getD sec 0 * 256 + 256 ≤ dsk.length)
    (hb : ∀ q, q < img.length → img.getD q 0 < 256) :
    ∃ dsk', dsk'.length = dsk.length ∧
      (∀ q, dsk'.getD q 0 =
        if trk * 4096 + soft_interleave.getD sec 0 * 256 ≤ q ∧
           q < trk * 4096 + soft_interleave.getD sec 0 * 256 + 256
        then img.getD q 0 else dsk.getD q 0) ∧
      ∀ api aei dpi dei tr0 se0 vo0 ex, ∃ vo',
        Reach nib_buf max_tracks 21
          ⟨0, api, aei, dpi, dei, 0xd5, tr0, se0, vo0, base + 49, ex, dsk⟩
          ⟨15, 3, 1, 3, 2, 0xeb, trk, sec, vo', base + 416, 0, dsk'⟩ := by
  -- the reads of the record
  have hhdr : ∀ j, j < 22 → get_nib_byte nib_buf max_tracks (base + (48 + j))
      = some ((record_header volume trk sec).getD j 0) :=
    fun j hj => by rw [hrd (48 + j) (by omega) (by omega), record_getD_header _ _ _ _ j hj]
  have htail : ∀ j, j < 4 → get_nib_byte nib_buf max_tracks (base + (412 + j))
      = some ([(nibbilize img trk (soft_interleave.getD sec 0)
            (dsk2nib_init volume)).data.data_checksum, 0xde, 0xaa, 0xeb].getD j 0) :=
    fun j hj => by rw [hrd (412 + j) (by omega) (by omega), record_getD_tail _ _ _ _ j]
  have hdata : ∀ k, k < 342 → get_nib_byte nib_buf max_tracks (base + (70 + k))
      = some ((nibbilize img trk (soft_interleave.getD sec 0)
          (dsk2nib_init volume)).data.data.getD k 0) :=
    fun k hk => by rw [hrd (70 + k) (by omega) (by omega), record_getD_data _ _ _ _ k hk]
  -- the bytes of the source sector
  have hbyte : ∀ i, img.getD (dsk_get trk (soft_interleave.getD sec 0) + i) 0 < 256 := by
    intro i
    by_cases h : dsk_get trk (soft_interleave.getD sec 0) + i < img.length
    · exact hb _ h
    · rw [List.getD_eq_default _ _ (by omega)]
      omega
  -- the data field
  obtain ⟨dsk', hpd, hl', hc'⟩ := process_data_encoded nib_buf max_tracks
    (nib_stream img trk (soft_interleave.getD sec 0))
    (fun i => img.getD (dsk_get trk (soft_interleave.getD sec 0) + i) 0)
    trk sec (base + 71) dsk hsec hlen
    (fun k hk => by
      have := hdata (k + 1) (by omega)
      rw [nibbilize_data_succ _ _ _ _ k hk] at this
      rw [show base + 71 + k = base + (70 + (k + 1)) by omega]
      exact this)
    (by
      have := htail 0 (by omega)
      rw [nibbilize_checksum] at this
      exact this)
    (fun j hj => by
      simp only [nib_stream, hj, if_true]
      exact nibbilize_bufs_secondary _ _ _ _ hj)
    (fun i hi => by
      simp only [nib_stream, show ¬ (86 + i < 86) by omega, if_false,
        show 86 + i - 86 = i by omega]
      exact nibbilize_bufs_primary _ _ _ _ hi)
    (fun i _ => hbyte i)
  have hd0 := hdata 0 (by omega)
  rw [nibbilize_data_zero] at hd0
  refine ⟨dsk', hl', ?_, ?_⟩
  · intro q
    rw [hc' q]
    split_ifs with h
    · simp only [dsk_get, BYTES_PER_TRACK, BYTES_PER_SECTOR]
      congr 1
      omega
    · rfl
  · intro api aei dpi dei tr0 se0 vo0 ex
    obtain ⟨dpi', hscan9⟩ := @scan_9 nib_buf max_tracks
      3 1 dei trk sec (odd_even_decode ((record_header volume trk sec).getD 3 0)
        ((record_header volume trk sec).getD 4 0)) ex dsk 4 0 (base + 63)
      (fun j hj => by
        have := hhdr (15 + j) (by omega)
        rw [show base + 63 + j = base + (48 + (15 + j)) by omega, this]
        have hj' : j = 0 ∨ j = 1 ∨ j = 2 ∨ j = 3 := by omega
        rcases hj' with e | e | e | e <;> subst e <;> rfl)
    refine ⟨odd_even_decode ((record_header volume trk sec).getD 3 0)
      ((record_header volume trk sec).getD 4 0), ?_⟩
    have ht : odd_even_decode ((record_header volume trk sec).getD 5 0)
        ((record_header volume trk sec).getD 6 0) = trk := odd_even_roundtrip trk htrk
    have hs : odd_even_decode ((record_header volume trk sec).getD 7 0)
        ((record_header volume trk sec).getD 8 0) = sec := odd_even_roundtrip sec (by omega)
    refine Reach.step (by simp) (body_0_hit rfl (hhdr 1 (by omega))) ?_
    refine Reach.step (by simp) (body_1 rfl (hhdr 2 (by omega))) ?_
    refine Reach.step (by simp) (body_2 rfl (hhdr 3 (by omega))) ?_
    refine Reach.step (by simp) (body_3 (hhdr 4 (by omega)) (hhdr 5 (by omega))) ?_
    refine Reach.step (by simp) (body_4 (hhdr 6 (by omega)) (hhdr 7 (by omega))) ?_
    refine Reach.step (by simp) (body_5 (hhdr 8 (by omega)) (hhdr 9 (by omega))) ?_
    refine Reach.step (by simp) (body_6 (hhdr 10 (by omega)) (hhdr 11 (by omega))) ?_
    refine Reach.step (by simp) (body_7 rfl (hhdr 12 (by omega))) ?_
    refine Reach.step (by simp) (body_8 rfl (hhdr 13 (by omega))) ?_
    refine Reach.step (by simp)
      (body_9_skip (show (0xeb : Nat) ≠ 0xd5 by decide) (hhdr 14 (by omega))) ?_
    rw [ht, hs]
    refine reach_trans hscan9 ?_
    refine Reach.step (by simp) (body_9_skip (by decide) (hhdr 19 (by omega))) ?_
    refine Reach.step (by simp) (body_9_hit rfl (hhdr 20 (by omega))) ?_
    refine Reach.step (by simp) (body_10 rfl (hhdr 21 (by omega))) ?_
    refine Reach.step (by simp) (body_11 rfl hd0) ?_
    refine Reach.step (by simp) (body_12 hpd (by omega) (htail 1 (by omega))) ?_
    refine Reach.step (by simp) (body_13 rfl (htail 2 (by omega))) ?_
    refine Reach.step (by simp) (body_14 rfl (htail 3 (by omega))) ?_
    exact Reach.refl _

/-- From the first byte of a sector record whose gap was replaced by bytes without
`D5 AA 96` and whose other bytes are those written by `dsk2nib`, the loop arrives
in state 15 at the end of the record, with the 256 source bytes of the sector
stored in the DSK buffer. -/
theorem walk_noisy_record (nib_buf : List Nat) (max_tracks volume : Nat) (img : List Nat)
    (trk sec base : Nat) (dsk : List Nat) (r : Nat → Nat)
    (hgap : ∀ j, j < 48 → get_nib_byte nib_buf max_tracks (base + j) = some (r j))
    (hnoise : no_addr_prolog r)
    (hrd : ∀ j, 48 ≤ j → j < 416 → get_nib_byte nib_buf max_tracks (base + j)
      = some ((sector_record volume img trk sec).bytes.getD j 0))
    (htrk : trk < 256) (hsec : sec < 16)
    (hlen : trk * 4096 + soft_interleave.getD sec 0 * 256 + 256 ≤ dsk.length)
    (hb : ∀ q, q < img.length → img.getD q 0 < 256) :
    ∃ dsk', dsk'.length = dsk.length ∧
      (∀ q, dsk'.getD q 0 =
        if trk * 4096 + soft_interleave.getD sec 0 * 256 ≤ q ∧
           q < trk * 4096 + soft_interleave.getD sec 0 * 256 + 256
        then img.getD q 0 else dsk.getD q 0) ∧
      ∀ api aei dpi dei tr0 se0 vo0 ex, ∃ k vo',
        Reach nib_buf max_tracks k
          ⟨0, api, aei, dpi, dei, r 0, tr0, se0, vo0, base + 1, ex, dsk⟩
          ⟨15, 3, 1, 3, 2, 0xeb, trk, sec, vo', base + 416, 0, dsk'⟩ := by
  obtain ⟨dsk', hl', hc', hwalk⟩ := walk_fields nib_buf max_tracks volume img trk sec base dsk
    hrd htrk hsec hlen hb
  refine ⟨dsk', hl', hc', ?_⟩
  intro api aei dpi dei tr0 se0 vo0 ex
  -- the reads of the gap and of the address prolog
  let r' : Nat → Nat := fun j => if j < 48 then r j
    else (sector_record volume img trk sec).bytes.getD j 0
  have hr' : ∀ j, j ≤ 50 → get_nib_byte nib_buf max_tracks (base + j) = some (r' j) := by
    intro j hj
    by_cases h : j < 48
    · simp only [r', h, if_true]; exact hgap j h
    · simp only [r', h, if_false]; exact hrd j (by omega) (by omega)
  have h48 : r' 48 = 0xd5 := by
    simp only [r', show ¬ (48 < 48) by omega, if_false]
    rw [show (48 : Nat) = 48 + 0 from rfl, record_getD_header _ _ _ _ 0 (by omega)]
    rfl
  have hn' : ∀ i, i + 2 < 48 → ¬ (r' i = 0xd5 ∧ r' (i + 1) = 0xaa ∧ r' (i + 2) = 0x96) := by
    intro i hi
    simp only [r', show i < 48 by omega, show i + 1 < 48 by omega, hi, if_true]
    exact hnoise i hi
  obtain ⟨k, api', hscan⟩ := scan_noise nib_buf max_tracks r' base hr' h48 hn'
    aei dpi dei tr0 se0 vo0 ex dsk 48 0 (by omega) api
  have e0 : r' 0 = r 0 := by simp only [r', show (0 : Nat) < 48 by omega, if_true]
  rw [e0] at hscan
  obtain ⟨vo', hw⟩ := hwalk api' aei dpi dei tr0 se0 vo0 ex
  exact ⟨21 + k, vo', reach_trans hscan hw⟩

theorem covered_mono (n q : Nat) (h : covered n q) : covered (n + 1) q := by
  obtain ⟨trk, s, hs, hlt, h1, h2⟩ := h
  exact ⟨trk, s, hs, by omega, h1, h2⟩

/-- After `n` records of a buffer whose gaps hold bytes without `D5 AA 96` and whose
other bytes are those written by `dsk2nib`, the loop is back in state 0 at the first
byte of record `n`; the sectors of the first `n` records are in the DSK buffer and
its other bytes are as they were. -/
theorem decode_noisy_prefix (t volume : Nat) (img nib0 out0 nib : List Nat)
    (ht : t ≤ 40) (hbytes : ∀ q, q < img.length → img.getD q 0 < 256)
    (hnib : t * 6656 ≤ nib0.length) (hout : t * 4096 ≤ out0.length)
    (hclean : ∀ x, x < t * 6656 → 48 ≤ x % 416 →
      nib.getD x 0 = (dsk2nib t volume img nib0).getD x 0)
    (hnoise : ∀ n, n < 16 * t → no_addr_prolog (fun i => nib.getD (n * 416 + i) 0)) :
    ∀ n, n < 16 * t →
      ∃ k api aei dpi dei tr se vo ex dsk,
        Reach nib t k
          ⟨0, 0, 0, 0, 0, nib.getD 0 0, 0, 0, 0, 1, 0, out0⟩
          ⟨0, api, aei, dpi, dei, nib.getD (n * 416) 0, tr, se, vo, n * 416 + 1, ex, dsk⟩ ∧
        dsk.length = out0.length ∧
        (∀ q, covered n q → dsk.getD q 0 = img.getD q 0) ∧
        (∀ q, ¬ covered n q → dsk.getD q 0 = out0.getD q 0) := by
  intro n
  induction n with
  | zero =>
    intro _
    refine ⟨0, 0, 0, 0, 0, 0, 0, 0, 0, out0, ?_, rfl, ?_, fun _ _ => rfl⟩
    · rw [show 0 * 416 = 0 from rfl]
      exact Reach.refl _
    · intro q ⟨trk, s, _, h, _⟩
      omega
  | succ n ih =>
    intro hn
    obtain ⟨k, api, aei, dpi, dei, tr, se, vo, ex, dsk, hreach, hlen, hcov, hnot⟩ :=
      ih (by omega)
    obtain ⟨trk, s, htrk, hs, hidx, hrd⟩ := record_reads t volume img nib0 hnib n (by omega)
    have hsoft := soft_interleave_lt s hs
    have hget : ∀ x, x < t * 6656 → get_nib_byte nib t x = some (nib.getD x 0) := by
      intro x hx
      have hlt : ¬ (x ≥ t * BYTES_PER_NIB_TRACK) := by
        simp only [BYTES_PER_NIB_TRACK]; omega
      simp only [get_nib_byte, hlt, if_false]
    obtain ⟨dsk', hl', hc', hwalk⟩ := walk_noisy_record nib t volume img
      trk s (n * 416) dsk (fun i => nib.getD (n * 416 + i) 0)
      (fun j hj => hget _ (by omega))
      (hnoise n (by omega))
      (fun j h1 h2 => by
        rw [hget _ (by omega), hclean _ (by omega) (by omega)]
        have := hrd j h2
        rw [(get_nib_byte_some this).2])
      (by omega) hs (by omega) hbytes
    obtain ⟨k', vo', hw⟩ := hwalk api aei dpi dei tr se vo ex
    simp only [Nat.add_zero] at hw
    have hnext : get_nib_byte nib t (n * 416 + 416) = some (nib.getD ((n + 1) * 416) 0) := by
      rw [hget _ (by omega), show n * 416 + 416 = (n + 1) * 416 by omega]
    refine ⟨0 + 1 + (k' + k), 3, 1, 3, 2, trk, s, vo', 0, dsk', ?_, by rw [hl', hlen], ?_, ?_⟩
    · have h1 := reach_trans hreach hw
      have h2 := reach_trans h1
        (Reach.step (by simp) (body_15_more rfl hnext) (Reach.refl _))
      rw [show (n + 1) * 416 + 1 = n * 416 + 416 + 1 by omega]
      exact h2
    · intro q hq
      rw [hc' q]
      split_ifs with h
      · rfl
      · apply hcov q
        obtain ⟨trk', s', hs', hlt, hq1, hq2⟩ := hq
        refine ⟨trk', s', hs', ?_, hq1, hq2⟩
        by_contra hcon
        have e : trk' * 16 + phys_interleave.getD s' 0 = trk * 16 + phys_interleave.getD s 0 := by
          omega
        have hp' := phys_interleave_lt s' hs'
        have hp := phys_interleave_lt s hs
        have e1 : trk' = trk := by omega
        have e2 : s' = s := phys_interleave_inj s' hs' s hs (by omega)
        subst e1 e2
        exact h ⟨hq1, hq2⟩
    · intro q hq
      rw [hc' q]
      split_ifs with h
      · exact absurd ⟨trk, s, hs, by omega, h.1, h.2⟩ hq
      · exact hnot q (fun hc => hq (covered_mono n q hc))

theorem ext_getD (a b : List Nat) (hl : a.length = b.length)
    (h : ∀ q, a.getD q 0 = b.getD q 0) : a = b := by
  apply List.ext_getElem hl
  intro q h1 h2
  have := h q
  rw [List.getD_eq_getElem _ _ h1, List.getD_eq_getElem _ _ h2] at this
  exact this

/-- A buffer whose gaps hold bytes without `D5 AA 96` and whose other bytes are those
written by `dsk2nib` is decoded by `nib2dsk` with status 1; the image is in the
output buffer and the bytes of the output buffer outside the image are as they
were. -/
theorem noisy_core (t volume : Nat) (img nib0 out0 nib : List Nat)
    (ht1 : 1 ≤ t) (ht : t ≤ 40) (hbytes : ∀ q, q < img.length → img.getD q 0 < 256)
    (hnib : t * 6656 ≤ nib0.length) (hout : t * 4096 ≤ out0.length)
    (hclean : ∀ x, x < t * 6656 → 48 ≤ x % 416 →
      nib.getD x 0 = (dsk2nib t volume img nib0).getD x 0)
    (hnoise : ∀ n, n < 16 * t → no_addr_prolog (fun i => nib.getD (n * 416 + i) 0)) :
    ∃ out, nib2dsk out0 nib t = Outcome.ret 1 out ∧ out.length = out0.length ∧
      (∀ q, covered (16 * t) q → out.getD q 0 = img.getD q 0) ∧
      (∀ q, ¬ covered (16 * t) q → out.getD q 0 = out0.getD q 0) := by
  obtain ⟨k, api, aei, dpi, dei, tr, se, vo, ex, dsk, hreach, hlen, hcov, hnot⟩ :=
    decode_noisy_prefix t volume img nib0 out0 nib ht hbytes hnib hout hclean hnoise
      (16 * t - 1) (by omega)
  obtain ⟨trk, s, htrk, hs, hidx, hrd⟩ :=
    record_reads t volume img nib0 hnib (16 * t - 1) (by omega)
  have hsoft := soft_interleave_lt s hs
  have hget : ∀ x, x < t * 6656 → get_nib_byte nib t x = some (nib.getD x 0) := by
    intro x hx
    have hlt : ¬ (x ≥ t * BYTES_PER_NIB_TRACK) := by
      simp only [BYTES_PER_NIB_TRACK]; omega
    simp only [get_nib_byte, hlt, if_false]
  obtain ⟨dsk', hl', hc', hwalk⟩ := walk_noisy_record nib t volume img
    trk s ((16 * t - 1) * 416) dsk (fun i => nib.getD ((16 * t - 1) * 416 + i) 0)
    (fun j hj => hget _ (by omega))
    (hnoise (16 * t - 1) (by omega))
    (fun j h1 h2 => by
      rw [hget _ (by omega), hclean _ (by omega) (by omega)]
      have := hrd j h2
      rw [(get_nib_byte_some this).2])
    (by omega) hs (by omega) hbytes
  obtain ⟨k', vo', hw⟩ := hwalk api aei dpi dei tr se vo ex
  simp only [Nat.add_zero] at hw
  have hend : get_nib_byte nib t ((16 * t - 1) * 416 + 416) = none := by
    have : (16 * t - 1) * 416 + 416 ≥ t * BYTES_PER_NIB_TRACK := by
      simp only [BYTES_PER_NIB_TRACK]; omega
    simp only [get_nib_byte, this, if_true]
  have hall := reach_trans (reach_trans hreach hw)
    (Reach.step (by simp) (body_15_end rfl hend) (Reach.refl _))
  have hres := (nib2dsk_of_reach out0 nib t (nib.getD 0 0) _ _ (hget 0 (by omega)) hall).2 rfl
  refine ⟨dsk', hres, by rw [hl', hlen], ?_, ?_⟩
  · intro q hq
    rw [hc' q]
    split_ifs with h
    · rfl
    · apply hcov q
      obtain ⟨trk', s', hs', hlt, hq1, hq2⟩ := hq
      refine ⟨trk', s', hs', ?_, hq1, hq2⟩
      by_contra hcon
      have hp' := phys_interleave_lt s' hs'
      have hp := phys_interleave_lt s hs
      have e1 : trk' = trk := by omega
      have e2 : s' = s := phys_interleave_inj s' hs' s hs (by omega)
      subst e1 e2
      exact h ⟨hq1, hq2⟩
  · intro q hq
    rw [hc' q]
    split_ifs with h
    · exact absurd ⟨trk, s, hs, by omega, h.1, h.2⟩ hq
    · exact hnot q (fun hc => hq (by
        obtain ⟨trk', s', hs', hlt, hq1, hq2⟩ := hc
        exact ⟨trk', s', hs', by omega, hq1, hq2⟩))

theorem replace_gaps_getD (g : Nat → Nat → Nat) (nib : List Nat) (x : Nat)
    (hx : x < nib.length) :
    (replace_gaps g nib).getD x 0
      = if x % 416 < 48 then g (x / 416) (x % 416) else nib.getD x 0 := by
  unfold replace_gaps
  exact getD_range_map _ _ _ hx

theorem noisy_gap_clean (r : Nat) : no_addr_prolog (noisy_gap r) := by
  intro i hi h
  obtain ⟨h1, h2, h3⟩ := h
  unfold noisy_gap at h1 h2 h3
  have hi' : i < 46 := by omega
  by_cases hr : r = 1
  · subst hr
    interval_cases i <;> simp at h1 h2 h3
  · interval_cases i <;> simp [hr] at h1 h2 h3

/-- C32: in a buffer written by `dsk2nib`, replace the 48 gap bytes in front of
every address prolog by bytes that do not contain `D5 AA 96` (they may end with
`D5` or `D5 AA`). `nib2dsk` returns the same status and leaves the same output
buffer as on the buffer written by `dsk2nib`. -/
theorem nib2dsk_gap_noise (t volume : Nat) (img nib0 out0 : List Nat) (g : Nat → Nat → Nat)
    (ht : t ≤ 40) (hbytes : ∀ b, b ∈ img → b < 256)
    (hnib : t * 6656 ≤ nib0.length) (hout : t * 4096 ≤ out0.length)
    (hg : ∀ r, no_addr_prolog (g r)) :
    nib2dsk out0 (replace_gaps g (dsk2nib t volume img nib0)) t
      = nib2dsk out0 (dsk2nib t volume img nib0) t := by
  by_cases ht0 : t = 0
  · subst ht0
    rfl
  have hb : ∀ q, q < img.length → img.getD q 0 < 256 := fun q hq => by
    rw [List.getD_eq_getElem _ _ hq]
    exact hbytes _ (List.getElem_mem hq)
  have hlen := dsk2nib_length t volume img nib0 hnib
  have hgapff : ∀ n, n < 16 * t → ∀ i, i < 48 →
      (dsk2nib t volume img nib0).getD (n * 416 + i) 0 = 0xff := by
    intro n hn i hi
    obtain ⟨trk, s, _, _, _, hrd⟩ := record_reads t volume img nib0 hnib n hn
    have := hrd i (by omega)
    rw [record_getD_gap _ _ _ _ i hi] at this
    exact (get_nib_byte_some this).2.symm
  obtain ⟨o1, h1, l1, c1, n1⟩ := noisy_core t volume img nib0 out0
    (replace_gaps g (dsk2nib t volume img nib0)) (by omega) ht hb hnib hout
    (fun x hx h48 => by
      rw [replace_gaps_getD _ _ _ (by omega), if_neg (by omega)])
    (fun n hn i hi h => by
      simp only [] at h
      rw [replace_gaps_getD _ _ _ (by omega), replace_gaps_getD _ _ _ (by omega),
        replace_gaps_getD _ _ _ (by omega),
        if_pos (by omega), if_pos (by omega), if_pos (by omega),
        show (n * 416 + i) / 416 = n by omega, show (n * 416 + i) % 416 = i by omega,
        show (n * 416 + (i + 1)) / 416 = n by omega,
        show (n * 416 + (i + 1)) % 416 = i + 1 by omega,
        show (n * 416 + (i + 2)) / 416 = n by omega,
        show (n * 416 + (i + 2)) % 416 = i + 2 by omega] at h
      exact hg n i hi h)
  obtain ⟨o2, h2, l2, c2, n2⟩ := noisy_core t volume img nib0 out0
    (dsk2nib t volume img nib0) (by omega) ht hb hnib hout
    (fun x _ _ => rfl)
    (fun n hn i hi h => by
      simp only [] at h
      rw [hgapff n hn i (by omega)] at h
      exact absurd h.1 (by decide))
  rw [h1, h2]
  congr 1
  apply ext_getD _ _ (by rw [l1, l2])
  intro q
  by_cases hc : covered (16 * t) q
  · rw [c1 q hc, c2 q hc]
  · rw [n1 q hc, n2 q hc]

/-- C32 for a 35-track image written with volume 254, every gap replaced by
`noisy_gap`: zero bytes, then `D5 AA` directly in front of the address prolog. -/
theorem nib2dsk_gap_noise_witness :
    nib2dsk (List.replicate (40 * 4096) 0)
        (replace_gaps noisy_gap
          (dsk2nib 35 254 (List.replicate (35 * 4096) 0) (List.replicate (40 * 6656) 0))) 35
      = nib2dsk (List.replicate (40 * 4096) 0)
          (dsk2nib 35 254 (List.replicate (35 * 4096) 0) (List.replicate (40 * 6656) 0)) 35 :=
  nib2dsk_gap_noise 35 254 (List.replicate (35 * 4096) 0) (List.replicate (40 * 6656) 0)
    (List.replicate (40 * 4096) 0) noisy_gap (by decide)
    (fun b hb => by rw [List.eq_of_mem_replicate hb]; decide)
    (by rw [List.length_replicate]; decide) (by rw [List.length_replicate]; decide)
    noisy_gap_clean

/-! ## The 65c02 core: bit 7 of bytes -/

theorem and_128_ne_zero (x : Nat) : (x &&& 0x80 ≠ 0) ↔ (x / 128 % 2 = 1) := by
  have h128 : (0x80 : Nat) = 2 ^ 7 := by norm_num
  constructor
  · intro h
    obtain ⟨i, hi⟩ := Nat.ne_zero_implies_bit_true h
    rw [Nat.testBit_and, h128, Nat.testBit_two_pow] at hi
    simp only [Bool.and_eq_true, decide_eq_true_eq] at hi
    obtain ⟨h1, h2⟩ := hi
    subst h2
    rw [Nat.testBit_to_div_mod] at h1
    simpa using h1
  · intro h hz
    have : (x &&& 0x80).testBit 7 = true := by
      rw [Nat.testBit_and, h128, Nat.testBit_two_pow_self, Nat.testBit_to_div_mod]
      simp [h]
    rw [hz] at this
    simp at this

theorem xor_bit7 (x y : Nat) :
    ((x ^^^ y) / 128 % 2 = 1) ↔ ((x / 128 % 2 = 1) ↔ ¬ (y / 128 % 2 = 1)) := by
  have h := Nat.testBit_xor x y 7
  simp only [Nat.testBit_to_div_mod] at h
  have e : (2 : Nat) ^ 7 = 128 := by norm_num
  rw [e] at h
  by_cases hx : x / 128 % 2 = 1 <;> by_cases hy : y / 128 % 2 = 1 <;>
    simp [hx, hy] at h ⊢ <;> omega

theorem and_bit7 (x y : Nat) :
    ((x &&& y) / 128 % 2 = 1) ↔ ((x / 128 % 2 = 1) ∧ (y / 128 % 2 = 1)) := by
  have h := Nat.testBit_and x y 7
  simp only [Nat.testBit_to_div_mod] at h
  have e : (2 : Nat) ^ 7 = 128 := by norm_num
  rw [e] at h
  by_cases hx : x / 128 % 2 = 1 <;> by_cases hy : y / 128 % 2 = 1 <;>
    simp [hx, hy] at h ⊢ <;> omega

theorem and_255 (x : Nat) : x &&& 0xFF = x % 256 := by
  have := Nat.and_pow_two_sub_one_eq_mod x 8
  simpa using this

/-- The overflow test of `ADC`, for bytes `a`, `m` and a carry `c`. -/
theorem adc_overflow (a m c : Nat) (ha : a < 256) (hm : m < 256) (hc : c ≤ 1) :
    ((((a + m + c) ^^^ a) &&& ((a + m + c) ^^^ m)) &&& 0x80 ≠ 0) ↔
      (signed8 a + signed8 m + (c : Int) < -128 ∨ 127 < signed8 a + signed8 m + (c : Int)) := by
  rw [and_128_ne_zero, and_bit7, xor_bit7, xor_bit7]
  unfold signed8
  split_ifs <;> omega

theorem readMem_lt (RAM : Nat → Nat) (address : Nat) : readMem RAM address < 256 :=
  Nat.mod_lt _ (by norm_num)

theorem readMem_mod (RAM : Nat → Nat) (address : Nat) :
    readMem RAM (address % 65536) = readMem RAM address := by
  simp [readMem]

/-- C2: `ADC #imm` (opcode `0x69`) with the Decimal flag clear: `A` becomes
`(a + m + c) mod 256`, Carry tells whether `a + m + c > 255`, Zero whether the new
`A` is 0, Sign is bit 7 of the new `A`, and Overflow tells whether the sum of `a`
and `m` read as signed bytes, plus `c`, is outside `-128..127`. -/
theorem adc_imm_binary (s : Cpu) (hA : s.A < 256)
    (hrun : s.state = status.run ∨ s.state = status.step)
    (hop : readMem s.RAM s.PC = 0x69) (hD : s.P.D = false) :
    (puce6502Step s).1.A = (s.A + readMem s.RAM (s.PC + 1) + s.P.C.toNat) % 256 ∧
    ((puce6502Step s).1.P.C = true ↔ s.A + readMem s.RAM (s.PC + 1) + s.P.C.toNat > 255) ∧
    ((puce6502Step s).1.P.Z = true ↔ (puce6502Step s).1.A = 0) ∧
    ((puce6502Step s).1.P.S = true ↔ (puce6502Step s).1.A / 128 % 2 = 1) ∧
    ((puce6502Step s).1.P.V = true ↔
      (signed8 s.A + signed8 (readMem s.RAM (s.PC + 1)) + (s.P.C.toNat : Int) < -128 ∨
       127 < signed8 s.A + signed8 (readMem s.RAM (s.PC + 1)) + (s.P.C.toNat : Int))) := by
  have hm := readMem_lt s.RAM (s.PC + 1)
  have hc : s.P.C.toNat ≤ 1 := Bool.toNat_le _
  have hov := adc_overflow s.A (readMem s.RAM (s.PC + 1)) s.P.C.toNat hA hm hc
  simp only [puce6502Step, hrun, hop, exec_opcode, exec_row_6, op_69, Cpu.fetch, Frame.fetch,
    hD, if_true, readMem_mod, Nat.mod_eq_of_lt hm, Nat.reduceDiv, and_255,
    Function.comp, Bool.false_eq_true, if_false, decide_eq_true_eq, gt_iff_lt]
  generalize readMem s.RAM (s.PC + 1) = m at *
  generalize s.P.C.toNat = c at *
  have h16 : (s.A + m + c) % 65536 = s.A + m + c := Nat.mod_eq_of_lt (by omega)
  simp only [h16, ne_eq] at hov ⊢
  exact ⟨by omega, trivial, trivial, by omega, hov⟩

/-- Witness for C2, the scenario of the specification: `A = 0x50`, `ADC #$50`, carry
clear gives `A = 0xA0`, `C = 0`, `V = 1`, `S = 1`, `Z = 0`. -/
theorem adc_imm_binary_witness :
    (puce6502Step adc_example).1.A = 0xA0 ∧ (puce6502Step adc_example).1.P.C = false ∧
    (puce6502Step adc_example).1.P.V = true ∧ (puce6502Step adc_example).1.P.S = true ∧
    (puce6502Step adc_example).1.P.Z = false := by
  have h := adc_imm_binary adc_example (by decide) (Or.inl rfl) (by decide) rfl
  obtain ⟨h1, h2, h3, h4, h5⟩ := h
  have e : readMem adc_example.RAM (adc_example.PC + 1) = 0x50 := by decide
  have ea : adc_example.A = 0x50 := rfl
  have ec : adc_example.P.C.toNat = 0 := rfl
  rw [e, ea, ec] at h1 h2 h5
  refine ⟨h1, ?_, h5.mpr (by decide), h4.mpr (by rw [h1]), ?_⟩
  · exact Bool.eq_false_iff.mpr (fun hc => absurd (h2.mp hc) (by decide))
  · exact Bool.eq_false_iff.mpr (fun hz => absurd (h3.mp hz) (by rw [h1]; decide))

/-! ## Interrupt entry points -/

/-- C6 (what the code does): `puce6502IRQ` returns early when the
Interrupt-disable flag is CLEAR (`if (!P.I) return;`), changing nothing but the
run-state; it is with the flag SET that it pushes, loads `PC` from
`0xFFFE/0xFFFF` and adds 7 cycles.  The bytes pushed are those of `PC + 1`. -/
theorem puce6502IRQ_inverted (s : Cpu) :
    (s.P.I = false → puce6502IRQ s = { s with state := status.run }) ∧
    (s.P.I = true →
      (puce6502IRQ s).ticks = (s.ticks + 7) % 18446744073709551616 ∧
      (puce6502IRQ s).PC = ((readMem (puce6502IRQ s).RAM 0xFFFE)
          ||| ((readMem (puce6502IRQ s).RAM 0xFFFF) <<< 8)) % 65536 ∧
      (puce6502IRQ s).bus = s.bus ++
        [BusOp.write ((0x100 + s.SP) % 65536) (((((s.PC + 1) % 65536) >>> 8) &&& 0xFF) % 256),
         BusOp.write ((0x100 + (sub32 s.SP 1) % 256) % 65536) ((((s.PC + 1) % 65536) &&& 0xFF) % 256),
         BusOp.write ((0x100 + (sub32 ((sub32 s.SP 1) % 256) 1) % 256) % 65536)
           ((({ s.P with I := true } : Flags).byte &&& (not32 BREAK)) % 256),
         BusOp.read 0xFFFE, BusOp.read 0xFFFF]) := by
  constructor
  · intro h
    simp [puce6502IRQ, h]
  · intro h
    simp [puce6502IRQ, h, Cpu.store, Cpu.fetch]

/-- C6 at the failing input: with `I` clear (`PC = 0x12FF`, `SP = 0xFF`) the call
leaves `PC`, `SP`, the cycle counter and the memory as they are and issues no
memory access. -/
theorem puce6502IRQ_I_clear_example :
    (puce6502IRQ irq_example).PC = 0x12FF ∧ (puce6502IRQ irq_example).SP = 0xFF ∧
    (puce6502IRQ irq_example).ticks = 0 ∧ (puce6502IRQ irq_example).P.I = false ∧
    (puce6502IRQ irq_example).bus = [] := by
  decide

/-- C7 (what the code does): `puce6502NMI` sets `I` and increments `PC` BEFORE
pushing, so the three bytes written are the high and low byte of `PC + 1` and the
status byte with `I` already set (Break cleared); `SP` goes down by 3 and `PC` is
loaded from `0xFFFA/0xFFFB`, 7 cycles are added and the run-state is running. -/
theorem puce6502NMI_pushes (s : Cpu) :
    (puce6502NMI s).bus = s.bus ++
      [BusOp.write ((0x100 + s.SP) % 65536) (((((s.PC + 1) % 65536) >>> 8) &&& 0xFF) % 256),
       BusOp.write ((0x100 + (sub32 s.SP 1) % 256) % 65536) ((((s.PC + 1) % 65536) &&& 0xFF) % 256),
       BusOp.write ((0x100 + (sub32 ((sub32 s.SP 1) % 256) 1) % 256) % 65536)
         ((({ s.P with I := true } : Flags).byte &&& (not32 BREAK)) % 256),
       BusOp.read 0xFFFA, BusOp.read 0xFFFB] ∧
    (puce6502NMI s).SP = (sub32 ((sub32 ((sub32 s.SP 1) % 256) 1) % 256) 1) % 256 ∧
    (puce6502NMI s).P = { s.P with I := true } ∧
    (puce6502NMI s).PC = ((readMem (puce6502NMI s).RAM 0xFFFA)
        ||| ((readMem (puce6502NMI s).RAM 0xFFFB) <<< 8)) % 65536 ∧
    (puce6502NMI s).ticks = (s.ticks + 7) % 18446744073709551616 ∧
    (puce6502NMI s).state = status.run := by
  simp [puce6502NMI, Cpu.store, Cpu.fetch]

/-- C7 at the failing input `PC = 0x12FF`, `SP = 0xFF`, `P.byte = 0x20`: the code
writes `0x13` at `0x01FF`, `0x00` at `0x01FE` and `0x24` at `0x01FD`, where the
claim asks for the bytes of the current `PC` (`0x12`, `0xFF`) and for the
pre-interrupt status with only Break cleared (`0x20`). -/
theorem puce6502NMI_example :
    (puce6502NMI irq_example).bus =
      [BusOp.write 0x01FF 0x13, BusOp.write 0x01FE 0x00, BusOp.write 0x01FD 0x24,
       BusOp.read 0xFFFA, BusOp.read 0xFFFB] ∧
    irq_example.PC = 0x12FF ∧ irq_example.P.byte = 0x20 ∧
    (puce6502NMI irq_example).RAM 0x01FF = 0x13 ∧
    (puce6502NMI irq_example).RAM 0x01FE = 0x00 ∧
    (puce6502NMI irq_example).RAM 0x01FD = 0x24 ∧
    (puce6502NMI irq_example).SP = 0xFC := by
  decide

/-- C6 at the failing input, through the general statement: with `I` clear the
call returns the state it was given, run-state apart. -/
theorem puce6502IRQ_inverted_witness :
    irq_example.P.I = false ∧
    puce6502IRQ irq_example = { irq_example with state := status.run } :=
  ⟨rfl, (puce6502IRQ_inverted irq_example).1 rfl⟩

/-! ## Cycle counts of the opcode cases -/

theorem row0_cycles (o : Nat) (h1 : 0x00 ≤ o) (h2 : o ≤ 0x0F) (f : Frame) :
    f.cycles + 1 ≤ (exec_row_0 o f).cycles ∧ (exec_row_0 o f).cycles ≤ f.cycles + 8 := by
  interval_cases o <;>
    simp only [exec_row_0, op_00, op_01, op_02, op_03, op_04, op_05, op_06, op_07, op_08, op_09,
      op_0A, op_0B, op_0C, op_0D, op_0E, op_0F, Frame.fetch, Frame.store] <;>
    first
    | omega
    | (split_ifs <;> first | omega | (simp only []; omega))

theorem row1_cycles (o : Nat) (h1 : 0x10 ≤ o) (h2 : o ≤ 0x1F) (f : Frame) :
    f.cycles + 1 ≤ (exec_row_1 o f).cycles ∧ (exec_row_1 o f).cycles ≤ f.cycles + 8 := by
  interval_cases o <;>
    simp only [exec_row_1, op_10, op_11, op_12, op_13, op_14, op_15, op_16, op_17, op_18, op_19,
      op_1A, op_1B, op_1C, op_1D, op_1E, op_1F, Frame.fetch, Frame.store] <;>
    first
    | omega
    | (split_ifs <;> first | omega | (simp only []; omega))

theorem row2_cycles (o : Nat) (h1 : 0x20 ≤ o) (h2 : o ≤ 0x2F) (f : Frame) :
    f.cycles + 1 ≤ (exec_row_2 o f).cycles ∧ (exec_row_2 o f).cycles ≤ f.cycles + 8 := by
  interval_cases o <;>
    simp only [exec_row_2, op_20, op_21, op_22, op_23, op_24, op_25, op_26, op_27, op_28, op_29,
      op_2A, op_2B, op_2C, op_2D, op_2E, op_2F, Frame.fetch, Frame.store] <;>
    first
    | omega
    | (split_ifs <;> first | omega | (simp only []; omega))

theorem row3_cycles (o : Nat) (h1 : 0x30 ≤ o) (h2 : o ≤ 0x3F) (f : Frame) :
    f.cycles + 1 ≤ (exec_row_3 o f).cycles ∧ (exec_row_3 o f).cycles ≤ f.cycles + 8 := by
  interval_cases o <;>
    simp only [exec_row_3, op_30, op_31, op_32, op_33, op_34, op_35, op_36, op_37, op_38, op_39,
      op_3A, op_3B, op_3C, op_3D, op_3E, op_3F, Frame.fetch, Frame.store] <;>
    first
    | omega
    | (split_ifs <;> first | omega | (simp only []; omega))

theorem row4_cycles (o : Nat) (h1 : 0x40 ≤ o) (h2 : o ≤ 0x4F) (f : Frame) :
    f.cycles + 1 ≤ (exec_row_4 o f).cycles ∧ (exec_row_4 o f).cycles ≤ f.cycles + 8 := by
  interval_cases o <;>
    simp only [exec_row_4, op_40, op_41, op_42, op_43, op_44, op_45, op_46, op_47, op_48, op_49,
      op_4A, op_4B, op_4C, op_4D, op_4E, op_4F, Frame.fetch, Frame.store] <;>
    first
    | omega
    | (split_ifs <;> first | omega | (simp only []; omega))

theorem row5_cycles (o : Nat) (h1 : 0x50 ≤ o) (h2 : o ≤ 0x5F) (f : Frame) :
    f.cycles + 1 ≤ (exec_row_5 o f).cycles ∧ (exec_row_5 o f).cycles ≤ f.cycles + 8 := by
  interval_cases o <;>
    simp only [exec_row_5, op_50, op_51, op_52, op_53, op_54, op_55, op_56, op_57, op_58, op_59,
      op_5A, op_5B, op_5C, op_5D, op_5E, op_5F, Frame.fetch, Frame.store] <;>
    first
    | omega
    | (split_ifs <;> first | omega | (simp only []; omega))

theorem row6_cycles (o : Nat) (h1 : 0x60 ≤ o) (h2 : o ≤ 0x6F) (f : Frame) :
    f.cycles + 1 ≤ (exec_row_6 o f).cycles ∧ (exec_row_6 o f).cycles ≤ f.cycles + 8 := by
  interval_cases o <;>
    simp only [exec_row_6, op_60, op_61, op_62, op_63, op_64, op_65, op_66, op_67, op_68, op_69,
      op_6A, op_6B, op_6C, op_6D, op_6E, op_6F, Frame.fetch, Frame.store] <;>
    first
    | omega
    | (split_ifs <;> first | omega | (simp only []; omega))

theorem row7_cycles (o : Nat) (h1 : 0x70 ≤ o) (h2 : o ≤ 0x7F) (f : Frame) :
    f.cycles + 1 ≤ (exec_row_7 o f).cycles ∧ (exec_row_7 o f).cycles ≤ f.cycles + 8 := by
  interval_cases o <;>
    simp only [exec_row_7, op_70, op_71, op_72, op_73, op_74, op_75, op_76, op_77, op_78, op_79,
      op_7A, op_7B, op_7C, op_7D, op_7E, op_7F, Frame.fetch, Frame.store] <;>
    first
    | omega
    | (split_ifs <;> first | omega | (simp only []; omega))

theorem row8_cycles (o : Nat) (h1 : 0x80 ≤ o) (h2 : o ≤ 0x8F) (f : Frame) :
    f.cycles + 1 ≤ (exec_row_8 o f).cycles ∧ (exec_row_8 o f).cycles ≤ f.cycles + 8 := by
  interval_cases o <;>
    simp only [exec_row_8, op_80, op_81, op_82, op_83, op_84, op_85, op_86, op_87, op_88, op_89,
      op_8A, op_8B, op_8C, op_8D, op_8E, op_8F, Frame.fetch, Frame.store] <;>
    first
    | omega
    | (split_ifs <;> first | omega | (simp only []; omega))

theorem row9_cycles (o : Nat) (h1 : 0x90 ≤ o) (h2 : o ≤ 0x9F) (f : Frame) :
    f.cycles + 1 ≤ (exec_row_9 o f).cycles ∧ (exec_row_9 o f).cycles ≤ f.cycles + 8 := by
  interval_cases o <;>
    simp only [exec_row_9, op_90, op_91, op_92, op_93, op_94, op_95, op_96, op_97, op_98, op_99,
      op_9A, op_9B, op_9C, op_9D, op_9E, op_9F, Frame.fetch, Frame.store] <;>
    first
    | omega
    | (split_ifs <;> first | omega | (simp only []; omega))

theorem rowA_cycles (o : Nat) (h1 : 0xA0 ≤ o) (h2 : o ≤ 0xAF) (h3 : o ≠ 0xA3) (f : Frame) :
    f.cycles + 1 ≤ (exec_row_A o f).cycles ∧ (exec_row_A o f).cycles ≤ f.cycles + 8 := by
  interval_cases o <;>
    simp only [exec_row_A, op_A0, op_A1, op_A2, op_A4, op_A5, op_A6, op_A7, op_A8, op_A9, op_AA,
      op_AB, op_AC, op_AD, op_AE, op_AF, Frame.fetch, Frame.store] <;>
    first
    | exact absurd rfl h3
    | omega
    | (split_ifs <;> first | omega | (simp only []; omega))

theorem rowB_cycles (o : Nat) (h1 : 0xB0 ≤ o) (h2 : o ≤ 0xBF) (f : Frame) :
    f.cycles + 1 ≤ (exec_row_B o f).cycles ∧ (exec_row_B o f).cycles ≤ f.cycles + 8 := by
  interval_cases o <;>
    simp only [exec_row_B, op_B0, op_B1, op_B2, op_B3, op_B4, op_B5, op_B6, op_B7, op_B8, op_B9,
      op_BA, op_BB, op_BC, op_BD, op_BE, op_BF, Frame.fetch, Frame.store] <;>
    first
    | omega
    | (split_ifs <;> first | omega | (simp only []; omega))

theorem rowC_cycles (o : Nat) (h1 : 0xC0 ≤ o) (h2 : o ≤ 0xCF) (f : Frame) :
    f.cycles + 1 ≤ (exec_row_C o f).cycles ∧ (exec_row_C o f).cycles ≤ f.cycles + 8 := by
  interval_cases o <;>
    simp only [exec_row_C, op_C0, op_C1, op_C2, op_C3, op_C4, op_C5, op_C6, op_C7, op_C8, op_C9,
      op_CA, op_CB, op_CC, op_CD, op_CE, op_CF, Frame.fetch, Frame.store] <;>
    first
    | omega
    | (split_ifs <;> first | omega | (simp only []; omega))

theorem rowD_cycles (o : Nat) (h1 : 0xD0 ≤ o) (h2 : o ≤ 0xDF) (f : Frame) :
    f.cycles + 1 ≤ (exec_row_D o f).cycles ∧ (exec_row_D o f).cycles ≤ f.cycles + 8 := by
  interval_cases o <;>
    simp only [exec_row_D, op_D0, op_D1, op_D2, op_D3, op_D4, op_D5, op_D6, op_D7, op_D8, op_D9,
      op_DA, op_DB, op_DC, op_DD, op_DE, op_DF, Frame.fetch, Frame.store] <;>
    first
    | omega
    | (split_ifs <;> first | omega | (simp only []; omega))

theorem rowE_cycles (o : Nat) (h1 : 0xE0 ≤ o) (h2 : o ≤ 0xEF) (f : Frame) :
    f.cycles + 1 ≤ (exec_row_E o f).cycles ∧ (exec_row_E o f).cycles ≤ f.cycles + 8 := by
  interval_cases o <;>
    simp only [exec_row_E, op_E0, op_E1, op_E2, op_E3, op_E4, op_E5, op_E6, op_E7, op_E8, op_E9,
      op_EA, op_EB, op_EC, op_ED, op_EE, op_EF, Frame.fetch, Frame.store] <;>
    first
    | omega
    | (split_ifs <;> first | omega | (simp only []; omega))

theorem rowF_cycles (o : Nat) (h1 : 0xF0 ≤ o) (h2 : o ≤ 0xFF) (f : Frame) :
    f.cycles + 1 ≤ (exec_row_F o f).cycles ∧ (exec_row_F o f).cycles ≤ f.cycles + 8 := by
  interval_cases o <;>
    simp only [exec_row_F, op_F0, op_F1, op_F2, op_F3, op_F4, op_F5, op_F6, op_F7, op_F8, op_F9,
      op_FA, op_FB, op_FC, op_FD, op_FE, op_FF, Frame.fetch, Frame.store] <;>
    first
    | omega
    | (split_ifs <;> first | omega | (simp only []; omega))

theorem exec_opcode_cycles (o : Nat) (h : o < 256) (h3 : o ≠ 0xA3) (f : Frame) :
    f.cycles + 1 ≤ (exec_opcode o f).cycles ∧ (exec_opcode o f).cycles ≤ f.cycles + 8 := by
  obtain ⟨q, hq⟩ : ∃ q, o / 16 = q := ⟨_, rfl⟩
  have hq16 : q < 16 := by omega
  unfold exec_opcode
  rw [hq]
  interval_cases q
  · exact row0_cycles o (by omega) (by omega) f
  · exact row1_cycles o (by omega) (by omega) f
  · exact row2_cycles o (by omega) (by omega) f
  · exact row3_cycles o (by omega) (by omega) f
  · exact row4_cycles o (by omega) (by omega) f
  · exact row5_cycles o (by omega) (by omega) f
  · exact row6_cycles o (by omega) (by omega) f
  · exact row7_cycles o (by omega) (by omega) f
  · exact row8_cycles o (by omega) (by omega) f
  · exact row9_cycles o (by omega) (by omega) f
  · exact rowA_cycles o (by omega) (by omega) h3 f
  · exact rowB_cycles o (by omega) (by omega) f
  · exact rowC_cycles o (by omega) (by omega) f
  · exact rowD_cycles o (by omega) (by omega) f
  · exact rowE_cycles o (by omega) (by omega) f
  · exact rowF_cycles o (by omega) (by omega) f

theorem exec_opcode_A3 (f : Frame) : exec_opcode 0xA3 f = f := rfl

/-- A step on opcode `0xA3` only fetches the opcode and advances `PC`; the value
returned is the initial `cycles = 0`. -/
theorem step_A3 (s : Cpu) (hrun : s.state = status.run ∨ s.state = status.step)
    (hop : readMem s.RAM s.PC = 0xA3) :
    puce6502Step s = ({ s.fetch [s.PC] with PC := (s.PC + 1) % 65536 }, 0) := by
  unfold puce6502Step
  rw [if_pos hrun]
  simp only [hop]
  rfl

set_option maxRecDepth 100000 in
/-- The slots that `mn` names `NOP`. -/
theorem mn_nop_slots : ∀ o, o < 256 → mn.get? o = some ("NOP") →
    o ∈ [0x02, 0x03, 0x0B, 0x13, 0x1B, 0x22, 0x23, 0x2B, 0x33, 0x3B, 0x42, 0x43, 0x44, 0x4B,
    0x53, 0x54, 0x5B, 0x5C, 0x62, 0x63, 0x6B, 0x73, 0x7B, 0x82, 0x83, 0x8B, 0x93, 0x9B, 0xA3,
    0xAB, 0xB3, 0xBB, 0xC2, 0xC3, 0xD3, 0xD4, 0xDC, 0xE2, 0xE3, 0xEA, 0xEB, 0xF3, 0xF4, 0xFB,
    0xFC] := by
  decide

/-- Every slot that `mn` names `NOP`, `0xA3` apart, adds 1, 2, 3, 4 or 8 cycles. -/
theorem nop_slot_cycles (o : Nat) (h : o < 256) (hnop : mn.get? o = some ("NOP"))
    (h3 : o ≠ 0xA3) (f : Frame) :
    (exec_opcode o f).cycles = f.cycles + 1 ∨ (exec_opcode o f).cycles = f.cycles + 2 ∨
    (exec_opcode o f).cycles = f.cycles + 3 ∨ (exec_opcode o f).cycles = f.cycles + 4 ∨
    (exec_opcode o f).cycles = f.cycles + 8 := by
  have hm := mn_nop_slots o h hnop
  simp only [List.mem_cons, List.mem_singleton, List.not_mem_nil, or_false] at hm
  rcases hm with rfl | rfl | rfl | rfl | rfl | rfl | rfl | rfl | rfl | rfl | rfl | rfl | rfl
    | rfl | rfl | rfl | rfl | rfl | rfl | rfl | rfl | rfl | rfl | rfl | rfl | rfl | rfl | rfl
    | rfl | rfl | rfl | rfl | rfl | rfl | rfl | rfl | rfl | rfl | rfl | rfl | rfl | rfl | rfl
    | rfl | rfl
  · simp [show exec_opcode 0x02 = op_02 from rfl, op_02, Frame.fetch]
  · simp [show exec_opcode 0x03 = op_03 from rfl, op_03, Frame.fetch]
  · simp [show exec_opcode 0x0B = op_0B from rfl, op_0B, Frame.fetch]
  · simp [show exec_opcode 0x13 = op_13 from rfl, op_13, Frame.fetch]
  · simp [show exec_opcode 0x1B = op_1B from rfl, op_1B, Frame.fetch]
  · simp [show exec_opcode 0x22 = op_22 from rfl, op_22, Frame.fetch]
  · simp [show exec_opcode 0x23 = op_23 from rfl, op_23, Frame.fetch]
  · simp [show exec_opcode 0x2B = op_2B from rfl, op_2B, Frame.fetch]
  · simp [show exec_opcode 0x33 = op_33 from rfl, op_33, Frame.fetch]
  · simp [show exec_opcode 0x3B = op_3B from rfl, op_3B, Frame.fetch]
  · simp [show exec_opcode 0x42 = op_42 from rfl, op_42, Frame.fetch]
  · simp [show exec_opcode 0x43 = op_43 from rfl, op_43, Frame.fetch]
  · simp [show exec_opcode 0x44 = op_44 from rfl, op_44, Frame.fetch]
  · simp [show exec_opcode 0x4B = op_4B from rfl, op_4B, Frame.fetch]
  · simp [show exec_opcode 0x53 = op_53 from rfl, op_53, Frame.fetch]
  · simp [show exec_opcode 0x54 = op_54 from rfl, op_54, Frame.fetch]
  · simp [show exec_opcode 0x5B = op_5B from rfl, op_5B, Frame.fetch]
  · simp [show exec_opcode 0x5C = op_5C from rfl, op_5C, Frame.fetch]
  · simp [show exec_opcode 0x62 = op_62 from rfl, op_62, Frame.fetch]
  · simp [show exec_opcode 0x63 = op_63 from rfl, op_63, Frame.fetch]
  · simp [show exec_opcode 0x6B = op_6B from rfl, op_6B, Frame.fetch]
  · simp [show exec_opcode 0x73 = op_73 from rfl, op_73, Frame.fetch]
  · simp [show exec_opcode 0x7B = op_7B from rfl, op_7B, Frame.fetch]
  · simp [show exec_opcode 0x82 = op_82 from rfl, op_82, Frame.fetch]
  · simp [show exec_opcode 0x83 = op_83 from rfl, op_83, Frame.fetch]
  · simp [show exec_opcode 0x8B = op_8B from rfl, op_8B, Frame.fetch]
  · simp [show exec_opcode 0x93 = op_93 from rfl, op_93, Frame.fetch]
  · simp [show exec_opcode 0x9B = op_9B from rfl, op_9B, Frame.fetch]
  · exact absurd rfl h3
  · simp [show exec_opcode 0xAB = op_AB from rfl, op_AB, Frame.fetch]
  · simp [show exec_opcode 0xB3 = op_B3 from rfl, op_B3, Frame.fetch]
  · simp [show exec_opcode 0xBB = op_BB from rfl, op_BB, Frame.fetch]
  · simp [show exec_opcode 0xC2 = op_C2 from rfl, op_C2, Frame.fetch]
  · simp [show exec_opcode 0xC3 = op_C3 from rfl, op_C3, Frame.fetch]
  · simp [show exec_opcode 0xD3 = op_D3 from rfl, op_D3, Frame.fetch]
  · simp [show exec_opcode 0xD4 = op_D4 from rfl, op_D4, Frame.fetch]
  · simp [show exec_opcode 0xDC = op_DC from rfl, op_DC, Frame.fetch]
  · simp [show exec_opcode 0xE2 = op_E2 from rfl, op_E2, Frame.fetch]
  · simp [show exec_opcode 0xE3 = op_E3 from rfl, op_E3, Frame.fetch]
  · simp [show exec_opcode 0xEA = op_EA from rfl, op_EA, Frame.fetch]
  · simp [show exec_opcode 0xEB = op_EB from rfl, op_EB, Frame.fetch]
  · simp [show exec_opcode 0xF3 = op_F3 from rfl, op_F3, Frame.fetch]
  · simp [show exec_opcode 0xF4 = op_F4 from rfl, op_F4, Frame.fetch]
  · simp [show exec_opcode 0xFB = op_FB from rfl, op_FB, Frame.fetch]
  · simp [show exec_opcode 0xFC = op_FC from rfl, op_FC, Frame.fetch]

/-- C9 (what the code does): on a running CPU every opcode other than `0xA3`
makes `puce6502Step` return between 1 and 8 cycles, and 1, 2, 3, 4 or 8 when the
mnemonic table `mn` names the slot `NOP`; opcode `0xA3`, which `mn` also lists as
`NOP`, has no `case` in the `switch` and makes it return 0. -/
theorem puce6502Step_cycles (s : Cpu) (hrun : s.state = status.run ∨ s.state = status.step) :
    (readMem s.RAM s.PC ≠ 0xA3 →
      1 ≤ (puce6502Step s).2 ∧ (puce6502Step s).2 ≤ 8) ∧
    (readMem s.RAM s.PC ≠ 0xA3 → mn.get? (readMem s.RAM s.PC) = some ("NOP") →
      (puce6502Step s).2 = 1 ∨ (puce6502Step s).2 = 2 ∨ (puce6502Step s).2 = 3 ∨
      (puce6502Step s).2 = 4 ∨ (puce6502Step s).2 = 8) ∧
    (readMem s.RAM s.PC = 0xA3 → (puce6502Step s).2 = 0) ∧
    mn.get? 0xA3 = some ("NOP") := by
  refine ⟨?_, ?_, ?_, by decide⟩
  · intro h3
    unfold puce6502Step
    rw [if_pos hrun]
    have hb := exec_opcode_cycles (readMem s.RAM s.PC) (readMem_lt _ _) h3
      { toCpu := { s.fetch [s.PC] with PC := (s.PC + 1) % 65536 },
        address := 0, value8 := 0, value16 := 0, cycles := 0 }
    exact ⟨hb.1, hb.2⟩
  · intro h3 hnop
    unfold puce6502Step
    rw [if_pos hrun]
    have hb := nop_slot_cycles (readMem s.RAM s.PC) (readMem_lt _ _) hnop h3
      { toCpu := { s.fetch [s.PC] with PC := (s.PC + 1) % 65536 },
        address := 0, value8 := 0, value16 := 0, cycles := 0 }
    simp only [Nat.zero_add] at hb
    exact hb
  · intro h3
    rw [step_A3 s hrun h3]

/-- C9 at the failing input: memory full of `0xA3`, `PC = 0`, running. -/
theorem puce6502Step_cycles_witness :
    (a3_example.state = status.run ∨ a3_example.state = status.step) ∧
    readMem a3_example.RAM a3_example.PC = 0xA3 ∧ (puce6502Step a3_example).2 = 0 :=
  ⟨Or.inl rfl, by decide,
    (puce6502Step_cycles a3_example (Or.inl rfl)).2.2.1 (by decide)⟩

theorem exec_loop_A3 (c : Nat) (fuel : Nat) : ∀ s : Cpu,
    s.state = status.run → s.ticks < c → s.ticks < 18446744073709551616 →
    (∀ a, readMem s.RAM a = 0xA3) →
    puce6502Exec_loop c fuel s = none := by
  induction fuel with
  | zero => intro s _ _ _ _; rfl
  | succ n ih =>
    intro s hrun ht hw hram
    unfold puce6502Exec_loop
    rw [if_pos ht, step_A3 s (Or.inl hrun) (hram _)]
    apply ih
    · exact hrun
    · show (s.ticks + 0) % 18446744073709551616 < c
      rw [Nat.add_zero, Nat.mod_eq_of_lt hw]; exact ht
    · exact Nat.mod_lt _ (by decide)
    · exact hram

/-- C8 (what the code does): when every memory byte is `0xA3` (the opcode without
a `case`), the CPU is running and the cycle delta `n` is positive with
`ticks + n < 2^64`, the loop of `puce6502Exec` never exits: whatever the number of
iterations allowed, it has not returned. -/
theorem puce6502Exec_A3_diverges (s : Cpu) (n : Nat) (hrun : s.state = status.run)
    (hn : 0 < n) (hlt : s.ticks + n < 18446744073709551616)
    (hram : ∀ a, readMem s.RAM a = 0xA3) :
    ∀ fuel, puce6502Exec fuel s n = none := by
  intro fuel
  unfold puce6502Exec
  simp only []
  rw [exec_loop_A3 _ fuel s hrun (by rw [Nat.mod_eq_of_lt (by omega)]; omega) (by omega) hram]

theorem a3_example_ram : ∀ a, readMem a3_example.RAM a = 0xA3 := by
  intro a
  simp [a3_example, cpu_at, readMem]

/-- C8 at the failing input: memory full of `0xA3`, `ticks = 0`, `n = 1`. -/
theorem puce6502Exec_A3_diverges_witness :
    a3_example.state = status.run ∧ a3_example.ticks + 1 < 18446744073709551616 ∧
    (∀ a, readMem a3_example.RAM a = 0xA3) ∧
    ∀ fuel, puce6502Exec fuel a3_example 1 = none :=
  ⟨rfl, by decide, a3_example_ram,
    puce6502Exec_A3_diverges a3_example 1 rfl (by decide) (by decide) a3_example_ram⟩

/-! ## Conditional branches -/

theorem and_mul_two_pow (x m k : Nat) : x &&& (m * 2 ^ k) = ((x / 2 ^ k) &&& m) * 2 ^ k := by
  apply Nat.eq_of_testBit_eq
  intro i
  rw [Nat.testBit_and, Nat.mul_comm m, Nat.mul_comm _ (2 ^ k), Nat.testBit_mul_pow_two,
    Nat.testBit_mul_pow_two, Nat.testBit_and, ← Nat.shiftRight_eq_div_pow, Nat.testBit_shiftRight]
  by_cases h : k ≤ i
  · simp [h, Nat.add_sub_cancel' h]
  · simp [h]

theorem and_FF00 (x : Nat) : x &&& 0xFF00 = (x / 256 % 256) * 256 := by
  have h := and_mul_two_pow x 0xFF 8
  have e : (0xFF : Nat) * 2 ^ 8 = 0xFF00 := by norm_num
  have e2 : (2 : Nat) ^ 8 = 256 := by norm_num
  rw [e, and_255, e2] at h
  exact h

theorem and_128 (x : Nat) : x &&& 0x80 = (x / 128 % 2) * 128 := by
  have h := and_mul_two_pow x 1 7
  have e : (1 : Nat) * 2 ^ 7 = 0x80 := by norm_num
  have e2 : (2 : Nat) ^ 7 = 128 := by norm_num
  rw [e, Nat.and_one_is_mod, e2] at h
  exact h

theorem or_FF00 (b : Nat) (h : b < 256) : b ||| 0xFF00 = b + 0xFF00 := by
  interval_cases b <;> rfl

theorem spec_branch_dest_eq (pc1 b : Nat) (hb : b < 256) :
    spec_branch_dest pc1 b = (pc1 + (if 128 ≤ b then b + 0xFF00 else b)) % 65536 := by
  unfold spec_branch_dest signed8
  split_ifs <;> omega
theorem pc_succ_succ (pc : Nat) : ((pc + 1) % 65536 + 1) % 65536 = (pc + 2) % 65536 := by
  omega

/-- The page test made after the sign extension. -/
theorem page_test_after (pc1 b : Nat) (hpc : pc1 < 65536) (hb : b < 256) :
    ((pc1 % 256 + (if 128 ≤ b then b + 0xFF00 else b)) / 256 % 256 * 256 ≠ 0) ↔
      ((pc1 + (if 128 ≤ b then b + 0xFF00 else b)) % 65536 / 256 ≠ pc1 / 256) := by
  obtain ⟨h, l, rfl, hl, hh⟩ : ∃ h l, pc1 = 256 * h + l ∧ l < 256 ∧ h < 256 :=
    ⟨pc1 / 256, pc1 % 256, by omega, by omega, by omega⟩
  split_ifs <;> omega

/-- The page test made before the sign extension. -/
theorem page_test_before (pc1 b : Nat) (hb : b < 256) :
    ((pc1 % 256 + b) / 256 % 256 * 256 ≠ 0) ↔ (256 ≤ pc1 % 256 + b) := by
  omega

theorem step_opcode (s : Cpu) (hrun : s.state = status.run ∨ s.state = status.step) (o : Nat)
    (hop : readMem s.RAM s.PC = o) :
    puce6502Step s =
      ((exec_opcode o (Frame.mk { (s.fetch [s.PC]) with PC := (s.PC + 1) % 65536 } 0 0 0 0)).toCpu,
       (exec_opcode o (Frame.mk { (s.fetch [s.PC]) with PC := (s.PC + 1) % 65536 } 0 0 0 0)).cycles) := by
  unfold puce6502Step
  rw [if_pos hrun]
  simp only [hop]
  rfl

theorem op_10_eq (f : Frame) : op_10 f = rel_sign_then_page (!f.P.S) f := rfl
theorem op_30_eq (f : Frame) : op_30 f = rel_sign_then_page f.P.S f := rfl
theorem op_50_eq (f : Frame) : op_50 f = rel_sign_then_page (!f.P.V) f := rfl
theorem op_70_eq (f : Frame) : op_70 f = rel_page_then_sign f.P.V f := rfl
theorem op_90_eq (f : Frame) : op_90 f = rel_page_then_sign (!f.P.C) f := rfl
theorem op_B0_eq (f : Frame) : op_B0 f = rel_sign_then_page f.P.C f := rfl
theorem op_D0_eq (f : Frame) : op_D0 f = rel_sign_then_page (!f.P.Z) f := rfl
theorem op_F0_eq (f : Frame) : op_F0 f = rel_sign_then_page f.P.Z f := rfl

/-- The six `case`s that sign-extend first: destination and cost are those of the
specification. -/
theorem rel_sign_then_page_spec (taken : Bool) (f : Frame) :
    (rel_sign_then_page taken f).PC =
      (if taken then spec_branch_dest ((f.PC + 1) % 65536) (readMem f.RAM f.PC)
       else (f.PC + 1) % 65536) ∧
    (rel_sign_then_page taken f).cycles = f.cycles +
      spec_branch_cost taken ((f.PC + 1) % 65536)
        (spec_branch_dest ((f.PC + 1) % 65536) (readMem f.RAM f.PC)) := by
  have hb := readMem_lt f.RAM f.PC
  have hpt := page_test_after ((f.PC + 1) % 65536) (readMem f.RAM f.PC)
    (Nat.mod_lt _ (by norm_num)) hb
  rw [spec_branch_dest_eq _ _ hb]
  simp only [rel_sign_then_page, Frame.fetch, spec_branch_cost,
    Nat.mod_eq_of_lt (Nat.lt_trans hb (show 256 < 65536 by norm_num)), and_128, SIGN]
  generalize readMem f.RAM f.PC = b at hb hpt ⊢
  have hor := or_FF00 b hb
  have hm : (b + 65280) % 65536 = b + 65280 := Nat.mod_eq_of_lt (by omega)
  cases taken
  · simp
  · simp only [if_true]
    by_cases h128 : 128 ≤ b
    · have hs : b / 128 % 2 * 128 ≠ 0 := by omega
      simp only [hs, h128, ne_eq, not_false_eq_true, if_true, hor, and_255, and_FF00, hm]
        at hpt ⊢
      by_cases hp : ((f.PC + 1) % 65536 + (b + 65280)) % 65536 / 256 = (f.PC + 1) % 65536 / 256
      · have hc : ((f.PC + 1) % 65536 % 256 + (b + 65280)) / 256 % 256 * 256 = 0 := by
          by_contra hA
          exact (hpt.mp hA) hp
        simp only [hc, hp, not_true_eq_false, if_false, if_true]
        exact ⟨trivial, trivial⟩
      · have hc := hpt.mpr hp
        simp only [hc, hp, not_false_eq_true, if_false, if_true]
        exact ⟨trivial, trivial⟩
    · have hs : b / 128 % 2 * 128 = 0 := by omega
      simp only [hs, h128, ne_eq, not_true_eq_false, if_false, and_255, and_FF00] at hpt ⊢
      by_cases hp : ((f.PC + 1) % 65536 + b) % 65536 / 256 = (f.PC + 1) % 65536 / 256
      · have hc : ((f.PC + 1) % 65536 % 256 + b) / 256 % 256 * 256 = 0 := by
          by_contra hA
          exact (hpt.mp hA) hp
        simp only [hc, hp, not_true_eq_false, if_false, if_true]
        exact ⟨trivial, trivial⟩
      · have hc := hpt.mpr hp
        simp only [hc, hp, not_false_eq_true, if_false, if_true]
        exact ⟨trivial, trivial⟩

/-- The two `case`s (BVS, BCC) that make the page test first: the destination is
that of the specification, the extra cycle is charged when the low byte of the
address after the instruction plus the UNSIGNED offset byte carries. -/
theorem rel_page_then_sign_spec (taken : Bool) (f : Frame) :
    (rel_page_then_sign taken f).PC =
      (if taken then spec_branch_dest ((f.PC + 1) % 65536) (readMem f.RAM f.PC)
       else (f.PC + 1) % 65536) ∧
    (rel_page_then_sign taken f).cycles = f.cycles +
      (if taken then
        (if 256 ≤ (f.PC + 1) % 65536 % 256 + readMem f.RAM f.PC then 4 else 3)
       else 2) := by
  have hb := readMem_lt f.RAM f.PC
  have hpt := page_test_before ((f.PC + 1) % 65536) (readMem f.RAM f.PC) hb
  rw [spec_branch_dest_eq _ _ hb]
  simp only [rel_page_then_sign, Frame.fetch,
    Nat.mod_eq_of_lt (Nat.lt_trans hb (show 256 < 65536 by norm_num)), and_128, SIGN,
    and_255, and_FF00]
  generalize readMem f.RAM f.PC = b at hb hpt ⊢
  have hor := or_FF00 b hb
  have hm : (b + 65280) % 65536 = b + 65280 := Nat.mod_eq_of_lt (by omega)
  cases taken
  · simp
  · simp only [if_true]
    by_cases hp : 256 ≤ (f.PC + 1) % 65536 % 256 + b
    · have hc := hpt.mpr hp
      by_cases h128 : 128 ≤ b
      · have hs : b / 128 % 2 * 128 ≠ 0 := by omega
        simp only [hc, hs, hp, h128, ne_eq, not_false_eq_true, if_true, hor, hm]
        exact ⟨trivial, trivial⟩
      · have hs : b / 128 % 2 * 128 = 0 := by omega
        simp only [hc, hs, hp, h128, ne_eq, not_false_eq_true, not_true_eq_false, if_true,
          if_false]
        exact ⟨trivial, trivial⟩
    · have hc : ((f.PC + 1) % 65536 % 256 + b) / 256 % 256 * 256 = 0 := by
        by_contra hA
        exact hp (hpt.mp hA)
      by_cases h128 : 128 ≤ b
      · have hs : b / 128 % 2 * 128 ≠ 0 := by omega
        simp only [hc, hs, hp, h128, ne_eq, not_false_eq_true, not_true_eq_false, if_true,
          if_false, hor, hm]
        exact ⟨trivial, trivial⟩
      · have hs : b / 128 % 2 * 128 = 0 := by omega
        simp only [hc, hs, hp, h128, ne_eq, not_true_eq_false, if_false]
        exact ⟨trivial, trivial⟩

/-- For a backward offset the carry of the unsigned addition tells that the
destination stays in the page. -/
theorem backward_carry_same_page (pc1 b : Nat) (hpc : pc1 < 65536) (hb : b < 256)
    (h128 : 128 ≤ b) :
    (256 ≤ pc1 % 256 + b) ↔ (spec_branch_dest pc1 b / 256 = pc1 / 256) := by
  rw [spec_branch_dest_eq _ _ hb, if_pos h128]
  obtain ⟨h, l, rfl, hl, hh⟩ : ∃ h l, pc1 = 256 * h + l ∧ l < 256 ∧ h < 256 :=
    ⟨pc1 / 256, pc1 % 256, by omega, by omega, by omega⟩
  omega

/-- For a forward offset the carry tells that the destination leaves the page. -/
theorem forward_carry_other_page (pc1 b : Nat) (hpc : pc1 < 65536) (hb : b < 128) :
    (256 ≤ pc1 % 256 + b) ↔ ¬ (spec_branch_dest pc1 b / 256 = pc1 / 256) := by
  rw [spec_branch_dest_eq _ _ (by omega), if_neg (by omega)]
  obtain ⟨h, l, rfl, hl, hh⟩ : ∃ h l, pc1 = 256 * h + l ∧ l < 256 ∧ h < 256 :=
    ⟨pc1 / 256, pc1 % 256, by omega, by omega, by omega⟩
  omega

theorem page_then_sign_cost (taken : Bool) (pc1 b : Nat) (hpc : pc1 < 65536) (hb : b < 256) :
    (if taken then (if 256 ≤ pc1 % 256 + b then 4 else 3) else 2) =
      (if 128 ≤ b ∧ taken = true then
        (if spec_branch_dest pc1 b / 256 = pc1 / 256 then 4 else 3)
       else spec_branch_cost taken pc1 (spec_branch_dest pc1 b)) := by
  unfold spec_branch_cost
  cases taken
  · simp
  · by_cases h128 : 128 ≤ b
    · have h := backward_carry_same_page pc1 b hpc hb h128
      by_cases hp : 256 ≤ pc1 % 256 + b
      · simp [h128, hp, h.mp hp]
      · have hd : ¬ (spec_branch_dest pc1 b / 256 = pc1 / 256) := fun hd => hp (h.mpr hd)
        simp [h128, hp, hd]
    · have h := forward_carry_other_page pc1 b hpc (by omega)
      by_cases hp : 256 ≤ pc1 % 256 + b
      · simp [h128, hp, h.mp hp]
      · have hd : spec_branch_dest pc1 b / 256 = pc1 / 256 := by
          by_contra hd
          exact hp (h.mpr hd)
        simp [h128, hp, hd]

/-- C10 (what the code does): for each of the eight conditional branches the step
leaves `PC` at the address after the instruction when the condition is false and
at that address plus the sign-extended offset when it is true.  The cost is 2, 3
(same page) or 4 (other page) as specified, EXCEPT for a taken backward branch
of BVS (`0x70`) or BCC (`0x90`), where the page test is made before the sign
extension: there the step costs 4 cycles when the target is in the same page and
3 when it is in another page. -/
theorem rel_branch_step (s : Cpu) (hrun : s.state = status.run ∨ s.state = status.step)
    (o : Nat)
    (ho : o = 0x10 ∨ o = 0x30 ∨ o = 0x50 ∨ o = 0x70 ∨ o = 0x90 ∨ o = 0xB0 ∨ o = 0xD0 ∨ o = 0xF0)
    (hop : readMem s.RAM s.PC = o) :
    (puce6502Step s).1.PC =
      (if branch_taken o s.P then
        spec_branch_dest ((s.PC + 2) % 65536) (readMem s.RAM (s.PC + 1))
       else (s.PC + 2) % 65536) ∧
    (puce6502Step s).2 =
      (if (o = 0x70 ∨ o = 0x90) ∧ 128 ≤ readMem s.RAM (s.PC + 1) ∧ branch_taken o s.P = true then
        (if spec_branch_dest ((s.PC + 2) % 65536) (readMem s.RAM (s.PC + 1)) / 256 =
            (s.PC + 2) % 65536 / 256 then 4 else 3)
       else spec_branch_cost (branch_taken o s.P) ((s.PC + 2) % 65536)
        (spec_branch_dest ((s.PC + 2) % 65536) (readMem s.RAM (s.PC + 1)))) := by
  have hb := readMem_lt s.RAM (s.PC + 1)
  have hpc : (s.PC + 2) % 65536 < 65536 := Nat.mod_lt _ (by norm_num)
  rcases ho with rfl | rfl | rfl | rfl | rfl | rfl | rfl | rfl
  · rw [step_opcode s hrun _ hop, show exec_opcode 0x10 = op_10 from rfl, op_10_eq]
    have h := rel_sign_then_page_spec (!s.P.S)
      (Frame.mk { (s.fetch [s.PC]) with PC := (s.PC + 1) % 65536 } 0 0 0 0)
    simp only [Cpu.fetch, pc_succ_succ, readMem_mod, Nat.zero_add] at h
    have hno : ¬ ((0x10 : Nat) = 0x70 ∨ (0x10 : Nat) = 0x90) := by decide
    simp only [hno, false_and, if_false]
    exact h
  · rw [step_opcode s hrun _ hop, show exec_opcode 0x30 = op_30 from rfl, op_30_eq]
    have h := rel_sign_then_page_spec (s.P.S)
      (Frame.mk { (s.fetch [s.PC]) with PC := (s.PC + 1) % 65536 } 0 0 0 0)
    simp only [Cpu.fetch, pc_succ_succ, readMem_mod, Nat.zero_add] at h
    have hno : ¬ ((0x30 : Nat) = 0x70 ∨ (0x30 : Nat) = 0x90) := by decide
    simp only [hno, false_and, if_false]
    exact h
  · rw [step_opcode s hrun _ hop, show exec_opcode 0x50 = op_50 from rfl, op_50_eq]
    have h := rel_sign_then_page_spec (!s.P.V)
      (Frame.mk { (s.fetch [s.PC]) with PC := (s.PC + 1) % 65536 } 0 0 0 0)
    simp only [Cpu.fetch, pc_succ_succ, readMem_mod, Nat.zero_add] at h
    have hno : ¬ ((0x50 : Nat) = 0x70 ∨ (0x50 : Nat) = 0x90) := by decide
    simp only [hno, false_and, if_false]
    exact h
  · rw [step_opcode s hrun _ hop, show exec_opcode 0x70 = op_70 from rfl, op_70_eq]
    have h := rel_page_then_sign_spec (s.P.V)
      (Frame.mk { (s.fetch [s.PC]) with PC := (s.PC + 1) % 65536 } 0 0 0 0)
    simp only [Cpu.fetch, pc_succ_succ, readMem_mod, Nat.zero_add] at h
    rw [page_then_sign_cost _ _ _ hpc hb] at h
    simp only [true_or, or_true, true_and]
    exact h
  · rw [step_opcode s hrun _ hop, show exec_opcode 0x90 = op_90 from rfl, op_90_eq]
    have h := rel_page_then_sign_spec (!s.P.C)
      (Frame.mk { (s.fetch [s.PC]) with PC := (s.PC + 1) % 65536 } 0 0 0 0)
    simp only [Cpu.fetch, pc_succ_succ, readMem_mod, Nat.zero_add] at h
    rw [page_then_sign_cost _ _ _ hpc hb] at h
    simp only [true_or, or_true, true_and]
    exact h
  · rw [step_opcode s hrun _ hop, show exec_opcode 0xB0 = op_B0 from rfl, op_B0_eq]
    have h := rel_sign_then_page_spec (s.P.C)
      (Frame.mk { (s.fetch [s.PC]) with PC := (s.PC + 1) % 65536 } 0 0 0 0)
    simp only [Cpu.fetch, pc_succ_succ, readMem_mod, Nat.zero_add] at h
    have hno : ¬ ((0xB0 : Nat) = 0x70 ∨ (0xB0 : Nat) = 0x90) := by decide
    simp only [hno, false_and, if_false]
    exact h
  · rw [step_opcode s hrun _ hop, show exec_opcode 0xD0 = op_D0 from rfl, op_D0_eq]
    have h := rel_sign_then_page_spec (!s.P.Z)
      (Frame.mk { (s.fetch [s.PC]) with PC := (s.PC + 1) % 65536 } 0 0 0 0)
    simp only [Cpu.fetch, pc_succ_succ, readMem_mod, Nat.zero_add] at h
    have hno : ¬ ((0xD0 : Nat) = 0x70 ∨ (0xD0 : Nat) = 0x90) := by decide
    simp only [hno, false_and, if_false]
    exact h
  · rw [step_opcode s hrun _ hop, show exec_opcode 0xF0 = op_F0 from rfl, op_F0_eq]
    have h := rel_sign_then_page_spec (s.P.Z)
      (Frame.mk { (s.fetch [s.PC]) with PC := (s.PC + 1) % 65536 } 0 0 0 0)
    simp only [Cpu.fetch, pc_succ_succ, readMem_mod, Nat.zero_add] at h
    have hno : ¬ ((0xF0 : Nat) = 0x70 ∨ (0xF0 : Nat) = 0x90) := by decide
    simp only [hno, false_and, if_false]
    exact h

/-- C10 at the failing input: `BCC $FE` at `0x100E` with the carry clear branches
from `0x1010` back to `0x100E`, in the same page, and costs 4 cycles. -/
theorem rel_branch_step_witness :
    readMem bcc_example.RAM bcc_example.PC = 0x90 ∧
    (puce6502Step bcc_example).1.PC = 0x100E ∧ (puce6502Step bcc_example).2 = 4 := by
  have h := rel_branch_step bcc_example (Or.inl rfl) 0x90 (by decide) (by decide)
  refine ⟨by decide, ?_, ?_⟩
  · rw [h.1]; decide
  · rw [h.2]; decide

/-- The same backward branch within the page costs 3 cycles with `BNE` and 4 with
`BVS`. -/
theorem rel_branch_examples :
    (puce6502Step bne_example).1.PC = 0x100E ∧ (puce6502Step bne_example).2 = 3 ∧
    (puce6502Step bvs_example).1.PC = 0x100E ∧ (puce6502Step bvs_example).2 = 4 := by
  decide

/-! ## Decimal mode of `ADC` and `SBC` -/

theorem bcd_encode_value (a : Nat) (h : bcd_valid a) :
    bcd_encode (bcd_value a) = a ∧ bcd_value a < 100 := by
  unfold bcd_valid at h
  unfold bcd_encode bcd_value
  omega

set_option maxRecDepth 1000000 in
theorem adc_dec_arith : ∀ x, x < 100 → ∀ y, y < 100 → ∀ c, c < 2 →
    (adc_dec_value16 (bcd_encode x) (bcd_encode y) c &&& 0xFF) % 256
        = bcd_encode ((x + y + c) % 100) ∧
    (adc_dec_value16 (bcd_encode x) (bcd_encode y) c > 0xFF ↔ 100 ≤ x + y + c) := by
  decide!

set_option maxRecDepth 1000000 in
/-- For a valid BCD operand, `value8 ^= 0xFF; value8 -= 0x0066;` leaves the BCD
encoding of its nines' complement. -/
theorem sbc_dec_value8_complement : ∀ y, y < 100 →
    sbc_dec_value8 (bcd_encode y) = bcd_encode (99 - y) := by
  decide!

theorem sbc_dec_arith (x : Nat) (hx : x < 100) (y : Nat) (hy : y < 100) (c : Nat) (hc : c < 2) :
    (adc_dec_value16 (bcd_encode x) (sbc_dec_value8 (bcd_encode y)) c &&& 0xFF) % 256
        = bcd_encode ((x + 100 - y - (1 - c)) % 100) ∧
    (adc_dec_value16 (bcd_encode x) (sbc_dec_value8 (bcd_encode y)) c > 0xFF
      ↔ y + (1 - c) ≤ x) := by
  rw [sbc_dec_value8_complement y hy]
  have h := adc_dec_arith x hx (99 - y) (by omega) c hc
  rw [show (x + 100 - y - (1 - c)) % 100 = (x + (99 - y) + c) % 100 by omega,
    show (y + (1 - c) ≤ x) ↔ (100 ≤ x + (99 - y) + c) by omega]
  exact h

/-- C11: `ADC #imm` (opcode `0x69`) with the Decimal flag set, on valid BCD bytes
`a` (in `A`) and `m` (the operand) standing for `x` and `y`, and carry-in `c`:
`A` becomes the BCD encoding of `(x + y + c) mod 100` and Carry tells whether
`x + y + c >= 100`. -/
theorem adc_imm_decimal (s : Cpu) (hrun : s.state = status.run ∨ s.state = status.step)
    (hop : readMem s.RAM s.PC = 0x69) (hD : s.P.D = true)
    (ha : bcd_valid s.A) (hm : bcd_valid (readMem s.RAM (s.PC + 1))) :
    (puce6502Step s).1.A
      = bcd_encode ((bcd_value s.A + bcd_value (readMem s.RAM (s.PC + 1)) + s.P.C.toNat) % 100) ∧
    ((puce6502Step s).1.P.C = true ↔
      100 ≤ bcd_value s.A + bcd_value (readMem s.RAM (s.PC + 1)) + s.P.C.toNat) := by
  obtain ⟨ea, hx⟩ := bcd_encode_value _ ha
  obtain ⟨em, hy⟩ := bcd_encode_value _ hm
  have hc : s.P.C.toNat < 2 := by cases s.P.C <;> decide
  have h := adc_dec_arith _ hx _ hy _ hc
  rw [ea, em] at h
  rw [step_opcode s hrun _ hop, show exec_opcode 0x69 = op_69 from rfl]
  have hb := readMem_lt s.RAM (s.PC + 1)
  simp only [op_69, Frame.fetch, Cpu.fetch, readMem_mod, hD, if_true,
    Nat.mod_eq_of_lt hb, decide_eq_true_eq]
  exact h

/-- C11 at `a = 0x09`, `m = 0x01`, `c = 0`: `A = 0x10` and `C = 0`. -/
theorem adc_imm_decimal_witness :
    (puce6502Step adc_dec_example).1.A = 0x10 ∧ (puce6502Step adc_dec_example).1.P.C = false := by
  have h := adc_imm_decimal adc_dec_example (Or.inl rfl) (by decide) (by decide) (by decide)
    (by decide)
  refine ⟨by rw [h.1]; decide, ?_⟩
  cases hC : (puce6502Step adc_dec_example).1.P.C
  · rfl
  · exact absurd (h.2.mp hC) (by decide)

/-- C12: `SBC #imm` (opcode `0xE9`) with the Decimal flag set, on valid BCD bytes
`a` (in `A`) and `m` (the operand) standing for `x` and `y`, and carry-in `c`:
`A` becomes the BCD encoding of `(x - y - (1 - c)) mod 100` and Carry tells
whether `x - y - (1 - c) >= 0` (no borrow). -/
theorem sbc_imm_decimal (s : Cpu) (hrun : s.state = status.run ∨ s.state = status.step)
    (hop : readMem s.RAM s.PC = 0xE9) (hD : s.P.D = true)
    (ha : bcd_valid s.A) (hm : bcd_valid (readMem s.RAM (s.PC + 1))) :
    (puce6502Step s).1.A
      = bcd_encode ((((bcd_value s.A : Int) - bcd_value (readMem s.RAM (s.PC + 1))
          - (1 - s.P.C.toNat)) % 100).toNat) ∧
    ((puce6502Step s).1.P.C = true ↔
      0 ≤ (bcd_value s.A : Int) - bcd_value (readMem s.RAM (s.PC + 1)) - (1 - s.P.C.toNat)) := by
  obtain ⟨ea, hx⟩ := bcd_encode_value _ ha
  obtain ⟨em, hy⟩ := bcd_encode_value _ hm
  have hc : s.P.C.toNat < 2 := by cases s.P.C <;> decide
  have h := sbc_dec_arith _ hx _ hy _ hc
  rw [ea, em] at h
  rw [step_opcode s hrun _ hop, show exec_opcode 0xE9 = op_E9 from rfl]
  have hb := readMem_lt s.RAM (s.PC + 1)
  simp only [op_E9, Frame.fetch, Cpu.fetch, readMem_mod, hD, if_true,
    Nat.mod_eq_of_lt hb, decide_eq_true_eq]
  have e1 : ((((bcd_value s.A : Int) - bcd_value (readMem s.RAM (s.PC + 1))
      - (1 - s.P.C.toNat)) % 100).toNat)
      = (bcd_value s.A + 100 - bcd_value (readMem s.RAM (s.PC + 1)) - (1 - s.P.C.toNat)) % 100 := by
    omega
  have e2 : (0 ≤ (bcd_value s.A : Int) - bcd_value (readMem s.RAM (s.PC + 1))
      - (1 - s.P.C.toNat)) ↔ bcd_value (readMem s.RAM (s.PC + 1)) + (1 - s.P.C.toNat)
        ≤ bcd_value s.A := by
    omega
  rw [e1, e2]
  exact h

/-- C12 at `a = 0x10`, `m = 0x01`, `c = 1`: `10 - 1 = 9`, no borrow. -/
theorem sbc_imm_decimal_witness :
    (puce6502Step sbc_dec_example).1.A = 0x09 ∧ (puce6502Step sbc_dec_example).1.P.C = true := by
  have h := sbc_imm_decimal sbc_dec_example (Or.inl rfl) (by decide) (by decide) (by decide)
    (by decide)
  exact ⟨by rw [h.1]; decide, h.2.mpr (by decide)⟩

/-! ## Reset -/

theorem lohi_or_eq_add (lo hi : Nat) (h : lo < 256) : lo ||| (hi <<< 8) = lo + 256 * hi := by
  have h2 := Nat.mul_add_lt_is_or (show lo < 2 ^ 8 by omega) hi
  rw [Nat.or_comm, Nat.shiftLeft_eq, Nat.mul_comm hi, ← h2]
  omega

/-- C13: `puce6502RST` loads `PC` from the little-endian pair at `0xFFFC/0xFFFD`,
sets `SP = 0xFD`, sets the flags `I` and `U`, sets the run-state to running and
adds 7 to the cycle counter (an `unsigned long long`); it only reads memory (the
two vector bytes) and leaves `A`, `X`, `Y` and the six other flags as they are. -/
theorem puce6502RST_spec (s : Cpu) :
    (puce6502RST s).PC = readMem s.RAM 0xFFFC + 256 * readMem s.RAM 0xFFFD ∧
    (puce6502RST s).SP = 0xFD ∧
    (puce6502RST s).P = { s.P with I := true, U := true } ∧
    (puce6502RST s).state = status.run ∧
    (puce6502RST s).ticks = (s.ticks + 7) % 18446744073709551616 ∧
    (s.ticks + 7 < 18446744073709551616 → (puce6502RST s).ticks = s.ticks + 7) ∧
    (puce6502RST s).RAM = s.RAM ∧
    (puce6502RST s).bus = s.bus ++ [BusOp.read 0xFFFC, BusOp.read 0xFFFD] ∧
    (puce6502RST s).A = s.A ∧ (puce6502RST s).X = s.X ∧ (puce6502RST s).Y = s.Y := by
  have h1 := readMem_lt s.RAM 0xFFFC
  have h2 := readMem_lt s.RAM 0xFFFD
  refine ⟨?_, rfl, rfl, rfl, rfl, ?_, rfl, rfl, rfl, rfl, rfl⟩
  · show (readMem s.RAM 0xFFFC ||| (readMem s.RAM 0xFFFD <<< 8)) % 65536 = _
    rw [lohi_or_eq_add _ _ h1]
    omega
  · intro h
    show (s.ticks + 7) % 18446744073709551616 = _
    exact Nat.mod_eq_of_lt h

/-! ## `STP`, the interrupts and the run-state -/

theorem run_calls_append (a b : List CpuCall) (s : Cpu) :
    run_calls (a ++ b) s = run_calls b (run_calls a s) := by
  simp [run_calls, List.foldl_append]

theorem puce6502IRQ_state (s : Cpu) : (puce6502IRQ s).state = status.run := by
  unfold puce6502IRQ
  simp only []
  split <;> rfl

theorem puce6502NMI_state (s : Cpu) : (puce6502NMI s).state = status.run := rfl

theorem step_stopped (s : Cpu) (h : s.state = status.stop) : puce6502Step s = (s, 2) := by
  unfold puce6502Step
  rw [if_neg (by rw [h]; decide)]

theorem run_steps_stopped (s : Cpu) (h : s.state = status.stop) (n : Nat) :
    run_calls (List.replicate n CpuCall.step) s = s := by
  induction n with
  | zero => rfl
  | succ n ih =>
    rw [List.replicate_succ, run_calls, List.foldl_cons]
    have e : CpuCall.step.apply s = s := by
      show (puce6502Step s).1 = s
      rw [step_stopped s h]
    rw [e]
    exact ih

/-- C22: `STP` (opcode `0xDB`) costs 3 cycles and sets the run-state to `stop`;
any number of `puce6502Step` calls then changes nothing (each costs 2 cycles);
a `puce6502IRQ` or a `puce6502NMI` call, after any sequence of calls, leaves the
run-state at `run`, as `puce6502RST` does. -/
theorem stp_resumed_by_interrupt (s : Cpu) (hrun : s.state = status.run ∨ s.state = status.step)
    (hop : readMem s.RAM s.PC = 0xDB) :
    (puce6502Step s).1.state = status.stop ∧ (puce6502Step s).2 = 3 ∧
    (∀ n, run_calls (List.replicate n CpuCall.step) (puce6502Step s).1 = (puce6502Step s).1) ∧
    puce6502Step (puce6502Step s).1 = ((puce6502Step s).1, 2) ∧
    (∀ calls, (run_calls (calls ++ [CpuCall.irq]) (puce6502Step s).1).state = status.run) ∧
    (∀ calls, (run_calls (calls ++ [CpuCall.nmi]) (puce6502Step s).1).state = status.run) ∧
    (puce6502RST (puce6502Step s).1).state = status.run := by
  have h1 : (puce6502Step s).1.state = status.stop := by
    rw [step_opcode s hrun _ hop]; rfl
  refine ⟨h1, ?_, fun n => run_steps_stopped _ h1 n, step_stopped _ h1, ?_, ?_, rfl⟩
  · rw [step_opcode s hrun _ hop]; rfl
  · intro calls
    rw [run_calls_append]
    exact puce6502IRQ_state _
  · intro calls
    rw [run_calls_append]
    exact puce6502NMI_state _

/-- C22 on `stp_example`: stopped after the `STP`, running again after one
`puce6502IRQ` call and after one `puce6502NMI` call. -/
theorem stp_resumed_by_interrupt_witness :
    (puce6502Step stp_example).1.state = status.stop ∧
    (run_calls [CpuCall.irq] (puce6502Step stp_example).1).state = status.run ∧
    (run_calls [CpuCall.nmi] (puce6502Step stp_example).1).state = status.run :=
  have h := stp_resumed_by_interrupt stp_example (Or.inl rfl) (by decide)
  ⟨h.1, h.2.2.2.2.1 [], h.2.2.2.2.2.1 []⟩

/-- C22, counterexample: after the `STP` of `stp_example` the run-state is `stop`;
one `puce6502IRQ` call and one `puce6502NMI` call each leave it at `run`, and the
`puce6502Step` call after the `puce6502IRQ` call executes an instruction again (the
`BRK` behind the `STP`, 7 cycles) instead of idling for 2 cycles. -/
theorem stp_example_resumed :
    (puce6502Step stp_example).1.state = status.stop ∧
    (puce6502IRQ (puce6502Step stp_example).1).state ≠ status.stop ∧
    (puce6502NMI (puce6502Step stp_example).1).state ≠ status.stop ∧
    (puce6502IRQ (puce6502Step stp_example).1).PC = 0x1001 ∧
    (puce6502Step (puce6502IRQ (puce6502Step stp_example).1)).2 = 7 := by
  decide

/-! ## The `U` bit after `PLP` and `RTI` -/

theorem or_UNDEF_bit (x : Nat) : (x ||| 0x20) % 256 / 32 % 2 = 1 := by
  have h : ((x ||| 0x20) % 256 / 32 % 2 = 1) ↔ ((x ||| 0x20).testBit 5 = true) := by
    rw [Nat.testBit, Nat.shiftRight_eq_div_pow]
    simp only [Nat.one_and_eq_mod_two, bne_iff_ne, ne_eq]
    omega
  rw [h, Nat.testBit_or, show Nat.testBit 0x20 5 = true by decide, Bool.or_true]

/-- C24: after `PLP` (opcode `0x28`) the `U` bit is set whatever byte was pulled;
after `RTI` (opcode `0x40`) the flags are exactly the bits of the byte pulled from
`0x100 + (SP + 1) mod 256`, so `U` is bit 5 of that byte. -/
theorem plp_rti_undef (s : Cpu) (hrun : s.state = status.run ∨ s.state = status.step) :
    (readMem s.RAM s.PC = 0x28 → (puce6502Step s).1.P.U = true) ∧
    (readMem s.RAM s.PC = 0x40 →
      (puce6502Step s).1.P = Flags.ofByte (readMem s.RAM (0x100 + (s.SP + 1) % 256)) ∧
      ((puce6502Step s).1.P.U = true ↔
        readMem s.RAM (0x100 + (s.SP + 1) % 256) / 32 % 2 = 1)) := by
  constructor
  · intro hop
    rw [step_opcode s hrun _ hop, show exec_opcode 0x28 = op_28 from rfl]
    simp only [op_28, Frame.fetch, Cpu.fetch, Flags.ofByte, or_UNDEF_bit, decide_True]
  · intro hop
    rw [step_opcode s hrun _ hop, show exec_opcode 0x40 = op_40 from rfl]
    have hb := readMem_lt s.RAM (0x100 + (s.SP + 1) % 256)
    simp only [op_40, Frame.fetch, Cpu.fetch, Nat.mod_eq_of_lt hb, Flags.ofByte,
      decide_eq_true_eq, and_self]

/-- C24 on `plp_example` and `rti_example`, where the byte pulled is `0x00`: `U` is
set after `PLP` and clear after `RTI`. -/
theorem plp_rti_undef_witness :
    (puce6502Step plp_example).1.P.U = true ∧ (puce6502Step rti_example).1.P.U = false := by
  refine ⟨(plp_rti_undef plp_example (Or.inl rfl)).1 (by decide), ?_⟩
  have h := ((plp_rti_undef rti_example (Or.inl rfl)).2 (by decide)).1
  rw [h]
  decide

/-! ## The cost of the indexed stores -/

/-- C30: `STA abs,X` (`0x9D`) and `STA abs,Y` (`0x99`) cost 5 cycles and
`STA (zp),Y` (`0x91`) costs 6, whatever the operand and the index; `STZ abs,X`
(`0x9E`) costs 5 cycles when the low operand byte plus `X` is at most `0xFF` and 6
when it is larger. -/
theorem indexed_store_cycles (s : Cpu) (hrun : s.state = status.run ∨ s.state = status.step) :
    (readMem s.RAM s.PC = 0x9D → (puce6502Step s).2 = 5) ∧
    (readMem s.RAM s.PC = 0x99 → (puce6502Step s).2 = 5) ∧
    (readMem s.RAM s.PC = 0x91 → (puce6502Step s).2 = 6) ∧
    (readMem s.RAM s.PC = 0x9E →
      (puce6502Step s).2 = if readMem s.RAM (s.PC + 1) + s.X > 0xFF then 6 else 5) := by
  refine ⟨?_, ?_, ?_, ?_⟩
  · intro hop
    rw [step_opcode s hrun _ hop]; rfl
  · intro hop
    rw [step_opcode s hrun _ hop]; rfl
  · intro hop
    rw [step_opcode s hrun _ hop]; rfl
  · intro hop
    rw [step_opcode s hrun _ hop, show exec_opcode 0x9E = op_9E from rfl]
    simp only [op_9E, Frame.fetch, Frame.store, Cpu.fetch, readMem_mod, Nat.zero_add]

/-- C30 on `STZ $10FF,X`: 5 cycles with `X = 0`, 6 cycles with `X = 1`. -/
theorem indexed_store_cycles_witness :
    (puce6502Step (stz_abx_example 0)).2 = 5 ∧ (puce6502Step (stz_abx_example 1)).2 = 6 := by
  have h0 := (indexed_store_cycles (stz_abx_example 0) (Or.inl rfl)).2.2.2 (by decide)
  have h1 := (indexed_store_cycles (stz_abx_example 1) (Or.inl rfl)).2.2.2 (by decide)
  rw [h0, h1]
  exact ⟨by decide, by decide⟩

/-! ## Stack accesses -/

theorem sub32_one_mod (x : Nat) (h : x < 256) : sub32 x 1 % 256 = (x + 255) % 256 := by
  unfold sub32
  omega

theorem stack_address_mod (x : Nat) : (0x100 + x % 256) % 65536 = 0x100 + x % 256 := by
  omega

/-- C23: the memory calls of the stack instructions, after the reads of the
opcode and of the operand bytes. A push (`PHA`, `PHX`, `PHY`, `PHP`, and the pushes
of `JSR` and `BRK`) writes at `0x100 + SP` and then `SP` becomes
`(SP - 1) mod 256`; a pull (`PLA`, `PLX`, `PLY`, `PLP`, and the pulls of `RTS` and
`RTI`) reads at `0x100 + (SP + 1) mod 256`, the new `SP`. -/
theorem stack_accesses (s : Cpu) (hrun : s.state = status.run ∨ s.state = status.step)
    (hsp : s.SP < 256) :
    (readMem s.RAM s.PC = 0x48 →
      (puce6502Step s).1.bus = s.bus ++ [BusOp.read (s.PC % 65536),
        BusOp.write (0x100 + s.SP) (s.A % 256)] ∧
      (puce6502Step s).1.SP = (s.SP + 255) % 256 ∧
      readMem (puce6502Step s).1.RAM (0x100 + s.SP) = s.A % 256) ∧
    (readMem s.RAM s.PC = 0xDA →
      (puce6502Step s).1.bus = s.bus ++ [BusOp.read (s.PC % 65536),
        BusOp.write (0x100 + s.SP) (s.X % 256)] ∧
      (puce6502Step s).1.SP = (s.SP + 255) % 256) ∧
    (readMem s.RAM s.PC = 0x5A →
      (puce6502Step s).1.bus = s.bus ++ [BusOp.read (s.PC % 65536),
        BusOp.write (0x100 + s.SP) (s.Y % 256)] ∧
      (puce6502Step s).1.SP = (s.SP + 255) % 256) ∧
    (readMem s.RAM s.PC = 0x08 →
      (puce6502Step s).1.bus = s.bus ++ [BusOp.read (s.PC % 65536),
        BusOp.write (0x100 + s.SP) ((s.P.byte ||| BREAK) % 256)] ∧
      (puce6502Step s).1.SP = (s.SP + 255) % 256) ∧
    (readMem s.RAM s.PC = 0x20 → ∃ hi lo,
      (puce6502Step s).1.bus = s.bus ++ [BusOp.read (s.PC % 65536),
        BusOp.read ((s.PC + 1) % 65536), BusOp.read (((s.PC + 1) % 65536 + 1) % 65536),
        BusOp.write (0x100 + s.SP) hi, BusOp.write (0x100 + (s.SP + 255) % 256) lo] ∧
      (puce6502Step s).1.SP = (s.SP + 254) % 256) ∧
    (readMem s.RAM s.PC = 0x00 → ∃ hi lo p,
      (puce6502Step s).1.bus = s.bus ++ [BusOp.read (s.PC % 65536),
        BusOp.write (0x100 + s.SP) hi, BusOp.write (0x100 + (s.SP + 255) % 256) lo,
        BusOp.write (0x100 + (s.SP + 254) % 256) p,
        BusOp.read 0xFFFE, BusOp.read 0xFFFF] ∧
      (puce6502Step s).1.SP = (s.SP + 253) % 256) ∧
    (readMem s.RAM s.PC = 0x68 →
      (puce6502Step s).1.bus = s.bus ++ [BusOp.read (s.PC % 65536),
        BusOp.read (0x100 + (s.SP + 1) % 256)] ∧
      (puce6502Step s).1.SP = (s.SP + 1) % 256 ∧
      (puce6502Step s).1.A = readMem s.RAM (0x100 + (s.SP + 1) % 256)) ∧
    (readMem s.RAM s.PC = 0xFA →
      (puce6502Step s).1.bus = s.bus ++ [BusOp.read (s.PC % 65536),
        BusOp.read (0x100 + (s.SP + 1) % 256)] ∧
      (puce6502Step s).1.SP = (s.SP + 1) % 256 ∧
      (puce6502Step s).1.X = readMem s.RAM (0x100 + (s.SP + 1) % 256)) ∧
    (readMem s.RAM s.PC = 0x7A →
      (puce6502Step s).1.bus = s.bus ++ [BusOp.read (s.PC % 65536),
        BusOp.read (0x100 + (s.SP + 1) % 256)] ∧
      (puce6502Step s).1.SP = (s.SP + 1) % 256 ∧
      (puce6502Step s).1.Y = readMem s.RAM (0x100 + (s.SP + 1) % 256)) ∧
    (readMem s.RAM s.PC = 0x28 →
      (puce6502Step s).1.bus = s.bus ++ [BusOp.read (s.PC % 65536),
        BusOp.read (0x100 + (s.SP + 1) % 256)] ∧
      (puce6502Step s).1.SP = (s.SP + 1) % 256) ∧
    (readMem s.RAM s.PC = 0x60 →
      (puce6502Step s).1.bus = s.bus ++ [BusOp.read (s.PC % 65536),
        BusOp.read (0x100 + (s.SP + 1) % 256), BusOp.read (0x100 + (s.SP + 2) % 256)] ∧
      (puce6502Step s).1.SP = (s.SP + 2) % 256) ∧
    (readMem s.RAM s.PC = 0x40 →
      (puce6502Step s).1.bus = s.bus ++ [BusOp.read (s.PC % 65536),
        BusOp.read (0x100 + (s.SP + 1) % 256), BusOp.read (0x100 + (s.SP + 2) % 256),
        BusOp.read (0x100 + (s.SP + 3) % 256)] ∧
      (puce6502Step s).1.SP = (s.SP + 3) % 256) := by
  have e0 : (0x100 + s.SP) % 65536 = 0x100 + s.SP := by omega
  have e1 : sub32 s.SP 1 % 256 = (s.SP + 255) % 256 := sub32_one_mod _ hsp
  have e2 : sub32 ((s.SP + 255) % 256) 1 % 256 = (s.SP + 254) % 256 := by
    rw [sub32_one_mod _ (Nat.mod_lt _ (by norm_num))]; omega
  have e3 : sub32 ((s.SP + 254) % 256) 1 % 256 = (s.SP + 253) % 256 := by
    rw [sub32_one_mod _ (Nat.mod_lt _ (by norm_num))]; omega
  have e4 : ((s.SP + 1) % 256 + 1) % 256 = (s.SP + 2) % 256 := by omega
  have e5 : ((s.SP + 2) % 256 + 1) % 256 = (s.SP + 3) % 256 := by omega
  refine ⟨?_, ?_, ?_, ?_, ?_, ?_, ?_, ?_, ?_, ?_, ?_, ?_⟩
  · intro hop
    rw [step_opcode s hrun _ hop, show exec_opcode 0x48 = op_48 from rfl]
    simp only [op_48, Frame.store, Cpu.fetch]
    simp only [e0, e1, List.map, List.append_assoc, List.singleton_append, readMem, writeMem,
      if_true, Nat.mod_mod, true_and]
  · intro hop
    rw [step_opcode s hrun _ hop, show exec_opcode 0xDA = op_DA from rfl]
    simp only [op_DA, Frame.store, Cpu.fetch]
    simp only [e0, e1, List.map, List.append_assoc, List.singleton_append, and_self,
      Nat.mod_mod]
  · intro hop
    rw [step_opcode s hrun _ hop, show exec_opcode 0x5A = op_5A from rfl]
    simp only [op_5A, Frame.store, Cpu.fetch]
    simp only [e0, e1, List.map, List.append_assoc, List.singleton_append, and_self,
      Nat.mod_mod]
  · intro hop
    rw [step_opcode s hrun _ hop, show exec_opcode 0x08 = op_08 from rfl]
    simp only [op_08, Frame.store, Cpu.fetch]
    simp only [e0, e1, List.map, List.append_assoc, List.singleton_append, and_self,
      Nat.mod_mod]
  · intro hop
    rw [step_opcode s hrun _ hop, show exec_opcode 0x20 = op_20 from rfl]
    simp only [op_20, Frame.store, Frame.fetch, Cpu.fetch]
    simp only [e0, e1, e2, List.map, List.append_assoc, List.singleton_append, List.cons_append,
      List.nil_append, stack_address_mod, Nat.mod_mod]
    exact ⟨_, _, rfl, trivial⟩
  · intro hop
    rw [step_opcode s hrun _ hop, show exec_opcode 0x00 = op_00 from rfl]
    simp only [op_00, Frame.store, Frame.fetch, Cpu.fetch]
    simp only [e0, e1, e2, e3, List.map, List.append_assoc, List.singleton_append,
      List.cons_append, List.nil_append, stack_address_mod, Nat.mod_mod]
    exact ⟨_, _, _, rfl, trivial⟩
  · intro hop
    rw [step_opcode s hrun _ hop, show exec_opcode 0x68 = op_68 from rfl]
    simp only [op_68, Frame.fetch, Cpu.fetch]
    simp only [List.map, List.append_assoc, List.singleton_append, stack_address_mod,
      Nat.mod_eq_of_lt (readMem_lt _ _), and_self, Nat.mod_mod]
  · intro hop
    rw [step_opcode s hrun _ hop, show exec_opcode 0xFA = op_FA from rfl]
    simp only [op_FA, Frame.fetch, Cpu.fetch]
    simp only [List.map, List.append_assoc, List.singleton_append, stack_address_mod,
      Nat.mod_eq_of_lt (readMem_lt _ _), and_self, Nat.mod_mod]
  · intro hop
    rw [step_opcode s hrun _ hop, show exec_opcode 0x7A = op_7A from rfl]
    simp only [op_7A, Frame.fetch, Cpu.fetch]
    simp only [List.map, List.append_assoc, List.singleton_append, stack_address_mod,
      Nat.mod_eq_of_lt (readMem_lt _ _), and_self, Nat.mod_mod]
  · intro hop
    rw [step_opcode s hrun _ hop, show exec_opcode 0x28 = op_28 from rfl]
    simp only [op_28, Frame.fetch, Cpu.fetch]
    simp only [List.map, List.append_assoc, List.singleton_append, stack_address_mod, and_self,
      Nat.mod_mod]
  · intro hop
    rw [step_opcode s hrun _ hop, show exec_opcode 0x60 = op_60 from rfl]
    simp only [op_60, Frame.fetch, Cpu.fetch]
    simp only [List.map, List.append_assoc, List.singleton_append, List.cons_append,
      List.nil_append, stack_address_mod, e4, and_self, Nat.mod_mod]
  · intro hop
    rw [step_opcode s hrun _ hop, show exec_opcode 0x40 = op_40 from rfl]
    simp only [op_40, Frame.fetch, Cpu.fetch]
    simp only [List.map, List.append_assoc, List.singleton_append, List.cons_append,
      List.nil_append, stack_address_mod, e4, e5, and_self, Nat.mod_mod]


/-- C23 on `pha_example` (`SP = 0x00`, `A = 0x42`): `PHA` writes `0x42` at `0x0100`
and leaves `SP = 0xFF`. -/
theorem stack_accesses_witness :
    (puce6502Step pha_example).1.bus = [BusOp.read 0x1000, BusOp.write 0x0100 0x42] ∧
    (puce6502Step pha_example).1.SP = 0xFF ∧
    readMem (puce6502Step pha_example).1.RAM 0x0100 = 0x42 :=
  (stack_accesses pha_example (Or.inl rfl) (by decide)).1 (by decide)

/-! ## `BBR` / `BBS` -/

theorem and_two_pow (x k : Nat) : x &&& 2 ^ k = (x / 2 ^ k % 2) * 2 ^ k := by
  have h := and_mul_two_pow x 1 k
  rw [Nat.one_mul, Nat.and_one_is_mod] at h
  exact h

theorem and_two_pow_eq_zero (x k : Nat) : x &&& 2 ^ k = 0 ↔ x / 2 ^ k % 2 = 0 := by
  rw [and_two_pow]
  have h : 0 < 2 ^ k := Nat.two_pow_pos k
  constructor
  · intro e
    rcases Nat.mul_eq_zero.mp e with e | e
    · exact e
    · omega
  · intro e
    rw [e, Nat.zero_mul]

theorem exec_opcode_bbr (n : Nat) (hn : n < 8) (f : Frame) :
    exec_opcode (0x0F + 0x10 * n) f = zpr_body (fun v => v &&& 2 ^ n = 0) f := by
  interval_cases n <;> rfl

theorem exec_opcode_bbs (n : Nat) (hn : n < 8) (f : Frame) :
    exec_opcode (0x8F + 0x10 * n) f = zpr_body (fun v => v &&& 2 ^ n ≠ 0) f := by
  interval_cases n <;> rfl

/-- The shared body: the branch is taken iff the tested condition holds of the
zero-page byte, to the address after the instruction plus the signed offset; the
cost is 5 cycles. -/
theorem zpr_body_spec (test : Nat → Prop) [DecidablePred test] (f : Frame) :
    (zpr_body test f).PC =
      (if test (readMem f.RAM (readMem f.RAM f.PC))
       then spec_branch_dest ((f.PC + 2) % 65536) (readMem f.RAM (f.PC + 1))
       else (f.PC + 2) % 65536) ∧
    (zpr_body test f).cycles = f.cycles + 5 := by
  have hb := readMem_lt f.RAM (f.PC + 1)
  have hv := readMem_lt f.RAM (readMem f.RAM f.PC)
  rw [spec_branch_dest_eq _ _ hb]
  simp only [zpr_body, Frame.fetch, readMem_mod, pc_succ_succ, Nat.mod_eq_of_lt hv,
    Nat.mod_eq_of_lt (Nat.lt_trans hb (show 256 < 65536 by norm_num)), and_128, SIGN]
  generalize readMem f.RAM (f.PC + 1) = b at hb ⊢
  generalize readMem f.RAM (readMem f.RAM f.PC) = v
  have hor := or_FF00 b hb
  have hm : (b + 65280) % 65536 = b + 65280 := Nat.mod_eq_of_lt (by omega)
  by_cases h128 : 128 ≤ b
  · have hs : b / 128 % 2 * 128 ≠ 0 := by omega
    simp only [hs, h128, ne_eq, not_false_eq_true, if_true, hor, hm]
    by_cases ht : test v <;> simp only [ht, if_true, if_false, and_self]
  · have hs : b / 128 % 2 * 128 = 0 := by omega
    simp only [hs, h128, ne_eq, not_true_eq_false, if_false]
    by_cases ht : test v <;> simp only [ht, if_true, if_false, and_self]

/-- C25: for `n < 8`, `BBRn` (opcode `0x0F + 0x10 * n`) branches iff bit `n` of the
zero-page byte named by the first operand byte is 0, and `BBSn` (opcode
`0x8F + 0x10 * n`) iff that bit is 1. A taken branch sets `PC` to the address after
the 3-byte instruction plus the second operand byte read as a signed offset (mod
65536), an untaken one to the address after the instruction; the step costs 5
cycles in every case. -/
theorem bbr_bbs_step (s : Cpu) (hrun : s.state = status.run ∨ s.state = status.step)
    (n : Nat) (hn : n < 8) :
    (readMem s.RAM s.PC = 0x0F + 0x10 * n →
      (puce6502Step s).1.PC =
        (if readMem s.RAM (readMem s.RAM (s.PC + 1)) / 2 ^ n % 2 = 0
         then spec_branch_dest ((s.PC + 3) % 65536) (readMem s.RAM (s.PC + 2))
         else (s.PC + 3) % 65536) ∧
      (puce6502Step s).2 = 5) ∧
    (readMem s.RAM s.PC = 0x8F + 0x10 * n →
      (puce6502Step s).1.PC =
        (if readMem s.RAM (readMem s.RAM (s.PC + 1)) / 2 ^ n % 2 = 1
         then spec_branch_dest ((s.PC + 3) % 65536) (readMem s.RAM (s.PC + 2))
         else (s.PC + 3) % 65536) ∧
      (puce6502Step s).2 = 5) := by
  have e3 : ((s.PC + 1) % 65536 + 2) % 65536 = (s.PC + 3) % 65536 := by omega
  have e2 : readMem s.RAM ((s.PC + 1) % 65536 + 1) = readMem s.RAM (s.PC + 2) := by
    rw [← readMem_mod, pc_succ_succ, readMem_mod]
  constructor
  · intro hop
    rw [step_opcode s hrun _ hop, exec_opcode_bbr n hn]
    obtain ⟨h1, h2⟩ := zpr_body_spec (fun v => v &&& 2 ^ n = 0)
      (Frame.mk { (s.fetch [s.PC]) with PC := (s.PC + 1) % 65536 } 0 0 0 0)
    refine ⟨h1.trans ?_, h2.trans (Nat.zero_add 5)⟩
    simp only [Cpu.fetch, readMem_mod, e3, e2, and_two_pow_eq_zero]
  · intro hop
    rw [step_opcode s hrun _ hop, exec_opcode_bbs n hn]
    obtain ⟨h1, h2⟩ := zpr_body_spec (fun v => v &&& 2 ^ n ≠ 0)
      (Frame.mk { (s.fetch [s.PC]) with PC := (s.PC + 1) % 65536 } 0 0 0 0)
    refine ⟨h1.trans ?_, h2.trans (Nat.zero_add 5)⟩
    have e1 : ∀ v, (¬ (v / 2 ^ n % 2 = 0)) ↔ v / 2 ^ n % 2 = 1 := fun v => by omega
    simp only [Cpu.fetch, readMem_mod, e3, e2, ne_eq, and_two_pow_eq_zero, e1]

/-- C25 on `BBR3 $10,$FD` at `0x2000`: with bit 3 of the zero-page byte clear
(`0xF7`) the branch goes to `0x2000`, with the bit set (`0x08`) execution goes on
at `0x2003`; 5 cycles both times. -/
theorem bbr_bbs_step_witness :
    ((puce6502Step (bbr3_example 0xF7)).1.PC = 0x2000 ∧ (puce6502Step (bbr3_example 0xF7)).2 = 5) ∧
    ((puce6502Step (bbr3_example 0x08)).1.PC = 0x2003 ∧ (puce6502Step (bbr3_example 0x08)).2 = 5) := by
  have h0 := (bbr_bbs_step (bbr3_example 0xF7) (Or.inl rfl) 3 (by decide)).1 (by decide)
  have h1 := (bbr_bbs_step (bbr3_example 0x08) (Or.inl rfl) 3 (by decide)).1 (by decide)
  refine ⟨⟨?_, h0.2⟩, ⟨?_, h1.2⟩⟩
  · rw [h0.1]; decide
  · rw [h1.1]; decide

/-! ## `RMB` / `SMB` -/

theorem exec_opcode_rmb (n : Nat) (hn : n < 8) (f : Frame) :
    exec_opcode (0x07 + 0x10 * n) f = zpg_bit_body (fun v => v &&& not32 (2 ^ n)) f := by
  interval_cases n <;> rfl

theorem exec_opcode_smb (n : Nat) (hn : n < 8) (f : Frame) :
    exec_opcode (0x87 + 0x10 * n) f = zpg_bit_body (fun v => v ||| 2 ^ n) f := by
  interval_cases n <;> rfl

theorem testBit_byte_high (v k : Nat) (hv : v < 256) (hk : ¬ k < 8) : v.testBit k = false := by
  apply Nat.testBit_lt_two_pow
  calc v < 2 ^ 8 := hv
    _ ≤ 2 ^ k := Nat.pow_le_pow_right (by norm_num) (by omega)

theorem rmb_bits (v n : Nat) (hv : v < 256) (hn : n < 8) (k : Nat) :
    ((v &&& not32 (2 ^ n)) % 256).testBit k = (v.testBit k && decide (k ≠ n)) := by
  have e : not32 (2 ^ n) = (2 ^ 32 - 1) ^^^ 2 ^ n := by interval_cases n <;> rfl
  rw [e, show (256 : Nat) = 2 ^ 8 by norm_num, Nat.testBit_mod_two_pow, Nat.testBit_and,
    Nat.testBit_xor, Nat.testBit_two_pow_sub_one, Nat.testBit_two_pow]
  by_cases h8 : k < 8
  · have h32 : k < 32 := by omega
    by_cases hk : n = k
    · subst hk
      simp [h8, h32]
    · have hk2 : ¬ k = n := fun h => hk h.symm
      simp [h8, h32, hk, hk2]
  · simp [h8, testBit_byte_high v k hv h8]

theorem smb_bits (v n : Nat) (hv : v < 256) (hn : n < 8) (k : Nat) :
    ((v ||| 2 ^ n) % 256).testBit k = (v.testBit k || decide (k = n)) := by
  rw [show (256 : Nat) = 2 ^ 8 by norm_num, Nat.testBit_mod_two_pow, Nat.testBit_or,
    Nat.testBit_two_pow]
  by_cases h8 : k < 8
  · by_cases hk : n = k
    · subst hk
      simp [h8]
    · have hk2 : ¬ k = n := fun h => hk h.symm
      simp [h8, hk, hk2]
  · have hk : ¬ n = k := by omega
    have hk2 : ¬ k = n := by omega
    simp [h8, testBit_byte_high v k hv h8, hk, hk2]

/-- The shared body: the byte `g v` is written (as a byte) where `v` was read, at
the zero-page address named by the operand; nothing else changes but `PC` (plus 1)
and the cycle count (plus 5). -/
theorem zpg_bit_body_spec (g : Nat → Nat) (f : Frame) :
    readMem (zpg_bit_body g f).RAM (readMem f.RAM f.PC)
      = g (readMem f.RAM (readMem f.RAM f.PC)) % 256 ∧
    (∀ a, a ≠ readMem f.RAM f.PC → (zpg_bit_body g f).RAM a = f.RAM a) ∧
    (zpg_bit_body g f).A = f.A ∧ (zpg_bit_body g f).X = f.X ∧ (zpg_bit_body g f).Y = f.Y ∧
    (zpg_bit_body g f).SP = f.SP ∧ (zpg_bit_body g f).P = f.P ∧
    (zpg_bit_body g f).PC = (f.PC + 1) % 65536 ∧
    (zpg_bit_body g f).cycles = f.cycles + 5 := by
  have hz := readMem_lt f.RAM f.PC
  have hz2 : readMem f.RAM f.PC % 65536 = readMem f.RAM f.PC := Nat.mod_eq_of_lt (by omega)
  refine ⟨?_, ?_, rfl, rfl, rfl, rfl, rfl, rfl, rfl⟩
  · show readMem (writeMem f.RAM (readMem f.RAM f.PC % 65536)
        (g (readMem f.RAM (readMem f.RAM f.PC % 65536)))) (readMem f.RAM f.PC) = _
    rw [hz2]
    simp only [readMem, writeMem, Nat.mod_mod, if_true]
  · intro a ha
    show writeMem f.RAM (readMem f.RAM f.PC % 65536)
        (g (readMem f.RAM (readMem f.RAM f.PC % 65536))) a = _
    rw [hz2]
    simp only [writeMem, hz2, ha, if_false]

/-- C26: for `n < 8`, `RMBn` (opcode `0x07 + 0x10 * n`) clears and `SMBn` (opcode
`0x87 + 0x10 * n`) sets bit `n` of the zero-page byte named by the operand and
leaves its other bits as they were; every other memory byte, `A`, `X`, `Y`, `SP`
and the flags are unchanged, `PC` advances by 2 and the step costs 5 cycles. -/
theorem rmb_smb_step (s : Cpu) (hrun : s.state = status.run ∨ s.state = status.step)
    (n : Nat) (hn : n < 8) :
    ((readMem s.RAM s.PC = 0x07 + 0x10 * n →
        ∀ k, (readMem (puce6502Step s).1.RAM (readMem s.RAM (s.PC + 1))).testBit k
          = ((readMem s.RAM (readMem s.RAM (s.PC + 1))).testBit k && decide (k ≠ n))) ∧
     (readMem s.RAM s.PC = 0x87 + 0x10 * n →
        ∀ k, (readMem (puce6502Step s).1.RAM (readMem s.RAM (s.PC + 1))).testBit k
          = ((readMem s.RAM (readMem s.RAM (s.PC + 1))).testBit k || decide (k = n)))) ∧
    (readMem s.RAM s.PC = 0x07 + 0x10 * n ∨ readMem s.RAM s.PC = 0x87 + 0x10 * n →
      (∀ a, a ≠ readMem s.RAM (s.PC + 1) → (puce6502Step s).1.RAM a = s.RAM a) ∧
      (puce6502Step s).1.A = s.A ∧ (puce6502Step s).1.X = s.X ∧ (puce6502Step s).1.Y = s.Y ∧
      (puce6502Step s).1.SP = s.SP ∧ (puce6502Step s).1.P = s.P ∧
      (puce6502Step s).1.PC = (s.PC + 2) % 65536 ∧ (puce6502Step s).2 = 5) := by
  have eR : readMem s.RAM ((s.PC + 1) % 65536) = readMem s.RAM (s.PC + 1) := readMem_mod _ _
  have hv := readMem_lt s.RAM (readMem s.RAM (s.PC + 1))
  have hr := zpg_bit_body_spec (fun v => v &&& not32 (2 ^ n))
    (Frame.mk { (s.fetch [s.PC]) with PC := (s.PC + 1) % 65536 } 0 0 0 0)
  have hs := zpg_bit_body_spec (fun v => v ||| 2 ^ n)
    (Frame.mk { (s.fetch [s.PC]) with PC := (s.PC + 1) % 65536 } 0 0 0 0)
  simp only [Cpu.fetch, eR, pc_succ_succ, Nat.zero_add] at hr hs
  refine ⟨⟨?_, ?_⟩, ?_⟩
  · intro hop k
    rw [step_opcode s hrun _ hop, exec_opcode_rmb n hn]
    simp only [Cpu.fetch]
    rw [hr.1]
    exact rmb_bits _ n hv hn k
  · intro hop k
    rw [step_opcode s hrun _ hop, exec_opcode_smb n hn]
    simp only [Cpu.fetch]
    rw [hs.1]
    exact smb_bits _ n hv hn k
  · intro hop
    rcases hop with hop | hop
    · rw [step_opcode s hrun _ hop, exec_opcode_rmb n hn]
      simp only [Cpu.fetch]
      exact hr.2
    · rw [step_opcode s hrun _ hop, exec_opcode_smb n hn]
      simp only [Cpu.fetch]
      exact hs.2

/-- C26 on `RMB5 $10` with the byte `0xFF` and on `SMB5 $10` with the byte `0x00`:
the byte becomes `0xDF`, respectively `0x20`; registers and flags are unchanged,
`PC` is `0x2002`, the cost is 5 cycles. -/
theorem rmb_smb_step_witness :
    readMem (puce6502Step (rmb5_example 0x57 0xFF)).1.RAM 0x10 = 0xDF ∧
    readMem (puce6502Step (rmb5_example 0xD7 0x00)).1.RAM 0x10 = 0x20 ∧
    (puce6502Step (rmb5_example 0x57 0xFF)).1.A = 1 ∧
    (puce6502Step (rmb5_example 0x57 0xFF)).1.P = flags_U ∧
    (puce6502Step (rmb5_example 0x57 0xFF)).1.PC = 0x2002 ∧
    (puce6502Step (rmb5_example 0x57 0xFF)).2 = 5 := by
  have hr := rmb_smb_step (rmb5_example 0x57 0xFF) (Or.inl rfl) 5 (by decide)
  have hs := rmb_smb_step (rmb5_example 0xD7 0x00) (Or.inl rfl) 5 (by decide)
  have h2 := hr.2 (Or.inl (by decide))
  refine ⟨?_, ?_, ?_, ?_, ?_, h2.2.2.2.2.2.2.2⟩
  rotate_left 2
  · rw [h2.2.1]; rfl
  · rw [h2.2.2.2.2.2.1]; rfl
  · rw [h2.2.2.2.2.2.2.1]; rfl
  · apply Nat.eq_of_testBit_eq
    intro k
    have h := hr.1.1 (by decide) k
    rw [show readMem (rmb5_example 0x57 0xFF).RAM ((rmb5_example 0x57 0xFF).PC + 1) = 0x10
      by decide, show readMem (rmb5_example 0x57 0xFF).RAM 0x10 = 0xFF by decide] at h
    rw [h, show (0xDF : Nat) = 0xFF &&& not32 (2 ^ 5) % 256 by decide]
    exact (rmb_bits 0xFF 5 (by decide) (by decide) k).symm
  · apply Nat.eq_of_testBit_eq
    intro k
    have h := hs.1.2 (by decide) k
    rw [show readMem (rmb5_example 0xD7 0x00).RAM ((rmb5_example 0xD7 0x00).PC + 1) = 0x10
      by decide, show readMem (rmb5_example 0xD7 0x00).RAM 0x10 = 0x00 by decide] at h
    rw [h, show (0x20 : Nat) = (0x00 ||| 2 ^ 5) % 256 by decide]
    exact (smb_bits 0x00 5 (by decide) (by decide) k).symm

/-! ## Compare instructions -/

theorem readMem_mod_256 (RAM : Nat → Nat) (a : Nat) : readMem RAM a % 256 = readMem RAM a :=
  Nat.mod_eq_of_lt (readMem_lt RAM a)

theorem append_pair (l : List BusOp) (x y : BusOp) : l ++ [x, y] = l ++ [x] ++ [y] := by
  simp

theorem cmp_arith (r m : Nat) (hr : r < 256) (hm : m < 256) :
    (((sub32 r m) &&& 0xFF) = 0 ↔ r = m) ∧
    (((sub32 r m) &&& SIGN) ≠ 0 ↔ (r + 256 - m) % 256 / 128 % 2 = 1) := by
  rw [and_255, and_128]
  unfold sub32
  constructor <;> omega

theorem compare_spec_intro (r : Nat) (hr : r < 256) (s : Cpu) (pc : Nat) (st : status)
    (ticks : Nat) (L : List BusOp) (a : Nat) :
    compare_spec r s
      { PC := pc, A := s.A, X := s.X, Y := s.Y, SP := s.SP,
        P := Flags.mk (decide (r ≥ readMem s.RAM a))
          (decide (((sub32 r (readMem s.RAM a)) &&& 0xFF) = 0)) s.P.I s.P.D s.P.B s.P.U s.P.V
          (decide (((sub32 r (readMem s.RAM a)) &&& SIGN) ≠ 0)),
        state := st, ticks := ticks, RAM := s.RAM, bus := L ++ [BusOp.read (a % 65536)] } := by
  have h := cmp_arith r (readMem s.RAM a) hr (readMem_lt _ _)
  refine ⟨a % 65536, List.getLast?_concat _, ?_, rfl, rfl, rfl, rfl, rfl⟩
  simp only [readMem_mod, h.1, h.2, ge_iff_le]

/-- C27: every compare opcode (`CMP` in its nine addressing modes on `A`, `CPX` in
its three on `X`, `CPY` in its three on `Y`) sets Carry iff `r >= m`, Zero iff
`r = m` and Sign to bit 7 of `(r - m) mod 256`, where `r` is the register and `m`
the operand byte read last, and leaves `A`, `X`, `Y`, `SP`, the other flags and
the memory unchanged. -/
theorem compare_step (s : Cpu) (hrun : s.state = status.run ∨ s.state = status.step)
    (hwf : s.wf) :
    (readMem s.RAM s.PC ∈ [0xC9, 0xC5, 0xD5, 0xCD, 0xDD, 0xD9, 0xC1, 0xD1, 0xD2] →
      compare_spec s.A s (puce6502Step s).1) ∧
    (readMem s.RAM s.PC ∈ [0xE0, 0xE4, 0xEC] → compare_spec s.X s (puce6502Step s).1) ∧
    (readMem s.RAM s.PC ∈ [0xC0, 0xC4, 0xCC] → compare_spec s.Y s (puce6502Step s).1) := by
  refine ⟨?_, ?_, ?_⟩
  · intro hmem
    simp only [List.mem_cons, List.mem_singleton, List.not_mem_nil, or_false] at hmem
    rcases hmem with hop | hop | hop | hop | hop | hop | hop | hop | hop
    · rw [step_opcode s hrun _ hop, show exec_opcode 0xC9 = op_C9 from rfl]
      simp only [op_C9, Frame.fetch, Cpu.fetch]
      simp only [List.map, readMem_mod_256, append_pair]
      exact compare_spec_intro _ hwf.2.1 s _ _ _ _ _
    · rw [step_opcode s hrun _ hop, show exec_opcode 0xC5 = op_C5 from rfl]
      simp only [op_C5, Frame.fetch, Cpu.fetch]
      simp only [List.map, readMem_mod_256, append_pair]
      exact compare_spec_intro _ hwf.2.1 s _ _ _ _ _
    · rw [step_opcode s hrun _ hop, show exec_opcode 0xD5 = op_D5 from rfl]
      simp only [op_D5, Frame.fetch, Cpu.fetch]
      simp only [List.map, readMem_mod_256, append_pair]
      exact compare_spec_intro _ hwf.2.1 s _ _ _ _ _
    · rw [step_opcode s hrun _ hop, show exec_opcode 0xCD = op_CD from rfl]
      simp only [op_CD, Frame.fetch, Cpu.fetch]
      simp only [List.map, readMem_mod_256, append_pair]
      exact compare_spec_intro _ hwf.2.1 s _ _ _ _ _
    · rw [step_opcode s hrun _ hop, show exec_opcode 0xDD = op_DD from rfl]
      simp only [op_DD, Frame.fetch, Cpu.fetch]
      simp only [List.map, readMem_mod_256, append_pair]
      exact compare_spec_intro _ hwf.2.1 s _ _ _ _ _
    · rw [step_opcode s hrun _ hop, show exec_opcode 0xD9 = op_D9 from rfl]
      simp only [op_D9, Frame.fetch, Cpu.fetch]
      simp only [List.map, readMem_mod_256, append_pair]
      exact compare_spec_intro _ hwf.2.1 s _ _ _ _ _
    · rw [step_opcode s hrun _ hop, show exec_opcode 0xC1 = op_C1 from rfl]
      simp only [op_C1, Frame.fetch, Cpu.fetch]
      simp only [List.map, readMem_mod_256, append_pair]
      exact compare_spec_intro _ hwf.2.1 s _ _ _ _ _
    · rw [step_opcode s hrun _ hop, show exec_opcode 0xD1 = op_D1 from rfl]
      simp only [op_D1, Frame.fetch, Cpu.fetch]
      simp only [List.map, readMem_mod_256, append_pair]
      exact compare_spec_intro _ hwf.2.1 s _ _ _ _ _
    · rw [step_opcode s hrun _ hop, show exec_opcode 0xD2 = op_D2 from rfl]
      simp only [op_D2, Frame.fetch, Cpu.fetch]
      simp only [List.map, readMem_mod_256, append_pair]
      exact compare_spec_intro _ hwf.2.1 s _ _ _ _ _
  · intro hmem
    simp only [List.mem_cons, List.mem_singleton, List.not_mem_nil, or_false] at hmem
    rcases hmem with hop | hop | hop
    · rw [step_opcode s hrun _ hop, show exec_opcode 0xE0 = op_E0 from rfl]
      simp only [op_E0, Frame.fetch, Cpu.fetch]
      simp only [List.map, readMem_mod_256, append_pair]
      exact compare_spec_intro _ hwf.2.2.1 s _ _ _ _ _
    · rw [step_opcode s hrun _ hop, show exec_opcode 0xE4 = op_E4 from rfl]
      simp only [op_E4, Frame.fetch, Cpu.fetch]
      simp only [List.map, readMem_mod_256, append_pair]
      exact compare_spec_intro _ hwf.2.2.1 s _ _ _ _ _
    · rw [step_opcode s hrun _ hop, show exec_opcode 0xEC = op_EC from rfl]
      simp only [op_EC, Frame.fetch, Cpu.fetch]
      simp only [List.map, readMem_mod_256, append_pair]
      exact compare_spec_intro _ hwf.2.2.1 s _ _ _ _ _
  · intro hmem
    simp only [List.mem_cons, List.mem_singleton, List.not_mem_nil, or_false] at hmem
    rcases hmem with hop | hop | hop
    · rw [step_opcode s hrun _ hop, show exec_opcode 0xC0 = op_C0 from rfl]
      simp only [op_C0, Frame.fetch, Cpu.fetch]
      simp only [List.map, readMem_mod_256, append_pair]
      exact compare_spec_intro _ hwf.2.2.2.1 s _ _ _ _ _
    · rw [step_opcode s hrun _ hop, show exec_opcode 0xC4 = op_C4 from rfl]
      simp only [op_C4, Frame.fetch, Cpu.fetch]
      simp only [List.map, readMem_mod_256, append_pair]
      exact compare_spec_intro _ hwf.2.2.2.1 s _ _ _ _ _
    · rw [step_opcode s hrun _ hop, show exec_opcode 0xCC = op_CC from rfl]
      simp only [op_CC, Frame.fetch, Cpu.fetch]
      simp only [List.map, readMem_mod_256, append_pair]
      exact compare_spec_intro _ hwf.2.2.2.1 s _ _ _ _ _

/-- C27 on `CMP #$50`: with `A = 0x50` Carry and Zero are set and Sign is clear;
with `A = 0x10` Carry and Zero are clear and Sign is set (`0x10 - 0x50 = 0xC0`
modulo 256). -/
theorem compare_step_witness :
    (puce6502Step (cmp_example 0x50)).1.P = { flags_U with C := true, Z := true } ∧
    (puce6502Step (cmp_example 0x10)).1.P = { flags_U with S := true } := by
  constructor
  · obtain ⟨a, hb, hP, _⟩ := (compare_step (cmp_example 0x50) (Or.inl rfl)
      ⟨by decide, by decide, by decide, by decide, by decide, by decide⟩).1 (by decide)
    have ha : a = 0x1001 := by
      have e : (puce6502Step (cmp_example 0x50)).1.bus.getLast? = some (BusOp.read 0x1001) := by
        decide
      rw [e] at hb
      injection hb with hb
      injection hb with hb
      exact hb.symm
    subst ha
    rw [hP]
    decide
  · obtain ⟨a, hb, hP, _⟩ := (compare_step (cmp_example 0x10) (Or.inl rfl)
      ⟨by decide, by decide, by decide, by decide, by decide, by decide⟩).1 (by decide)
    have ha : a = 0x1001 := by
      have e : (puce6502Step (cmp_example 0x10)).1.bus.getLast? = some (BusOp.read 0x1001) := by
        decide
      rw [e] at hb
      injection hb with hb
      injection hb with hb
      exact hb.symm
    subst ha
    rw [hP]
    decide

/-! ## Shift and rotate instructions -/

theorem shl_or_carry (m c : Nat) (hc : c < 2) : (m <<< 1) ||| c = 2 * m + c := by
  rw [Nat.shiftLeft_eq, pow_one, Nat.mul_comm]
  exact (Nat.mul_add_lt_is_or (show c < 2 ^ 1 by omega) m).symm

theorem shr_or_carry (v c : Nat) (hv : v < 256) : (v >>> 1) ||| (c <<< 7) = v / 2 + 128 * c := by
  rw [Nat.shiftLeft_eq, Nat.shiftRight_eq_div_pow, pow_one, Nat.lor_comm, Nat.mul_comm,
    show (2 : Nat) ^ 7 = 128 by norm_num, Nat.add_comm]
  have h := Nat.mul_add_lt_is_or (show v / 2 < 2 ^ 7 by omega) c
  rw [show (2 : Nat) ^ 7 = 128 by norm_num] at h
  exact h.symm

theorem and_256 (x : Nat) : x &&& 0x100 = (x / 256 % 2) * 256 := by
  have h := and_two_pow x 8
  rw [show (2 : Nat) ^ 8 = 256 by norm_num] at h
  exact h

/-- C28: the flags after the shift and rotate opcodes. For the accumulator forms
and for every memory form except `ASL zp,X` (`0x16`), Carry is the bit shifted out
of the operand, Zero tells whether the 8-bit result stored is 0 and Sign is bit 7
of that result. `ASL zp,X` reads its operand `m` at `operand + X` (not reduced
modulo 256), stores `2 * m mod 256` there, sets Carry and Sign like the others,
but sets Zero iff `m = 0`, that is from the value before it is cut to 8 bits. -/
theorem shift_rotate_flags (s : Cpu) (hrun : s.state = status.run ∨ s.state = status.step)
    (hwf : s.wf) :
    (readMem s.RAM s.PC ∈ [0x0A, 0x2A] → shift_acc_spec true s (puce6502Step s).1) ∧
    (readMem s.RAM s.PC ∈ [0x4A, 0x6A] → shift_acc_spec false s (puce6502Step s).1) ∧
    (readMem s.RAM s.PC ∈ [0x06, 0x0E, 0x1E, 0x26, 0x36, 0x2E, 0x3E] →
      shift_mem_spec true s (puce6502Step s).1) ∧
    (readMem s.RAM s.PC ∈ [0x46, 0x56, 0x4E, 0x5E, 0x66, 0x76, 0x6E, 0x7E] →
      shift_mem_spec false s (puce6502Step s).1) ∧
    (readMem s.RAM s.PC = 0x16 →
      (puce6502Step s).1.bus.getLast? = some (BusOp.write
        ((readMem s.RAM (s.PC + 1) + s.X) % 65536)
        (2 * readMem s.RAM (readMem s.RAM (s.PC + 1) + s.X) % 256)) ∧
      (puce6502Step s).1.P.C = decide (readMem s.RAM (readMem s.RAM (s.PC + 1) + s.X) / 128 % 2 = 1) ∧
      (puce6502Step s).1.P.Z = decide (readMem s.RAM (readMem s.RAM (s.PC + 1) + s.X) = 0) ∧
      (puce6502Step s).1.P.S = decide
        (2 * readMem s.RAM (readMem s.RAM (s.PC + 1) + s.X) % 256 / 128 % 2 = 1)) := by
  have hc : s.P.C.toNat < 2 := Bool.toNat_lt s.P.C
  have hA : s.A < 256 := hwf.2.1
  refine ⟨?_, ?_, ?_, ?_, ?_⟩
  · intro hmem
    simp only [List.mem_cons, List.mem_singleton, List.not_mem_nil, or_false] at hmem
    rcases hmem with hop | hop
    · rw [step_opcode s hrun _ hop, show exec_opcode 0x0A = op_0A from rfl]
      simp only [op_0A, Frame.fetch, Frame.store, Cpu.fetch]
      unfold shift_acc_spec
      simp only [shift_flags_spec, readMem_mod_256, readMem_mod, shl_or_carry _ _ hc,
        shr_or_carry _ _ (readMem_lt _ _), shr_or_carry _ _ hA]
      simp only [Nat.shiftLeft_eq, Nat.shiftRight_eq_div_pow, pow_one, and_255, and_256,
        Nat.and_one_is_mod, decide_eq_decide, if_true, if_false, Bool.false_eq_true, ne_eq,
        gt_iff_lt, readMem]
      refine ⟨?_, ?_, ?_⟩ <;> first | trivial | omega
    · rw [step_opcode s hrun _ hop, show exec_opcode 0x2A = op_2A from rfl]
      simp only [op_2A, Frame.fetch, Frame.store, Cpu.fetch]
      unfold shift_acc_spec
      simp only [shift_flags_spec, readMem_mod_256, readMem_mod, shl_or_carry _ _ hc,
        shr_or_carry _ _ (readMem_lt _ _), shr_or_carry _ _ hA]
      simp only [Nat.shiftLeft_eq, Nat.shiftRight_eq_div_pow, pow_one, and_255, and_256,
        Nat.and_one_is_mod, decide_eq_decide, if_true, if_false, Bool.false_eq_true, ne_eq,
        gt_iff_lt, readMem]
      refine ⟨?_, ?_, ?_⟩ <;> first | trivial | omega
  · intro hmem
    simp only [List.mem_cons, List.mem_singleton, List.not_mem_nil, or_false] at hmem
    rcases hmem with hop | hop
    · rw [step_opcode s hrun _ hop, show exec_opcode 0x4A = op_4A from rfl]
      simp only [op_4A, Frame.fetch, Frame.store, Cpu.fetch]
      unfold shift_acc_spec
      simp only [shift_flags_spec, readMem_mod_256, readMem_mod, shl_or_carry _ _ hc,
        shr_or_carry _ _ (readMem_lt _ _), shr_or_carry _ _ hA]
      simp only [Nat.shiftLeft_eq, Nat.shiftRight_eq_div_pow, pow_one, and_255, and_256,
        Nat.and_one_is_mod, decide_eq_decide, if_true, if_false, Bool.false_eq_true, ne_eq,
        gt_iff_lt, readMem]
      refine ⟨?_, ?_, ?_⟩ <;> first | trivial | omega
    · rw [step_opcode s hrun _ hop, show exec_opcode 0x6A = op_6A from rfl]
      simp only [op_6A, Frame.fetch, Frame.store, Cpu.fetch]
      unfold shift_acc_spec
      simp only [shift_flags_spec, readMem_mod_256, readMem_mod, shl_or_carry _ _ hc,
        shr_or_carry _ _ (readMem_lt _ _), shr_or_carry _ _ hA]
      simp only [Nat.shiftLeft_eq, Nat.shiftRight_eq_div_pow, pow_one, and_255, and_256,
        Nat.and_one_is_mod, decide_eq_decide, if_true, if_false, Bool.false_eq_true, ne_eq,
        gt_iff_lt, readMem]
      refine ⟨?_, ?_, ?_⟩ <;> first | trivial | omega
  · intro hmem
    simp only [List.mem_cons, List.mem_singleton, List.not_mem_nil, or_false] at hmem
    rcases hmem with hop | hop | hop | hop | hop | hop | hop
    · rw [step_opcode s hrun _ hop, show exec_opcode 0x06 = op_06 from rfl]
      simp only [op_06, Frame.fetch, Frame.store, Cpu.fetch]
      refine ⟨_, _, List.getLast?_concat _, ?_⟩
      simp only [shift_flags_spec, readMem_mod_256, readMem_mod, shl_or_carry _ _ hc,
        shr_or_carry _ _ (readMem_lt _ _), shr_or_carry _ _ hA]
      simp only [Nat.shiftLeft_eq, Nat.shiftRight_eq_div_pow, pow_one, and_255, and_256,
        Nat.and_one_is_mod, decide_eq_decide, if_true, if_false, Bool.false_eq_true, ne_eq,
        gt_iff_lt, readMem]
      refine ⟨?_, ?_, ?_⟩ <;> first | trivial | omega
    · rw [step_opcode s hrun _ hop, show exec_opcode 0x0E = op_0E from rfl]
      simp only [op_0E, Frame.fetch, Frame.store, Cpu.fetch]
      refine ⟨_, _, List.getLast?_concat _, ?_⟩
      simp only [shift_flags_spec, readMem_mod_256, readMem_mod, shl_or_carry _ _ hc,
        shr_or_carry _ _ (readMem_lt _ _), shr_or_carry _ _ hA]
      simp only [Nat.shiftLeft_eq, Nat.shiftRight_eq_div_pow, pow_one, and_255, and_256,
        Nat.and_one_is_mod, decide_eq_decide, if_true, if_false, Bool.false_eq_true, ne_eq,
        gt_iff_lt, readMem]
      refine ⟨?_, ?_, ?_⟩ <;> first | trivial | omega
    · rw [step_opcode s hrun _ hop, show exec_opcode 0x1E = op_1E from rfl]
      simp only [op_1E, Frame.fetch, Frame.store, Cpu.fetch]
      refine ⟨_, _, List.getLast?_concat _, ?_⟩
      simp only [shift_flags_spec, readMem_mod_256, readMem_mod, shl_or_carry _ _ hc,
        shr_or_carry _ _ (readMem_lt _ _), shr_or_carry _ _ hA]
      simp only [Nat.shiftLeft_eq, Nat.shiftRight_eq_div_pow, pow_one, and_255, and_256,
        Nat.and_one_is_mod, decide_eq_decide, if_true, if_false, Bool.false_eq_true, ne_eq,
        gt_iff_lt, readMem]
      refine ⟨?_, ?_, ?_⟩ <;> first | trivial | omega
    · rw [step_opcode s hrun _ hop, show exec_opcode 0x26 = op_26 from rfl]
      simp only [op_26, Frame.fetch, Frame.store, Cpu.fetch]
      refine ⟨_, _, List.getLast?_concat _, ?_⟩
      simp only [shift_flags_spec, readMem_mod_256, readMem_mod, shl_or_carry _ _ hc,
        shr_or_carry _ _ (readMem_lt _ _), shr_or_carry _ _ hA]
      simp only [Nat.shiftLeft_eq, Nat.shiftRight_eq_div_pow, pow_one, and_255, and_256,
        Nat.and_one_is_mod, decide_eq_decide, if_true, if_false, Bool.false_eq_true, ne_eq,
        gt_iff_lt, readMem]
      refine ⟨?_, ?_, ?_⟩ <;> first | trivial | omega
    · rw [step_opcode s hrun _ hop, show exec_opcode 0x36 = op_36 from rfl]
      simp only [op_36, Frame.fetch, Frame.store, Cpu.fetch]
      refine ⟨_, _, List.getLast?_concat _, ?_⟩
      simp only [shift_flags_spec, readMem_mod_256, readMem_mod, shl_or_carry _ _ hc,
        shr_or_carry _ _ (readMem_lt _ _), shr_or_carry _ _ hA]
      simp only [Nat.shiftLeft_eq, Nat.shiftRight_eq_div_pow, pow_one, and_255, and_256,
        Nat.and_one_is_mod, decide_eq_decide, if_true, if_false, Bool.false_eq_true, ne_eq,
        gt_iff_lt, readMem]
      refine ⟨?_, ?_, ?_⟩ <;> first | trivial | omega
    · rw [step_opcode s hrun _ hop, show exec_opcode 0x2E = op_2E from rfl]
      simp only [op_2E, Frame.fetch, Frame.store, Cpu.fetch]
      refine ⟨_, _, List.getLast?_concat _, ?_⟩
      simp only [shift_flags_spec, readMem_mod_256, readMem_mod, shl_or_carry _ _ hc,
        shr_or_carry _ _ (readMem_lt _ _), shr_or_carry _ _ hA]
      simp only [Nat.shiftLeft_eq, Nat.shiftRight_eq_div_pow, pow_one, and_255, and_256,
        Nat.and_one_is_mod, decide_eq_decide, if_true, if_false, Bool.false_eq_true, ne_eq,
        gt_iff_lt, readMem]
      refine ⟨?_, ?_, ?_⟩ <;> first | trivial | omega
    · rw [step_opcode s hrun _ hop, show exec_opcode 0x3E = op_3E from rfl]
      simp only [op_3E, Frame.fetch, Frame.store, Cpu.fetch]
      refine ⟨_, _, List.getLast?_concat _, ?_⟩
      simp only [shift_flags_spec, readMem_mod_256, readMem_mod, shl_or_carry _ _ hc,
        shr_or_carry _ _ (readMem_lt _ _), shr_or_carry _ _ hA]
      simp only [Nat.shiftLeft_eq, Nat.shiftRight_eq_div_pow, pow_one, and_255, and_256,
        Nat.and_one_is_mod, decide_eq_decide, if_true, if_false, Bool.false_eq_true, ne_eq,
        gt_iff_lt, readMem]
      refine ⟨?_, ?_, ?_⟩ <;> first | trivial | omega
  · intro hmem
    simp only [List.mem_cons, List.mem_singleton, List.not_mem_nil, or_false] at hmem
    rcases hmem with hop | hop | hop | hop | hop | hop | hop | hop
    · rw [step_opcode s hrun _ hop, show exec_opcode 0x46 = op_46 from rfl]
      simp only [op_46, Frame.fetch, Frame.store, Cpu.fetch]
      refine ⟨_, _, List.getLast?_concat _, ?_⟩
      simp only [shift_flags_spec, readMem_mod_256, readMem_mod, shl_or_carry _ _ hc,
        shr_or_carry _ _ (readMem_lt _ _), shr_or_carry _ _ hA]
      simp only [Nat.shiftLeft_eq, Nat.shiftRight_eq_div_pow, pow_one, and_255, and_256,
        Nat.and_one_is_mod, decide_eq_decide, if_true, if_false, Bool.false_eq_true, ne_eq,
        gt_iff_lt, readMem]
      refine ⟨?_, ?_, ?_⟩ <;> first | trivial | omega
    · rw [step_opcode s hrun _ hop, show exec_opcode 0x56 = op_56 from rfl]
      simp only [op_56, Frame.fetch, Frame.store, Cpu.fetch]
      refine ⟨_, _, List.getLast?_concat _, ?_⟩
      simp only [shift_flags_spec, readMem_mod_256, readMem_mod, shl_or_carry _ _ hc,
        shr_or_carry _ _ (readMem_lt _ _), shr_or_carry _ _ hA]
      simp only [Nat.shiftLeft_eq, Nat.shiftRight_eq_div_pow, pow_one, and_255, and_256,
        Nat.and_one_is_mod, decide_eq_decide, if_true, if_false, Bool.false_eq_true, ne_eq,
        gt_iff_lt, readMem]
      refine ⟨?_, ?_, ?_⟩ <;> first | trivial | omega
    · rw [step_opcode s hrun _ hop, show exec_opcode 0x4E = op_4E from rfl]
      simp only [op_4E, Frame.fetch, Frame.store, Cpu.fetch]
      refine ⟨_, _, List.getLast?_concat _, ?_⟩
      simp only [shift_flags_spec, readMem_mod_256, readMem_mod, shl_or_carry _ _ hc,
        shr_or_carry _ _ (readMem_lt _ _), shr_or_carry _ _ hA]
      simp only [Nat.shiftLeft_eq, Nat.shiftRight_eq_div_pow, pow_one, and_255, and_256,
        Nat.and_one_is_mod, decide_eq_decide, if_true, if_false, Bool.false_eq_true, ne_eq,
        gt_iff_lt, readMem]
      refine ⟨?_, ?_, ?_⟩ <;> first | trivial | omega
    · rw [step_opcode s hrun _ hop, show exec_opcode 0x5E = op_5E from rfl]
      simp only [op_5E, Frame.fetch, Frame.store, Cpu.fetch]
      refine ⟨_, _, List.getLast?_concat _, ?_⟩
      simp only [shift_flags_spec, readMem_mod_256, readMem_mod, shl_or_carry _ _ hc,
        shr_or_carry _ _ (readMem_lt _ _), shr_or_carry _ _ hA]
      simp only [Nat.shiftLeft_eq, Nat.shiftRight_eq_div_pow, pow_one, and_255, and_256,
        Nat.and_one_is_mod, decide_eq_decide, if_true, if_false, Bool.false_eq_true, ne_eq,
        gt_iff_lt, readMem]
      refine ⟨?_, ?_, ?_⟩ <;> first | trivial | omega
    · rw [step_opcode s hrun _ hop, show exec_opcode 0x66 = op_66 from rfl]
      simp only [op_66, Frame.fetch, Frame.store, Cpu.fetch]
      refine ⟨_, _, List.getLast?_concat _, ?_⟩
      simp only [shift_flags_spec, readMem_mod_256, readMem_mod, shl_or_carry _ _ hc,
        shr_or_carry _ _ (readMem_lt _ _), shr_or_carry _ _ hA]
      simp only [Nat.shiftLeft_eq, Nat.shiftRight_eq_div_pow, pow_one, and_255, and_256,
        Nat.and_one_is_mod, decide_eq_decide, if_true, if_false, Bool.false_eq_true, ne_eq,
        gt_iff_lt, readMem]
      refine ⟨?_, ?_, ?_⟩ <;> first | trivial | omega
    · rw [step_opcode s hrun _ hop, show exec_opcode 0x76 = op_76 from rfl]
      simp only [op_76, Frame.fetch, Frame.store, Cpu.fetch]
      refine ⟨_, _, List.getLast?_concat _, ?_⟩
      simp only [shift_flags_spec, readMem_mod_256, readMem_mod, shl_or_carry _ _ hc,
        shr_or_carry _ _ (readMem_lt _ _), shr_or_carry _ _ hA]
      simp only [Nat.shiftLeft_eq, Nat.shiftRight_eq_div_pow, pow_one, and_255, and_256,
        Nat.and_one_is_mod, decide_eq_decide, if_true, if_false, Bool.false_eq_true, ne_eq,
        gt_iff_lt, readMem]
      refine ⟨?_, ?_, ?_⟩ <;> first | trivial | omega
    · rw [step_opcode s hrun _ hop, show exec_opcode 0x6E = op_6E from rfl]
      simp only [op_6E, Frame.fetch, Frame.store, Cpu.fetch]
      refine ⟨_, _, List.getLast?_concat _, ?_⟩
      simp only [shift_flags_spec, readMem_mod_256, readMem_mod, shl_or_carry _ _ hc,
        shr_or_carry _ _ (readMem_lt _ _), shr_or_carry _ _ hA]
      simp only [Nat.shiftLeft_eq, Nat.shiftRight_eq_div_pow, pow_one, and_255, and_256,
        Nat.and_one_is_mod, decide_eq_decide, if_true, if_false, Bool.false_eq_true, ne_eq,
        gt_iff_lt, readMem]
      refine ⟨?_, ?_, ?_⟩ <;> first | trivial | omega
    · rw [step_opcode s hrun _ hop, show exec_opcode 0x7E = op_7E from rfl]
      simp only [op_7E, Frame.fetch, Frame.store, Cpu.fetch]
      refine ⟨_, _, List.getLast?_concat _, ?_⟩
      simp only [shift_flags_spec, readMem_mod_256, readMem_mod, shl_or_carry _ _ hc,
        shr_or_carry _ _ (readMem_lt _ _), shr_or_carry _ _ hA]
      simp only [Nat.shiftLeft_eq, Nat.shiftRight_eq_div_pow, pow_one, and_255, and_256,
        Nat.and_one_is_mod, decide_eq_decide, if_true, if_false, Bool.false_eq_true, ne_eq,
        gt_iff_lt, readMem]
      refine ⟨?_, ?_, ?_⟩ <;> first | trivial | omega
  · intro hop
    rw [step_opcode s hrun _ hop, show exec_opcode 0x16 = op_16 from rfl]
    simp only [op_16, Frame.fetch, Frame.store, Cpu.fetch]
    simp only [List.getLast?_concat, readMem_mod, readMem_mod_256, Option.some.injEq,
      BusOp.write.injEq, Nat.mod_mod]
    simp only [Nat.shiftLeft_eq, pow_one, and_255, decide_eq_decide, gt_iff_lt, readMem]
    refine ⟨⟨?_, ?_⟩, ?_, ?_, ?_⟩ <;> first | trivial | omega

/-- C28 on `ASL $10,X` (`X = 0`) with the operand `0x80`: the byte stored is `0x00`
and Carry is set, but Zero is clear. -/
theorem shift_rotate_flags_witness :
    (puce6502Step (asl_zpx_example 0x80)).1.bus.getLast? = some (BusOp.write 0x10 0x00) ∧
    readMem (puce6502Step (asl_zpx_example 0x80)).1.RAM 0x10 = 0x00 ∧
    (puce6502Step (asl_zpx_example 0x80)).1.P.C = true ∧
    (puce6502Step (asl_zpx_example 0x80)).1.P.Z = false := by
  have h := (shift_rotate_flags (asl_zpx_example 0x80) (Or.inl rfl)
    ⟨by decide, by decide, by decide, by decide, by decide, by decide⟩).2.2.2.2 (by decide)
  refine ⟨?_, by decide, ?_, ?_⟩
  · rw [h.1]; decide
  · rw [h.2.1]; decide
  · rw [h.2.2.1]; decide

/-! ## Page crossing in the indexed read instructions -/

theorem readMem_mod_65536 (RAM : Nat → Nat) (a : Nat) : readMem RAM a % 65536 = readMem RAM a :=
  Nat.mod_eq_of_lt (Nat.lt_trans (readMem_lt RAM a) (by norm_num))

theorem lohi_low (lo hi : Nat) (h : lo < 256) : ((lo ||| (hi <<< 8)) % 65536) &&& 0xFF = lo := by
  rw [and_255, lohi_or_eq_add lo hi h]
  omega

set_option linter.unreachableTactic false in
set_option linter.unusedTactic false in
/-- C29: the memory-reading opcodes in absolute,X mode (`ORA`, `AND`, `EOR`, `ADC`,
`LDA`, `CMP`, `SBC`, `LDY`, `BIT`) and in absolute,Y mode (the first seven and
`LDX`) cost 4 cycles when the low byte of the operand plus the index register is
at most `0xFF` and 5 when it is larger; those in (zero-page),Y mode cost 5 cycles
when the low byte of the pointer read from the zero page plus `Y` is at most
`0xFF` and 6 when it is larger. -/
theorem indexed_read_cycles (s : Cpu) (hrun : s.state = status.run ∨ s.state = status.step)
    (hwf : s.wf) :
    (readMem s.RAM s.PC ∈ [0x1D, 0x3D, 0x5D, 0x7D, 0xBD, 0xDD, 0xFD, 0xBC, 0x3C] →
      (puce6502Step s).2 = if readMem s.RAM (s.PC + 1) + s.X > 0xFF then 5 else 4) ∧
    (readMem s.RAM s.PC ∈ [0x19, 0x39, 0x59, 0x79, 0xB9, 0xD9, 0xF9, 0xBE] →
      (puce6502Step s).2 = if readMem s.RAM (s.PC + 1) + s.Y > 0xFF then 5 else 4) ∧
    (readMem s.RAM s.PC ∈ [0x11, 0x31, 0x51, 0x71, 0xB1, 0xD1, 0xF1] →
      (puce6502Step s).2 =
        if readMem s.RAM (readMem s.RAM (s.PC + 1)) + s.Y > 0xFF then 6 else 5) := by
  have hX : s.X < 256 := hwf.2.2.1
  have hY : s.Y < 256 := hwf.2.2.2.1
  have hlo := readMem_lt s.RAM (s.PC + 1)
  have hpt := readMem_lt s.RAM (readMem s.RAM (s.PC + 1))
  refine ⟨?_, ?_, ?_⟩
  · intro hmem
    simp only [List.mem_cons, List.mem_singleton, List.not_mem_nil, or_false] at hmem
    rcases hmem with hop | hop | hop | hop | hop | hop | hop | hop | hop
    · rw [step_opcode s hrun _ hop, show exec_opcode 0x1D = op_1D from rfl]
      simp only [op_1D, Frame.fetch, Cpu.fetch]
      simp only [readMem_mod, readMem_mod_256, readMem_mod_65536,
        lohi_low _ _ (readMem_lt _ _), and_FF00]
      split_ifs <;> first | omega | (simp only []; omega) | simp only []
    · rw [step_opcode s hrun _ hop, show exec_opcode 0x3D = op_3D from rfl]
      simp only [op_3D, Frame.fetch, Cpu.fetch]
      simp only [readMem_mod, readMem_mod_256, readMem_mod_65536,
        lohi_low _ _ (readMem_lt _ _), and_FF00]
      split_ifs <;> first | omega | (simp only []; omega) | simp only []
    · rw [step_opcode s hrun _ hop, show exec_opcode 0x5D = op_5D from rfl]
      simp only [op_5D, Frame.fetch, Cpu.fetch]
      simp only [readMem_mod, readMem_mod_256, readMem_mod_65536,
        lohi_low _ _ (readMem_lt _ _), and_FF00]
      split_ifs <;> first | omega | (simp only []; omega) | simp only []
    · rw [step_opcode s hrun _ hop, show exec_opcode 0x7D = op_7D from rfl]
      simp only [op_7D, Frame.fetch, Cpu.fetch]
      simp only [readMem_mod, readMem_mod_256, readMem_mod_65536,
        lohi_low _ _ (readMem_lt _ _), and_FF00]
      split_ifs <;> first | omega | (simp only []; omega) | simp only []
    · rw [step_opcode s hrun _ hop, show exec_opcode 0xBD = op_BD from rfl]
      simp only [op_BD, Frame.fetch, Cpu.fetch]
      simp only [readMem_mod, readMem_mod_256, readMem_mod_65536,
        lohi_low _ _ (readMem_lt _ _), and_FF00]
      split_ifs <;> first | omega | (simp only []; omega) | simp only []
    · rw [step_opcode s hrun _ hop, show exec_opcode 0xDD = op_DD from rfl]
      simp only [op_DD, Frame.fetch, Cpu.fetch]
      simp only [readMem_mod, readMem_mod_256, readMem_mod_65536,
        lohi_low _ _ (readMem_lt _ _), and_FF00]
      split_ifs <;> first | omega | (simp only []; omega) | simp only []
    · rw [step_opcode s hrun _ hop, show exec_opcode 0xFD = op_FD from rfl]
      simp only [op_FD, Frame.fetch, Cpu.fetch]
      simp only [readMem_mod, readMem_mod_256, readMem_mod_65536,
        lohi_low _ _ (readMem_lt _ _), and_FF00]
      split_ifs <;> first | omega | (simp only []; omega) | simp only []
    · rw [step_opcode s hrun _ hop, show exec_opcode 0xBC = op_BC from rfl]
      simp only [op_BC, Frame.fetch, Cpu.fetch]
      simp only [readMem_mod, readMem_mod_256, readMem_mod_65536,
        lohi_low _ _ (readMem_lt _ _), and_FF00]
      split_ifs <;> first | omega | (simp only []; omega) | simp only []
    · rw [step_opcode s hrun _ hop, show exec_opcode 0x3C = op_3C from rfl]
      simp only [op_3C, Frame.fetch, Cpu.fetch]
      simp only [readMem_mod, readMem_mod_256, readMem_mod_65536,
        lohi_low _ _ (readMem_lt _ _), and_FF00]
      split_ifs <;> first | omega | (simp only []; omega) | simp only []
  · intro hmem
    simp only [List.mem_cons, List.mem_singleton, List.not_mem_nil, or_false] at hmem
    rcases hmem with hop | hop | hop | hop | hop | hop | hop | hop
    · rw [step_opcode s hrun _ hop, show exec_opcode 0x19 = op_19 from rfl]
      simp only [op_19, Frame.fetch, Cpu.fetch]
      simp only [readMem_mod, readMem_mod_256, readMem_mod_65536,
        lohi_low _ _ (readMem_lt _ _), and_FF00]
      split_ifs <;> first | omega | (simp only []; omega) | simp only []
    · rw [step_opcode s hrun _ hop, show exec_opcode 0x39 = op_39 from rfl]
      simp only [op_39, Frame.fetch, Cpu.fetch]
      simp only [readMem_mod, readMem_mod_256, readMem_mod_65536,
        lohi_low _ _ (readMem_lt _ _), and_FF00]
      split_ifs <;> first | omega | (simp only []; omega) | simp only []
    · rw [step_opcode s hrun _ hop, show exec_opcode 0x59 = op_59 from rfl]
      simp only [op_59, Frame.fetch, Cpu.fetch]
      simp only [readMem_mod, readMem_mod_256, readMem_mod_65536,
        lohi_low _ _ (readMem_lt _ _), and_FF00]
      split_ifs <;> first | omega | (simp only []; omega) | simp only []
    · rw [step_opcode s hrun _ hop, show exec_opcode 0x79 = op_79 from rfl]
      simp only [op_79, Frame.fetch, Cpu.fetch]
      simp only [readMem_mod, readMem_mod_256, readMem_mod_65536,
        lohi_low _ _ (readMem_lt _ _), and_FF00]
      split_ifs <;> first | omega | (simp only []; omega) | simp only []
    · rw [step_opcode s hrun _ hop, show exec_opcode 0xB9 = op_B9 from rfl]
      simp only [op_B9, Frame.fetch, Cpu.fetch]
      simp only [readMem_mod, readMem_mod_256, readMem_mod_65536,
        lohi_low _ _ (readMem_lt _ _), and_FF00]
      split_ifs <;> first | omega | (simp only []; omega) | simp only []
    · rw [step_opcode s hrun _ hop, show exec_opcode 0xD9 = op_D9 from rfl]
      simp only [op_D9, Frame.fetch, Cpu.fetch]
      simp only [readMem_mod, readMem_mod_256, readMem_mod_65536,
        lohi_low _ _ (readMem_lt _ _), and_FF00]
      split_ifs <;> first | omega | (simp only []; omega) | simp only []
    · rw [step_opcode s hrun _ hop, show exec_opcode 0xF9 = op_F9 from rfl]
      simp only [op_F9, Frame.fetch, Cpu.fetch]
      simp only [readMem_mod, readMem_mod_256, readMem_mod_65536,
        lohi_low _ _ (readMem_lt _ _), and_FF00]
      split_ifs <;> first | omega | (simp only []; omega) | simp only []
    · rw [step_opcode s hrun _ hop, show exec_opcode 0xBE = op_BE from rfl]
      simp only [op_BE, Frame.fetch, Cpu.fetch]
      simp only [readMem_mod, readMem_mod_256, readMem_mod_65536,
        lohi_low _ _ (readMem_lt _ _), and_FF00]
      split_ifs <;> first | omega | (simp only []; omega) | simp only []
  · intro hmem
    simp only [List.mem_cons, List.mem_singleton, List.not_mem_nil, or_false] at hmem
    rcases hmem with hop | hop | hop | hop | hop | hop | hop
    · rw [step_opcode s hrun _ hop, show exec_opcode 0x11 = op_11 from rfl]
      simp only [op_11, Frame.fetch, Cpu.fetch]
      simp only [readMem_mod, readMem_mod_256, readMem_mod_65536,
        lohi_low _ _ (readMem_lt _ _), and_FF00]
      split_ifs <;> first | omega | (simp only []; omega) | simp only []
    · rw [step_opcode s hrun _ hop, show exec_opcode 0x31 = op_31 from rfl]
      simp only [op_31, Frame.fetch, Cpu.fetch]
      simp only [readMem_mod, readMem_mod_256, readMem_mod_65536,
        lohi_low _ _ (readMem_lt _ _), and_FF00]
      split_ifs <;> first | omega | (simp only []; omega) | simp only []
    · rw [step_opcode s hrun _ hop, show exec_opcode 0x51 = op_51 from rfl]
      simp only [op_51, Frame.fetch, Cpu.fetch]
      simp only [readMem_mod, readMem_mod_256, readMem_mod_65536,
        lohi_low _ _ (readMem_lt _ _), and_FF00]
      split_ifs <;> first | omega | (simp only []; omega) | simp only []
    · rw [step_opcode s hrun _ hop, show exec_opcode 0x71 = op_71 from rfl]
      simp only [op_71, Frame.fetch, Cpu.fetch]
      simp only [readMem_mod, readMem_mod_256, readMem_mod_65536,
        lohi_low _ _ (readMem_lt _ _), and_FF00]
      split_ifs <;> first | omega | (simp only []; omega) | simp only []
    · rw [step_opcode s hrun _ hop, show exec_opcode 0xB1 = op_B1 from rfl]
      simp only [op_B1, Frame.fetch, Cpu.fetch]
      simp only [readMem_mod, readMem_mod_256, readMem_mod_65536,
        lohi_low _ _ (readMem_lt _ _), and_FF00]
      split_ifs <;> first | omega | (simp only []; omega) | simp only []
    · rw [step_opcode s hrun _ hop, show exec_opcode 0xD1 = op_D1 from rfl]
      simp only [op_D1, Frame.fetch, Cpu.fetch]
      simp only [readMem_mod, readMem_mod_256, readMem_mod_65536,
        lohi_low _ _ (readMem_lt _ _), and_FF00]
      split_ifs <;> first | omega | (simp only []; omega) | simp only []
    · rw [step_opcode s hrun _ hop, show exec_opcode 0xF1 = op_F1 from rfl]
      simp only [op_F1, Frame.fetch, Cpu.fetch]
      simp only [readMem_mod, readMem_mod_256, readMem_mod_65536,
        lohi_low _ _ (readMem_lt _ _), and_FF00]
      split_ifs <;> first | omega | (simp only []; omega) | simp only []

/-- C29 on `LDA $10FF,X`: 4 cycles with `X = 0`, 5 cycles with `X = 1`. -/
theorem indexed_read_cycles_witness :
    (puce6502Step (lda_abx_example 0)).2 = 4 ∧ (puce6502Step (lda_abx_example 1)).2 = 5 := by
  have h0 := (indexed_read_cycles (lda_abx_example 0) (Or.inl rfl)
    ⟨by decide, by decide, by decide, by decide, by decide, by decide⟩).1 (by decide)
  have h1 := (indexed_read_cycles (lda_abx_example 1) (Or.inl rfl)
    ⟨by decide, by decide, by decide, by decide, by decide, by decide⟩).1 (by decide)
  rw [h0, h1]
  exact ⟨by decide, by decide⟩

/-! ## Idle steps -/

/-- C35: with the run-state `stop` or `wait`, `puce6502Step` returns 2 and leaves
every variable as it is: registers, flags, run-state, memory, and the record of
memory calls (no read or write is issued). -/
theorem step_idle (s : Cpu) (h : s.state = status.stop ∨ s.state = status.wait) :
    puce6502Step s = (s, 2) := by
  unfold puce6502Step
  rw [if_neg (by rcases h with h | h <;> rw [h] <;> decide)]

/-- C35 on `stopped_example`. -/
theorem step_idle_witness : puce6502Step stopped_example = (stopped_example, 2) :=
  step_idle stopped_example (Or.inl rfl)

/-! ## Zero-page,X addressing -/

theorem mod_256_mod_65536 (x : Nat) : x % 256 % 65536 = x % 256 := by omega

theorem zpx_spec_read (s s' : Cpu)
    (hb : s'.bus = s.bus ++ [BusOp.read (s.PC % 65536), BusOp.read ((s.PC + 1) % 65536),
      BusOp.read ((readMem s.RAM (s.PC + 1) + s.X) % 256)]) :
    zpx_access_spec s s' := by
  refine ⟨[BusOp.read ((readMem s.RAM (s.PC + 1) + s.X) % 256)], ?_, by simp, ?_⟩
  · rw [hb]; simp
  · intro op hop
    simp only [List.mem_singleton] at hop
    subst hop; rfl

theorem zpx_spec_write (s s' : Cpu)
    (hb : ∃ v, s'.bus = s.bus ++ [BusOp.read (s.PC % 65536), BusOp.read ((s.PC + 1) % 65536),
      BusOp.write ((readMem s.RAM (s.PC + 1) + s.X) % 256) v]) :
    zpx_access_spec s s' := by
  obtain ⟨v, hb⟩ := hb
  refine ⟨[BusOp.write ((readMem s.RAM (s.PC + 1) + s.X) % 256) v], ?_, by simp, ?_⟩
  · rw [hb]; simp
  · intro op hop
    simp only [List.mem_singleton] at hop
    subst hop; rfl

theorem zpx_spec_rmw (s s' : Cpu)
    (hb : ∃ v, s'.bus = s.bus ++ [BusOp.read (s.PC % 65536), BusOp.read ((s.PC + 1) % 65536),
      BusOp.read ((readMem s.RAM (s.PC + 1) + s.X) % 256),
      BusOp.write ((readMem s.RAM (s.PC + 1) + s.X) % 256) v]) :
    zpx_access_spec s s' := by
  obtain ⟨v, hb⟩ := hb
  refine ⟨[BusOp.read ((readMem s.RAM (s.PC + 1) + s.X) % 256),
    BusOp.write ((readMem s.RAM (s.PC + 1) + s.X) % 256) v], ?_, by simp, ?_⟩
  · rw [hb]; simp
  · intro op hop
    simp only [List.mem_cons, List.mem_singleton, List.not_mem_nil, or_false] at hop
    rcases hop with rfl | rfl <;> rfl

/-- C36: the memory calls of the zero-page,X opcodes after the reads of the opcode
and of the operand byte. For sixteen of them (`BIT`, `AND`, `ROL`, `EOR`, `LSR`,
`STZ`, `ADC`, `ROR`, `STY`, `STA`, `LDY`, `LDA`, `CMP`, `DEC`, `SBC`, `INC`) every
such call is at `(operand + X) mod 256`. `ORA zp,X` (`0x15`) reads and `ASL zp,X`
(`0x16`) reads and writes at `operand + X`, not reduced modulo 256. -/
theorem zpx_accesses (s : Cpu) (hrun : s.state = status.run ∨ s.state = status.step) :
    (readMem s.RAM s.PC ∈ [0x34, 0x35, 0x55, 0x75, 0xB4, 0xB5, 0xD5, 0xF5] →
      zpx_access_spec s (puce6502Step s).1) ∧
    (readMem s.RAM s.PC ∈ [0x74, 0x94, 0x95] → zpx_access_spec s (puce6502Step s).1) ∧
    (readMem s.RAM s.PC ∈ [0x36, 0x56, 0x76, 0xD6, 0xF6] →
      zpx_access_spec s (puce6502Step s).1) ∧
    (readMem s.RAM s.PC = 0x15 →
      (puce6502Step s).1.bus = s.bus ++ [BusOp.read (s.PC % 65536),
        BusOp.read ((s.PC + 1) % 65536),
        BusOp.read ((readMem s.RAM (s.PC + 1) + s.X) % 65536)]) ∧
    (readMem s.RAM s.PC = 0x16 → ∃ v,
      (puce6502Step s).1.bus = s.bus ++ [BusOp.read (s.PC % 65536),
        BusOp.read ((s.PC + 1) % 65536),
        BusOp.read ((readMem s.RAM (s.PC + 1) + s.X) % 65536),
        BusOp.write ((readMem s.RAM (s.PC + 1) + s.X) % 65536) v]) := by
  refine ⟨?_, ?_, ?_, ?_, ?_⟩
  · intro hmem
    simp only [List.mem_cons, List.mem_singleton, List.not_mem_nil, or_false] at hmem
    rcases hmem with hop | hop | hop | hop | hop | hop | hop | hop
    · apply zpx_spec_read
      rw [step_opcode s hrun _ hop, show exec_opcode 0x34 = op_34 from rfl]
      simp only [op_34, Frame.fetch, Frame.store, Cpu.fetch]
      simp only [List.map, List.append_assoc, List.singleton_append, List.cons_append,
        List.nil_append, and_255, readMem_mod, Nat.mod_mod, mod_256_mod_65536]
    · apply zpx_spec_read
      rw [step_opcode s hrun _ hop, show exec_opcode 0x35 = op_35 from rfl]
      simp only [op_35, Frame.fetch, Frame.store, Cpu.fetch]
      simp only [List.map, List.append_assoc, List.singleton_append, List.cons_append,
        List.nil_append, and_255, readMem_mod, Nat.mod_mod, mod_256_mod_65536]
    · apply zpx_spec_read
      rw [step_opcode s hrun _ hop, show exec_opcode 0x55 = op_55 from rfl]
      simp only [op_55, Frame.fetch, Frame.store, Cpu.fetch]
      simp only [List.map, List.append_assoc, List.singleton_append, List.cons_append,
        List.nil_append, and_255, readMem_mod, Nat.mod_mod, mod_256_mod_65536]
    · apply zpx_spec_read
      rw [step_opcode s hrun _ hop, show exec_opcode 0x75 = op_75 from rfl]
      simp only [op_75, Frame.fetch, Frame.store, Cpu.fetch]
      simp only [List.map, List.append_assoc, List.singleton_append, List.cons_append,
        List.nil_append, and_255, readMem_mod, Nat.mod_mod, mod_256_mod_65536]
      split_ifs <;> rfl
    · apply zpx_spec_read
      rw [step_opcode s hrun _ hop, show exec_opcode 0xB4 = op_B4 from rfl]
      simp only [op_B4, Frame.fetch, Frame.store, Cpu.fetch]
      simp only [List.map, List.append_assoc, List.singleton_append, List.cons_append,
        List.nil_append, and_255, readMem_mod, Nat.mod_mod, mod_256_mod_65536]
    · apply zpx_spec_read
      rw [step_opcode s hrun _ hop, show exec_opcode 0xB5 = op_B5 from rfl]
      simp only [op_B5, Frame.fetch, Frame.store, Cpu.fetch]
      simp only [List.map, List.append_assoc, List.singleton_append, List.cons_append,
        List.nil_append, and_255, readMem_mod, Nat.mod_mod, mod_256_mod_65536]
    · apply zpx_spec_read
      rw [step_opcode s hrun _ hop, show exec_opcode 0xD5 = op_D5 from rfl]
      simp only [op_D5, Frame.fetch, Frame.store, Cpu.fetch]
      simp only [List.map, List.append_assoc, List.singleton_append, List.cons_append,
        List.nil_append, and_255, readMem_mod, Nat.mod_mod, mod_256_mod_65536]
    · apply zpx_spec_read
      rw [step_opcode s hrun _ hop, show exec_opcode 0xF5 = op_F5 from rfl]
      simp only [op_F5, Frame.fetch, Frame.store, Cpu.fetch]
      simp only [List.map, List.append_assoc, List.singleton_append, List.cons_append,
        List.nil_append, and_255, readMem_mod, Nat.mod_mod, mod_256_mod_65536]
      split_ifs <;> rfl
  · intro hmem
    simp only [List.mem_cons, List.mem_singleton, List.not_mem_nil, or_false] at hmem
    rcases hmem with hop | hop | hop
    · apply zpx_spec_write
      rw [step_opcode s hrun _ hop, show exec_opcode 0x74 = op_74 from rfl]
      simp only [op_74, Frame.fetch, Frame.store, Cpu.fetch]
      simp only [List.map, List.append_assoc, List.singleton_append, List.cons_append,
        List.nil_append, and_255, readMem_mod, Nat.mod_mod, mod_256_mod_65536]
      exact ⟨_, rfl⟩
    · apply zpx_spec_write
      rw [step_opcode s hrun _ hop, show exec_opcode 0x94 = op_94 from rfl]
      simp only [op_94, Frame.fetch, Frame.store, Cpu.fetch]
      simp only [List.map, List.append_assoc, List.singleton_append, List.cons_append,
        List.nil_append, and_255, readMem_mod, Nat.mod_mod, mod_256_mod_65536]
      exact ⟨_, rfl⟩
    · apply zpx_spec_write
      rw [step_opcode s hrun _ hop, show exec_opcode 0x95 = op_95 from rfl]
      simp only [op_95, Frame.fetch, Frame.store, Cpu.fetch]
      simp only [List.map, List.append_assoc, List.singleton_append, List.cons_append,
        List.nil_append, and_255, readMem_mod, Nat.mod_mod, mod_256_mod_65536]
      exact ⟨_, rfl⟩
  · intro hmem
    simp only [List.mem_cons, List.mem_singleton, List.not_mem_nil, or_false] at hmem
    rcases hmem with hop | hop | hop | hop | hop
    · apply zpx_spec_rmw
      rw [step_opcode s hrun _ hop, show exec_opcode 0x36 = op_36 from rfl]
      simp only [op_36, Frame.fetch, Frame.store, Cpu.fetch]
      simp only [List.map, List.append_assoc, List.singleton_append, List.cons_append,
        List.nil_append, and_255, readMem_mod, Nat.mod_mod, mod_256_mod_65536]
      exact ⟨_, rfl⟩
    · apply zpx_spec_rmw
      rw [step_opcode s hrun _ hop, show exec_opcode 0x56 = op_56 from rfl]
      simp only [op_56, Frame.fetch, Frame.store, Cpu.fetch]
      simp only [List.map, List.append_assoc, List.singleton_append, List.cons_append,
        List.nil_append, and_255, readMem_mod, Nat.mod_mod, mod_256_mod_65536]
      exact ⟨_, rfl⟩
    · apply zpx_spec_rmw
      rw [step_opcode s hrun _ hop, show exec_opcode 0x76 = op_76 from rfl]
      simp only [op_76, Frame.fetch, Frame.store, Cpu.fetch]
      simp only [List.map, List.append_assoc, List.singleton_append, List.cons_append,
        List.nil_append, and_255, readMem_mod, Nat.mod_mod, mod_256_mod_65536]
      exact ⟨_, rfl⟩
    · apply zpx_spec_rmw
      rw [step_opcode s hrun _ hop, show exec_opcode 0xD6 = op_D6 from rfl]
      simp only [op_D6, Frame.fetch, Frame.store, Cpu.fetch]
      simp only [List.map, List.append_assoc, List.singleton_append, List.cons_append,
        List.nil_append, and_255, readMem_mod, Nat.mod_mod, mod_256_mod_65536]
      exact ⟨_, rfl⟩
    · apply zpx_spec_rmw
      rw [step_opcode s hrun _ hop, show exec_opcode 0xF6 = op_F6 from rfl]
      simp only [op_F6, Frame.fetch, Frame.store, Cpu.fetch]
      simp only [List.map, List.append_assoc, List.singleton_append, List.cons_append,
        List.nil_append, and_255, readMem_mod, Nat.mod_mod, mod_256_mod_65536]
      exact ⟨_, rfl⟩
  · intro hop
    rw [step_opcode s hrun _ hop, show exec_opcode 0x15 = op_15 from rfl]
    simp only [op_15, Frame.fetch, Frame.store, Cpu.fetch]
    simp only [List.map, List.append_assoc, List.singleton_append, List.cons_append,
      List.nil_append, and_255, readMem_mod, Nat.mod_mod, mod_256_mod_65536]
  · intro hop
    rw [step_opcode s hrun _ hop, show exec_opcode 0x16 = op_16 from rfl]
    simp only [op_16, Frame.fetch, Frame.store, Cpu.fetch]
    simp only [List.map, List.append_assoc, List.singleton_append, List.cons_append,
      List.nil_append, and_255, readMem_mod, Nat.mod_mod, mod_256_mod_65536]
    exact ⟨_, rfl⟩

/-- C36 on `ORA $FF,X` and `LDA $FF,X` with `X = 1`: `LDA` reads its operand at
`0x0000`, `ORA` at `0x0100`. -/
theorem zpx_accesses_witness :
    (puce6502Step lda_zpx_example).1.bus
      = [BusOp.read 0x2000, BusOp.read 0x2001, BusOp.read 0x0000] ∧
    (puce6502Step ora_zpx_example).1.bus
      = [BusOp.read 0x2000, BusOp.read 0x2001, BusOp.read 0x0100] := by
  have h := zpx_accesses ora_zpx_example (Or.inl rfl)
  refine ⟨by decide, ?_⟩
  rw [h.2.2.2.1 (by decide)]
  decide

/-! ## Absolute,X addressing -/

theorem getLast_bus3 (l : List BusOp) (a b c d : BusOp) :
    (l ++ [a, b, c, d]).getLast? = some d := by simp
theorem getLast_bus4 (l : List BusOp) (a b c d e : BusOp) :
    (l ++ [a, b, c, d, e]).getLast? = some e := by simp
theorem abx_address (lo hi x : Nat) (h : lo < 256) :
    ((lo ||| (hi <<< 8)) % 65536 + x) % 65536 = (lo + 256 * hi + x) % 65536 := by
  rw [lohi_or_eq_add lo hi h]
  omega

set_option linter.unreachableTactic false in
set_option linter.unusedTactic false in
/-- C37: the last memory call of the memory-reading opcodes in absolute,X mode. For
`ORA`, `AND`, `EOR`, `ADC`, `LDY`, `LDA`, `CMP` and `SBC` it is the read of the
operand byte at `(base + X) mod 65536`. For `BIT abs,X` (`0x3C`) it is a read at
`(lo OR (hi * 256 + X)) mod 65536`, with `lo` and `hi` the two bytes of the base:
the index register is added to the high byte before the low byte is merged in. -/
theorem abx_read_address (s : Cpu) (hrun : s.state = status.run ∨ s.state = status.step) :
    (readMem s.RAM s.PC ∈ [0x1D, 0x3D, 0x5D, 0x7D, 0xBC, 0xBD, 0xDD, 0xFD] →
      abx_read_spec s (puce6502Step s).1) ∧
    (readMem s.RAM s.PC = 0x3C →
      (puce6502Step s).1.bus.getLast? = some (BusOp.read
        ((readMem s.RAM (s.PC + 1) ||| ((readMem s.RAM (s.PC + 2) <<< 8) + s.X)) % 65536))) := by
  refine ⟨?_, ?_⟩
  · intro hmem
    simp only [List.mem_cons, List.mem_singleton, List.not_mem_nil, or_false] at hmem
    unfold abx_read_spec
    rcases hmem with hop | hop | hop | hop | hop | hop | hop | hop
    · rw [step_opcode s hrun _ hop, show exec_opcode 0x1D = op_1D from rfl]
      simp only [op_1D, Frame.fetch, Frame.store, Cpu.fetch]
      simp only [List.map, List.append_assoc, List.singleton_append, List.cons_append,
        List.nil_append, readMem_mod, Nat.mod_mod, readMem_mod_65536, pc_succ_succ,
        getLast_bus3, getLast_bus4, abx_address _ _ _ (readMem_lt _ _)]
    · rw [step_opcode s hrun _ hop, show exec_opcode 0x3D = op_3D from rfl]
      simp only [op_3D, Frame.fetch, Frame.store, Cpu.fetch]
      simp only [List.map, List.append_assoc, List.singleton_append, List.cons_append,
        List.nil_append, readMem_mod, Nat.mod_mod, readMem_mod_65536, pc_succ_succ,
        getLast_bus3, getLast_bus4, abx_address _ _ _ (readMem_lt _ _)]
    · rw [step_opcode s hrun _ hop, show exec_opcode 0x5D = op_5D from rfl]
      simp only [op_5D, Frame.fetch, Frame.store, Cpu.fetch]
      simp only [List.map, List.append_assoc, List.singleton_append, List.cons_append,
        List.nil_append, readMem_mod, Nat.mod_mod, readMem_mod_65536, pc_succ_succ,
        getLast_bus3, getLast_bus4, abx_address _ _ _ (readMem_lt _ _)]
    · rw [step_opcode s hrun _ hop, show exec_opcode 0x7D = op_7D from rfl]
      simp only [op_7D, Frame.fetch, Frame.store, Cpu.fetch]
      split_ifs <;>
      simp only [List.map, List.append_assoc, List.singleton_append, List.cons_append,
        List.nil_append, readMem_mod, Nat.mod_mod, readMem_mod_65536, pc_succ_succ,
        getLast_bus3, getLast_bus4, abx_address _ _ _ (readMem_lt _ _)]
    · rw [step_opcode s hrun _ hop, show exec_opcode 0xBC = op_BC from rfl]
      simp only [op_BC, Frame.fetch, Frame.store, Cpu.fetch]
      simp only [List.map, List.append_assoc, List.singleton_append, List.cons_append,
        List.nil_append, readMem_mod, Nat.mod_mod, readMem_mod_65536, pc_succ_succ,
        getLast_bus3, getLast_bus4, abx_address _ _ _ (readMem_lt _ _)]
    · rw [step_opcode s hrun _ hop, show exec_opcode 0xBD = op_BD from rfl]
      simp only [op_BD, Frame.fetch, Frame.store, Cpu.fetch]
      simp only [List.map, List.append_assoc, List.singleton_append, List.cons_append,
        List.nil_append, readMem_mod, Nat.mod_mod, readMem_mod_65536, pc_succ_succ,
        getLast_bus3, getLast_bus4, abx_address _ _ _ (readMem_lt _ _)]
    · rw [step_opcode s hrun _ hop, show exec_opcode 0xDD = op_DD from rfl]
      simp only [op_DD, Frame.fetch, Frame.store, Cpu.fetch]
      simp only [List.map, List.append_assoc, List.singleton_append, List.cons_append,
        List.nil_append, readMem_mod, Nat.mod_mod, readMem_mod_65536, pc_succ_succ,
        getLast_bus3, getLast_bus4, abx_address _ _ _ (readMem_lt _ _)]
    · rw [step_opcode s hrun _ hop, show exec_opcode 0xFD = op_FD from rfl]
      simp only [op_FD, Frame.fetch, Frame.store, Cpu.fetch]
      split_ifs <;>
      simp only [List.map, List.append_assoc, List.singleton_append, List.cons_append,
        List.nil_append, readMem_mod, Nat.mod_mod, readMem_mod_65536, pc_succ_succ,
        getLast_bus3, getLast_bus4, abx_address _ _ _ (readMem_lt _ _)]
  · intro hop
    rw [step_opcode s hrun _ hop, show exec_opcode 0x3C = op_3C from rfl]
    simp only [op_3C, Frame.fetch, Frame.store, Cpu.fetch]
    simp only [List.map, List.append_assoc, List.singleton_append, List.cons_append,
      List.nil_append, readMem_mod, Nat.mod_mod, readMem_mod_65536, pc_succ_succ,
      getLast_bus3, getLast_bus4]

/-- C37 on `BIT $3001,X` and `LDA $3001,X` with `X = 1`: `LDA` reads its operand at
`0x3002`, `BIT` at `0x3001`. -/
theorem abx_read_address_witness :
    (puce6502Step (abx_example 0xBD)).1.bus.getLast? = some (BusOp.read 0x3002) ∧
    (puce6502Step (abx_example 0x3C)).1.bus.getLast? = some (BusOp.read 0x3001) := by
  have h := abx_read_address (abx_example 0x3C) (Or.inl rfl)
  refine ⟨by decide, ?_⟩
  rw [h.2 (by decide)]
  decide

/-! ## Subroutine call and return -/

theorem readMem_writeMem_same (RAM : Nat → Nat) (a v : Nat) :
    readMem (writeMem RAM a v) a = v % 256 := by
  unfold readMem writeMem
  rw [if_pos rfl]
  exact Nat.mod_mod _ _

theorem readMem_writeMem_ne (RAM : Nat → Nat) (a b v : Nat) (h : b % 65536 ≠ a % 65536) :
    readMem (writeMem RAM a v) b = readMem RAM b := by
  unfold readMem writeMem
  rw [if_neg h]

theorem jsr_step (s : Cpu) (hrun : s.state = status.run ∨ s.state = status.step)
    (hsp : s.SP < 256) (hop : readMem s.RAM s.PC = 0x20) :
    (puce6502Step s).1.state = s.state ∧
    (puce6502Step s).1.SP = (s.SP + 254) % 256 ∧
    readMem (puce6502Step s).1.RAM (0x100 + (s.SP + 255) % 256) = (s.PC + 2) % 256 ∧
    readMem (puce6502Step s).1.RAM (0x100 + s.SP) = (s.PC + 2) % 65536 / 256 ∧
    (puce6502Step s).2 = 6 := by
  rw [step_opcode s hrun _ hop, show exec_opcode 0x20 = op_20 from rfl]
  simp only [op_20, Frame.fetch, Frame.store, Cpu.fetch]
  simp only [sub32_one_mod _ hsp, sub32_one_mod _ (Nat.mod_lt _ (by norm_num : 256 > 0)),
    and_255, Nat.shiftRight_eq_div_pow, pc_succ_succ, readMem_writeMem_same]
  rw [readMem_writeMem_ne _ _ _ _ (by omega), readMem_writeMem_same]
  refine ⟨trivial, ?_, ?_, ?_, trivial⟩ <;> omega

theorem rts_step (s : Cpu) (hrun : s.state = status.run ∨ s.state = status.step)
    (hop : readMem s.RAM s.PC = 0x60) :
    (puce6502Step s).1.PC = (readMem s.RAM (0x100 + (s.SP + 1) % 256) +
      256 * readMem s.RAM (0x100 + ((s.SP + 1) % 256 + 1) % 256) + 1) % 65536 ∧
    (puce6502Step s).1.SP = ((s.SP + 1) % 256 + 1) % 256 ∧
    (puce6502Step s).2 = 6 := by
  rw [step_opcode s hrun _ hop, show exec_opcode 0x60 = op_60 from rfl]
  simp only [op_60, Frame.fetch, Frame.store, Cpu.fetch]
  simp only [readMem_mod_65536, lohi_or_eq_add _ _ (readMem_lt _ _)]
  refine ⟨?_, trivial, trivial⟩
  omega

/-- C38: a `JSR` (`0x20`) at address `PC`, followed by a step that finds `RTS`
(`0x60`) at the jump target, leaves `PC = (PC + 3) mod 65536` and the stack pointer
as it was before the `JSR`, for every stack pointer from `0x00` to `0xFF`; each of
the two steps costs 6 cycles. -/
theorem jsr_rts_returns (s : Cpu) (hrun : s.state = status.run ∨ s.state = status.step)
    (hsp : s.SP < 256) (hjsr : readMem s.RAM s.PC = 0x20)
    (hrts : readMem (puce6502Step s).1.RAM (puce6502Step s).1.PC = 0x60) :
    (puce6502Step (puce6502Step s).1).1.PC = (s.PC + 3) % 65536 ∧
    (puce6502Step (puce6502Step s).1).1.SP = s.SP ∧
    (puce6502Step s).2 = 6 ∧
    (puce6502Step (puce6502Step s).1).2 = 6 := by
  obtain ⟨hst, hsp1, hlo, hhi, hc⟩ := jsr_step s hrun hsp hjsr
  obtain ⟨hpc, hsp2, hc2⟩ := rts_step (puce6502Step s).1 (hst ▸ hrun) hrts
  have e1 : ((s.SP + 254) % 256 + 1) % 256 = (s.SP + 255) % 256 := by omega
  have e2 : ((s.SP + 255) % 256 + 1) % 256 = s.SP := by omega
  rw [hsp1, e1, e2, hlo, hhi] at hpc
  rw [hsp1, e1, e2] at hsp2
  refine ⟨?_, hsp2, hc, hc2⟩
  rw [hpc]
  omega

/-- C38 on `jsr_example` with the stack pointers `0x00` and `0x01`, where the two
pushes wrap around the stack page. -/
theorem jsr_rts_returns_witness :
    ((puce6502Step (puce6502Step (jsr_example 0)).1).1.PC = 0x2003 ∧
      (puce6502Step (puce6502Step (jsr_example 0)).1).1.SP = 0) ∧
    ((puce6502Step (puce6502Step (jsr_example 1)).1).1.PC = 0x2003 ∧
      (puce6502Step (puce6502Step (jsr_example 1)).1).1.SP = 1) :=
  ⟨⟨(jsr_rts_returns (jsr_example 0) (Or.inl rfl) (by decide) (by decide) (by decide)).1,
    (jsr_rts_returns (jsr_example 0) (Or.inl rfl) (by decide) (by decide) (by decide)).2.1⟩,
   ⟨(jsr_rts_returns (jsr_example 1) (Or.inl rfl) (by decide) (by decide) (by decide)).1,
    (jsr_rts_returns (jsr_example 1) (Or.inl rfl) (by decide) (by decide) (by decide)).2.1⟩⟩

/-! ## The stepper and the data latch of the disk interface -/

theorem stepMotorQ_q_range (ph : List Nat) : 0 ≤ stepMotorQ_q ph ∧ stepMotorQ_q ph ≤ 8 := by
  unfold stepMotorQ_q
  simp only []
  split_ifs <;> decide

theorem stepMotorQ_pos_range (q pos : Int) (h0 : 0 ≤ pos) (h1 : pos ≤ 316) :
    0 ≤ stepMotorQ_pos q pos ∧ stepMotorQ_pos q pos ≤ 316 := by
  have e : ((MAX_TRACKS_PER_DISK : Nat) : Int) * 8 - 4 = 316 := by decide
  unfold stepMotorQ_pos
  simp only [e]
  split_ifs <;> omega

theorem track_of_pos (p : Int) (h0 : 0 ≤ p) (h1 : p ≤ 316) :
    (Int.tdiv (p + 1) 4 % 256).toNat ≤ 79 := by
  rw [Int.tdiv_eq_ediv (by omega) (by omega)]
  omega

theorem stepMotorQ_in_range (address : Nat) (d : DriveHead) (h : d.in_range) :
    (stepMotorQ address d).in_range := by
  obtain ⟨h0, h1, h2⟩ := h
  unfold stepMotorQ
  cases hm : d.motorOn
  · exact ⟨h0, h1, h2⟩
  · simp only [Bool.not_true, Bool.false_eq_true, if_false, DriveHead.in_range]
    generalize stepMotorQ_q _ = q
    split_ifs with hq
    · have hr := stepMotorQ_pos_range q d.quarterTrackPos h0 h1
      exact ⟨hr.1, hr.2, track_of_pos _ hr.1 hr.2⟩
    · exact ⟨h0, h1, track_of_pos _ h0 h1⟩

theorem run_stepper_in_range (l : List StepperAccess) (d : DriveHead) (h : d.in_range) :
    (run_stepper l d).in_range := by
  induction l generalizing d with
  | nil => exact h
  | cons a l ih =>
    refine ih _ ?_
    cases a with
    | phase address => exact stepMotorQ_in_range address d h
    | motor running => exact h

theorem stepMotorQ_data (address : Nat) (d : DriveHead) (x : List Nat) :
    stepMotorQ address { d with data := x } = { stepMotorQ address d with data := x } := by
  unfold stepMotorQ
  cases hm : d.motorOn <;> rfl

theorem run_stepper_data (l : List StepperAccess) (d : DriveHead) (x : List Nat) :
    run_stepper l { d with data := x } = { run_stepper l d with data := x } := by
  induction l generalizing d with
  | nil => rfl
  | cons a l ih =>
    cases a with
    | phase address =>
      show run_stepper l (stepMotorQ address { d with data := x }) = _
      rw [stepMotorQ_data, ih]
      rfl
    | motor running => exact ih { d with motorOn := running }

theorem run_stepper_init (l : List StepperAccess) (data : List Nat) :
    (run_stepper l (drive_init data)).track = (run_stepper l (drive_init [])).track ∧
    (run_stepper l (drive_init data)).nibble = (run_stepper l (drive_init [])).nibble ∧
    (run_stepper l (drive_init data)).data = data := by
  have h : run_stepper l (drive_init data)
      = { run_stepper l (drive_init []) with data := data } :=
    run_stepper_data l (drive_init []) data
  rw [h]
  exact ⟨rfl, rfl, rfl⟩

theorem softSwitches_C0EC_none (d : DriveHead)
    (h : d.data.length ≤ d.track * 6656 + d.nibble) : softSwitches_C0EC d = none := by
  unfold softSwitches_C0EC
  exact if_neg (Nat.not_lt.mpr h)

set_option maxRecDepth 1000000 in
theorem step_out_40 :
    (run_stepper (StepperAccess.motor true :: step_out 40) (drive_init [])).track = 40 ∧
    (run_stepper (StepperAccess.motor true :: step_out 40) (drive_init [])).nibble = 0 := by
  decide!

set_option maxRecDepth 1000000 in
theorem step_out_79 :
    (run_stepper (StepperAccess.motor true :: step_out 79) (drive_init [])).track = 79 := by
  decide!

/-- C40: from the start position, every sequence of stepper accesses (calls of
`stepMotorQ` with any address, motor switched on or off) leaves the track index of
the head at most 79, and 79 is reached by stepping outwards 79 tracks. Stepping
outwards 40 tracks with the motor on gives the track index 40, and with a nibble
buffer of `40 * 6656` bytes the index `track * 6656 + nibble` of the data latch is
then outside the buffer. -/
theorem stepper_track_range (data : List Nat) :
    (∀ l, (run_stepper l (drive_init data)).track ≤ 79) ∧
    (run_stepper (StepperAccess.motor true :: step_out 79) (drive_init data)).track = 79 ∧
    (run_stepper (StepperAccess.motor true :: step_out 40) (drive_init data)).track = 40 ∧
    (data.length = 40 * 6656 →
      softSwitches_C0EC
        (run_stepper (StepperAccess.motor true :: step_out 40) (drive_init data)) = none) := by
  refine ⟨?_, ?_, ?_, ?_⟩
  · intro l
    exact (run_stepper_in_range l (drive_init data)
      ⟨Int.le_refl 0, (by decide : (0 : Int) ≤ 316), Nat.zero_le 79⟩).2.2
  · exact (run_stepper_init _ data).1.trans step_out_79
  · exact (run_stepper_init _ data).1.trans step_out_40.1
  · intro hlen
    apply softSwitches_C0EC_none
    rw [(run_stepper_init _ data).1, (run_stepper_init _ data).2.1,
      (run_stepper_init _ data).2.2, step_out_40.1, step_out_40.2, hlen]

/-! ### The data latch -/

/-- C34: an access to the shift-data-latch switch (`0xC0EC`) whose index
`track * 6656 + nibble` lies in the nibble buffer moves the nibble offset to
`(nibble + 1) mod 6656`, which is below 6656, and leaves the track index as it is.
In read mode it returns the byte at `track * 6656 + nibble` (as an 8-bit value) and
leaves the buffer unchanged; in write mode it stores the latch at that index and
every other byte of the buffer is unchanged. -/
theorem shift_latch_access (d : DriveHead)
    (hidx : d.track * 6656 + d.nibble < d.data.length) :
    ∃ d' v, softSwitches_C0EC d = some (d', v) ∧
      d'.nibble = (d.nibble + 1) % 6656 ∧ d'.nibble < 6656 ∧ d'.track = d.track ∧
      (d.writeMode = false →
        v = d.data.getD (d.track * 6656 + d.nibble) 0 % 256 ∧ d'.data = d.data) ∧
      (d.writeMode = true →
        d'.data.getD (d.track * 6656 + d.nibble) 0 = d.dLatch % 256 ∧
        d'.data.length = d.data.length ∧
        ∀ j, j ≠ d.track * 6656 + d.nibble → d'.data.getD j 0 = d.data.getD j 0) := by
  unfold softSwitches_C0EC
  simp only [if_pos hidx]
  cases hw : d.writeMode
  · simp only [Bool.false_eq_true, if_false]
    refine ⟨_, _, rfl, ?_, ?_, rfl, fun _ => ⟨rfl, rfl⟩, fun h => ?_⟩
    · show (d.nibble + 1) % 6656 % 65536 = _
      omega
    · show (d.nibble + 1) % 6656 % 65536 < 6656
      omega
    · cases h
  · simp only [if_true]
    refine ⟨_, _, rfl, ?_, ?_, rfl, fun h => ?_, fun _ => ⟨?_, ?_, ?_⟩⟩
    · show (d.nibble + 1) % 6656 % 65536 = _
      omega
    · show (d.nibble + 1) % 6656 % 65536 < 6656
      omega
    · cases h
    · show (d.data.set _ _).getD _ 0 = _
      rw [List.getD_eq_getElem?_getD, List.getElem?_set_self hidx]
      rfl
    · exact List.length_set _ _ _
    · intro j hj
      show (d.data.set _ _).getD j 0 = _
      rw [List.getD_eq_getElem?_getD, List.getD_eq_getElem?_getD,
        List.getElem?_set_ne (Ne.symm hj)]

/-- C34 on `latch_example`: in read mode the access returns the `0xD5` stored at
index 5 and moves the offset from 5 to 6; in write mode it stores the latch `0x96`
there. -/
theorem shift_latch_access_witness :
    (∃ d' v, softSwitches_C0EC (latch_example false) = some (d', v) ∧
      d'.nibble = 6 ∧ v = 0xD5) ∧
    (∃ d' v, softSwitches_C0EC (latch_example true) = some (d', v) ∧
      d'.data.getD 5 0 = 0x96) := by
  obtain ⟨d', v, h1, h2, _, _, h5, _⟩ := shift_latch_access (latch_example false) (by decide)
  obtain ⟨e', w, k1, _, _, _, _, k6⟩ := shift_latch_access (latch_example true) (by decide)
  exact ⟨⟨d', v, h1, h2, (h5 rfl).1⟩, ⟨e', w, k1, (k6 rfl).1⟩⟩

end Reinette
